import Mathlib

/-! # Texture-set neural compression: MLP loader

A shallow embedding of the CPU side of the MLP loader
(`sdk/src/network/mlp.cpp`, `sdk/src/network/tsnc.cpp`, `sdk/src/tools/texture_utils.cpp`):
the positional binary reader `unpack_type`, the padding transform `mlp::align_dimensions`,
the reload `TSNC::reload_network` that runs both on every network of a model directory, the
GPU allocation and upload of the networks (`mlp::allocate_gpu_mlp`,
`mlp::upload_and_convert_matrices`, `TSNC::upload_network`), the two texture loaders, and the
reordering of the performance histogram in `sdk/src/render_pipeline/dino_renderer.cpp`.

Conventions of the embedding.

* `uint32_t` and `size_t` values are natural numbers; every arithmetic operation of the
  source is followed by an explicit reduction modulo `2^32` (`u32`) or `2^64` (`u64`),
  according to the C++ type in which the source evaluates it.
* A `float` is its object representation (four bytes). `std::vector<float>` is a list.
* `memcpy` between two float vectors is defined when both ranges lie inside their
  vectors. An out-of-range copy is undefined behaviour in the source; the embedding
  returns `none` for it. The same holds for an index outside a vector and for a read past
  the end of a byte stream.
* The graphics backend is a parameter (`Backend`), and so are the files of the model
  directory (`FileSystem`).
-/

/-! ## Definitions: the embedding of the source -/

/-! ### Machine values, `memcpy` and `mlp::align_dimensions` -/

/-- One `char` of a byte stream. -/
abbrev Byte := Fin 256

/-- The object representation of a C++ `float`: `sizeof(float) = 4` bytes, lowest address
first. -/
structure float where
  b0 : Byte
  b1 : Byte
  b2 : Byte
  b3 : Byte
deriving DecidableEq, Repr

/-- The value `0.0f`: all four bytes zero. It is what `std::vector<float> data(n)` holds in
every element after construction. -/
def float.zero : float := ⟨0, 0, 0, 0⟩

/-- Reduction of a natural number to the range of `uint32_t`. -/
def u32 (n : Nat) : Nat := n % 4294967296

/-- Reduction of a natural number to the range of a 64-bit `size_t`. -/
def u64 (n : Nat) : Nat := n % 18446744073709551616

/-- The constant `sizeof(float)`. -/
def sizeof_float : Nat := 4

/-- The call `memcpy((char*)&dst[dstOff], (char*)&src[srcOff], size)` on two float vectors,
`size` in bytes. Every call of the source passes a multiple of `sizeof(float)`, so the copy
moves `size / sizeof(float)` whole elements. The result is the new content of `dst`; it is
`none` when one of the two ranges leaves its vector. A copy of no element is defined
wherever it starts inside or at the end of the vectors (the source takes `&v[i]` there). -/
def memcpy (dst : List float) (dstOff : Nat) (src : List float) (srcOff : Nat) (size : Nat) :
    Option (List float) :=
  let n := size / sizeof_float
  if dstOff + n ≤ dst.length ∧ srcOff + n ≤ src.length then
    some (dst.take dstOff ++ (src.drop srcOff).take n ++ dst.drop (dstOff + n))
  else
    none

/-- The CPU-side network `CPUMLP` (declared in `network/mlp.h`): three scalar metadata fields
and, per layer, the two dimensions and one flat buffer (weights row-major, then bias). The
scalar fields are `uint32_t`. -/
structure CPUMLP where
  nbMlp : Nat
  finalChannelCount : Nat
  finalBlockWidth : Nat
  mlp0Width : Nat
  mlp0Height : Nat
  mlp0Buffer : List float
  mlp1Width : Nat
  mlp1Height : Nat
  mlp1Buffer : List float
  mlp2Width : Nat
  mlp2Height : Nat
  mlp2Buffer : List float
deriving DecidableEq, Repr

namespace mlp

/-- The row loop of the output-side alignment,
`for (y = 0; y < mlp2Height; ++y) memcpy(&data[targetWidth * y], &mlp2Buffer[mlp2Width * y], sizeof(float) * mlp2Width)`:
`copy_rows src w tw k data` is `data` after the iterations `y = 0, ..., k - 1`. -/
def copy_rows (src : List float) (mlp2Width targetWidth : Nat) : Nat → List float →
    Option (List float)
  | 0, data => some data
  | y + 1, data =>
    (copy_rows src mlp2Width targetWidth y data).bind fun d =>
      memcpy d (u32 (targetWidth * y)) src (u32 (mlp2Width * y)) (u64 (sizeof_float * mlp2Width))

/-- First block of `align_dimensions` (lines 57-74): align the layer-0 input dimension on 16. -/
def align_input (mlp : CPUMLP) : Option CPUMLP :=
  let v := mlp.mlp0Height % 16
  if v ≠ 0 then
    -- The actual size we want
    let newHeight := u32 (u32 (mlp.mlp0Height + 15) / 16 * 16)
    let data := List.replicate (u32 (u32 (mlp.mlp0Width * newHeight) + mlp.mlp0Width)) float.zero
    -- Copy the weights
    (memcpy data 0 mlp.mlp0Buffer 0 (u64 (u64 (sizeof_float * mlp.mlp0Width) * mlp.mlp0Height))).bind
      fun data =>
    -- Copy the bias
    (memcpy data (u32 (mlp.mlp0Width * newHeight)) mlp.mlp0Buffer
        (u32 (mlp.mlp0Width * mlp.mlp0Height)) (u64 (sizeof_float * mlp.mlp0Width))).bind
      fun data =>
    -- Assign
    some { mlp with mlp0Height := newHeight, mlp0Buffer := data }
  else
    some mlp

/-- Second block of `align_dimensions` (lines 76-93): align the layer-2 output dimension
on 16. -/
def align_output (mlp : CPUMLP) : Option CPUMLP :=
  let v := mlp.mlp2Width % 16
  if v ≠ 0 then
    -- The actual size we want
    let targetWidth := u32 (u32 (mlp.mlp2Width + 15) / 16 * 16)
    -- Create the new data
    let data := List.replicate (u32 (u32 (mlp.mlp2Height * targetWidth) + targetWidth)) float.zero
    (copy_rows mlp.mlp2Buffer mlp.mlp2Width targetWidth mlp.mlp2Height data).bind fun data =>
    (memcpy data (u32 (targetWidth * mlp.mlp2Height)) mlp.mlp2Buffer
        (u32 (mlp.mlp2Width * mlp.mlp2Height)) (u64 (sizeof_float * mlp.mlp2Width))).bind
      fun data =>
    -- Update the sizes
    some { mlp with mlp2Width := targetWidth, mlp2Buffer := data, finalChannelCount := targetWidth }
  else
    some mlp

/-- The function `mlp::align_dimensions(CPUMLP& mlp)`: the input-side block, then the
output-side block. The result is the network left in `mlp`. -/
def align_dimensions (mlp : CPUMLP) : Option CPUMLP :=
  (align_input mlp).bind align_output

end mlp

/-! ### The binary reader `unpack_type` and the on-disk layout -/

/-- Modelled from the spec: `unpack_bytes<uint32_t>(stream, value)` of `tools/stream.h`,
a header outside the verified sources. It reads one little-endian `u32` at the cursor and
advances the cursor by the four bytes consumed. The helper receives the cursor without a
length, so with fewer than four bytes left it reads past the end of the buffer, which is
undefined: `none`. The result is the value and the remaining stream. -/
def unpack_bytes (stream : List Byte) : Option (Nat × List Byte) :=
  match stream with
  | b0 :: b1 :: b2 :: b3 :: rest =>
    some (b0.val + 256 * b1.val + 65536 * b2.val + 16777216 * b3.val, rest)
  | _ => none

/-- The floats stored in a run of bytes, four bytes per element in address order. -/
def floats_of_bytes : List Byte → List float
  | b0 :: b1 :: b2 :: b3 :: rest => ⟨b0, b1, b2, b3⟩ :: floats_of_bytes rest
  | _ => []

/-- Modelled from the spec: `unpack_buffer(stream, size, dst)` of `tools/stream.h`, a
header outside the verified sources. It copies the next `size` bytes of the stream over the start
of the float vector `dst` and advances the cursor by `size`; when fewer than `size` bytes
are left it reads past the end of the buffer, which is undefined: `none`. `size` is a multiple
of `sizeof(float)` at every call. The result is the new content of `dst` and the remaining
stream. -/
def unpack_buffer (stream : List Byte) (size : Nat) (dst : List float) :
    Option (List float × List Byte) :=
  if size ≤ stream.length ∧ size / sizeof_float ≤ dst.length then
    some (floats_of_bytes (stream.take size) ++ dst.drop (size / sizeof_float), stream.drop size)
  else
    none

/-- The call `v.resize(n)` on a `std::vector<float>`: the first `n` elements are kept and
the vector is filled up with `0.0f` to length `n`. -/
def resize (v : List float) (n : Nat) : List float :=
  v.take n ++ List.replicate (n - v.length) float.zero

/-- The function `unpack_type(const char*& stream, CPUMLP& mlp)` (the diagnostic printing
left out). The result is the network left in `mlp` and the stream from the advanced cursor
on. It is `none` when the stream ends before the record does: the function has no length to
check and no error to report, so it reads past the end of the buffer, which is undefined. -/
def unpack_type (stream : List Byte) (mlp : CPUMLP) : Option (CPUMLP × List Byte) :=
  -- MLP data
  (unpack_bytes stream).bind fun (nbMlp, stream) =>
  (unpack_bytes stream).bind fun (finalChannelCount, stream) =>
  (unpack_bytes stream).bind fun (finalBlockWidth, stream) =>
  -- MLP layer 0
  (unpack_bytes stream).bind fun (mlp0Width, stream) =>
  (unpack_bytes stream).bind fun (mlp0Height, stream) =>
  let mlp0Size := u32 (u32 (mlp0Width * mlp0Height) + mlp0Width)
  (unpack_buffer stream (u64 (mlp0Size * sizeof_float)) (resize mlp.mlp0Buffer mlp0Size)).bind
    fun (mlp0Buffer, stream) =>
  -- MLP layer 1
  (unpack_bytes stream).bind fun (mlp1Width, stream) =>
  (unpack_bytes stream).bind fun (mlp1Height, stream) =>
  let mlp1Size := u32 (u32 (mlp1Width * mlp1Height) + mlp1Width)
  (unpack_buffer stream (u64 (mlp1Size * sizeof_float)) (resize mlp.mlp1Buffer mlp1Size)).bind
    fun (mlp1Buffer, stream) =>
  -- MLP layer 2
  (unpack_bytes stream).bind fun (mlp2Width, stream) =>
  (unpack_bytes stream).bind fun (mlp2Height, stream) =>
  let mlp2Size := u32 (u32 (mlp2Width * mlp2Height) + mlp2Width)
  (unpack_buffer stream (u64 (mlp2Size * sizeof_float)) (resize mlp.mlp2Buffer mlp2Size)).bind
    fun (mlp2Buffer, stream) =>
  some ({ nbMlp := nbMlp, finalChannelCount := finalChannelCount,
          finalBlockWidth := finalBlockWidth,
          mlp0Width := mlp0Width, mlp0Height := mlp0Height, mlp0Buffer := mlp0Buffer,
          mlp1Width := mlp1Width, mlp1Height := mlp1Height, mlp1Buffer := mlp1Buffer,
          mlp2Width := mlp2Width, mlp2Height := mlp2Height, mlp2Buffer := mlp2Buffer }, stream)

/-- How a call of `unpack_type` ends. The function is `void`, takes the cursor without the
length of the buffer behind it and returns no status (mlp.cpp:167), and its caller passes
`mlpBuffer.data()` without the size of the file (tsnc.cpp:67-68). So the source cannot tell
that a stream is too short: a call returns a network, or it reads past the end of the buffer,
which is undefined behaviour. `format_error` is the outcome that the specification names for
a stream that is too short; no path of the source produces it. -/
inductive Outcome where
  | returned (mlp : CPUMLP) (stream : List Byte)
  | format_error
  | undefined
deriving DecidableEq, Repr

/-- The outcome of the call `unpack_type(stream, mlp)`: the `none` of the embedding is a read
past the end of the buffer. -/
def unpack_type_outcome (stream : List Byte) (mlp : CPUMLP) : Outcome :=
  match unpack_type stream mlp with
  | some (mlp, stream) => Outcome.returned mlp stream
  | none => Outcome.undefined

/-- The four bytes of a `u32` in little-endian order. -/
def bytes_of_u32 (n : Nat) : List Byte :=
  [⟨n % 256, Nat.mod_lt _ (by decide)⟩, ⟨n / 256 % 256, Nat.mod_lt _ (by decide)⟩,
   ⟨n / 65536 % 256, Nat.mod_lt _ (by decide)⟩, ⟨n / 16777216 % 256, Nat.mod_lt _ (by decide)⟩]

/-- The bytes of a float vector: four bytes per element in address order. -/
def bytes_of_floats : List float → List Byte
  | [] => []
  | f :: fs => f.b0 :: f.b1 :: f.b2 :: f.b3 :: bytes_of_floats fs

/-- Modelled from the spec: the writer of the on-disk MLP file, which the repository does not
contain. Its layout is the one of the section External Interfaces: little-endian `u32`
networkCount, finalChannelCount, finalBlockWidth, then per layer `u32` width, `u32` height
and the float32 values of the layer buffer. -/
def pack_type (mlp : CPUMLP) : List Byte :=
  bytes_of_u32 mlp.nbMlp ++ bytes_of_u32 mlp.finalChannelCount ++
  bytes_of_u32 mlp.finalBlockWidth ++
  bytes_of_u32 mlp.mlp0Width ++ bytes_of_u32 mlp.mlp0Height ++ bytes_of_floats mlp.mlp0Buffer ++
  bytes_of_u32 mlp.mlp1Width ++ bytes_of_u32 mlp.mlp1Height ++ bytes_of_floats mlp.mlp1Buffer ++
  bytes_of_u32 mlp.mlp2Width ++ bytes_of_u32 mlp.mlp2Height ++ bytes_of_floats mlp.mlp2Buffer

/-! ### Well-formedness and the size a stream declares -/

/-- Every scalar field of the network is a `uint32_t` value. -/
def CPUMLP.InRange (m : CPUMLP) : Prop :=
  m.nbMlp < 4294967296 ∧ m.finalChannelCount < 4294967296 ∧ m.finalBlockWidth < 4294967296 ∧
  m.mlp0Width < 4294967296 ∧ m.mlp0Height < 4294967296 ∧
  m.mlp1Width < 4294967296 ∧ m.mlp1Height < 4294967296 ∧
  m.mlp2Width < 4294967296 ∧ m.mlp2Height < 4294967296

instance (m : CPUMLP) : Decidable m.InRange := by
  unfold CPUMLP.InRange
  infer_instance

/-- Modelled from the spec: the `u32` field at byte offset `off` of a byte buffer
(little-endian, as in the on-disk layout), `none` when the buffer ends before the field
does. -/
def read_u32 (s : List Byte) (off : Nat) : Option Nat :=
  (unpack_bytes (s.drop off)).map Prod.fst

/-- Modelled from the spec: the size in bytes of the record that a stream declares, after the
layout of the section External Interfaces. The three metadata fields take 12 bytes; each layer
takes 8 bytes for its `width` and `height` fields, found where the previous layer ends, and 4
bytes for each of its floats, whose count is the 32-bit value `width * height + width`. The
result is `none` when the stream ends before one of the six dimension fields. -/
def declared_size (s : List Byte) : Option Nat :=
  (read_u32 s 12).bind fun width0 =>
  (read_u32 s 16).bind fun height0 =>
  let end0 := 20 + 4 * u32 (u32 (width0 * height0) + width0)
  (read_u32 s end0).bind fun width1 =>
  (read_u32 s (end0 + 4)).bind fun height1 =>
  let end1 := end0 + 8 + 4 * u32 (u32 (width1 * height1) + width1)
  (read_u32 s end1).bind fun width2 =>
  (read_u32 s (end1 + 4)).bind fun height2 =>
  some (end1 + 8 + 4 * u32 (u32 (width2 * height2) + width2))

/-! ### The graphics backend and `TSNC::reload_network` -/

/-- Handle to a buffer of the graphics backend (`typedef uint64_t GraphicsBuffer`); 0 is the
null handle. -/
abbrev GraphicsBuffer := Nat

/-- Handle to a texture of the graphics backend (`typedef uint64_t Texture`). -/
abbrev Texture := Nat

/-- Handle to the graphics device (`typedef uint64_t GraphicsDevice`). -/
abbrev GraphicsDevice := Nat

/-- Handle to a command queue (`typedef uint64_t CommandQueue`). -/
abbrev CommandQueue := Nat

/-- Handle to a command buffer (`typedef uint64_t CommandBuffer`). -/
abbrev CommandBuffer := Nat

/-- Handle to a compute shader (`typedef uint64_t ComputeShader`). -/
abbrev ComputeShader := Nat

/-- The enumeration `GraphicsBufferType` of `graphics/types.h`. -/
inductive GraphicsBufferType where
  | Default | Upload | Readback | RTAS | Count
deriving DecidableEq, Repr

/-- The enumeration `TextureType` of `graphics/types.h`. -/
inductive TextureType where
  | Tex1D | Tex1DArray | Tex2D | Tex2DArray | Tex3D | TexCube | TexCubeArray | Count
deriving DecidableEq, Repr

/-- The enumeration `TextureFormat` of `graphics/types.h`. -/
inductive TextureFormat where
  | R8_SNorm | R8_UNorm | R8_SInt | R8_UInt | R8G8_SNorm | R8G8_UNorm | R8G8_SInt | R8G8_UInt
  | R8G8B8A8_SNorm | R8G8B8A8_UNorm | R8G8B8A8_UNorm_SRGB | R8G8B8A8_UInt | R8G8B8A8_SInt
  | R16_Float | R16_SInt | R16_UInt | R16G16_Float | R16G16_SInt | R16G16_UInt
  | R16G16B16A16_Float | R16G16B16A16_UInt | R16G16B16A16_SInt
  | R32_Float | R32_SInt | R32_UInt | R32G32_Float | R32G32_SInt | R32G32_UInt
  | R32G32B32_UInt | R32G32B32_Float | R32G32B32A32_Float | R32G32B32A32_UInt
  | R32G32B32A32_SInt
  | Depth32 | Depth32Stencil8 | Depth24Stencil8
  | R10G10B10A2_UNorm | R10G10B10A2_UInt | R11G11B10_Float | BC1_RGB | BC6_RGB
  | Count
deriving DecidableEq, Repr

/-- The fields of `TextureDescriptor` that `reload_network` sets; the descriptor is declared in
a header outside the verified sources. -/
structure TextureDescriptor where
  type : TextureType
  depth : Nat
  format : TextureFormat
  isUAV : Bool
  width : Nat
  height : Nat
  mipCount : Nat
deriving DecidableEq, Repr

/-- The vector type `uint3`: three `uint32_t` components. -/
structure uint3 where
  x : Nat
  y : Nat
  z : Nat
deriving DecidableEq, Repr

/-- The vector type `float2`: two floats. -/
structure float2 where
  x : float
  y : float
deriving DecidableEq, Repr

/-- The graphics backend (`graphics/backend.h`, outside the verified sources), taken as a
parameter: the calls that the loader issues, as functions on a backend state `σ`. -/
structure Backend (σ : Type) where
  /-- The call `create_graphics_buffer(device, size, stride, type)`. -/
  create_graphics_buffer : σ → GraphicsDevice → Nat → Nat → GraphicsBufferType → GraphicsBuffer × σ
  /-- The call `set_buffer_data(buffer, data, size)`. -/
  set_buffer_data : σ → GraphicsBuffer → List Byte → Nat → σ
  /-- The call `create_texture(device, descriptor)`. -/
  create_texture : σ → GraphicsDevice → TextureDescriptor → Texture × σ
  /-- The call `destroy_graphics_buffer(buffer)`. -/
  destroy_graphics_buffer : σ → GraphicsBuffer → σ
  /-- The call `command_buffer::reset(cmdB)`. -/
  reset : σ → CommandBuffer → σ
  /-- The call `command_buffer::copy_graphics_buffer(cmdB, source, destination)`. -/
  copy_graphics_buffer : σ → CommandBuffer → GraphicsBuffer → GraphicsBuffer → σ
  /-- The call `command_buffer::convert_mat_32_to_16(cmdB, source, sourceOffset, destination,
  destinationOffset, width, height, optimal)`. -/
  convert_mat_32_to_16 :
    σ → CommandBuffer → GraphicsBuffer → Nat → GraphicsBuffer → Nat → Nat → Nat → Bool → σ
  /-- The call `command_buffer::copy_buffer_into_texture_mips(cmdB, buffer, offset, size,
  texture, slice)`. -/
  copy_buffer_into_texture_mips :
    σ → CommandBuffer → GraphicsBuffer → Nat → Nat → Texture → Nat → σ
  /-- The call `command_buffer::close(cmdB)`. -/
  close : σ → CommandBuffer → σ
  /-- The call `command_queue::execute_command_buffer(queue, cmdB)`. -/
  execute_command_buffer : σ → CommandQueue → CommandBuffer → σ
  /-- The call `command_queue::flush(queue)`. -/
  flush : σ → CommandQueue → σ
  /-- The call `sync_convert_and_upload_buffer_to_gpu(device, queue, cmdB, shader, data, size,
  stride, destination)` of `tools/gpu_helpers.h`, the one-destination upload helper. -/
  sync_convert_and_upload_buffer_to_gpu :
    σ → GraphicsDevice → CommandQueue → CommandBuffer → ComputeShader → List Byte → Nat → Nat →
      GraphicsBuffer → σ

/-- The files that the loader can open: the content of each readable path. -/
abbrev FileSystem := String → Option (List Byte)

/-- The GPU-side network `GPUMLP` (declared in `network/mlp.h`): per layer a weight buffer, an
optimal-layout weight buffer and a bias buffer. -/
structure GPUMLP where
  weight0Buffer : GraphicsBuffer
  weight0OptimalBuffer : GraphicsBuffer
  bias0Buffer : GraphicsBuffer
  weight1Buffer : GraphicsBuffer
  weight1OptimalBuffer : GraphicsBuffer
  bias1Buffer : GraphicsBuffer
  weight2Buffer : GraphicsBuffer
  weight2OptimalBuffer : GraphicsBuffer
  bias2Buffer : GraphicsBuffer
deriving DecidableEq, Repr

/-- The constant `sizeof(float16_t)`. -/
def sizeof_float16_t : Nat := 2

/-- The constant `sizeof(float2)`. -/
def sizeof_float2 : Nat := 8

namespace mlp

/-- The function `mlp::allocate_gpu_mlp_array`: nine buffers sized from network 0 and the
number of networks. Products of two `uint32_t` dimensions are evaluated in `uint32_t`, the
products with `sizeof(float16_t)` and with the `uint64_t` count in 64 bits. Indexing an empty
array is undefined: `none`. -/
def allocate_gpu_mlp_array {σ : Type} (api : Backend σ) (world : σ) (device : GraphicsDevice)
    (cpuMLPArray : List CPUMLP) (gpuMLP : GPUMLP) : Option (GPUMLP × σ) :=
  cpuMLPArray[0]?.bind fun cpuMLP =>
  let numMLPs := u64 cpuMLPArray.length
  -- Layer 0
  let (weight0Buffer, world) := api.create_graphics_buffer world device
    (u64 (u64 (u32 (cpuMLP.mlp0Width * cpuMLP.mlp0Height) * sizeof_float16_t) * numMLPs))
    sizeof_float16_t GraphicsBufferType.Default
  let (weight0OptimalBuffer, world) := api.create_graphics_buffer world device
    (u64 (u64 (u32 (cpuMLP.mlp0Width * cpuMLP.mlp0Height) * sizeof_float16_t) * numMLPs))
    sizeof_float16_t GraphicsBufferType.Default
  let (bias0Buffer, world) := api.create_graphics_buffer world device
    (u64 (u64 (cpuMLP.mlp0Width * sizeof_float16_t) * numMLPs))
    sizeof_float16_t GraphicsBufferType.Default
  -- Layer 1
  let (weight1Buffer, world) := api.create_graphics_buffer world device
    (u64 (u64 (u32 (cpuMLP.mlp1Width * cpuMLP.mlp1Height) * sizeof_float16_t) * numMLPs))
    sizeof_float16_t GraphicsBufferType.Default
  let (weight1OptimalBuffer, world) := api.create_graphics_buffer world device
    (u64 (u64 (u32 (cpuMLP.mlp1Width * cpuMLP.mlp1Height) * sizeof_float16_t) * numMLPs))
    sizeof_float16_t GraphicsBufferType.Default
  let (bias1Buffer, world) := api.create_graphics_buffer world device
    (u64 (u64 (cpuMLP.mlp1Width * sizeof_float16_t) * numMLPs))
    sizeof_float16_t GraphicsBufferType.Default
  -- Layer 2
  let (weight2Buffer, world) := api.create_graphics_buffer world device
    (u64 (u64 (u32 (cpuMLP.mlp2Width * cpuMLP.mlp2Height) * sizeof_float16_t) * numMLPs))
    sizeof_float16_t GraphicsBufferType.Default
  let (weight2OptimalBuffer, world) := api.create_graphics_buffer world device
    (u64 (u64 (u32 (cpuMLP.mlp2Width * cpuMLP.mlp2Height) * sizeof_float16_t) * numMLPs))
    sizeof_float16_t GraphicsBufferType.Default
  let (bias2Buffer, world) := api.create_graphics_buffer world device
    (u64 (u64 (cpuMLP.mlp2Width * sizeof_float16_t) * numMLPs))
    sizeof_float16_t GraphicsBufferType.Default
  some ({ gpuMLP with
            weight0Buffer := weight0Buffer, weight0OptimalBuffer := weight0OptimalBuffer,
            bias0Buffer := bias0Buffer,
            weight1Buffer := weight1Buffer, weight1OptimalBuffer := weight1OptimalBuffer,
            bias1Buffer := bias1Buffer,
            weight2Buffer := weight2Buffer, weight2OptimalBuffer := weight2OptimalBuffer,
            bias2Buffer := bias2Buffer }, world)

end mlp

/-- The conversion `(int32_t)v` of a `uint32_t` value. -/
def to_int32 (v : Nat) : Int :=
  if v < 2147483648 then (v : Int) else (v : Int) - 4294967296

/-- The element `floatArray[i]` of a byte buffer read as an array of floats; `none` when the
buffer ends before the element does. -/
def read_float (s : List Byte) (i : Nat) : Option float :=
  match s.drop (sizeof_float * i) with
  | b0 :: b1 :: b2 :: b3 :: _ => some ⟨b0, b1, b2, b3⟩
  | _ => none

/-- The function `load_bc1_to_graphics_buffer(device, texturePath, dimensions, uvOffset)`. The
result is the returned buffer handle, the dimensions and the UV offset written through the two
reference parameters, and the backend state. It is `none` when the file cannot be opened, when
the file is shorter than the five header words that are read, or when the signed subtraction
`(int32_t)dimensions.z - 2` overflows. -/
def load_bc1_to_graphics_buffer {σ : Type} (api : Backend σ) (fs : FileSystem) (world : σ)
    (device : GraphicsDevice) (texturePath : String) :
    Option (GraphicsBuffer × uint3 × float2 × σ) :=
  -- Read from disk
  (fs texturePath).bind fun binaryFile =>
  -- Read the sizes
  (read_u32 binaryFile 0).bind fun int0 =>
  (read_u32 binaryFile 4).bind fun int1 =>
  (read_u32 binaryFile 8).bind fun int2 =>
  (read_float binaryFile 3).bind fun float3 =>
  (read_float binaryFile 4).bind fun float4 =>
  let sizesOffset := u32 (4 * 5)
  if to_int32 int2 - 2 < -2147483648 then none else
  let z := (max 1 (to_int32 int2 - 2)).toNat
  let bufferSize := u32 (u32 binaryFile.length + 4294967296 - sizesOffset)
  -- Create the buffer, upload to it and return it
  let (textureBuffer, world) :=
    api.create_graphics_buffer world device bufferSize 4 GraphicsBufferType.Upload
  let world := api.set_buffer_data world textureBuffer (binaryFile.drop sizesOffset) bufferSize
  some (textureBuffer, ⟨u32 (int0 * 4), u32 (int1 * 4), z⟩, ⟨float3, float4⟩, world)

/-- The function `load_bc6_to_graphics_buffer(device, texturePath, width, height, mipCount)`.
The result is the returned buffer handle, the width, the height and the mip count written
through the three reference parameters, and the backend state. It is `none` when the file
cannot be opened, when the file is shorter than the three header words that are read, or when
the signed subtraction `(int32_t)mipCount - 2` overflows. -/
def load_bc6_to_graphics_buffer {σ : Type} (api : Backend σ) (fs : FileSystem) (world : σ)
    (device : GraphicsDevice) (texturePath : String) :
    Option (GraphicsBuffer × Nat × Nat × Nat × σ) :=
  -- Read from disk
  (fs texturePath).bind fun binaryFile =>
  -- Read the sizes
  (read_u32 binaryFile 0).bind fun int0 =>
  (read_u32 binaryFile 4).bind fun int1 =>
  (read_u32 binaryFile 8).bind fun int2 =>
  let sizesOffset := u32 (4 * 3)
  if to_int32 int2 - 2 < -2147483648 then none else
  let mipCount := (max 1 (to_int32 int2 - 2)).toNat
  let bufferSize := u32 (u32 binaryFile.length + 4294967296 - sizesOffset)
  -- Create the buffer, upload to it and return it
  let (textureBuffer, world) :=
    api.create_graphics_buffer world device bufferSize 4 GraphicsBufferType.Upload
  let world := api.set_buffer_data world textureBuffer (binaryFile.drop sizesOffset) bufferSize
  some (textureBuffer, u32 (int0 * 4), u32 (int1 * 4), mipCount, world)

/-- One entry of `m_TexData`: the texture dimensions and the upload buffer of the texture. -/
structure TexData where
  texSize : uint3
  texBuffer : GraphicsBuffer
deriving DecidableEq, Repr

/-- The GPU resources `m_Nwk` of the loader: four latent-space textures and the MLP buffers. -/
structure NetworkData where
  tex0 : Texture
  tex1 : Texture
  tex2 : Texture
  tex3 : Texture
  mlp : GPUMLP
deriving DecidableEq, Repr

/-- The state of a `TSNC` object (class declared in `network/tsnc.h`): the members set by
`initialize` and those that `reload_network` and `upload_network` read or write. -/
structure TSNC where
  m_Device : GraphicsDevice
  m_CVS : Bool
  m_NumSets : Nat
  m_TexData : List TexData
  m_UVOffset : List float2
  m_MLPArray : List CPUMLP
  m_Nwk : NetworkData
  m_ShaderDefines : List String
  m_UVOffsetBuffer : GraphicsBuffer
  m_TextureSize : uint3
  m_FP32toFP16CS : ComputeShader
deriving DecidableEq, Repr

/-- The call `v.resize(n)` on a `std::vector`: the first `n` elements are kept and the vector
is filled up with value-initialised elements to length `n`. -/
def vector_resize {α : Type} (dflt : α) (v : List α) (n : Nat) : List α :=
  v.take n ++ List.replicate (n - v.length) dflt

/-- Modelled from the spec: `load_file_to_array(path, buffer)`, a helper outside the verified
sources. It reads the whole file into the buffer; a file that is missing or
unreadable is fatal to the reload. -/
def load_file_to_array (fs : FileSystem) (path : String) : Option (List Byte) :=
  fs path

namespace TSNC

/-- One texture of a set in `reload_network`:
`m_TexData[i].texBuffer = load_bc1_to_graphics_buffer(m_Device, path, m_TexData[i].texSize, m_UVOffset[i])`.
An index outside one of the two vectors is undefined: `none`. -/
def load_texture {σ : Type} (api : Backend σ) (fs : FileSystem) (path : String) (i : Nat)
    (st : TSNC × σ) : Option (TSNC × σ) :=
  if i < st.1.m_TexData.length ∧ i < st.1.m_UVOffset.length then
    (load_bc1_to_graphics_buffer api fs st.2 st.1.m_Device path).bind
      fun (texBuffer, texSize, uvOffset, world) =>
    some ({ st.1 with
              m_TexData := st.1.m_TexData.set i ⟨texSize, texBuffer⟩
              m_UVOffset := st.1.m_UVOffset.set i uvOffset }, world)
  else
    none

/-- The body of the loop over the sets in `reload_network`, for one `setIdx`. -/
def reload_set {σ : Type} (api : Backend σ) (fs : FileSystem) (modelDir : String)
    (setIdx : Nat) (st : TSNC × σ) : Option (TSNC × σ) :=
  -- Read the file to a buffer
  (load_file_to_array fs (modelDir ++ "\\mlp_" ++ toString setIdx ++ ".bin")).bind
    fun mlpBuffer =>
  -- Unpack the MLP and adjust
  st.1.m_MLPArray[setIdx]?.bind fun slot =>
  (unpack_type mlpBuffer slot).bind fun (unpacked, _) =>
  (mlp.align_dimensions unpacked).bind fun aligned =>
  let st : TSNC × σ := ({ st.1 with m_MLPArray := st.1.m_MLPArray.set setIdx aligned }, st.2)
  -- Load the textures
  (load_texture api fs (modelDir ++ "\\tex0_" ++ toString setIdx ++ ".bc1")
    (u32 (u32 (4 * setIdx) + 0)) st).bind fun st =>
  (load_texture api fs (modelDir ++ "\\tex1_" ++ toString setIdx ++ ".bc1")
    (u32 (u32 (4 * setIdx) + 1)) st).bind fun st =>
  (load_texture api fs (modelDir ++ "\\tex2_" ++ toString setIdx ++ ".bc1")
    (u32 (u32 (4 * setIdx) + 2)) st).bind fun st =>
  load_texture api fs (modelDir ++ "\\tex3_" ++ toString setIdx ++ ".bc1")
    (u32 (u32 (4 * setIdx) + 3)) st

/-- The loop `for (setIdx = 0; setIdx < numSets; ++setIdx)` of `reload_network`:
`reload_sets api fs modelDir k st` is the state after the iterations `0, ..., k - 1`. -/
def reload_sets {σ : Type} (api : Backend σ) (fs : FileSystem) (modelDir : String) :
    Nat → TSNC × σ → Option (TSNC × σ)
  | 0, st => some st
  | setIdx + 1, st => (reload_sets api fs modelDir setIdx st).bind (reload_set api fs modelDir setIdx)

/-- The method `TSNC::reload_network(modelDir, numSets)` (diagnostic printing left out). The
result is the new state of the object and of the backend; it is `none` when a file is missing
or truncated or an index leaves its vector. -/
def reload_network {σ : Type} (api : Backend σ) (fs : FileSystem) (self : TSNC) (world : σ)
    (modelDir : String) (numSets : Nat) : Option (TSNC × σ) :=
  -- Load the bc1 textures
  let self := { self with
    m_NumSets := numSets
    m_TexData := vector_resize ⟨⟨0, 0, 0⟩, 0⟩ self.m_TexData (u32 (4 * numSets))
    m_UVOffset := vector_resize ⟨float.zero, float.zero⟩ self.m_UVOffset (u32 (4 * numSets))
    m_MLPArray := vector_resize ⟨0, 0, 0, 0, 0, [], 0, 0, [], 0, 0, []⟩ self.m_MLPArray numSets }
  -- Copy all the sets
  (reload_sets api fs modelDir numSets (self, world)).bind fun (self, world) =>
  -- Create our Latent space runtime textures
  self.m_TexData[0]?.bind fun texData0 =>
  self.m_TexData[1]?.bind fun texData1 =>
  self.m_TexData[2]?.bind fun texData2 =>
  self.m_TexData[3]?.bind fun texData3 =>
  let texDesc : TextureDescriptor :=
    { type := TextureType.Tex2DArray, depth := numSets, format := TextureFormat.BC1_RGB,
      isUAV := false, width := 0, height := 0, mipCount := 0 }
  let (tex0, world) := api.create_texture world self.m_Device
    { texDesc with width := texData0.texSize.x, height := texData0.texSize.y,
                   mipCount := texData0.texSize.z }
  let (tex1, world) := api.create_texture world self.m_Device
    { texDesc with width := texData1.texSize.x, height := texData1.texSize.y,
                   mipCount := texData1.texSize.z }
  let (tex2, world) := api.create_texture world self.m_Device
    { texDesc with width := texData2.texSize.x, height := texData2.texSize.y,
                   mipCount := texData2.texSize.z }
  let (tex3, world) := api.create_texture world self.m_Device
    { texDesc with width := texData3.texSize.x, height := texData3.texSize.y,
                   mipCount := texData3.texSize.z }
  -- Allocate the MLP n the GPU
  (mlp.allocate_gpu_mlp_array api world self.m_Device self.m_MLPArray self.m_Nwk.mlp).bind
    fun (gpuMLP, world) =>
  -- Set the defines
  let m_ShaderDefines := self.m_ShaderDefines ++
    ["MIP0_RES " ++ toString texData0.texSize.x, "NUM_MIPS 4"]
  self.m_MLPArray[0]?.bind fun cpuMLP =>
  let m_ShaderDefines := m_ShaderDefines ++
    ["MLP0_IN_DIM " ++ toString cpuMLP.mlp0Height, "MLP0_OUT_DIM " ++ toString cpuMLP.mlp0Width,
     "MLP1_OUT_DIM " ++ toString cpuMLP.mlp1Width, "MLP2_OUT_DIM " ++ toString cpuMLP.mlp2Width]
  -- Offset buffer
  let (m_UVOffsetBuffer, world) := api.create_graphics_buffer world self.m_Device
    (u64 (self.m_UVOffset.length * sizeof_float2)) sizeof_float2 GraphicsBufferType.Default
  some ({ self with
            m_Nwk := { tex0 := tex0, tex1 := tex1, tex2 := tex2, tex3 := tex3, mlp := gpuMLP }
            m_ShaderDefines := m_ShaderDefines
            m_UVOffsetBuffer := m_UVOffsetBuffer
            m_TextureSize := ⟨texData0.texSize.x, texData0.texSize.y, cpuMLP.finalChannelCount⟩ },
        world)

end TSNC

/-! ### The log of backend calls -/

/-- One call of the graphics backend, with its arguments; a creating call also carries the
handle that the backend returned. -/
inductive BackendCall where
  | create_graphics_buffer (device : GraphicsDevice) (size stride : Nat)
      (type : GraphicsBufferType) (result : GraphicsBuffer)
  | set_buffer_data (buffer : GraphicsBuffer) (data : List Byte) (size : Nat)
  | create_texture (device : GraphicsDevice) (descriptor : TextureDescriptor) (result : Texture)
  | destroy_graphics_buffer (buffer : GraphicsBuffer)
  | reset (cmdB : CommandBuffer)
  | copy_graphics_buffer (cmdB : CommandBuffer) (source destination : GraphicsBuffer)
  | convert_mat_32_to_16 (cmdB : CommandBuffer) (source : GraphicsBuffer) (sourceOffset : Nat)
      (destination : GraphicsBuffer) (destinationOffset width height : Nat) (optimal : Bool)
  | copy_buffer_into_texture_mips (cmdB : CommandBuffer) (buffer : GraphicsBuffer)
      (offset size : Nat) (texture : Texture) (slice : Nat)
  | close (cmdB : CommandBuffer)
  | execute_command_buffer (queue : CommandQueue) (cmdB : CommandBuffer)
  | flush (queue : CommandQueue)
  | sync_convert_and_upload_buffer_to_gpu (device : GraphicsDevice) (queue : CommandQueue)
      (cmdB : CommandBuffer) (shader : ComputeShader) (data : List Byte) (size stride : Nat)
      (destination : GraphicsBuffer)
deriving DecidableEq, Repr

/-- A backend together with the log of the calls made to it: every call is passed on to `api`
and appended, in order, to the log. -/
def Backend.traced {σ : Type} (api : Backend σ) : Backend (σ × List BackendCall) where
  create_graphics_buffer := fun w device size stride type =>
    ((api.create_graphics_buffer w.1 device size stride type).1,
     (api.create_graphics_buffer w.1 device size stride type).2,
     w.2 ++ [BackendCall.create_graphics_buffer device size stride type
               (api.create_graphics_buffer w.1 device size stride type).1])
  set_buffer_data := fun w buffer data size =>
    (api.set_buffer_data w.1 buffer data size,
     w.2 ++ [BackendCall.set_buffer_data buffer data size])
  create_texture := fun w device descriptor =>
    ((api.create_texture w.1 device descriptor).1,
     (api.create_texture w.1 device descriptor).2,
     w.2 ++ [BackendCall.create_texture device descriptor
               (api.create_texture w.1 device descriptor).1])
  destroy_graphics_buffer := fun w buffer =>
    (api.destroy_graphics_buffer w.1 buffer, w.2 ++ [BackendCall.destroy_graphics_buffer buffer])
  reset := fun w cmdB => (api.reset w.1 cmdB, w.2 ++ [BackendCall.reset cmdB])
  copy_graphics_buffer := fun w cmdB source destination =>
    (api.copy_graphics_buffer w.1 cmdB source destination,
     w.2 ++ [BackendCall.copy_graphics_buffer cmdB source destination])
  convert_mat_32_to_16 := fun w cmdB source sourceOffset destination destinationOffset width
      height optimal =>
    (api.convert_mat_32_to_16 w.1 cmdB source sourceOffset destination destinationOffset width
       height optimal,
     w.2 ++ [BackendCall.convert_mat_32_to_16 cmdB source sourceOffset destination
               destinationOffset width height optimal])
  copy_buffer_into_texture_mips := fun w cmdB buffer offset size texture slice =>
    (api.copy_buffer_into_texture_mips w.1 cmdB buffer offset size texture slice,
     w.2 ++ [BackendCall.copy_buffer_into_texture_mips cmdB buffer offset size texture slice])
  close := fun w cmdB => (api.close w.1 cmdB, w.2 ++ [BackendCall.close cmdB])
  execute_command_buffer := fun w queue cmdB =>
    (api.execute_command_buffer w.1 queue cmdB,
     w.2 ++ [BackendCall.execute_command_buffer queue cmdB])
  flush := fun w queue => (api.flush w.1 queue, w.2 ++ [BackendCall.flush queue])
  sync_convert_and_upload_buffer_to_gpu := fun w device queue cmdB shader data size stride
      destination =>
    (api.sync_convert_and_upload_buffer_to_gpu w.1 device queue cmdB shader data size stride
       destination,
     w.2 ++ [BackendCall.sync_convert_and_upload_buffer_to_gpu device queue cmdB shader data
               size stride destination])

namespace mlp

/-- The function `mlp::allocate_gpu_mlp`: nine buffers sized from the dimensions of the
network. The product of two `uint32_t` dimensions is evaluated in `uint32_t`, the product with
`sizeof(float16_t)` in 64 bits. -/
def allocate_gpu_mlp {σ : Type} (api : Backend σ) (world : σ) (device : GraphicsDevice)
    (cpuMLP : CPUMLP) (gpuMLP : GPUMLP) : GPUMLP × σ :=
  -- Layer 0
  let (weight0Buffer, world) := api.create_graphics_buffer world device
    (u64 (u32 (cpuMLP.mlp0Width * cpuMLP.mlp0Height) * sizeof_float16_t))
    sizeof_float16_t GraphicsBufferType.Default
  let (weight0OptimalBuffer, world) := api.create_graphics_buffer world device
    (u64 (u32 (cpuMLP.mlp0Width * cpuMLP.mlp0Height) * sizeof_float16_t))
    sizeof_float16_t GraphicsBufferType.Default
  let (bias0Buffer, world) := api.create_graphics_buffer world device
    (u64 (cpuMLP.mlp0Width * sizeof_float16_t)) sizeof_float16_t GraphicsBufferType.Default
  -- Layer 1
  let (weight1Buffer, world) := api.create_graphics_buffer world device
    (u64 (u32 (cpuMLP.mlp1Width * cpuMLP.mlp1Height) * sizeof_float16_t))
    sizeof_float16_t GraphicsBufferType.Default
  let (weight1OptimalBuffer, world) := api.create_graphics_buffer world device
    (u64 (u32 (cpuMLP.mlp1Width * cpuMLP.mlp1Height) * sizeof_float16_t))
    sizeof_float16_t GraphicsBufferType.Default
  let (bias1Buffer, world) := api.create_graphics_buffer world device
    (u64 (cpuMLP.mlp1Width * sizeof_float16_t)) sizeof_float16_t GraphicsBufferType.Default
  -- Layer 2
  let (weight2Buffer, world) := api.create_graphics_buffer world device
    (u64 (u32 (cpuMLP.mlp2Width * cpuMLP.mlp2Height) * sizeof_float16_t))
    sizeof_float16_t GraphicsBufferType.Default
  let (weight2OptimalBuffer, world) := api.create_graphics_buffer world device
    (u64 (u32 (cpuMLP.mlp2Width * cpuMLP.mlp2Height) * sizeof_float16_t))
    sizeof_float16_t GraphicsBufferType.Default
  let (bias2Buffer, world) := api.create_graphics_buffer world device
    (u64 (cpuMLP.mlp2Width * sizeof_float16_t)) sizeof_float16_t GraphicsBufferType.Default
  ({ gpuMLP with
       weight0Buffer := weight0Buffer, weight0OptimalBuffer := weight0OptimalBuffer,
       bias0Buffer := bias0Buffer,
       weight1Buffer := weight1Buffer, weight1OptimalBuffer := weight1OptimalBuffer,
       bias1Buffer := bias1Buffer,
       weight2Buffer := weight2Buffer, weight2OptimalBuffer := weight2OptimalBuffer,
       bias2Buffer := bias2Buffer }, world)

end mlp

/-- The byte sizes, strides and kinds of the buffers that a log requests, in order. -/
def requested_buffers : List BackendCall → List (Nat × Nat × GraphicsBufferType)
  | [] => []
  | BackendCall.create_graphics_buffer _ size stride type _ :: log =>
    (size, stride, type) :: requested_buffers log
  | _ :: log => requested_buffers log

/-! ### `upload_and_convert_matrices`, `destroy_gpu_mlp` and `TSNC::upload_network` -/

namespace mlp

/-- The function `mlp::upload_and_convert_matrices`. `buffer` is the memory that the pointer
of the same name addresses. `bufferSize` is a `uint32_t`: the product of the two `uint32_t`
dimensions is evaluated in `uint32_t`, the product with `sizeof(float)` in 64 bits, and the
result is stored in 32 bits. -/
def upload_and_convert_matrices {σ : Type} (api : Backend σ) (world : σ)
    (device : GraphicsDevice) (queue : CommandQueue) (cmdB : CommandBuffer) (buffer : List Byte)
    (matrixWidth matrixHeight : Nat) (mainBuffer optimalBuffer : GraphicsBuffer)
    (offsetBuffer : Nat) : σ :=
  -- Input buffer size
  let bufferSize := u32 (u64 (u32 (matrixWidth * matrixHeight) * sizeof_float))
  -- Create the graphics buffer to upload, process and readback the bitfield buffer
  let (uploadBuffer, world) := api.create_graphics_buffer world device bufferSize sizeof_float
    GraphicsBufferType.Upload
  let (tmpBuffer, world) := api.create_graphics_buffer world device bufferSize sizeof_float
    GraphicsBufferType.Default
  -- Upload the initial bitfield
  let world := api.set_buffer_data world uploadBuffer buffer bufferSize
  -- Reset the command buffer
  let world := api.reset world cmdB
  let world := api.copy_graphics_buffer world cmdB uploadBuffer tmpBuffer
  let world :=
    if optimalBuffer ≠ 0 then
      api.convert_mat_32_to_16 world cmdB tmpBuffer 0 optimalBuffer offsetBuffer matrixWidth
        matrixHeight true
    else world
  let world :=
    if mainBuffer ≠ 0 then
      api.convert_mat_32_to_16 world cmdB tmpBuffer 0 mainBuffer offsetBuffer matrixWidth
        matrixHeight false
    else world
  -- Close the command buffer
  let world := api.close world cmdB
  -- Execute the command buffer in the command queue
  let world := api.execute_command_buffer world queue cmdB
  -- Flush the queue
  let world := api.flush world queue
  -- Make sure to free the graphics buffer
  let world := api.destroy_graphics_buffer world uploadBuffer
  api.destroy_graphics_buffer world tmpBuffer

/-- The function `mlp::destroy_gpu_mlp`: the handles stay in the structure. -/
def destroy_gpu_mlp {σ : Type} (api : Backend σ) (world : σ) (gpuMLP : GPUMLP) : σ :=
  let world := api.destroy_graphics_buffer world gpuMLP.weight0Buffer
  let world := api.destroy_graphics_buffer world gpuMLP.bias0Buffer
  let world := api.destroy_graphics_buffer world gpuMLP.weight1Buffer
  let world := api.destroy_graphics_buffer world gpuMLP.bias1Buffer
  let world := api.destroy_graphics_buffer world gpuMLP.weight2Buffer
  let world := api.destroy_graphics_buffer world gpuMLP.bias2Buffer
  let world :=
    if gpuMLP.weight0OptimalBuffer ≠ 0 then
      api.destroy_graphics_buffer world gpuMLP.weight0OptimalBuffer
    else world
  let world :=
    if gpuMLP.weight1OptimalBuffer ≠ 0 then
      api.destroy_graphics_buffer world gpuMLP.weight1OptimalBuffer
    else world
  if gpuMLP.weight2OptimalBuffer ≠ 0 then
    api.destroy_graphics_buffer world gpuMLP.weight2OptimalBuffer
  else world

end mlp

/-- The bytes of a `float2` vector: `x` then `y` of each element, in address order. -/
def bytes_of_float2s : List float2 → List Byte
  | [] => []
  | v :: vs => bytes_of_floats [v.x, v.y] ++ bytes_of_float2s vs

/-- The call `dst.insert(dst.end(), src.begin() + first, src.begin() + last)` on float vectors:
the elements `first, ..., last - 1` of `src` are appended to `dst`. An iterator past the end
of `src`, or a range that runs backwards, is undefined: `none`. -/
def vector_insert_range (dst src : List float) (first last : Nat) : Option (List float) :=
  if first ≤ last ∧ last ≤ src.length then some (dst ++ (src.take last).drop first) else none

/-- The six local vectors of `upload_network` in which the layers of all the networks are
concatenated. -/
structure ConcatBuffers where
  mlpWeight0 : List float
  mlpWeight1 : List float
  mlpWeight2 : List float
  mlpBias0 : List float
  mlpBias1 : List float
  mlpBias2 : List float
deriving DecidableEq, Repr

namespace TSNC

/-- The four `copy_buffer_into_texture_mips` calls of `upload_network` for one `setIdx`. An
index outside `m_TexData` is undefined: `none`. -/
def copy_set_mips {σ : Type} (api : Backend σ) (self : TSNC) (cmdB : CommandBuffer)
    (setIdx : Nat) (world : σ) : Option σ :=
  self.m_TexData[u32 (u32 (4 * setIdx) + 0)]?.bind fun t0 =>
  let world := api.copy_buffer_into_texture_mips world cmdB t0.texBuffer 0
    (u32 (u32 ((t0.texSize.x / 4) * (t0.texSize.y / 4)) * 8)) self.m_Nwk.tex0 setIdx
  self.m_TexData[u32 (u32 (4 * setIdx) + 1)]?.bind fun t1 =>
  let world := api.copy_buffer_into_texture_mips world cmdB t1.texBuffer 0
    (u32 (u32 ((t1.texSize.x / 4) * (t1.texSize.y / 4)) * 8)) self.m_Nwk.tex1 setIdx
  self.m_TexData[u32 (u32 (4 * setIdx) + 2)]?.bind fun t2 =>
  let world := api.copy_buffer_into_texture_mips world cmdB t2.texBuffer 0
    (u32 (u32 ((t2.texSize.x / 4) * (t2.texSize.y / 4)) * 8)) self.m_Nwk.tex2 setIdx
  self.m_TexData[u32 (u32 (4 * setIdx) + 3)]?.bind fun t3 =>
  let world := api.copy_buffer_into_texture_mips world cmdB t3.texBuffer 0
    (u32 (u32 ((t3.texSize.x / 4) * (t3.texSize.y / 4)) * 8)) self.m_Nwk.tex3 setIdx
  some world

/-- The first loop of `upload_network`, `Copy all the mips`: the state after the iterations
`0, ..., k - 1`. -/
def copy_all_mips {σ : Type} (api : Backend σ) (self : TSNC) (cmdB : CommandBuffer) :
    Nat → σ → Option σ
  | 0, world => some world
  | setIdx + 1, world =>
    (copy_all_mips api self cmdB setIdx world).bind (copy_set_mips api self cmdB setIdx)

/-- The assignment `m_TexData[i].texBuffer = 0`. -/
def clear_texture_buffer (m_TexData : List TexData) (i : Nat) : Option (List TexData) :=
  m_TexData[i]?.bind fun t => some (m_TexData.set i { t with texBuffer := 0 })

/-- The body of the second loop of `upload_network`, `Release the temporary buffers`, for one
`setIdx`: four buffers are destroyed, then their four handles are set to 0. An index outside
`m_TexData` is undefined: `none`. -/
def release_set {σ : Type} (api : Backend σ) (setIdx : Nat) (st : List TexData × σ) :
    Option (List TexData × σ) :=
  st.1[u32 (u32 (4 * setIdx) + 0)]?.bind fun t0 =>
  let world := api.destroy_graphics_buffer st.2 t0.texBuffer
  st.1[u32 (u32 (4 * setIdx) + 1)]?.bind fun t1 =>
  let world := api.destroy_graphics_buffer world t1.texBuffer
  st.1[u32 (u32 (4 * setIdx) + 2)]?.bind fun t2 =>
  let world := api.destroy_graphics_buffer world t2.texBuffer
  st.1[u32 (u32 (4 * setIdx) + 3)]?.bind fun t3 =>
  let world := api.destroy_graphics_buffer world t3.texBuffer
  (clear_texture_buffer st.1 (u32 (u32 (4 * setIdx) + 0))).bind fun m_TexData =>
  (clear_texture_buffer m_TexData (u32 (u32 (4 * setIdx) + 1))).bind fun m_TexData =>
  (clear_texture_buffer m_TexData (u32 (u32 (4 * setIdx) + 2))).bind fun m_TexData =>
  (clear_texture_buffer m_TexData (u32 (u32 (4 * setIdx) + 3))).bind fun m_TexData =>
  some (m_TexData, world)

/-- The second loop of `upload_network`: the state after the iterations `0, ..., k - 1`. -/
def release_sets {σ : Type} (api : Backend σ) : Nat → List TexData × σ → Option (List TexData × σ)
  | 0, st => some st
  | setIdx + 1, st => (release_sets api setIdx st).bind (release_set api setIdx)

/-- The byte offset `setIdx * width * height * sizeof(float16_t)` that the tiled path of
`upload_network` passes for a layer: the product of the three `uint32_t` values is evaluated
in `uint32_t`, from the left, and the product with `sizeof(float16_t)` in 64 bits. -/
def weight_offset (setIdx width height : Nat) : Nat :=
  u64 (u32 (u32 (setIdx * width) * height) * sizeof_float16_t)

/-- The body of the third loop of `upload_network`, for one `setIdx`: in tiled mode (`m_CVS`)
the three weight matrices of the network are uploaded and converted, otherwise they are
appended to the concatenated weight vectors; the three bias blocks are always appended to
the concatenated bias vectors. An index outside `m_MLPArray` is undefined: `none`. -/
def concat_mlp {σ : Type} (api : Backend σ) (self : TSNC) (cmdQ : CommandQueue)
    (cmdB : CommandBuffer) (setIdx : Nat) (st : ConcatBuffers × σ) :
    Option (ConcatBuffers × σ) :=
  self.m_MLPArray[setIdx]?.bind fun cpuMLP =>
  (if self.m_CVS then
    let world := mlp.upload_and_convert_matrices api st.2 self.m_Device cmdQ cmdB
      (bytes_of_floats cpuMLP.mlp0Buffer) cpuMLP.mlp0Width cpuMLP.mlp0Height
      self.m_Nwk.mlp.weight0Buffer self.m_Nwk.mlp.weight0OptimalBuffer
      (weight_offset setIdx cpuMLP.mlp0Width cpuMLP.mlp0Height)
    let world := mlp.upload_and_convert_matrices api world self.m_Device cmdQ cmdB
      (bytes_of_floats cpuMLP.mlp1Buffer) cpuMLP.mlp1Width cpuMLP.mlp1Height
      self.m_Nwk.mlp.weight1Buffer self.m_Nwk.mlp.weight1OptimalBuffer
      (weight_offset setIdx cpuMLP.mlp1Width cpuMLP.mlp1Height)
    let world := mlp.upload_and_convert_matrices api world self.m_Device cmdQ cmdB
      (bytes_of_floats cpuMLP.mlp2Buffer) cpuMLP.mlp2Width cpuMLP.mlp2Height
      self.m_Nwk.mlp.weight2Buffer self.m_Nwk.mlp.weight2OptimalBuffer
      (weight_offset setIdx cpuMLP.mlp2Width cpuMLP.mlp2Height)
    some (st.1, world)
  else
    -- Concatenate the bias buffers
    (vector_insert_range st.1.mlpWeight0 cpuMLP.mlp0Buffer 0
      (u32 (cpuMLP.mlp0Width * cpuMLP.mlp0Height))).bind fun mlpWeight0 =>
    (vector_insert_range st.1.mlpWeight1 cpuMLP.mlp1Buffer 0
      (u32 (cpuMLP.mlp1Width * cpuMLP.mlp1Height))).bind fun mlpWeight1 =>
    (vector_insert_range st.1.mlpWeight2 cpuMLP.mlp2Buffer 0
      (u32 (cpuMLP.mlp2Width * cpuMLP.mlp2Height))).bind fun mlpWeight2 =>
    some ({ st.1 with mlpWeight0 := mlpWeight0, mlpWeight1 := mlpWeight1,
                      mlpWeight2 := mlpWeight2 }, st.2)).bind fun st =>
  -- Concatenate the bias buffers
  (vector_insert_range st.1.mlpBias0 cpuMLP.mlp0Buffer
    (u32 (cpuMLP.mlp0Width * cpuMLP.mlp0Height)) cpuMLP.mlp0Buffer.length).bind fun mlpBias0 =>
  (vector_insert_range st.1.mlpBias1 cpuMLP.mlp1Buffer
    (u32 (cpuMLP.mlp1Width * cpuMLP.mlp1Height)) cpuMLP.mlp1Buffer.length).bind fun mlpBias1 =>
  (vector_insert_range st.1.mlpBias2 cpuMLP.mlp2Buffer
    (u32 (cpuMLP.mlp2Width * cpuMLP.mlp2Height)) cpuMLP.mlp2Buffer.length).bind fun mlpBias2 =>
  some ({ st.1 with mlpBias0 := mlpBias0, mlpBias1 := mlpBias1, mlpBias2 := mlpBias2 }, st.2)

/-- The third loop of `upload_network`, `For each buffer, let's concat all the mlps`: the
state after the iterations `0, ..., k - 1`. -/
def concat_mlps {σ : Type} (api : Backend σ) (self : TSNC) (cmdQ : CommandQueue)
    (cmdB : CommandBuffer) : Nat → ConcatBuffers × σ → Option (ConcatBuffers × σ)
  | 0, st => some st
  | setIdx + 1, st =>
    (concat_mlps api self cmdQ cmdB setIdx st).bind (concat_mlp api self cmdQ cmdB setIdx)

/-- The uploads that end `upload_network`: the three concatenated weight vectors when tiled
mode is off, then the three concatenated bias vectors. -/
def upload_concatenated {σ : Type} (api : Backend σ) (self : TSNC) (cmdQ : CommandQueue)
    (cmdB : CommandBuffer) (bufs : ConcatBuffers) (world : σ) : σ :=
  -- Weight buffers
  let world :=
    if ¬ self.m_CVS then
      let world := api.sync_convert_and_upload_buffer_to_gpu world self.m_Device cmdQ cmdB
        self.m_FP32toFP16CS (bytes_of_floats bufs.mlpWeight0)
        (u64 (bufs.mlpWeight0.length * sizeof_float)) sizeof_float self.m_Nwk.mlp.weight0Buffer
      let world := api.sync_convert_and_upload_buffer_to_gpu world self.m_Device cmdQ cmdB
        self.m_FP32toFP16CS (bytes_of_floats bufs.mlpWeight1)
        (u64 (bufs.mlpWeight1.length * sizeof_float)) sizeof_float self.m_Nwk.mlp.weight1Buffer
      api.sync_convert_and_upload_buffer_to_gpu world self.m_Device cmdQ cmdB
        self.m_FP32toFP16CS (bytes_of_floats bufs.mlpWeight2)
        (u64 (bufs.mlpWeight2.length * sizeof_float)) sizeof_float self.m_Nwk.mlp.weight2Buffer
    else world
  -- Bias buffers
  let world := api.sync_convert_and_upload_buffer_to_gpu world self.m_Device cmdQ cmdB
    self.m_FP32toFP16CS (bytes_of_floats bufs.mlpBias0)
    (u64 (bufs.mlpBias0.length * sizeof_float)) sizeof_float self.m_Nwk.mlp.bias0Buffer
  let world := api.sync_convert_and_upload_buffer_to_gpu world self.m_Device cmdQ cmdB
    self.m_FP32toFP16CS (bytes_of_floats bufs.mlpBias1)
    (u64 (bufs.mlpBias1.length * sizeof_float)) sizeof_float self.m_Nwk.mlp.bias1Buffer
  api.sync_convert_and_upload_buffer_to_gpu world self.m_Device cmdQ cmdB
    self.m_FP32toFP16CS (bytes_of_floats bufs.mlpBias2)
    (u64 (bufs.mlpBias2.length * sizeof_float)) sizeof_float self.m_Nwk.mlp.bias2Buffer

/-- The method `TSNC::upload_network(cmdQ, cmdB)`. The result is the new state of the object
(the texture upload buffers are released and their handles cleared), the six concatenated
CPU vectors as they are when the method returns, and the state of the backend; it is `none`
when an index or an iterator leaves its vector. -/
def upload_network {σ : Type} (api : Backend σ) (self : TSNC) (world : σ) (cmdQ : CommandQueue)
    (cmdB : CommandBuffer) : Option (TSNC × ConcatBuffers × σ) :=
  let (offsetBufferUp, world) := api.create_graphics_buffer world self.m_Device
    (u64 (self.m_UVOffset.length * sizeof_float2)) sizeof_float2 GraphicsBufferType.Upload
  let world := api.set_buffer_data world offsetBufferUp (bytes_of_float2s self.m_UVOffset)
    (u64 (self.m_UVOffset.length * sizeof_float2))
  -- Upload all the data
  let world := api.reset world cmdB
  -- Copy the offsets
  let world := api.copy_graphics_buffer world cmdB offsetBufferUp self.m_UVOffsetBuffer
  -- Copy all the mips
  (copy_all_mips api self cmdB self.m_NumSets world).bind fun world =>
  let world := api.close world cmdB
  let world := api.execute_command_buffer world cmdQ cmdB
  let world := api.flush world cmdQ
  -- Release the temporary buffers
  let world := api.destroy_graphics_buffer world offsetBufferUp
  (release_sets api self.m_NumSets (self.m_TexData, world)).bind fun (m_TexData, world) =>
  let self := { self with m_TexData := m_TexData }
  -- For each buffer, let's concat all the mlps
  (concat_mlps api self cmdQ cmdB self.m_NumSets (⟨[], [], [], [], [], []⟩, world)).bind
    fun (bufs, world) =>
  some (self, bufs, upload_concatenated api self cmdQ cmdB bufs world)

end TSNC

/-- The buffer conversions recorded in a log: destination, destination byte offset, matrix
width, matrix height and layout flag of each `convert_mat_32_to_16` call, in order. -/
def conversion_targets : List BackendCall → List (GraphicsBuffer × Nat × Nat × Nat × Bool)
  | [] => []
  | BackendCall.convert_mat_32_to_16 _ _ _ destination destinationOffset width height optimal
      :: log =>
    (destination, destinationOffset, width, height, optimal) :: conversion_targets log
  | _ :: log => conversion_targets log

/-- The one-destination uploads recorded in a log: data, size, stride and destination of each
`sync_convert_and_upload_buffer_to_gpu` call, in order. -/
def uploads : List BackendCall → List (List Byte × Nat × Nat × GraphicsBuffer)
  | [] => []
  | BackendCall.sync_convert_and_upload_buffer_to_gpu _ _ _ _ data size stride destination
      :: log =>
    (data, size, stride, destination) :: uploads log
  | _ :: log => uploads log

/-- The `convert_mat_32_to_16` calls recorded in a log, in order. -/
def conversions (log : List BackendCall) : List BackendCall :=
  log.filter fun call =>
    match call with
    | BackendCall.convert_mat_32_to_16 _ _ _ _ _ _ _ _ => true
    | _ => false

/-- The conversions that the tiled path of `upload_network` requests for the network `cpuMLP`
at index `setIdx`: for each layer in turn, one into the optimal buffer and one into the main
buffer, each only when the handle is not null, at the byte offset `weight_offset` of the
layer. -/
def tile_targets (gpuMLP : GPUMLP) (setIdx : Nat) (cpuMLP : CPUMLP) :
    List (GraphicsBuffer × Nat × Nat × Nat × Bool) :=
  (if gpuMLP.weight0OptimalBuffer ≠ 0 then
     [(gpuMLP.weight0OptimalBuffer,
       TSNC.weight_offset setIdx cpuMLP.mlp0Width cpuMLP.mlp0Height,
       cpuMLP.mlp0Width, cpuMLP.mlp0Height, true)]
   else []) ++
  (if gpuMLP.weight0Buffer ≠ 0 then
     [(gpuMLP.weight0Buffer,
       TSNC.weight_offset setIdx cpuMLP.mlp0Width cpuMLP.mlp0Height,
       cpuMLP.mlp0Width, cpuMLP.mlp0Height, false)]
   else []) ++
  ((if gpuMLP.weight1OptimalBuffer ≠ 0 then
     [(gpuMLP.weight1OptimalBuffer,
       TSNC.weight_offset setIdx cpuMLP.mlp1Width cpuMLP.mlp1Height,
       cpuMLP.mlp1Width, cpuMLP.mlp1Height, true)]
   else []) ++
  (if gpuMLP.weight1Buffer ≠ 0 then
     [(gpuMLP.weight1Buffer,
       TSNC.weight_offset setIdx cpuMLP.mlp1Width cpuMLP.mlp1Height,
       cpuMLP.mlp1Width, cpuMLP.mlp1Height, false)]
   else [])) ++
  ((if gpuMLP.weight2OptimalBuffer ≠ 0 then
     [(gpuMLP.weight2OptimalBuffer,
       TSNC.weight_offset setIdx cpuMLP.mlp2Width cpuMLP.mlp2Height,
       cpuMLP.mlp2Width, cpuMLP.mlp2Height, true)]
   else []) ++
  (if gpuMLP.weight2Buffer ≠ 0 then
     [(gpuMLP.weight2Buffer,
       TSNC.weight_offset setIdx cpuMLP.mlp2Width cpuMLP.mlp2Height,
       cpuMLP.mlp2Width, cpuMLP.mlp2Height, false)]
   else []))

/-! ### The data that a reload reads from the files -/

/-- The part of entry `j` of the texture arrays that `load_bc1_to_graphics_buffer` reads from
the file: the dimensions `m_TexData[j].texSize` and the UV offset `m_UVOffset[j]` (the buffer
handle `m_TexData[j].texBuffer` comes from the backend). -/
def TSNC.texture_entry (self : TSNC) (j : Nat) : Option uint3 × Option float2 :=
  (self.m_TexData[j]?.map TexData.texSize, self.m_UVOffset[j]?)

/-! ### The reading of a layer buffer -/

/-- Modelled from the spec: the sum `in[0] * W[0 * width + x] + ... + in[n - 1] * W[(n - 1) *
width + x]` of the specification's reading of a layer buffer, in exact arithmetic: the floats
are interpreted in a semiring `R` by `val`. An index outside the buffer or the input is
undefined: `none`. -/
def weighted_sum {R : Type} [Semiring R] (val : float → R) (buffer : List float) (width : Nat)
    (input : List R) (x : Nat) : Nat → Option R
  | 0 => some 0
  | y + 1 =>
    (weighted_sum val buffer width input x y).bind fun acc =>
    input[y]?.bind fun a =>
    buffer[y * width + x]?.bind fun w =>
    some (acc + a * val w)

/-- Modelled from the spec: output `x` of a layer read from its buffer,
`out[x] = bias[x] + sum over y < height of in[y] * W[y * width + x]`, where the weights are
the first `width * height` elements of the buffer and the bias is the block that follows
them. An index outside the buffer or the input is undefined: `none`. -/
def layer_output {R : Type} [Semiring R] (val : float → R) (buffer : List float)
    (width height : Nat) (input : List R) (x : Nat) : Option R :=
  buffer[width * height + x]?.bind fun bias =>
  (weighted_sum val buffer width input x height).bind fun sum =>
  some (val bias + sum)

/-! ### The performance histogram of `DinoRenderer` -/

/-- The macro `NUM_PROFILING_FRAMES` of `dino_renderer.cpp`. -/
def NUM_PROFILING_FRAMES : Int := 50

/-- The conversion of an integer value to `int32_t`: reduction modulo `2^32` into
`[-2^31, 2^31)`. -/
def wrap_int32 (v : Int) : Int := (v + 2147483648) % 4294967296 - 2147483648

namespace DinoRenderer

/-- The loop body of `render_ui` up to the store: the declaration
`int32_t candIdx = idx - m_CurrentDuration + NUM_PROFILING_FRAMES - 1` and the two
conditional corrections. The member `m_CurrentDuration` is declared in a header outside the
verified sources, so its signedness is a parameter. When it is unsigned, the expression is
evaluated in `uint32_t` and the result converted to `int32_t`; when it is an `int`, the
expression is evaluated in `int`, where an overflow is undefined: `none`. -/
def candIdx (durationUnsigned : Bool) (idx m_CurrentDuration : Int) : Option Int :=
  (if durationUnsigned then
    some (wrap_int32 ((idx - m_CurrentDuration + NUM_PROFILING_FRAMES - 1) % 4294967296))
   else if -2147483648 ≤ idx - m_CurrentDuration ∧
       idx - m_CurrentDuration + NUM_PROFILING_FRAMES - 1 ≤ 2147483647 then
    some (idx - m_CurrentDuration + NUM_PROFILING_FRAMES - 1)
   else none).bind fun candIdx =>
  let candIdx := if candIdx < 0 then candIdx + NUM_PROFILING_FRAMES else candIdx
  let candIdx := if candIdx > NUM_PROFILING_FRAMES - 1 then candIdx - NUM_PROFILING_FRAMES
    else candIdx
  some candIdx

/-- One iteration of the reordering loop of `render_ui`:
`m_DrawArray[candIdx] = m_DurationArray[idx]`. An index outside one of the two vectors is
undefined: `none`. -/
def reorder_step (durationUnsigned : Bool) (m_CurrentDuration : Int)
    (m_DurationArray : List float) (idx : Nat) (m_DrawArray : List float) :
    Option (List float) :=
  (candIdx durationUnsigned idx m_CurrentDuration).bind fun candIdx =>
  m_DurationArray[idx]?.bind fun duration =>
  if 0 ≤ candIdx ∧ candIdx.toNat < m_DrawArray.length then
    some (m_DrawArray.set candIdx.toNat duration)
  else none

/-- The reordering loop of `render_ui`: `m_DrawArray` after the iterations
`idx = 0, ..., k - 1`. The whole loop is `reorder ... NUM_PROFILING_FRAMES.toNat`. -/
def reorder (durationUnsigned : Bool) (m_CurrentDuration : Int) (m_DurationArray : List float) :
    Nat → List float → Option (List float)
  | 0, m_DrawArray => some m_DrawArray
  | idx + 1, m_DrawArray =>
    (reorder durationUnsigned m_CurrentDuration m_DurationArray idx m_DrawArray).bind
      (reorder_step durationUnsigned m_CurrentDuration m_DurationArray idx)

/-- The statements `m_CurrentDuration++; m_CurrentDuration = m_CurrentDuration %
NUM_PROFILING_FRAMES;` of `render_loop`: in `uint32_t` when the member is unsigned, in `int`
(where an overflow of the increment is undefined and `%` truncates towards zero) when it is
an `int`. -/
def next_duration (durationUnsigned : Bool) (m_CurrentDuration : Int) : Option Int :=
  if durationUnsigned then
    some ((m_CurrentDuration + 1) % 4294967296 % NUM_PROFILING_FRAMES)
  else if m_CurrentDuration + 1 ≤ 2147483647 then
    some (Int.tmod (m_CurrentDuration + 1) NUM_PROFILING_FRAMES)
  else none

end DinoRenderer

/-! ### Test vectors -/

/-- A float whose four bytes are all `k`, used to build test vectors. -/
def float.ofByte (k : Byte) : float := ⟨k, k, k, k⟩

/-- A small network with unaligned `mlp0Height = 2` and `mlp2Width = 2`. -/
def tinyNet : CPUMLP where
  nbMlp := 1
  finalChannelCount := 3
  finalBlockWidth := 4
  mlp0Width := 1
  mlp0Height := 2
  mlp0Buffer := [float.ofByte 1, float.ofByte 2, float.ofByte 3]
  mlp1Width := 1
  mlp1Height := 1
  mlp1Buffer := [float.ofByte 4, float.ofByte 5]
  mlp2Width := 2
  mlp2Height := 1
  mlp2Buffer := [float.ofByte 6, float.ofByte 7, float.ofByte 8, float.ofByte 9]

/-- A default-constructed network: all fields zero, all buffers empty. -/
def emptyNet : CPUMLP := ⟨0, 0, 0, 0, 0, [], 0, 0, [], 0, 0, []⟩

/-- A run of `n` pairwise different floats (for `n ≤ 256`), numbered from `start`. -/
def ramp (start n : Nat) : List float :=
  (List.range n).map fun i => ⟨⟨(start + i) % 256, Nat.mod_lt _ (by decide)⟩, 1, 2, 3⟩

/-- The network of the end-to-end scenario: layers 4x10, 4x4 and 3x4, 79 floats in all. -/
def scenarioNet : CPUMLP where
  nbMlp := 1
  finalChannelCount := 3
  finalBlockWidth := 4
  mlp0Width := 4
  mlp0Height := 10
  mlp0Buffer := ramp 1 44
  mlp1Width := 4
  mlp1Height := 4
  mlp1Buffer := ramp 50 20
  mlp2Width := 3
  mlp2Height := 4
  mlp2Buffer := ramp 100 15

/-- The scenario network after alignment. -/
def scenarioNetAligned : CPUMLP := (mlp.align_dimensions scenarioNet).getD emptyNet

/-- A network with the output side of the alignment example: layer 2 is 20x3. -/
def wideNet : CPUMLP where
  nbMlp := 1
  finalChannelCount := 20
  finalBlockWidth := 4
  mlp0Width := 2
  mlp0Height := 16
  mlp0Buffer := ramp 1 34
  mlp1Width := 3
  mlp1Height := 2
  mlp1Buffer := ramp 50 9
  mlp2Width := 20
  mlp2Height := 3
  mlp2Buffer := ramp 100 80

/-- The network `wideNet` after alignment. -/
def wideNetAligned : CPUMLP := (mlp.align_dimensions wideNet).getD emptyNet

/-- A network whose two aligned dimensions are multiples of 16 already: `mlp0Height = 32`,
`mlp2Width = 64`. -/
def alignedNet : CPUMLP where
  nbMlp := 1
  finalChannelCount := 64
  finalBlockWidth := 4
  mlp0Width := 1
  mlp0Height := 32
  mlp0Buffer := ramp 1 33
  mlp1Width := 1
  mlp1Height := 1
  mlp1Buffer := ramp 50 2
  mlp2Width := 64
  mlp2Height := 1
  mlp2Buffer := ramp 100 128

/-- A network with a large first layer: `mlp0Width = 2^28`, `mlp0Height = 1`. Every dimension
and every buffer length fits in 32 bits, and each layer's width is the next layer's height. -/
def heavyNet : CPUMLP where
  nbMlp := 1
  finalChannelCount := 16
  finalBlockWidth := 4
  mlp0Width := 268435456
  mlp0Height := 1
  mlp0Buffer := List.replicate 268435456 (float.ofByte 1) ++ List.replicate 268435456 (float.ofByte 2)
  mlp1Width := 1
  mlp1Height := 268435456
  mlp1Buffer := List.replicate 268435457 float.zero
  mlp2Width := 16
  mlp2Height := 1
  mlp2Buffer := List.replicate 32 float.zero

/-- What `align_dimensions` leaves of `heavyNet`: the offset `mlp0Width * newHeight = 2^32`
wraps to 0, so the new layer-0 buffer has `2^28` elements and holds the bias only. -/
def heavyNetAligned : CPUMLP :=
  { heavyNet with mlp0Height := 16, mlp0Buffer := List.replicate 268435456 (float.ofByte 2) }

/-- A network with a tall last layer: `mlp2Width = 1`, `mlp2Height = 2^28 - 1`. Every dimension
and every buffer length fits in 32 bits, and each layer's width is the next layer's height. -/
def tallNet : CPUMLP where
  nbMlp := 1
  finalChannelCount := 1
  finalBlockWidth := 4
  mlp0Width := 1
  mlp0Height := 16
  mlp0Buffer := List.replicate 17 float.zero
  mlp1Width := 268435455
  mlp1Height := 1
  mlp1Buffer := List.replicate 536870910 float.zero
  mlp2Width := 1
  mlp2Height := 268435455
  mlp2Buffer := List.replicate 268435456 (float.ofByte 1)

/-- The network that `unpack_type` reads from a header declaring a 65536 x 65535 first layer:
the float count `65536 * 65535 + 65536 = 2^32` wraps to 0, so the layer-0 buffer is empty. -/
def wrapNet : CPUMLP where
  nbMlp := 1
  finalChannelCount := 1
  finalBlockWidth := 4
  mlp0Width := 65536
  mlp0Height := 65535
  mlp0Buffer := []
  mlp1Width := 1
  mlp1Height := 65536
  mlp1Buffer := List.replicate 65537 float.zero
  mlp2Width := 1
  mlp2Height := 1
  mlp2Buffer := [float.zero, float.zero]

/-- A stream of `262192 + 2^34` bytes: the bytes of `wrapNet` (its header declares
`2^32` floats for the first layer, of which the code reads none), then `2^34` zero bytes. -/
def wrapStream : List Byte := pack_type wrapNet ++ List.replicate 17179869184 0

/-- A network whose last layer is 16 wide already and whose stored channel count is 3. -/
def threeChannelNet : CPUMLP where
  nbMlp := 1
  finalChannelCount := 3
  finalBlockWidth := 4
  mlp0Width := 1
  mlp0Height := 16
  mlp0Buffer := ramp 1 17
  mlp1Width := 1
  mlp1Height := 1
  mlp1Buffer := ramp 50 2
  mlp2Width := 16
  mlp2Height := 1
  mlp2Buffer := ramp 100 32

/-- A backend for test runs: the state counts the resources created so far, and the handle of
a new resource is its number. -/
def countingBackend : Backend Nat where
  create_graphics_buffer := fun n _ _ _ _ => (n + 1, n + 1)
  set_buffer_data := fun n _ _ _ => n
  create_texture := fun n _ _ => (n + 1, n + 1)
  destroy_graphics_buffer := fun n _ => n
  reset := fun n _ => n
  copy_graphics_buffer := fun n _ _ _ => n
  convert_mat_32_to_16 := fun n _ _ _ _ _ _ _ _ => n
  copy_buffer_into_texture_mips := fun n _ _ _ _ _ _ => n
  close := fun n _ => n
  execute_command_buffer := fun n _ _ => n
  flush := fun n _ => n
  sync_convert_and_upload_buffer_to_gpu := fun n _ _ _ _ _ _ _ _ => n

/-- A texture file for test runs: 4 x 4 blocks, 3 mips, zero UV offset, 8 bytes of data. -/
def testTexture : List Byte :=
  bytes_of_u32 4 ++ bytes_of_u32 4 ++ bytes_of_u32 3 ++ bytes_of_u32 0 ++ bytes_of_u32 0 ++
    [1, 2, 3, 4, 5, 6, 7, 8]

/-- A model directory for test runs: `mlp_0.bin` holds `threeChannelNet`, every other path a
test texture. -/
def testFiles : FileSystem := fun path =>
  if path = "model\\mlp_0.bin" then some (pack_type threeChannelNet) else some testTexture

/-- A `TSNC` object before its first reload. -/
def freshTSNC : TSNC where
  m_Device := 1
  m_CVS := false
  m_NumSets := 0
  m_TexData := []
  m_UVOffset := []
  m_MLPArray := []
  m_Nwk := ⟨0, 0, 0, 0, ⟨0, 0, 0, 0, 0, 0, 0, 0, 0⟩⟩
  m_ShaderDefines := []
  m_UVOffsetBuffer := 0
  m_TextureSize := ⟨0, 0, 0⟩
  m_FP32toFP16CS := 0

/-- A GPU network before allocation: nine null handles. -/
def nullGPUMLP : GPUMLP := ⟨0, 0, 0, 0, 0, 0, 0, 0, 0⟩

/-- The network that `unpack_type` reads from a header declaring a 65536 x 65536 first layer
followed by 65536 floats: the product `65536 * 65536 = 2^32` wraps to 0, so the float count is
that of the bias alone. The height is a multiple of 16, as is the last width, so
`align_dimensions` leaves the network as it is. -/
def squareNet : CPUMLP where
  nbMlp := 1
  finalChannelCount := 16
  finalBlockWidth := 4
  mlp0Width := 65536
  mlp0Height := 65536
  mlp0Buffer := List.replicate 65536 (float.ofByte 1)
  mlp1Width := 1
  mlp1Height := 65536
  mlp1Buffer := List.replicate 65537 float.zero
  mlp2Width := 16
  mlp2Height := 1
  mlp2Buffer := List.replicate 32 float.zero

/-- A loader state ready for `upload_network`: the networks `nets`, four 16 x 16 textures per
network, and nine distinct non-null GPU buffers. -/
def uploadTSNC (cvs : Bool) (nets : List CPUMLP) : TSNC where
  m_Device := 1
  m_CVS := cvs
  m_NumSets := nets.length
  m_TexData := List.replicate (4 * nets.length) ⟨⟨16, 16, 3⟩, 5⟩
  m_UVOffset := List.replicate (4 * nets.length) ⟨float.zero, float.zero⟩
  m_MLPArray := nets
  m_Nwk := ⟨1, 2, 3, 4, ⟨11, 12, 13, 14, 15, 16, 17, 18, 19⟩⟩
  m_ShaderDefines := []
  m_UVOffsetBuffer := 6
  m_TextureSize := ⟨16, 16, 3⟩
  m_FP32toFP16CS := 7

/-- A network with the dimensions of the scenario network and other values. -/
def scenarioNet2 : CPUMLP :=
  { scenarioNet with mlp0Buffer := ramp 101 44, mlp1Buffer := ramp 150 20,
                     mlp2Buffer := ramp 200 15 }

/-! ## Theorems -/

/-! ## Machine arithmetic -/

theorem u32_of_lt {n : Nat} (h : n < 4294967296) : u32 n = n := Nat.mod_eq_of_lt h

theorem u64_of_lt {n : Nat} (h : n < 18446744073709551616) : u64 n = n := Nat.mod_eq_of_lt h

theorem u32_lt (n : Nat) : u32 n < 4294967296 := Nat.mod_lt _ (by decide)

/-- The rounding expression `((n + 15) / 16) * 16` evaluated in `uint32_t` is a multiple of 16,
whether or not `n + 15` wraps. -/
theorem u32_round_mod (n : Nat) : u32 (u32 (n + 15) / 16 * 16) % 16 = 0 := by
  have h1 := u32_lt (n + 15)
  have h2 : u32 (n + 15) / 16 * 16 < 4294967296 := by omega
  rw [u32_of_lt h2]
  omega

/-- Without wrap-around the rounding expression is the mathematical round-up. -/
theorem u32_round_eq {n : Nat} (h : n + 15 < 4294967296) :
    u32 (u32 (n + 15) / 16 * 16) = (n + 15) / 16 * 16 := by
  rw [u32_of_lt h, u32_of_lt (by omega)]

/-- The byte count `sizeof(float) * w * h`, evaluated in `size_t`, covers `w * h` floats when
the product fits in 32 bits. -/
theorem float_count_mul {w h : Nat} (hfit : w * h < 4294967296) :
    u64 (u64 (sizeof_float * w) * h) / sizeof_float = w * h := by
  unfold sizeof_float
  rcases Nat.eq_zero_or_pos h with h0 | hpos
  · subst h0
    simp [u64]
  · have hw : w ≤ w * h := Nat.le_mul_of_pos_right w hpos
    have e1 : u64 (4 * w) = 4 * w := u64_of_lt (by omega)
    have e2 : 4 * w * h = 4 * (w * h) := Nat.mul_assoc 4 w h
    rw [e1, e2, u64_of_lt (by omega)]
    omega

/-- The byte count `sizeof(float) * w`, evaluated in `size_t`, covers `w` floats. -/
theorem float_count {w : Nat} (hfit : w < 4294967296) :
    u64 (sizeof_float * w) / sizeof_float = w := by
  unfold sizeof_float
  rw [u64_of_lt (by omega)]
  omega

/-! ## `memcpy` -/

theorem memcpy_eq_some {dst src : List float} {o so size : Nat}
    (h1 : o + size / sizeof_float ≤ dst.length) (h2 : so + size / sizeof_float ≤ src.length) :
    memcpy dst o src so size =
      some (dst.take o ++ (src.drop so).take (size / sizeof_float) ++
        dst.drop (o + size / sizeof_float)) := by
  simp [memcpy, h1, h2]

theorem memcpy_bounds {dst src d : List float} {o so size : Nat}
    (h : memcpy dst o src so size = some d) :
    o + size / sizeof_float ≤ dst.length ∧ so + size / sizeof_float ≤ src.length ∧
      d = dst.take o ++ (src.drop so).take (size / sizeof_float) ++
        dst.drop (o + size / sizeof_float) := by
  unfold memcpy at h
  by_cases hc : o + size / sizeof_float ≤ dst.length ∧ so + size / sizeof_float ≤ src.length
  · simp only [hc, and_self, if_true, Option.some.injEq] at h
    exact ⟨hc.1, hc.2, h.symm⟩
  · simp [hc] at h

theorem memcpy_eq_none {dst src : List float} {o so size : Nat}
    (h : dst.length < o + size / sizeof_float) : memcpy dst o src so size = none := by
  unfold memcpy
  rw [if_neg]
  intro hc
  exact absurd hc.1 (Nat.not_le.mpr h)

/-- A copy leaves the length of the destination vector as it was. -/
theorem memcpy_length {dst src d : List float} {o so size : Nat}
    (h : memcpy dst o src so size = some d) : d.length = dst.length := by
  obtain ⟨h1, h2, rfl⟩ := memcpy_bounds h
  generalize size / sizeof_float = n at h1 h2
  simp only [List.length_append, List.length_take, List.length_drop]
  omega

/-- Element-wise description of a copy: inside the destination range the element comes from the
source, elsewhere it is the old element. -/
theorem memcpy_getElem? {dst src d : List float} {o so size : Nat}
    (h : memcpy dst o src so size = some d) (i : Nat) :
    d[i]? = if o ≤ i ∧ i < o + size / sizeof_float then src[so + (i - o)]? else dst[i]? := by
  obtain ⟨h1, h2, rfl⟩ := memcpy_bounds h
  generalize size / sizeof_float = n at h1 h2
  simp only [List.getElem?_append, List.length_append, List.length_take, List.length_drop,
    List.getElem?_take, List.getElem?_drop]
  have e1 : min o dst.length = o := by omega
  have e2 : min n (src.length - so) = n := by omega
  rw [e1, e2]
  by_cases hi1 : i < o
  · have hn : ¬ (o ≤ i ∧ i < o + n) := by omega
    rw [if_pos (by omega), if_pos hi1, if_pos hi1, if_neg hn]
  · by_cases hi2 : i < o + n
    · have hc : o ≤ i ∧ i < o + n := ⟨by omega, hi2⟩
      rw [if_pos (by omega), if_neg hi1, if_pos (by omega), if_pos hc]
    · have hn : ¬ (o ≤ i ∧ i < o + n) := by omega
      rw [if_neg (by omega), if_neg hn]
      congr 1
      omega

/-! ## The binary reader `unpack_type` -/

theorem unpack_bytes_bytes_of_u32 {n : Nat} (h : n < 4294967296) (rest : List Byte) :
    unpack_bytes (bytes_of_u32 n ++ rest) = some (n, rest) := by
  have e : n % 256 + 256 * (n / 256 % 256) + 65536 * (n / 65536 % 256)
      + 16777216 * (n / 16777216 % 256) = n := by omega
  show some (n % 256 + 256 * (n / 256 % 256) + 65536 * (n / 65536 % 256)
      + 16777216 * (n / 16777216 % 256), rest) = some (n, rest)
  rw [e]

theorem floats_of_bytes_bytes_of_floats (fs : List float) :
    floats_of_bytes (bytes_of_floats fs) = fs := by
  induction fs with
  | nil => rfl
  | cons f fs ih => simp only [bytes_of_floats, floats_of_bytes, ih]

theorem length_bytes_of_floats (fs : List float) :
    (bytes_of_floats fs).length = 4 * fs.length := by
  induction fs with
  | nil => rfl
  | cons f fs ih =>
    simp only [bytes_of_floats, List.length_cons, ih]
    omega

theorem length_bytes_of_u32 (n : Nat) : (bytes_of_u32 n).length = 4 := rfl

theorem length_resize (v : List float) (n : Nat) : (resize v n).length = n := by
  unfold resize
  rw [List.length_append, List.length_take, List.length_replicate]
  omega

/-- The byte count `size * sizeof(float)` of a buffer of `size` floats (`size` a `uint32_t`),
evaluated in `size_t`. -/
theorem buffer_bytes (n : Nat) : u64 (u32 n * sizeof_float) = 4 * u32 n := by
  have h := u32_lt n
  unfold sizeof_float
  rw [u64_of_lt (by omega)]
  omega

/-- Reading a buffer that was written in full: the floats come back and the cursor is behind
them. -/
theorem unpack_buffer_bytes_of_floats (fs old : List float) (rest : List Byte) :
    unpack_buffer (bytes_of_floats fs ++ rest) (4 * fs.length) (resize old fs.length)
      = some (fs, rest) := by
  have hl := length_bytes_of_floats fs
  have hd : 4 * fs.length / sizeof_float = fs.length := by unfold sizeof_float; omega
  unfold unpack_buffer
  rw [hd, length_resize, if_pos ⟨by rw [List.length_append]; omega, Nat.le_refl _⟩,
    List.take_left' hl, List.drop_left' hl, floats_of_bytes_bytes_of_floats,
    List.drop_of_length_le (by rw [length_resize]), List.append_nil]

/-- Round trip, in the generality of the reader: a network whose scalar fields are `uint32_t`
values and whose buffers have the lengths the reader computes (in `uint32_t`) from the
dimensions is read back from its on-disk bytes, whatever follows them and whatever the output
structure held before. -/
theorem unpack_type_pack_type_u32 (m old : CPUMLP) (rest : List Byte) (hr : m.InRange)
    (h0 : m.mlp0Buffer.length = u32 (u32 (m.mlp0Width * m.mlp0Height) + m.mlp0Width))
    (h1 : m.mlp1Buffer.length = u32 (u32 (m.mlp1Width * m.mlp1Height) + m.mlp1Width))
    (h2 : m.mlp2Buffer.length = u32 (u32 (m.mlp2Width * m.mlp2Height) + m.mlp2Width)) :
    unpack_type (pack_type m ++ rest) old = some (m, rest) := by
  obtain ⟨r1, r2, r3, r4, r5, r6, r7, r8, r9⟩ := hr
  have hs : pack_type m ++ rest =
      bytes_of_u32 m.nbMlp ++ (bytes_of_u32 m.finalChannelCount ++
      (bytes_of_u32 m.finalBlockWidth ++
      (bytes_of_u32 m.mlp0Width ++ (bytes_of_u32 m.mlp0Height ++ (bytes_of_floats m.mlp0Buffer ++
      (bytes_of_u32 m.mlp1Width ++ (bytes_of_u32 m.mlp1Height ++ (bytes_of_floats m.mlp1Buffer ++
      (bytes_of_u32 m.mlp2Width ++ (bytes_of_u32 m.mlp2Height ++ (bytes_of_floats m.mlp2Buffer ++
      rest))))))))))) := by
    unfold pack_type
    simp only [List.append_assoc]
  rw [hs]
  unfold unpack_type
  rw [unpack_bytes_bytes_of_u32 r1, Option.some_bind]
  simp only []
  rw [unpack_bytes_bytes_of_u32 r2, Option.some_bind]
  simp only []
  rw [unpack_bytes_bytes_of_u32 r3, Option.some_bind]
  simp only []
  rw [unpack_bytes_bytes_of_u32 r4, Option.some_bind]
  simp only []
  rw [unpack_bytes_bytes_of_u32 r5, Option.some_bind]
  simp only []
  rw [buffer_bytes, ← h0, unpack_buffer_bytes_of_floats, Option.some_bind]
  simp only []
  rw [unpack_bytes_bytes_of_u32 r6, Option.some_bind]
  simp only []
  rw [unpack_bytes_bytes_of_u32 r7, Option.some_bind]
  simp only []
  rw [buffer_bytes, ← h1, unpack_buffer_bytes_of_floats, Option.some_bind]
  simp only []
  rw [unpack_bytes_bytes_of_u32 r8, Option.some_bind]
  simp only []
  rw [unpack_bytes_bytes_of_u32 r9, Option.some_bind]
  simp only []
  rw [buffer_bytes, ← h2, unpack_buffer_bytes_of_floats, Option.some_bind]

/-- C1. For every CPU network whose three layer buffers have length
`width * height + width`, each count fitting in 32 bits (the scalar fields being `uint32_t`
values): writing it in the on-disk layout and applying `unpack_type` to those bytes, whatever
follows them and whatever the output structure held before, yields the same network (the three
metadata fields, the six dimensions and the three buffers, byte for byte) and leaves the cursor on
the first byte after the record. -/
theorem unpack_type_round_trip (m old : CPUMLP) (rest : List Byte) (hr : m.InRange)
    (h0 : m.mlp0Buffer.length = m.mlp0Width * m.mlp0Height + m.mlp0Width)
    (h1 : m.mlp1Buffer.length = m.mlp1Width * m.mlp1Height + m.mlp1Width)
    (h2 : m.mlp2Buffer.length = m.mlp2Width * m.mlp2Height + m.mlp2Width)
    (f0 : m.mlp0Width * m.mlp0Height + m.mlp0Width < 4294967296)
    (f1 : m.mlp1Width * m.mlp1Height + m.mlp1Width < 4294967296)
    (f2 : m.mlp2Width * m.mlp2Height + m.mlp2Width < 4294967296) :
    unpack_type (pack_type m ++ rest) old = some (m, rest) := by
  have e0 : u32 (u32 (m.mlp0Width * m.mlp0Height) + m.mlp0Width)
      = m.mlp0Width * m.mlp0Height + m.mlp0Width := by
    rw [u32_of_lt (by omega : m.mlp0Width * m.mlp0Height < 4294967296), u32_of_lt f0]
  have e1 : u32 (u32 (m.mlp1Width * m.mlp1Height) + m.mlp1Width)
      = m.mlp1Width * m.mlp1Height + m.mlp1Width := by
    rw [u32_of_lt (by omega : m.mlp1Width * m.mlp1Height < 4294967296), u32_of_lt f1]
  have e2 : u32 (u32 (m.mlp2Width * m.mlp2Height) + m.mlp2Width)
      = m.mlp2Width * m.mlp2Height + m.mlp2Width := by
    rw [u32_of_lt (by omega : m.mlp2Width * m.mlp2Height < 4294967296), u32_of_lt f2]
  exact unpack_type_pack_type_u32 m old rest hr (by rw [e0]; exact h0) (by rw [e1]; exact h1)
    (by rw [e2]; exact h2)

set_option maxRecDepth 100000 in
/-- Witness for C1: the scenario network (79 floats) written and read back, with three
trailing bytes and a non-empty output structure. -/
theorem unpack_type_round_trip_witness :
    unpack_type (pack_type scenarioNet ++ [1, 2, 3]) tinyNet = some (scenarioNet, [1, 2, 3]) :=
  unpack_type_round_trip scenarioNet tinyNet [1, 2, 3] (by decide) (by decide) (by decide)
    (by decide) (by decide) (by decide) (by decide)

/-! ### Cursor advance -/

theorem unpack_bytes_drop (s : List Byte) (k : Nat) (h : k + 4 ≤ s.length) :
    ∃ v, unpack_bytes (s.drop k) = some (v, s.drop (k + 4)) := by
  have hl : 4 ≤ (s.drop k).length := by rw [List.length_drop]; omega
  have hd : s.drop (k + 4) = (s.drop k).drop 4 := by rw [List.drop_drop]
  rw [hd]
  generalize s.drop k = t at hl
  match t, hl with
  | b0 :: b1 :: b2 :: b3 :: rest, _ => exact ⟨_, rfl⟩

theorem unpack_bytes_some {s t : List Byte} {v : Nat} (h : unpack_bytes s = some (v, t)) :
    4 ≤ s.length ∧ t = s.drop 4 ∧ v < 4294967296 := by
  match s, h with
  | b0 :: b1 :: b2 :: b3 :: rest, h =>
    simp only [unpack_bytes, Option.some.injEq, Prod.mk.injEq] at h
    obtain ⟨hv, ht⟩ := h
    refine ⟨by simp, by simp [ht], ?_⟩
    have := b0.isLt
    have := b1.isLt
    have := b2.isLt
    have := b3.isLt
    omega

theorem read_u32_some {s : List Byte} {off off' v : Nat} (e : off' = off + 4)
    (h : read_u32 s off = some v) :
    unpack_bytes (s.drop off) = some (v, s.drop off') := by
  unfold read_u32 at h
  rw [Option.map_eq_some'] at h
  obtain ⟨⟨v', t⟩, hu, hv⟩ := h
  obtain ⟨_, ht, _⟩ := unpack_bytes_some hu
  rw [List.drop_drop] at ht
  simp only at hv
  rw [hu, ht, hv, e]

theorem unpack_bytes_drop_to (s : List Byte) (k k' : Nat) (e : k' = k + 4) (h : k' ≤ s.length) :
    ∃ v, unpack_bytes (s.drop k) = some (v, s.drop k') := by
  subst e
  exact unpack_bytes_drop s k h

theorem unpack_buffer_drop (s : List Byte) (k k' n : Nat) (old : List float)
    (e : k' = k + 4 * u32 n) (h : k' ≤ s.length) :
    unpack_buffer (s.drop k) (u64 (u32 n * sizeof_float)) (resize old (u32 n))
      = some (floats_of_bytes ((s.drop k).take (4 * u32 n)), s.drop k') := by
  subst e
  have hd : 4 * u32 n / sizeof_float = u32 n := by unfold sizeof_float; omega
  have hl : 4 * u32 n ≤ (s.drop k).length := by rw [List.length_drop]; omega
  have hn : (resize old (u32 n)).drop (u32 n) = [] :=
    List.drop_of_length_le (by rw [length_resize])
  unfold unpack_buffer
  rw [buffer_bytes, hd, length_resize, if_pos ⟨hl, Nat.le_refl _⟩, hn, List.append_nil,
    List.drop_drop]

/-- C2 (amended: the float count of a layer is the 32-bit value the code computes). For every
byte stream long enough for the record it declares, `unpack_type` returns a network and leaves
the cursor exactly `12 + sum over the three layers of (8 + 4 * count_i)` bytes further, where
`count_i` is `width_i * height_i + width_i` reduced to 32 bits and `width_i`, `height_i` are the
values read from the stream. -/
theorem unpack_type_advance (s : List Byte) (old : CPUMLP) (k : Nat)
    (hd : declared_size s = some k) (hk : k ≤ s.length) :
    ∃ m, unpack_type s old = some (m, s.drop k) ∧
      k = 12 + (8 + 4 * u32 (u32 (m.mlp0Width * m.mlp0Height) + m.mlp0Width))
             + (8 + 4 * u32 (u32 (m.mlp1Width * m.mlp1Height) + m.mlp1Width))
             + (8 + 4 * u32 (u32 (m.mlp2Width * m.mlp2Height) + m.mlp2Width)) := by
  unfold declared_size at hd
  simp only [Option.bind_eq_some, Option.some.injEq] at hd
  obtain ⟨w0, hw0, h0, hh0, w1, hw1, h1, hh1, w2, hw2, h2, hh2, hk'⟩ := hd
  obtain ⟨v1, s1⟩ := unpack_bytes_drop_to s 0 4 rfl (by omega)
  obtain ⟨v2, s2⟩ := unpack_bytes_drop_to s 4 8 rfl (by omega)
  obtain ⟨v3, s3⟩ := unpack_bytes_drop_to s 8 12 rfl (by omega)
  have s4 : unpack_bytes (s.drop 12) = some (w0, s.drop 16) := read_u32_some rfl hw0
  have s5 : unpack_bytes (s.drop 16) = some (h0, s.drop 20) := read_u32_some rfl hh0
  have b0 := unpack_buffer_drop s 20 (20 + 4 * u32 (u32 (w0 * h0) + w0))
    (u32 (w0 * h0) + w0) old.mlp0Buffer rfl (by omega)
  have s6 := @read_u32_some s (20 + 4 * u32 (u32 (w0 * h0) + w0))
    (20 + 4 * u32 (u32 (w0 * h0) + w0) + 4) w1 rfl hw1
  have s7 := @read_u32_some s (20 + 4 * u32 (u32 (w0 * h0) + w0) + 4)
    (20 + 4 * u32 (u32 (w0 * h0) + w0) + 8) h1 rfl hh1
  have b1 := unpack_buffer_drop s (20 + 4 * u32 (u32 (w0 * h0) + w0) + 8)
    (20 + 4 * u32 (u32 (w0 * h0) + w0) + 8 + 4 * u32 (u32 (w1 * h1) + w1))
    (u32 (w1 * h1) + w1) old.mlp1Buffer rfl (by omega)
  have s8 := @read_u32_some s
    (20 + 4 * u32 (u32 (w0 * h0) + w0) + 8 + 4 * u32 (u32 (w1 * h1) + w1))
    (20 + 4 * u32 (u32 (w0 * h0) + w0) + 8 + 4 * u32 (u32 (w1 * h1) + w1) + 4) w2 rfl hw2
  have s9 := @read_u32_some s
    (20 + 4 * u32 (u32 (w0 * h0) + w0) + 8 + 4 * u32 (u32 (w1 * h1) + w1) + 4)
    (20 + 4 * u32 (u32 (w0 * h0) + w0) + 8 + 4 * u32 (u32 (w1 * h1) + w1) + 8) h2 rfl hh2
  have b2 := unpack_buffer_drop s
    (20 + 4 * u32 (u32 (w0 * h0) + w0) + 8 + 4 * u32 (u32 (w1 * h1) + w1) + 8) k
    (u32 (w2 * h2) + w2) old.mlp2Buffer hk'.symm hk
  rw [List.drop_zero] at s1
  refine ⟨{ nbMlp := v1, finalChannelCount := v2, finalBlockWidth := v3,
            mlp0Width := w0, mlp0Height := h0,
            mlp0Buffer := floats_of_bytes ((s.drop 20).take (4 * u32 (u32 (w0 * h0) + w0))),
            mlp1Width := w1, mlp1Height := h1,
            mlp1Buffer := floats_of_bytes ((s.drop (20 + 4 * u32 (u32 (w0 * h0) + w0) + 8)).take
              (4 * u32 (u32 (w1 * h1) + w1))),
            mlp2Width := w2, mlp2Height := h2,
            mlp2Buffer := floats_of_bytes ((s.drop (20 + 4 * u32 (u32 (w0 * h0) + w0) + 8
              + 4 * u32 (u32 (w1 * h1) + w1) + 8)).take (4 * u32 (u32 (w2 * h2) + w2))) },
          ?_, ?_⟩
  · unfold unpack_type
    rw [s1, Option.some_bind]
    simp only []
    rw [s2, Option.some_bind]
    simp only []
    rw [s3, Option.some_bind]
    simp only []
    rw [s4, Option.some_bind]
    simp only []
    rw [s5, Option.some_bind]
    simp only []
    rw [b0, Option.some_bind]
    simp only []
    rw [s6, Option.some_bind]
    simp only []
    rw [s7, Option.some_bind]
    simp only []
    rw [b1, Option.some_bind]
    simp only []
    rw [s8, Option.some_bind]
    simp only []
    rw [s9, Option.some_bind]
    simp only []
    rw [b2, Option.some_bind]
  · simp only []
    omega

set_option maxRecDepth 100000 in
/-- Witness for C2: the 72-byte record of `tinyNet` followed by three more bytes. -/
theorem unpack_type_advance_witness :
    declared_size (pack_type tinyNet ++ [1, 2, 3]) = some 72 ∧
    ∃ m, unpack_type (pack_type tinyNet ++ [1, 2, 3]) emptyNet
        = some (m, (pack_type tinyNet ++ [1, 2, 3]).drop 72) ∧
      72 = 12 + (8 + 4 * u32 (u32 (m.mlp0Width * m.mlp0Height) + m.mlp0Width))
              + (8 + 4 * u32 (u32 (m.mlp1Width * m.mlp1Height) + m.mlp1Width))
              + (8 + 4 * u32 (u32 (m.mlp2Width * m.mlp2Height) + m.mlp2Width)) :=
  ⟨by decide,
   unpack_type_advance (pack_type tinyNet ++ [1, 2, 3]) emptyNet 72 (by decide) (by decide)⟩

theorem length_pack_type (m : CPUMLP) :
    (pack_type m).length
      = 36 + 4 * m.mlp0Buffer.length + 4 * m.mlp1Buffer.length + 4 * m.mlp2Buffer.length := by
  unfold pack_type
  simp only [List.length_append, length_bytes_of_u32, length_bytes_of_floats]
  omega

/-- C2, counterexample. The stream `wrapStream` declares the dimensions 65536 x 65535,
1 x 65536 and 1 x 1 and is exactly as long as the claim's byte count for them,
`12 + (8 + 4 * 2^32) + (8 + 4 * 65537) + (8 + 4 * 2)`. `unpack_type` reads these dimensions but
advances the cursor by 262192 bytes only: it leaves `2^34` bytes unread, where the claim puts
the cursor at the end of the stream. -/
theorem unpack_type_advance_counterexample :
    unpack_type wrapStream emptyNet = some (wrapNet, List.replicate 17179869184 0) ∧
    12 + (8 + 4 * (wrapNet.mlp0Width * wrapNet.mlp0Height + wrapNet.mlp0Width))
       + (8 + 4 * (wrapNet.mlp1Width * wrapNet.mlp1Height + wrapNet.mlp1Width))
       + (8 + 4 * (wrapNet.mlp2Width * wrapNet.mlp2Height + wrapNet.mlp2Width))
      = wrapStream.length ∧
    List.replicate 17179869184 (0 : Byte) ≠
      wrapStream.drop
        (12 + (8 + 4 * (wrapNet.mlp0Width * wrapNet.mlp0Height + wrapNet.mlp0Width))
            + (8 + 4 * (wrapNet.mlp1Width * wrapNet.mlp1Height + wrapNet.mlp1Width))
            + (8 + 4 * (wrapNet.mlp2Width * wrapNet.mlp2Height + wrapNet.mlp2Width))) := by
  have hb0 : wrapNet.mlp0Buffer = [] := rfl
  have hb1 : wrapNet.mlp1Buffer = List.replicate 65537 float.zero := rfl
  have hb2 : wrapNet.mlp2Buffer = [float.zero, float.zero] := rfl
  have hlen : wrapStream.length = 17180131376 := by
    unfold wrapStream
    rw [List.length_append, length_pack_type, List.length_replicate, hb0, hb1, hb2,
      List.length_replicate]
    rfl
  have hsum : 12 + (8 + 4 * (wrapNet.mlp0Width * wrapNet.mlp0Height + wrapNet.mlp0Width))
       + (8 + 4 * (wrapNet.mlp1Width * wrapNet.mlp1Height + wrapNet.mlp1Width))
       + (8 + 4 * (wrapNet.mlp2Width * wrapNet.mlp2Height + wrapNet.mlp2Width))
      = 17180131376 := by decide
  refine ⟨?_, ?_, ?_⟩
  · unfold wrapStream
    refine unpack_type_pack_type_u32 wrapNet emptyNet _ (by decide) (by decide) ?_ (by decide)
    rw [hb1, List.length_replicate]
    decide
  · rw [hsum, hlen]
  · rw [hsum, List.drop_of_length_le (by rw [hlen])]
    intro hc
    have h0 := congrArg List.length hc
    rw [List.length_replicate] at h0
    revert h0
    decide

/-! ## List surgery of the two copies -/

/-- The two copies of the input-side block, as list surgery: the weights go to the front of a
zero vector, the bias behind the padded weight block. -/
theorem pad_height_list (buf : List float) (a b w : Nat) (hlen : buf.length = a + w)
    (hab : a ≤ b) :
    List.take b (List.take 0 (List.replicate (b + w) float.zero) ++ List.take a (List.drop 0 buf) ++
          List.drop (0 + a) (List.replicate (b + w) float.zero)) ++
        List.take w (List.drop a buf) ++
      List.drop (b + w) (List.take 0 (List.replicate (b + w) float.zero) ++
          List.take a (List.drop 0 buf) ++ List.drop (0 + a) (List.replicate (b + w) float.zero)) =
    List.take a buf ++ List.replicate (b - a) float.zero ++ List.drop a buf := by
  have hl : (List.take a buf).length = a := by rw [List.length_take]; omega
  have e1 : min (b - a) (b + w - a) = b - a := by omega
  have e2 : b + w - a - (b + w - a) = 0 := by omega
  have e3 : min b a = a := by omega
  have e4 : a - (b + w) = 0 := by omega
  have t1 : List.take w (List.drop a buf) = List.drop a buf :=
    List.take_of_length_le (by rw [List.length_drop]; omega)
  have t2 : List.drop (b + w) (List.take a buf) = [] :=
    List.drop_eq_nil_of_le (by omega)
  simp only [List.take_zero, List.drop_zero, List.nil_append, Nat.zero_add]
  simp only [List.drop_replicate, List.take_append_eq_append_take,
    List.drop_append_eq_append_drop, hl, List.take_replicate, List.take_take, e1, e2, e3, t1, t2,
    List.replicate_zero, List.append_nil, List.nil_append]

/-! ## The input-side block of `align_dimensions` -/

namespace mlp

/-- Case analysis of a defined run of the input-side block: either the height was aligned and
nothing changed, or both copies were in range and produced the new buffer. -/
theorem align_input_cases {m m1 : CPUMLP} (h : align_input m = some m1) :
    (m.mlp0Height % 16 = 0 ∧ m1 = m) ∨
    (m.mlp0Height % 16 ≠ 0 ∧ ∃ d1 d2 : List float,
      memcpy (List.replicate (u32 (u32 (m.mlp0Width * u32 (u32 (m.mlp0Height + 15) / 16 * 16))
          + m.mlp0Width)) float.zero) 0 m.mlp0Buffer 0
        (u64 (u64 (sizeof_float * m.mlp0Width) * m.mlp0Height)) = some d1 ∧
      memcpy d1 (u32 (m.mlp0Width * u32 (u32 (m.mlp0Height + 15) / 16 * 16))) m.mlp0Buffer
        (u32 (m.mlp0Width * m.mlp0Height)) (u64 (sizeof_float * m.mlp0Width)) = some d2 ∧
      m1 = { m with mlp0Height := u32 (u32 (m.mlp0Height + 15) / 16 * 16), mlp0Buffer := d2 }) := by
  unfold align_input at h
  by_cases hv : m.mlp0Height % 16 = 0
  · left
    simp only [hv, ne_eq, not_true_eq_false, if_false, Option.some.injEq] at h
    exact ⟨hv, h.symm⟩
  · right
    simp only [ne_eq, hv, not_false_eq_true, if_true, Option.bind_eq_some, Option.some.injEq] at h
    obtain ⟨d1, hd1, d2, hd2, rfl⟩ := h
    exact ⟨hv, d1, d2, hd1, hd2, rfl⟩

theorem align_input_of_aligned {m : CPUMLP} (hv : m.mlp0Height % 16 = 0) :
    align_input m = some m := by
  simp [align_input, hv]

/-- The input-side block touches only `mlp0Height` and `mlp0Buffer`. -/
theorem align_input_frame {m m1 : CPUMLP} (h : align_input m = some m1) :
    m1 = { m with mlp0Height := m1.mlp0Height, mlp0Buffer := m1.mlp0Buffer } := by
  rcases align_input_cases h with ⟨_, rfl⟩ | ⟨_, d1, d2, _, _, rfl⟩ <;> rfl

/-- After the input-side block `mlp0Height` is a multiple of 16. -/
theorem align_input_height_mod {m m1 : CPUMLP} (h : align_input m = some m1) :
    m1.mlp0Height % 16 = 0 := by
  rcases align_input_cases h with ⟨hv, rfl⟩ | ⟨_, d1, d2, _, _, rfl⟩
  · exact hv
  · exact u32_round_mod _

/-- The height left by the input-side block. -/
theorem align_input_height {m m1 : CPUMLP} (h : align_input m = some m1) :
    m1.mlp0Height =
      if m.mlp0Height % 16 = 0 then m.mlp0Height else u32 (u32 (m.mlp0Height + 15) / 16 * 16) := by
  rcases align_input_cases h with ⟨hv, rfl⟩ | ⟨hv, d1, d2, _, _, rfl⟩
  · rw [if_pos hv]
  · rw [if_neg hv]

/-- The length of the buffer left by the input-side block when it pads. -/
theorem align_input_length {m m1 : CPUMLP} (h : align_input m = some m1)
    (hv : m.mlp0Height % 16 ≠ 0) :
    m1.mlp0Buffer.length =
      u32 (u32 (m.mlp0Width * u32 (u32 (m.mlp0Height + 15) / 16 * 16)) + m.mlp0Width) := by
  rcases align_input_cases h with ⟨hv0, _⟩ | ⟨_, d1, d2, h1, h2, rfl⟩
  · exact absurd hv0 hv
  · show d2.length = _
    rw [memcpy_length h2, memcpy_length h1, List.length_replicate]

/-- Closed form of the input-side block on a network whose layer-0 buffer has the length its
dimensions announce and whose padded size fits in 32 bits: weights, zero padding, bias. -/
theorem align_input_spec {m : CPUMLP} {newHeight : Nat} (hv : m.mlp0Height % 16 ≠ 0)
    (hlen : m.mlp0Buffer.length = m.mlp0Width * m.mlp0Height + m.mlp0Width)
    (hnew : newHeight = (m.mlp0Height + 15) / 16 * 16)
    (hh : m.mlp0Height + 15 < 4294967296)
    (hfit : m.mlp0Width * newHeight + m.mlp0Width < 4294967296) :
    align_input m = some { m with
      mlp0Height := newHeight
      mlp0Buffer := m.mlp0Buffer.take (m.mlp0Width * m.mlp0Height) ++
        List.replicate (m.mlp0Width * (newHeight - m.mlp0Height)) float.zero ++
        m.mlp0Buffer.drop (m.mlp0Width * m.mlp0Height) } := by
  have hle : m.mlp0Height ≤ newHeight := by omega
  have hmul : m.mlp0Width * m.mlp0Height ≤ m.mlp0Width * newHeight := Nat.mul_le_mul_left _ hle
  have hsub : m.mlp0Width * (newHeight - m.mlp0Height)
      = m.mlp0Width * newHeight - m.mlp0Width * m.mlp0Height := Nat.mul_sub m.mlp0Width _ _
  have e0 : u32 (u32 (m.mlp0Height + 15) / 16 * 16) = newHeight := by
    rw [hnew]; exact u32_round_eq hh
  have e1 : u32 (m.mlp0Width * newHeight) = m.mlp0Width * newHeight := u32_of_lt (by omega)
  have e2 : u32 (m.mlp0Width * newHeight + m.mlp0Width) = m.mlp0Width * newHeight + m.mlp0Width :=
    u32_of_lt hfit
  have e3 : u32 (m.mlp0Width * m.mlp0Height) = m.mlp0Width * m.mlp0Height := u32_of_lt (by omega)
  have c1 : u64 (u64 (sizeof_float * m.mlp0Width) * m.mlp0Height) / sizeof_float
      = m.mlp0Width * m.mlp0Height := float_count_mul (by omega)
  have c2 : u64 (sizeof_float * m.mlp0Width) / sizeof_float = m.mlp0Width := float_count (by omega)
  unfold align_input
  simp only [ne_eq, hv, not_false_eq_true, if_true, e0, e1, e2, e3]
  rw [memcpy_eq_some (by rw [c1, List.length_replicate]; omega) (by rw [c1, hlen]; omega)]
  simp only [Option.some_bind, c1]
  rw [memcpy_eq_some
    (by rw [c2]; simp only [List.length_append, List.length_take, List.length_drop,
          List.length_replicate]; omega)
    (by rw [c2, hlen])]
  simp only [Option.some_bind, c2, Option.some.injEq]
  congr 1
  rw [hsub]
  exact pad_height_list m.mlp0Buffer _ _ _ hlen hmul

end mlp

/-! ## The output-side block of `align_dimensions` -/

/-- Position arithmetic of the row copy: the destination range of row `k` is the set of
indices with quotient `k` and remainder below `w`. -/
theorem row_range_iff {tw w k i : Nat} (hw : w ≤ tw) :
    (tw * k ≤ i ∧ i < tw * k + w) ↔ (i / tw = k ∧ i % tw < w) := by
  rcases Nat.eq_zero_or_pos tw with h0 | hpos
  · subst h0
    have : w = 0 := by omega
    subst this
    simp
  · have hdm := Nat.div_add_mod i tw
    have hr := Nat.mod_lt i hpos
    constructor
    · rintro ⟨h1, h2⟩
      have hq : i / tw = k := by
        apply Nat.div_eq_of_lt_le
        · rw [Nat.mul_comm]; exact h1
        · rw [Nat.add_mul, Nat.one_mul, Nat.mul_comm]; omega
      rw [hq] at hdm
      exact ⟨hq, by omega⟩
    · rintro ⟨h1, h2⟩
      rw [h1] at hdm
      omega

namespace mlp

/-- The row loop, element by element. When the rows fit (no product wraps, both vectors are
long enough) the first `k` iterations succeed, keep the length of `data`, and leave at index
`i` the source element of row `i / tw`, column `i % tw` when that row has been copied and the
column is below `w`; every other element is untouched. -/
theorem copy_rows_spec (src data : List float) (w tw h : Nat) (hw : w ≤ tw)
    (hfit : tw * h < 4294967296) (hsrc : w * h ≤ src.length) (hdata : tw * h ≤ data.length) :
    ∀ k, k ≤ h → ∃ d, copy_rows src w tw k data = some d ∧ d.length = data.length ∧
      ∀ i, d[i]? = if i / tw < k ∧ i % tw < w then src[i / tw * w + i % tw]? else data[i]? := by
  intro k
  induction k with
  | zero =>
    intro _
    exact ⟨data, rfl, rfl, fun i => by simp⟩
  | succ k ih =>
    intro hk
    obtain ⟨d, hd, hdl, hdi⟩ := ih (by omega)
    have h1 : tw * (k + 1) ≤ tw * h := Nat.mul_le_mul_left _ hk
    have h2 : w * (k + 1) ≤ w * h := Nat.mul_le_mul_left _ hk
    have h3 : w * k ≤ tw * k := Nat.mul_le_mul_right _ hw
    have h4 : tw * (k + 1) = tw * k + tw := Nat.mul_succ tw k
    have h5 : w * (k + 1) = w * k + w := Nat.mul_succ w k
    have hpos : 0 < h := by omega
    have h6 : tw ≤ tw * h := Nat.le_mul_of_pos_right tw hpos
    have e1 : u32 (tw * k) = tw * k := u32_of_lt (by omega)
    have e2 : u32 (w * k) = w * k := u32_of_lt (by omega)
    have c : u64 (sizeof_float * w) / sizeof_float = w := float_count (by omega)
    obtain ⟨d', hm⟩ : ∃ d', memcpy d (tw * k) src (w * k) (u64 (sizeof_float * w)) = some d' :=
      ⟨_, memcpy_eq_some (by rw [c]; omega) (by rw [c]; omega)⟩
    refine ⟨d', ?_, ?_, ?_⟩
    · show (copy_rows src w tw k data).bind _ = _
      rw [hd, Option.some_bind, e1, e2]
      exact hm
    · rw [memcpy_length hm, hdl]
    · intro i
      rw [memcpy_getElem? hm i, c, hdi i]
      by_cases hin : tw * k ≤ i ∧ i < tw * k + w
      · have hqr := (row_range_iff hw).mp hin
        rw [if_pos hin, if_pos ⟨by omega, hqr.2⟩, hqr.1, Nat.mul_comm k w]
        have hdm := Nat.div_add_mod i tw
        rw [hqr.1] at hdm
        congr 1
        omega
      · rw [if_neg hin]
        have hne : ¬ (i / tw = k ∧ i % tw < w) := fun hc => hin ((row_range_iff hw).mpr hc)
        by_cases h7 : i / tw < k ∧ i % tw < w
        · rw [if_pos h7, if_pos ⟨by omega, h7.2⟩]
        · rw [if_neg h7, if_neg]
          rintro ⟨h8, h9⟩
          by_cases h10 : i / tw = k
          · exact hne ⟨h10, h9⟩
          · exact h7 ⟨by omega, h9⟩

/-- The row loop keeps the length of the destination vector. -/
theorem copy_rows_length (src : List float) (w tw : Nat) :
    ∀ (k : Nat) (data d : List float), copy_rows src w tw k data = some d →
      d.length = data.length := by
  intro k
  induction k with
  | zero =>
    intro data d h
    simp only [copy_rows, Option.some.injEq] at h
    rw [h]
  | succ k ih =>
    intro data d h
    simp only [copy_rows, Option.bind_eq_some] at h
    obtain ⟨d0, h0, h1⟩ := h
    rw [memcpy_length h1, ih data d0 h0]

/-- Case analysis of a defined run of the output-side block. -/
theorem align_output_cases {m m2 : CPUMLP} (h : align_output m = some m2) :
    (m.mlp2Width % 16 = 0 ∧ m2 = m) ∨
    (m.mlp2Width % 16 ≠ 0 ∧ ∃ d1 d2 : List float,
      copy_rows m.mlp2Buffer m.mlp2Width (u32 (u32 (m.mlp2Width + 15) / 16 * 16)) m.mlp2Height
        (List.replicate (u32 (u32 (m.mlp2Height * u32 (u32 (m.mlp2Width + 15) / 16 * 16))
          + u32 (u32 (m.mlp2Width + 15) / 16 * 16))) float.zero) = some d1 ∧
      memcpy d1 (u32 (u32 (u32 (m.mlp2Width + 15) / 16 * 16) * m.mlp2Height)) m.mlp2Buffer
        (u32 (m.mlp2Width * m.mlp2Height)) (u64 (sizeof_float * m.mlp2Width)) = some d2 ∧
      m2 = { m with mlp2Width := u32 (u32 (m.mlp2Width + 15) / 16 * 16), mlp2Buffer := d2,
                    finalChannelCount := u32 (u32 (m.mlp2Width + 15) / 16 * 16) }) := by
  unfold align_output at h
  by_cases hv : m.mlp2Width % 16 = 0
  · left
    simp only [hv, ne_eq, not_true_eq_false, if_false, Option.some.injEq] at h
    exact ⟨hv, h.symm⟩
  · right
    simp only [ne_eq, hv, not_false_eq_true, if_true, Option.bind_eq_some, Option.some.injEq] at h
    obtain ⟨d1, hd1, d2, hd2, rfl⟩ := h
    exact ⟨hv, d1, d2, hd1, hd2, rfl⟩

theorem align_output_of_aligned {m : CPUMLP} (hv : m.mlp2Width % 16 = 0) :
    align_output m = some m := by
  simp [align_output, hv]

/-- The output-side block touches only `mlp2Width`, `mlp2Buffer` and `finalChannelCount`. -/
theorem align_output_frame {m m2 : CPUMLP} (h : align_output m = some m2) :
    m2 = { m with mlp2Width := m2.mlp2Width, mlp2Buffer := m2.mlp2Buffer,
                  finalChannelCount := m2.finalChannelCount } := by
  rcases align_output_cases h with ⟨_, rfl⟩ | ⟨_, d1, d2, _, _, rfl⟩ <;> rfl

/-- After the output-side block `mlp2Width` is a multiple of 16. -/
theorem align_output_width_mod {m m2 : CPUMLP} (h : align_output m = some m2) :
    m2.mlp2Width % 16 = 0 := by
  rcases align_output_cases h with ⟨hv, rfl⟩ | ⟨_, d1, d2, _, _, rfl⟩
  · exact hv
  · exact u32_round_mod _

/-- The width left by the output-side block. -/
theorem align_output_width {m m2 : CPUMLP} (h : align_output m = some m2) :
    m2.mlp2Width =
      if m.mlp2Width % 16 = 0 then m.mlp2Width else u32 (u32 (m.mlp2Width + 15) / 16 * 16) := by
  rcases align_output_cases h with ⟨hv, rfl⟩ | ⟨hv, d1, d2, _, _, rfl⟩
  · rw [if_pos hv]
  · rw [if_neg hv]

/-- The channel count left by the output-side block: the padded width when it pads, the old
value when the width was aligned. -/
theorem align_output_channels {m m2 : CPUMLP} (h : align_output m = some m2) :
    m2.finalChannelCount =
      if m.mlp2Width % 16 = 0 then m.finalChannelCount else m2.mlp2Width := by
  rcases align_output_cases h with ⟨hv, rfl⟩ | ⟨hv, d1, d2, _, _, rfl⟩
  · rw [if_pos hv]
  · rw [if_neg hv]

/-- The length of the buffer left by the output-side block when it pads. -/
theorem align_output_length {m m2 : CPUMLP} (h : align_output m = some m2)
    (hv : m.mlp2Width % 16 ≠ 0) :
    m2.mlp2Buffer.length =
      u32 (u32 (m.mlp2Height * u32 (u32 (m.mlp2Width + 15) / 16 * 16))
        + u32 (u32 (m.mlp2Width + 15) / 16 * 16)) := by
  rcases align_output_cases h with ⟨hv0, _⟩ | ⟨_, d1, d2, h1, h2, rfl⟩
  · exact absurd hv0 hv
  · show d2.length = _
    rw [memcpy_length h2, copy_rows_length _ _ _ _ _ _ h1, List.length_replicate]

/-- Element-wise form of the output-side block on a network whose layer-2 buffer has at least
the length its dimensions announce and whose padded size fits in 32 bits. The new buffer has
`mlp2Height + 1` rows of `newWidth` elements (the last row is the bias); in each row the first
`mlp2Width` elements are the source row and the others are `0.0`. -/
theorem align_output_spec_le {m : CPUMLP} {newWidth : Nat} (hv : m.mlp2Width % 16 ≠ 0)
    (hlen : m.mlp2Width * m.mlp2Height + m.mlp2Width ≤ m.mlp2Buffer.length)
    (hnew : newWidth = (m.mlp2Width + 15) / 16 * 16)
    (hw : m.mlp2Width + 15 < 4294967296)
    (hfit : m.mlp2Height * newWidth + newWidth < 4294967296) :
    ∃ d, align_output m = some { m with mlp2Width := newWidth, mlp2Buffer := d,
                                         finalChannelCount := newWidth } ∧
      d.length = m.mlp2Height * newWidth + newWidth ∧
      ∀ i, i < m.mlp2Height * newWidth + newWidth →
        d[i]? = if i % newWidth < m.mlp2Width then
                  m.mlp2Buffer[i / newWidth * m.mlp2Width + i % newWidth]?
                else some float.zero := by
  have hle : m.mlp2Width ≤ newWidth := by omega
  have hpos : 0 < newWidth := by omega
  have hcomm : newWidth * m.mlp2Height = m.mlp2Height * newWidth := Nat.mul_comm _ _
  have hmul : m.mlp2Width * m.mlp2Height ≤ newWidth * m.mlp2Height := Nat.mul_le_mul_right _ hle
  have e0 : u32 (u32 (m.mlp2Width + 15) / 16 * 16) = newWidth := by
    rw [hnew]; exact u32_round_eq hw
  have e1 : u32 (m.mlp2Height * newWidth) = m.mlp2Height * newWidth := u32_of_lt (by omega)
  have e2 : u32 (m.mlp2Height * newWidth + newWidth) = m.mlp2Height * newWidth + newWidth :=
    u32_of_lt hfit
  have e3 : u32 (newWidth * m.mlp2Height) = newWidth * m.mlp2Height := u32_of_lt (by omega)
  have e4 : u32 (m.mlp2Width * m.mlp2Height) = m.mlp2Width * m.mlp2Height := u32_of_lt (by omega)
  have c : u64 (sizeof_float * m.mlp2Width) / sizeof_float = m.mlp2Width := float_count (by omega)
  obtain ⟨d1, hd1, hl1, hi1⟩ := copy_rows_spec m.mlp2Buffer
    (List.replicate (m.mlp2Height * newWidth + newWidth) float.zero) m.mlp2Width newWidth
    m.mlp2Height hle (by omega) (by omega) (by rw [List.length_replicate]; omega)
    m.mlp2Height (Nat.le_refl _)
  rw [List.length_replicate] at hl1
  obtain ⟨d2, hd2⟩ : ∃ d2, memcpy d1 (newWidth * m.mlp2Height) m.mlp2Buffer
      (m.mlp2Width * m.mlp2Height) (u64 (sizeof_float * m.mlp2Width)) = some d2 :=
    ⟨_, memcpy_eq_some (by rw [c]; omega) (by rw [c]; omega)⟩
  refine ⟨d2, ?_, ?_, ?_⟩
  · unfold align_output
    simp only [ne_eq, hv, not_false_eq_true, if_true, e0, e1, e2, e3, e4, hd1, hd2,
      Option.some_bind]
  · rw [memcpy_length hd2, hl1]
  · intro i hi
    rw [memcpy_getElem? hd2 i, c, hi1 i]
    have hdm := Nat.div_add_mod i newWidth
    have hr := Nat.mod_lt i hpos
    have hq : i / newWidth < m.mlp2Height + 1 := by
      rw [Nat.div_lt_iff_lt_mul hpos, Nat.add_mul, Nat.one_mul]
      exact hi
    by_cases hin : newWidth * m.mlp2Height ≤ i ∧ i < newWidth * m.mlp2Height + m.mlp2Width
    · have hqr := (row_range_iff hle).mp hin
      rw [if_pos hin, if_pos hqr.2, hqr.1, Nat.mul_comm m.mlp2Height m.mlp2Width]
      rw [hqr.1] at hdm
      congr 1
      omega
    · rw [if_neg hin]
      have hne : ¬ (i / newWidth = m.mlp2Height ∧ i % newWidth < m.mlp2Width) :=
        fun hc => hin ((row_range_iff hle).mpr hc)
      by_cases h7 : i % newWidth < m.mlp2Width
      · have h8 : i / newWidth < m.mlp2Height := by
          by_cases h9 : i / newWidth = m.mlp2Height
          · exact absurd ⟨h9, h7⟩ hne
          · omega
        rw [if_pos ⟨h8, h7⟩, if_pos h7]
      · rw [if_neg (fun hc => h7 hc.2), if_neg h7, List.getElem?_replicate, if_pos hi]

/-- Element-wise form of the output-side block on a network whose layer-2 buffer has the
length its dimensions announce and whose padded size fits in 32 bits. The new buffer has
`mlp2Height + 1` rows of `newWidth` elements (the last row is the bias); in each row the first
`mlp2Width` elements are the source row and the others are `0.0`. -/
theorem align_output_spec {m : CPUMLP} {newWidth : Nat} (hv : m.mlp2Width % 16 ≠ 0)
    (hlen : m.mlp2Buffer.length = m.mlp2Width * m.mlp2Height + m.mlp2Width)
    (hnew : newWidth = (m.mlp2Width + 15) / 16 * 16)
    (hw : m.mlp2Width + 15 < 4294967296)
    (hfit : m.mlp2Height * newWidth + newWidth < 4294967296) :
    ∃ d, align_output m = some { m with mlp2Width := newWidth, mlp2Buffer := d,
                                         finalChannelCount := newWidth } ∧
      d.length = m.mlp2Height * newWidth + newWidth ∧
      ∀ i, i < m.mlp2Height * newWidth + newWidth →
        d[i]? = if i % newWidth < m.mlp2Width then
                  m.mlp2Buffer[i / newWidth * m.mlp2Width + i % newWidth]?
                else some float.zero :=
  align_output_spec_le hv (Nat.le_of_eq hlen.symm) hnew hw hfit

/-- Every row copy of a defined run of the row loop stays inside the destination vector. -/
theorem copy_rows_bounds (src : List float) (w tw : Nat) :
    ∀ (k : Nat) (data d : List float), copy_rows src w tw k data = some d →
      ∀ y, y < k → u32 (tw * y) + u64 (sizeof_float * w) / sizeof_float ≤ data.length := by
  intro k
  induction k with
  | zero =>
    intro data d _ y hy
    exact absurd hy (Nat.not_lt_zero y)
  | succ k ih =>
    intro data d h y hy
    simp only [copy_rows, Option.bind_eq_some] at h
    obtain ⟨d0, h0, h1⟩ := h
    by_cases hyk : y = k
    · subst hyk
      have hb := (memcpy_bounds h1).1
      rw [copy_rows_length _ _ _ _ _ _ h0] at hb
      exact hb
    · exact ih data d0 h0 y (by omega)

/-- The arithmetic of the wrap: when the copies of all rows and of the bias stay inside a
vector of `u32 (u32 (h * nW) + nW)` elements, `nW` the rounded-up width, the size has not
wrapped. Otherwise take the copy that starts last before `2^32`: it starts at `2^32 - nW` or
later and ends past `2^32 - 16`, while the wrapped size is a multiple of 16 below `2^32`. -/
theorem align_output_fits_aux {w h : Nat} (hv : w % 16 ≠ 0)
    (B1 : ∀ y, y < h → u32 ((w + 15) / 16 * 16 * y) + w
      ≤ u32 (u32 (h * ((w + 15) / 16 * 16)) + (w + 15) / 16 * 16))
    (B2 : u32 ((w + 15) / 16 * 16 * h) + w
      ≤ u32 (u32 (h * ((w + 15) / 16 * 16)) + (w + 15) / 16 * 16)) :
    h * ((w + 15) / 16 * 16) + (w + 15) / 16 * 16 < 4294967296 := by
  generalize hn : (w + 15) / 16 * 16 = nW at B1 B2
  have h16 : nW % 16 = 0 := by omega
  have hge : w ≤ nW := by omega
  have hlt : nW < w + 16 := by omega
  have hpos : 0 < nW := by omega
  by_contra hc
  -- the copy that starts last before the wrap
  have q1 : nW * (4294967295 / nW) ≤ 4294967295 := Nat.mul_div_le _ _
  have q2 : 4294967295 < nW * (4294967295 / nW + 1) := Nat.lt_mul_div_succ _ hpos
  rw [Nat.mul_succ] at q2
  generalize 4294967295 / nW = q at q1 q2
  have hq : q ≤ h := by
    by_contra hq
    have := Nat.mul_le_mul_left nW (by omega : h + 1 ≤ q)
    rw [Nat.mul_succ, Nat.mul_comm nW h] at this
    omega
  have hmod : (h * nW) % 16 = 0 := by
    rw [Nat.mul_mod, h16, Nat.mul_zero, Nat.zero_mod]
  have hS : u32 (u32 (h * nW) + nW) + 16 ≤ 4294967296 := by
    generalize h * nW = a at hmod
    unfold u32
    omega
  have hcopy : u32 (nW * q) + w ≤ u32 (u32 (h * nW) + nW) := by
    rcases Nat.lt_or_ge q h with hlt' | hge'
    · exact B1 q hlt'
    · have e : q = h := by omega
      rw [e]
      exact B2
  rw [u32_of_lt (by omega)] at hcopy
  omega

/-- A defined run of the output-side block that pads has not wrapped: the width plus 15 and
the size of the new vector fit in 32 bits. In a run that wraps, the copy that starts last
before the wrap ends past the new vector. -/
theorem align_output_fits {m m2 : CPUMLP} (h : align_output m = some m2)
    (hv : m.mlp2Width % 16 ≠ 0) (hw : m.mlp2Width < 4294967296) :
    m.mlp2Width + 15 < 4294967296 ∧
    m.mlp2Height * ((m.mlp2Width + 15) / 16 * 16) + (m.mlp2Width + 15) / 16 * 16
      < 4294967296 ∧
    m.mlp2Width * m.mlp2Height + m.mlp2Width ≤ m.mlp2Buffer.length := by
  rcases align_output_cases h with ⟨hv0, _⟩ | ⟨_, d1, d2, h1, h2, _⟩
  · exact absurd hv0 hv
  have c : u64 (sizeof_float * m.mlp2Width) / sizeof_float = m.mlp2Width := float_count hw
  have hl1 := copy_rows_length _ _ _ _ _ _ h1
  have B1 := copy_rows_bounds _ _ _ _ _ _ h1
  have B2 := (memcpy_bounds h2).1
  have B3 := (memcpy_bounds h2).2.1
  rw [hl1] at B2
  rw [List.length_replicate] at B1 B2
  rw [c] at B1 B2 B3
  -- the width does not wrap
  have hw15 : m.mlp2Width + 15 < 4294967296 := by
    by_contra hc
    have htw : u32 (u32 (m.mlp2Width + 15) / 16 * 16) = 0 := by
      unfold u32
      omega
    rw [htw] at B2
    have e : u32 (u32 (m.mlp2Height * 0) + 0) = 0 := by
      rw [Nat.mul_zero]
      rfl
    rw [e] at B2
    omega
  rw [u32_round_eq hw15] at B1 B2
  have hfit : m.mlp2Height * ((m.mlp2Width + 15) / 16 * 16) + (m.mlp2Width + 15) / 16 * 16
      < 4294967296 := by
    exact align_output_fits_aux hv B1 B2
  refine ⟨hw15, hfit, ?_⟩
  have hmul : m.mlp2Width * m.mlp2Height ≤ m.mlp2Height * ((m.mlp2Width + 15) / 16 * 16) := by
    rw [Nat.mul_comm m.mlp2Width m.mlp2Height]
    exact Nat.mul_le_mul_left _ (by omega)
  rw [u32_of_lt (by omega)] at B3
  exact B3

end mlp

/-! ## `align_dimensions`: composition of the two blocks -/

namespace mlp

/-- A defined run of `align_dimensions` is a defined run of the input-side block followed by a
defined run of the output-side block. -/
theorem align_dimensions_split {m m' : CPUMLP} (h : align_dimensions m = some m') :
    ∃ m1, align_input m = some m1 ∧ align_output m1 = some m' := by
  unfold align_dimensions at h
  exact Option.bind_eq_some.mp h

/-- The rounded-up value is characterised by three facts: multiple of 16, not below, less than
16 above. -/
theorem round_up_unique {n r : Nat} (h16 : r % 16 = 0) (hge : n ≤ r) (hlt : r < n + 16) :
    r = (n + 15) / 16 * 16 := by
  omega

end mlp

/-! ## `align_dimensions`: the claims -/

/-- C3 (amended with the 32-bit bounds). For every network whose `mlp0Height` is not a multiple
of 16, whose layer-0 buffer has length `mlp0Width * mlp0Height + mlp0Width`, and for which the
rounded-up height `newHeight` and the padded size `mlp0Width * newHeight + mlp0Width` fit in 32
bits: after `align_dimensions`, `mlp0Height = newHeight`; the first `mlp0Width * mlp0Height`
elements of the buffer are the original weight block; the next
`mlp0Width * (newHeight - mlp0Height)` elements are `0.0`; the original bias block is at offset
`mlp0Width * newHeight`. (A run is defined on every such network whose layer-2 buffer is
well-formed too and whose padded layer-2 size fits: `mlp.align_dimensions_defined`.) -/
theorem align_dimensions_pads_height (m m' : CPUMLP) (newHeight : Nat)
    (hv : m.mlp0Height % 16 ≠ 0)
    (hlen : m.mlp0Buffer.length = m.mlp0Width * m.mlp0Height + m.mlp0Width)
    (h16 : newHeight % 16 = 0) (hge : m.mlp0Height ≤ newHeight)
    (hlt : newHeight < m.mlp0Height + 16)
    (hnh : newHeight < 4294967296)
    (hfit : m.mlp0Width * newHeight + m.mlp0Width < 4294967296)
    (h : mlp.align_dimensions m = some m') :
    m'.mlp0Height = newHeight ∧
    m'.mlp0Buffer.take (m.mlp0Width * m.mlp0Height)
      = m.mlp0Buffer.take (m.mlp0Width * m.mlp0Height) ∧
    (m'.mlp0Buffer.drop (m.mlp0Width * m.mlp0Height)).take
        (m.mlp0Width * (newHeight - m.mlp0Height))
      = List.replicate (m.mlp0Width * (newHeight - m.mlp0Height)) float.zero ∧
    (m'.mlp0Buffer.drop (m.mlp0Width * newHeight)).take m.mlp0Width
      = m.mlp0Buffer.drop (m.mlp0Width * m.mlp0Height) := by
  obtain ⟨m1, hin, hout⟩ := mlp.align_dimensions_split h
  have hnew := mlp.round_up_unique h16 hge hlt
  have hspec := mlp.align_input_spec hv hlen hnew (by omega) hfit
  rw [hspec, Option.some.injEq] at hin
  have hfr := mlp.align_output_frame hout
  have hH : m'.mlp0Height = newHeight := by rw [hfr, ← hin]
  have hB : m'.mlp0Buffer = m.mlp0Buffer.take (m.mlp0Width * m.mlp0Height) ++
        List.replicate (m.mlp0Width * (newHeight - m.mlp0Height)) float.zero ++
        m.mlp0Buffer.drop (m.mlp0Width * m.mlp0Height) := by rw [hfr, ← hin]
  have hl : (List.take (m.mlp0Width * m.mlp0Height) m.mlp0Buffer).length
      = m.mlp0Width * m.mlp0Height := by rw [List.length_take]; omega
  have hsub : m.mlp0Width * (newHeight - m.mlp0Height)
      = m.mlp0Width * newHeight - m.mlp0Width * m.mlp0Height := Nat.mul_sub m.mlp0Width _ _
  have hmul : m.mlp0Width * m.mlp0Height ≤ m.mlp0Width * newHeight := Nat.mul_le_mul_left _ hge
  refine ⟨hH, ?_, ?_, ?_⟩
  · rw [hB, List.append_assoc, List.take_append_of_le_length (by omega), List.take_take,
      Nat.min_self]
  · rw [hB, List.append_assoc, List.drop_append_of_le_length (by omega),
      List.drop_of_length_le (by omega), List.nil_append,
      List.take_append_of_le_length (by rw [List.length_replicate]),
      List.take_replicate, Nat.min_self]
  · have hl2 : (List.take (m.mlp0Width * m.mlp0Height) m.mlp0Buffer ++
        List.replicate (m.mlp0Width * (newHeight - m.mlp0Height)) float.zero).length
          = m.mlp0Width * newHeight := by
      rw [List.length_append, hl, List.length_replicate]; omega
    rw [hB, List.drop_append_eq_append_drop, hl2, Nat.sub_self, List.drop_zero,
      List.drop_of_length_le (by omega), List.nil_append,
      List.take_of_length_le (by rw [List.length_drop]; omega)]

set_option maxRecDepth 100000 in
/-- Witness for C3 on the spec's own numbers: `mlp0Width = 4`, `mlp0Height = 10` gives height
16, 40 original values, 24 zeros and the bias at offset 64. -/
theorem align_dimensions_pads_height_witness :
    mlp.align_dimensions scenarioNet = some scenarioNetAligned ∧
    scenarioNetAligned.mlp0Height = 16 ∧
    scenarioNetAligned.mlp0Buffer.take (4 * 10) = scenarioNet.mlp0Buffer.take (4 * 10) ∧
    (scenarioNetAligned.mlp0Buffer.drop (4 * 10)).take (4 * (16 - 10))
      = List.replicate (4 * (16 - 10)) float.zero ∧
    (scenarioNetAligned.mlp0Buffer.drop (4 * 16)).take 4 = scenarioNet.mlp0Buffer.drop (4 * 10) :=
  ⟨by decide,
   align_dimensions_pads_height scenarioNet scenarioNetAligned 16 (by decide) (by decide)
     (by decide) (by decide) (by decide) (by decide) (by decide) (by decide)⟩

/-- A copy that covers the whole destination vector replaces it by the source range. -/
theorem memcpy_overwrite {dst src : List float} {so size : Nat}
    (h1 : size / sizeof_float = dst.length) (h2 : so + size / sizeof_float ≤ src.length) :
    memcpy dst 0 src so size = some ((src.drop so).take dst.length) := by
  rw [memcpy_eq_some (by omega) h2, h1, Nat.zero_add, List.take_zero, List.nil_append,
    List.drop_of_length_le (Nat.le_refl _), List.append_nil]

/-- The input-side block on a network with `mlp0Width = 2^28` and `mlp0Height = 1`: the
destination offset of the bias, `mlp0Width * 16 = 2^32`, wraps to 0 and the allocation size
wraps to `2^28`, so the bias is copied over the weights. -/
theorem align_input_wrap (m : CPUMLP) (a b : float) (hw : m.mlp0Width = 268435456)
    (hh : m.mlp0Height = 1)
    (hbuf : m.mlp0Buffer = List.replicate 268435456 a ++ List.replicate 268435456 b) :
    mlp.align_input m
      = some { m with mlp0Height := 16, mlp0Buffer := List.replicate 268435456 b } := by
  have e0 : u32 (u32 (1 + 15) / 16 * 16) = 16 := by decide
  have e1 : u32 (268435456 * 16) = 0 := by decide
  have e2 : u32 (0 + 268435456) = 268435456 := by decide
  have e3 : u64 (1073741824 * 1) = 1073741824 := by decide
  have e4 : u64 (sizeof_float * 268435456) = 1073741824 := by decide
  have e5 : u32 (268435456 * 1) = 268435456 := by decide
  have e6 : 1073741824 / sizeof_float = 268435456 := by decide
  have e7 : min 268435456 (268435456 + 268435456 - 0) = 268435456 := by decide
  have hv : (1 : Nat) % 16 ≠ 0 := by decide
  unfold mlp.align_input
  simp only [hw, hh, hbuf, ne_eq, hv, not_false_eq_true, if_true, e0, e1, e2, e3, e4, e5]
  rw [memcpy_overwrite (by rw [e6, List.length_replicate])
    (by rw [e6, List.length_append, List.length_replicate, List.length_replicate]; decide)]
  rw [Option.some_bind]
  rw [memcpy_overwrite
    (by rw [e6, List.length_take, List.length_drop, List.length_append, List.length_replicate,
          List.length_replicate, List.length_replicate, e7])
    (by rw [e6, List.length_append, List.length_replicate, List.length_replicate])]
  rw [Option.some_bind, List.length_take, List.length_drop, List.length_append,
    List.length_replicate, List.length_replicate, List.length_replicate,
    List.drop_left' (List.length_replicate _ _), e7, List.take_replicate, Nat.min_self]

theorem align_dimensions_heavyNet : mlp.align_dimensions heavyNet = some heavyNetAligned := by
  have hin : mlp.align_input heavyNet = some heavyNetAligned :=
    align_input_wrap heavyNet (float.ofByte 1) (float.ofByte 2) rfl rfl rfl
  unfold mlp.align_dimensions
  rw [hin, Option.some_bind]
  exact mlp.align_output_of_aligned rfl

/-- C3, counterexample. `heavyNet` meets the hypotheses of the claim as stated (height 1 is not
a multiple of 16, buffer length `mlp0Width * mlp0Height + mlp0Width`, rounded-up height 16), but
in `uint32_t` the products wrap: after `align_dimensions` the buffer has `2^28` elements, its
first `mlp0Width * mlp0Height` elements are the bias and not the weight block, and nothing is
found at offset `mlp0Width * 16`. -/
theorem align_dimensions_pads_height_counterexample :
    heavyNet.mlp0Height % 16 ≠ 0 ∧
    heavyNet.mlp0Buffer.length = heavyNet.mlp0Width * heavyNet.mlp0Height + heavyNet.mlp0Width ∧
    mlp.align_dimensions heavyNet = some heavyNetAligned ∧
    heavyNetAligned.mlp0Buffer.length = 268435456 ∧
    heavyNetAligned.mlp0Buffer.take (heavyNet.mlp0Width * heavyNet.mlp0Height)
      ≠ heavyNet.mlp0Buffer.take (heavyNet.mlp0Width * heavyNet.mlp0Height) ∧
    (heavyNetAligned.mlp0Buffer.drop (heavyNet.mlp0Width * 16)).take heavyNet.mlp0Width
      ≠ heavyNet.mlp0Buffer.drop (heavyNet.mlp0Width * heavyNet.mlp0Height) := by
  have hb : heavyNet.mlp0Buffer = List.replicate 268435456 (float.ofByte 1) ++
      List.replicate 268435456 (float.ofByte 2) := rfl
  have hb' : heavyNetAligned.mlp0Buffer = List.replicate 268435456 (float.ofByte 2) := rfl
  have hw : heavyNet.mlp0Width = 268435456 := rfl
  have hh : heavyNet.mlp0Height = 1 := rfl
  refine ⟨by decide, ?_, align_dimensions_heavyNet, ?_, ?_, ?_⟩
  · rw [hb, hw, hh, List.length_append, List.length_replicate, List.length_replicate]
  · rw [hb', List.length_replicate]
  · rw [hb, hb', hw, hh, Nat.mul_one, List.take_left' (List.length_replicate _ _),
      List.take_replicate, Nat.min_self]
    intro hc
    have h0 := congrArg (fun l => l[0]?) hc
    simp only [List.getElem?_replicate] at h0
    revert h0
    decide
  · rw [hb, hb', hw, hh, Nat.mul_one, List.drop_left' (List.length_replicate _ _),
      List.drop_replicate, List.take_replicate]
    intro hc
    have h0 := congrArg List.length hc
    rw [List.length_replicate, List.length_replicate] at h0
    revert h0
    decide

/-- C4. For every network whose `mlp2Width` (a `uint32_t`) is not a multiple of 16 and whose
layer-2 buffer has length `mlp2Width * mlp2Height + mlp2Width`, with `newWidth` the
rounded-up width: after `align_dimensions`, `mlp2Width = newWidth` and
`finalChannelCount = newWidth`, and for every row `y < mlp2Height` the elements
`[y * newWidth, y * newWidth + oldWidth)` are source row `y` and the elements
`[y * newWidth + oldWidth, (y + 1) * newWidth)` are `0.0`. No bound on the sizes is assumed:
a run that has a state after the call has not wrapped, so its padded size
`mlp2Height * newWidth + newWidth` fits in 32 bits (when it does not fit, a copy runs past
the end of the new vector and the behaviour of the source is undefined). Conversely the call
returns whenever its input-side block does and the padded size fits. -/
theorem align_dimensions_pads_width (m : CPUMLP) (newWidth : Nat)
    (hv : m.mlp2Width % 16 ≠ 0) (hw : m.mlp2Width < 4294967296)
    (hlen : m.mlp2Buffer.length = m.mlp2Width * m.mlp2Height + m.mlp2Width)
    (h16 : newWidth % 16 = 0) (hge : m.mlp2Width ≤ newWidth)
    (hlt : newWidth < m.mlp2Width + 16) :
    (∀ m', mlp.align_dimensions m = some m' →
      m'.mlp2Width = newWidth ∧ m'.finalChannelCount = newWidth ∧
      (∀ y, y < m.mlp2Height →
        (m'.mlp2Buffer.drop (y * newWidth)).take m.mlp2Width
          = (m.mlp2Buffer.drop (y * m.mlp2Width)).take m.mlp2Width ∧
        (m'.mlp2Buffer.drop (y * newWidth + m.mlp2Width)).take (newWidth - m.mlp2Width)
          = List.replicate (newWidth - m.mlp2Width) float.zero) ∧
      m.mlp2Height * newWidth + newWidth < 4294967296) ∧
    (mlp.align_input m ≠ none → m.mlp2Height * newWidth + newWidth < 4294967296 →
      ∃ m', mlp.align_dimensions m = some m') := by
  have hnew := mlp.round_up_unique h16 hge hlt
  constructor
  · intro m' h
    obtain ⟨m1, hin, hout⟩ := mlp.align_dimensions_split h
    have hfr := mlp.align_input_frame hin
    have hw1 : m1.mlp2Width = m.mlp2Width := by rw [hfr]
    have hh1 : m1.mlp2Height = m.mlp2Height := by rw [hfr]
    have hb1 : m1.mlp2Buffer = m.mlp2Buffer := by rw [hfr]
    obtain ⟨_, hfit, _⟩ := mlp.align_output_fits hout (by rw [hw1]; exact hv)
      (by rw [hw1]; exact hw)
    rw [hw1, hh1, ← hnew] at hfit
    obtain ⟨d, hd, hdl, hdi⟩ := @mlp.align_output_spec m1 newWidth
      (by rw [hw1]; exact hv) (by rw [hb1, hw1, hh1]; exact hlen) (by rw [hw1]; exact hnew)
      (by rw [hw1]; omega) (by rw [hh1]; exact hfit)
    rw [hd, Option.some.injEq] at hout
    have hW : m'.mlp2Width = newWidth := by rw [← hout]
    have hC : m'.finalChannelCount = newWidth := by rw [← hout]
    have hB : m'.mlp2Buffer = d := by rw [← hout]
    rw [hw1, hh1, hb1] at hdi
    rw [hh1] at hdl
    have hpos : 0 < newWidth := by omega
    refine ⟨hW, hC, ?_, hfit⟩
    intro y hy
    have hy1 : (y + 1) * newWidth ≤ m.mlp2Height * newWidth := Nat.mul_le_mul_right _ hy
    have hy2 : (y + 1) * newWidth = y * newWidth + newWidth := by
      rw [Nat.add_mul, Nat.one_mul]
    have key : ∀ j, j < newWidth → d[y * newWidth + j]? =
        if j < m.mlp2Width then m.mlp2Buffer[y * m.mlp2Width + j]? else some float.zero := by
      intro j hj
      have hq : (y * newWidth + j) / newWidth = y := by
        rw [Nat.mul_comm y newWidth, Nat.mul_add_div hpos, Nat.div_eq_of_lt hj, Nat.add_zero]
      have hr : (y * newWidth + j) % newWidth = j := Nat.mul_add_mod_of_lt hj
      rw [hdi _ (by omega), hq, hr]
    rw [hB]
    constructor
    · apply List.ext_getElem?
      intro j
      rw [List.getElem?_take, List.getElem?_take, List.getElem?_drop, List.getElem?_drop]
      by_cases hj : j < m.mlp2Width
      · rw [if_pos hj, if_pos hj, key j (by omega), if_pos hj]
      · rw [if_neg hj, if_neg hj]
    · apply List.ext_getElem?
      intro j
      rw [List.getElem?_take, List.getElem?_drop, List.getElem?_replicate]
      by_cases hj : j < newWidth - m.mlp2Width
      · rw [if_pos hj, if_pos hj, Nat.add_assoc, key _ (by omega), if_neg (by omega)]
      · rw [if_neg hj, if_neg hj]
  · intro hin hfit
    obtain ⟨m1, hin⟩ := Option.ne_none_iff_exists'.mp hin
    have hfr := mlp.align_input_frame hin
    have hw1 : m1.mlp2Width = m.mlp2Width := by rw [hfr]
    have hh1 : m1.mlp2Height = m.mlp2Height := by rw [hfr]
    have hb1 : m1.mlp2Buffer = m.mlp2Buffer := by rw [hfr]
    obtain ⟨d, hd, _⟩ := @mlp.align_output_spec m1 newWidth
      (by rw [hw1]; exact hv) (by rw [hb1, hw1, hh1]; exact hlen) (by rw [hw1]; exact hnew)
      (by rw [hw1]; omega) (by rw [hh1]; exact hfit)
    exact ⟨_, by unfold mlp.align_dimensions; rw [hin, Option.some_bind]; exact hd⟩

set_option maxRecDepth 100000 in
/-- Witness for C4 on the spec's own numbers: `mlp2Width = 20`, `mlp2Height = 3` gives width
32 and channel count 32, and in each of the rows 0, 1 and 2 twenty copied values followed by
twelve zeros. -/
theorem align_dimensions_pads_width_witness :
    mlp.align_dimensions wideNet = some wideNetAligned ∧
    wideNetAligned.mlp2Width = 32 ∧ wideNetAligned.finalChannelCount = 32 ∧
    ((wideNetAligned.mlp2Buffer.drop (0 * 32)).take 20
        = (wideNet.mlp2Buffer.drop (0 * 20)).take 20 ∧
      (wideNetAligned.mlp2Buffer.drop (0 * 32 + 20)).take (32 - 20)
        = List.replicate (32 - 20) float.zero) ∧
    ((wideNetAligned.mlp2Buffer.drop (1 * 32)).take 20
        = (wideNet.mlp2Buffer.drop (1 * 20)).take 20 ∧
      (wideNetAligned.mlp2Buffer.drop (1 * 32 + 20)).take (32 - 20)
        = List.replicate (32 - 20) float.zero) ∧
    ((wideNetAligned.mlp2Buffer.drop (2 * 32)).take 20
        = (wideNet.mlp2Buffer.drop (2 * 20)).take 20 ∧
      (wideNetAligned.mlp2Buffer.drop (2 * 32 + 20)).take (32 - 20)
        = List.replicate (32 - 20) float.zero) ∧
    wideNet.mlp2Height * 32 + 32 < 4294967296 :=
  have h := (align_dimensions_pads_width wideNet 32 (by decide) (by decide) (by decide)
    (by decide) (by decide) (by decide)).1 wideNetAligned (by decide)
  ⟨by decide, h.1, h.2.1, h.2.2.1 0 (by decide), h.2.2.1 1 (by decide),
    h.2.2.1 2 (by decide), h.2.2.2⟩

namespace mlp

/-- When the first row copy is out of range the whole row loop is undefined. -/
theorem copy_rows_none (src data : List float) (w tw : Nat)
    (h0 : memcpy data (u32 (tw * 0)) src (u32 (w * 0)) (u64 (sizeof_float * w)) = none) :
    ∀ k, 1 ≤ k → copy_rows src w tw k data = none := by
  intro k hk
  induction k with
  | zero => omega
  | succ k ih =>
    rcases Nat.eq_zero_or_pos k with hz | hp
    · subst hz
      simp only [copy_rows, Option.some_bind]
      exact h0
    · simp only [copy_rows, ih hp, Option.none_bind]

/-- The output-side block on a network with `mlp2Width = 1` and `mlp2Height = 2^28 - 1`: the
allocation size `mlp2Height * 16 + 16 = 2^32` wraps to 0, so the very first row copy writes past
the end of an empty vector. -/
theorem align_output_wrap (m : CPUMLP) (hw : m.mlp2Width = 1) (hh : m.mlp2Height = 268435455) :
    align_output m = none := by
  have e0 : u32 (u32 (1 + 15) / 16 * 16) = 16 := by decide
  have e1 : u32 (u32 (268435455 * 16) + 16) = 0 := by decide
  have hv : (1 : Nat) % 16 ≠ 0 := by decide
  unfold align_output
  simp only [hw, hh, ne_eq, hv, not_false_eq_true, if_true, e0, e1]
  rw [copy_rows_none _ _ _ _ (memcpy_eq_none (by decide)) _ (by decide), Option.none_bind]

end mlp

/-- The undefined case of the output-side padding: `tallNet` has a last layer 1 wide and
`2^28 - 1` high, the size of the new vector, `268435455 * 16 + 16 = 2^32`, wraps to 0, the
first row copy runs past the end of the empty vector, and the call has no defined result. -/
theorem align_dimensions_tallNet : mlp.align_dimensions tallNet = none := by
  unfold mlp.align_dimensions
  rw [mlp.align_input_of_aligned (by decide), Option.some_bind]
  exact mlp.align_output_wrap tallNet rfl rfl

namespace mlp

/-- The result of a defined run of `align_dimensions` in terms of the input: the two aligned
dimensions, and the frame. -/
theorem align_dimensions_dims {m m' : CPUMLP} (h : align_dimensions m = some m') :
    (m'.mlp0Height =
      if m.mlp0Height % 16 = 0 then m.mlp0Height
      else u32 (u32 (m.mlp0Height + 15) / 16 * 16)) ∧
    (m'.mlp2Width =
      if m.mlp2Width % 16 = 0 then m.mlp2Width else u32 (u32 (m.mlp2Width + 15) / 16 * 16)) ∧
    (m'.finalChannelCount =
      if m.mlp2Width % 16 = 0 then m.finalChannelCount else m'.mlp2Width) := by
  obtain ⟨m1, hin, hout⟩ := align_dimensions_split h
  have hfi := align_input_frame hin
  have hfo := align_output_frame hout
  have hw1 : m1.mlp2Width = m.mlp2Width := by rw [hfi]
  have hc1 : m1.finalChannelCount = m.finalChannelCount := by rw [hfi]
  have hh' : m'.mlp0Height = m1.mlp0Height := by rw [hfo]
  refine ⟨?_, ?_, ?_⟩
  · rw [hh']; exact align_input_height hin
  · rw [← hw1]; exact align_output_width hout
  · rw [← hw1, ← hc1]; exact align_output_channels hout

/-- A run of `align_dimensions` is defined on every network whose layer-0 and layer-2 buffers
have the length their dimensions announce and whose padded sizes fit in 32 bits. -/
theorem align_dimensions_defined (m : CPUMLP)
    (hlen0 : m.mlp0Buffer.length = m.mlp0Width * m.mlp0Height + m.mlp0Width)
    (hlen2 : m.mlp2Buffer.length = m.mlp2Width * m.mlp2Height + m.mlp2Width)
    (hh : m.mlp0Height + 15 < 4294967296)
    (hfit0 : m.mlp0Width * ((m.mlp0Height + 15) / 16 * 16) + m.mlp0Width < 4294967296)
    (hfit2 : m.mlp2Height * ((m.mlp2Width + 15) / 16 * 16) + (m.mlp2Width + 15) / 16 * 16
      < 4294967296) :
    ∃ m', align_dimensions m = some m' := by
  obtain ⟨m1, hin⟩ : ∃ m1, align_input m = some m1 := by
    by_cases hv : m.mlp0Height % 16 = 0
    · exact ⟨m, align_input_of_aligned hv⟩
    · exact ⟨_, align_input_spec hv hlen0 rfl hh hfit0⟩
  have hfi := align_input_frame hin
  have hw1 : m1.mlp2Width = m.mlp2Width := by rw [hfi]
  have hh1 : m1.mlp2Height = m.mlp2Height := by rw [hfi]
  have hb1 : m1.mlp2Buffer = m.mlp2Buffer := by rw [hfi]
  obtain ⟨m2, hout⟩ : ∃ m2, align_output m1 = some m2 := by
    by_cases hv : m1.mlp2Width % 16 = 0
    · exact ⟨m1, align_output_of_aligned hv⟩
    · obtain ⟨d, hd, _⟩ := @align_output_spec m1 ((m1.mlp2Width + 15) / 16 * 16) hv
        (by rw [hb1, hw1, hh1]; exact hlen2) rfl (by rw [hw1]; omega)
        (by rw [hh1, hw1]; exact hfit2)
      exact ⟨_, hd⟩
  refine ⟨m2, ?_⟩
  unfold align_dimensions
  rw [hin, Option.some_bind, hout]

end mlp

/-- C5. For every network with `mlp0Height` and `mlp2Width` at most `2^32 - 16`, after
`align_dimensions` the new `mlp0Height` is the least multiple of 16 that is at least the
original `mlp0Height`, and the new `mlp2Width` is the least multiple of 16 that is at least the
original `mlp2Width`. -/
theorem align_dimensions_least_multiple (m m' : CPUMLP)
    (hh : m.mlp0Height ≤ 4294967296 - 16) (hw : m.mlp2Width ≤ 4294967296 - 16)
    (h : mlp.align_dimensions m = some m') :
    IsLeast {n | 16 ∣ n ∧ m.mlp0Height ≤ n} m'.mlp0Height ∧
    IsLeast {n | 16 ∣ n ∧ m.mlp2Width ≤ n} m'.mlp2Width := by
  obtain ⟨h0, h2, _⟩ := mlp.align_dimensions_dims h
  have r0 : u32 (u32 (m.mlp0Height + 15) / 16 * 16) = (m.mlp0Height + 15) / 16 * 16 :=
    u32_round_eq (by omega)
  have r2 : u32 (u32 (m.mlp2Width + 15) / 16 * 16) = (m.mlp2Width + 15) / 16 * 16 :=
    u32_round_eq (by omega)
  rw [r0] at h0
  rw [r2] at h2
  constructor
  · constructor
    · show 16 ∣ m'.mlp0Height ∧ m.mlp0Height ≤ m'.mlp0Height
      rw [h0]
      split <;> constructor <;> omega
    · rintro n ⟨hn1, hn2⟩
      rw [h0]
      split <;> omega
  · constructor
    · show 16 ∣ m'.mlp2Width ∧ m.mlp2Width ≤ m'.mlp2Width
      rw [h2]
      split <;> constructor <;> omega
    · rintro n ⟨hn1, hn2⟩
      rw [h2]
      split <;> omega

set_option maxRecDepth 100000 in
/-- Witness for C5: the scenario network (height 10, width 3) is aligned to height 16 and
width 16. -/
theorem align_dimensions_least_multiple_witness :
    mlp.align_dimensions scenarioNet = some scenarioNetAligned ∧
    IsLeast {n | 16 ∣ n ∧ 10 ≤ n} scenarioNetAligned.mlp0Height ∧
    IsLeast {n | 16 ∣ n ∧ 3 ≤ n} scenarioNetAligned.mlp2Width :=
  ⟨by decide,
   align_dimensions_least_multiple scenarioNet scenarioNetAligned (by decide) (by decide)
     (by decide)⟩

/-- C6. For every network, applying `align_dimensions` twice gives the same network (all
dimensions, `finalChannelCount` and the three buffers) as applying it once; a run that is not
defined stays undefined. -/
theorem align_dimensions_idempotent (m : CPUMLP) :
    (mlp.align_dimensions m).bind mlp.align_dimensions = mlp.align_dimensions m := by
  cases h : mlp.align_dimensions m with
  | none => rfl
  | some m' =>
    obtain ⟨m1, hin, hout⟩ := mlp.align_dimensions_split h
    have e0 : m'.mlp0Height = m1.mlp0Height := by rw [mlp.align_output_frame hout]
    have h0 : m'.mlp0Height % 16 = 0 := by
      rw [e0]
      exact mlp.align_input_height_mod hin
    have h2 : m'.mlp2Width % 16 = 0 := mlp.align_output_width_mod hout
    rw [Option.some_bind]
    unfold mlp.align_dimensions
    rw [mlp.align_input_of_aligned h0, Option.some_bind, mlp.align_output_of_aligned h2]

/-- C7. For every network whose `mlp0Height` and `mlp2Width` are both multiples of 16,
`align_dimensions` returns the network unchanged: same dimensions, same `finalChannelCount`,
same buffers (values and lengths). -/
theorem align_dimensions_noop (m : CPUMLP) (h0 : m.mlp0Height % 16 = 0)
    (h2 : m.mlp2Width % 16 = 0) : mlp.align_dimensions m = some m := by
  unfold mlp.align_dimensions
  rw [mlp.align_input_of_aligned h0, Option.some_bind, mlp.align_output_of_aligned h2]

/-- Witness for C7 on the spec's own numbers: `mlp0Height = 32`, `mlp2Width = 64`. -/
theorem align_dimensions_noop_witness :
    alignedNet.mlp0Height = 32 ∧ alignedNet.mlp2Width = 64 ∧
    mlp.align_dimensions alignedNet = some alignedNet :=
  ⟨rfl, rfl, align_dimensions_noop alignedNet (by decide) (by decide)⟩

/-- C8. For every network, `align_dimensions` leaves untouched everything except `mlp0Height`,
the layer-0 buffer, `mlp2Width`, the layer-2 buffer and `finalChannelCount`: `mlp0Width`,
`mlp2Height`, layer 1 (width, height, buffer), `nbMlp` and `finalBlockWidth` are the same after
as before. -/
theorem align_dimensions_frame (m m' : CPUMLP) (h : mlp.align_dimensions m = some m') :
    m'.mlp0Width = m.mlp0Width ∧ m'.mlp2Height = m.mlp2Height ∧
    m'.mlp1Width = m.mlp1Width ∧ m'.mlp1Height = m.mlp1Height ∧
    m'.mlp1Buffer = m.mlp1Buffer ∧
    m'.nbMlp = m.nbMlp ∧ m'.finalBlockWidth = m.finalBlockWidth := by
  obtain ⟨m1, hin, hout⟩ := mlp.align_dimensions_split h
  have hfi := mlp.align_input_frame hin
  have hfo := mlp.align_output_frame hout
  rw [hfo, hfi]
  exact ⟨rfl, rfl, rfl, rfl, rfl, rfl, rfl⟩

set_option maxRecDepth 100000 in
/-- Witness for C8: the scenario network, where both blocks pad. -/
theorem align_dimensions_frame_witness :
    mlp.align_dimensions scenarioNet = some scenarioNetAligned ∧
    scenarioNetAligned.mlp0Width = 4 ∧ scenarioNetAligned.mlp2Height = 4 ∧
    scenarioNetAligned.mlp1Width = 4 ∧ scenarioNetAligned.mlp1Height = 4 ∧
    scenarioNetAligned.mlp1Buffer = scenarioNet.mlp1Buffer ∧
    scenarioNetAligned.nbMlp = 1 ∧ scenarioNetAligned.finalBlockWidth = 4 :=
  ⟨by decide, align_dimensions_frame scenarioNet scenarioNetAligned (by decide)⟩

/-- C10, counterexample. `heavyNet` is a well-formed network (each buffer has the length its
dimensions announce, every count fits in 32 bits), and `align_dimensions` shrinks its layer-0
buffer from `2^29` to `2^28` elements: the new size `mlp0Width * 16 + mlp0Width` wraps. -/
theorem align_dimensions_grows_counterexample :
    heavyNet.mlp0Buffer.length = heavyNet.mlp0Width * heavyNet.mlp0Height + heavyNet.mlp0Width ∧
    heavyNet.mlp0Buffer.length = 536870912 ∧
    mlp.align_dimensions heavyNet = some heavyNetAligned ∧
    heavyNetAligned.mlp0Buffer.length = 268435456 ∧
    ¬ (heavyNet.mlp0Buffer.length ≤ heavyNetAligned.mlp0Buffer.length) := by
  have hb : heavyNet.mlp0Buffer.length = 536870912 := by
    show (List.replicate 268435456 (float.ofByte 1) ++
      List.replicate 268435456 (float.ofByte 2)).length = _
    rw [List.length_append, List.length_replicate, List.length_replicate]
  have hb' : heavyNetAligned.mlp0Buffer.length = 268435456 := by
    show (List.replicate 268435456 (float.ofByte 2)).length = _
    rw [List.length_replicate]
  refine ⟨?_, hb, align_dimensions_heavyNet, hb', ?_⟩
  · rw [hb]; rfl
  · rw [hb, hb']; decide

/-- C10 (amended with the well-formedness and 32-bit bounds). For every network whose layer-0
and layer-2 buffers have length `width * height + width` and whose padded sizes
`mlp0Width * newHeight + mlp0Width` and `mlp2Height * newWidth + newWidth` fit in 32 bits (as
does `mlp0Height + 15`), `align_dimensions` returns a network and shrinks nothing:
`mlp0Height`, `mlp2Width` and the lengths of the layer-0 and layer-2 buffers are each at least
what they were. -/
theorem align_dimensions_grows (m : CPUMLP)
    (hlen0 : m.mlp0Buffer.length = m.mlp0Width * m.mlp0Height + m.mlp0Width)
    (hlen2 : m.mlp2Buffer.length = m.mlp2Width * m.mlp2Height + m.mlp2Width)
    (hh : m.mlp0Height + 15 < 4294967296)
    (hfit0 : m.mlp0Width * ((m.mlp0Height + 15) / 16 * 16) + m.mlp0Width < 4294967296)
    (hfit2 : m.mlp2Height * ((m.mlp2Width + 15) / 16 * 16) + (m.mlp2Width + 15) / 16 * 16
      < 4294967296) :
    ∃ m', mlp.align_dimensions m = some m' ∧
      m.mlp0Height ≤ m'.mlp0Height ∧ m.mlp2Width ≤ m'.mlp2Width ∧
      m.mlp0Buffer.length ≤ m'.mlp0Buffer.length ∧
      m.mlp2Buffer.length ≤ m'.mlp2Buffer.length := by
  obtain ⟨m', h⟩ := mlp.align_dimensions_defined m hlen0 hlen2 hh hfit0 hfit2
  refine ⟨m', h, ?_⟩
  obtain ⟨h0, h2, _⟩ := mlp.align_dimensions_dims h
  obtain ⟨m1, hin, hout⟩ := mlp.align_dimensions_split h
  have hfi := mlp.align_input_frame hin
  have hfo := mlp.align_output_frame hout
  have hw1 : m1.mlp2Width = m.mlp2Width := by rw [hfi]
  have hh1 : m1.mlp2Height = m.mlp2Height := by rw [hfi]
  have hb1 : m1.mlp2Buffer = m.mlp2Buffer := by rw [hfi]
  have hb0 : m'.mlp0Buffer = m1.mlp0Buffer := by rw [hfo]
  have r0 : u32 (u32 (m.mlp0Height + 15) / 16 * 16) = (m.mlp0Height + 15) / 16 * 16 :=
    u32_round_eq hh
  have r2 : u32 (u32 (m.mlp2Width + 15) / 16 * 16) = (m.mlp2Width + 15) / 16 * 16 :=
    u32_round_eq (by omega)
  rw [r0] at h0
  rw [r2] at h2
  refine ⟨?_, ?_, ?_, ?_⟩
  · rw [h0]; split <;> omega
  · rw [h2]; split <;> omega
  · rw [hb0]
    by_cases hv : m.mlp0Height % 16 = 0
    · rw [mlp.align_input_of_aligned hv, Option.some.injEq] at hin
      rw [← hin]
    · have hmul : m.mlp0Width * m.mlp0Height ≤ m.mlp0Width * ((m.mlp0Height + 15) / 16 * 16) :=
        Nat.mul_le_mul_left _ (by omega)
      have e1 : u32 (m.mlp0Width * ((m.mlp0Height + 15) / 16 * 16))
          = m.mlp0Width * ((m.mlp0Height + 15) / 16 * 16) := u32_of_lt (by omega)
      rw [mlp.align_input_length hin hv, r0, e1, u32_of_lt hfit0, hlen0]
      omega
  · by_cases hv : m.mlp2Width % 16 = 0
    · rw [← hw1] at hv
      rw [mlp.align_output_of_aligned hv, Option.some.injEq] at hout
      rw [← hout, hb1]
    · have hmul : m.mlp2Height * m.mlp2Width ≤ m.mlp2Height * ((m.mlp2Width + 15) / 16 * 16) :=
        Nat.mul_le_mul_left _ (by omega)
      have hv1 : m1.mlp2Width % 16 ≠ 0 := by rw [hw1]; exact hv
      have e1 : u32 (m.mlp2Height * ((m.mlp2Width + 15) / 16 * 16))
          = m.mlp2Height * ((m.mlp2Width + 15) / 16 * 16) := u32_of_lt (by omega)
      rw [mlp.align_output_length hout hv1, hw1, hh1, r2, e1, u32_of_lt hfit2, hlen2,
        Nat.mul_comm m.mlp2Width m.mlp2Height]
      omega

set_option maxRecDepth 100000 in
/-- Witness for C10: the scenario network grows from height 10 to 16, from width 3 to 16, and
its layer-0 and layer-2 buffers from 44 to 68 and from 15 to 80 elements. -/
theorem align_dimensions_grows_witness :
    ∃ m', mlp.align_dimensions scenarioNet = some m' ∧
      scenarioNet.mlp0Height ≤ m'.mlp0Height ∧
      scenarioNet.mlp2Width ≤ m'.mlp2Width ∧
      scenarioNet.mlp0Buffer.length ≤ m'.mlp0Buffer.length ∧
      scenarioNet.mlp2Buffer.length ≤ m'.mlp2Buffer.length :=
  align_dimensions_grows scenarioNet (by decide) (by decide) (by decide) (by decide) (by decide)

/-! ## `TSNC::reload_network` and the channel count -/

namespace TSNC

theorem load_texture_mlp {σ : Type} {api : Backend σ} {fs : FileSystem} {path : String} {i : Nat}
    {st st' : TSNC × σ} (h : load_texture api fs path i st = some st') :
    st'.1.m_MLPArray = st.1.m_MLPArray := by
  unfold load_texture at h
  split at h
  · rw [Option.bind_eq_some] at h
    obtain ⟨⟨texBuffer, texSize, uvOffset, world⟩, _, h2⟩ := h
    simp only [Option.some.injEq] at h2
    rw [← h2]
  · exact absurd h (by simp)

/-- One iteration of the loop stores at `setIdx` the network read from the file of the set and
aligned by `align_dimensions`, and leaves the other entries of `m_MLPArray` alone. -/
theorem reload_set_mlp {σ : Type} {api : Backend σ} {fs : FileSystem} {modelDir : String}
    {setIdx : Nat} {st st' : TSNC × σ} (h : reload_set api fs modelDir setIdx st = some st') :
    ∃ unpacked aligned, mlp.align_dimensions unpacked = some aligned ∧
      setIdx < st.1.m_MLPArray.length ∧
      st'.1.m_MLPArray = st.1.m_MLPArray.set setIdx aligned := by
  unfold reload_set at h
  simp only [Option.bind_eq_some] at h
  obtain ⟨mlpBuffer, _, slot, hslot, ⟨unpacked, rest⟩, _, aligned, hal, s1, h1, s2, h2, s3, h3, h4⟩
    := h
  refine ⟨unpacked, aligned, hal, ?_, ?_⟩
  · exact (List.getElem?_eq_some_iff.mp hslot).1
  · rw [load_texture_mlp h4, load_texture_mlp h3, load_texture_mlp h2, load_texture_mlp h1]

/-- After the first `k` iterations of the loop, every one of the first `k` entries of
`m_MLPArray` is a result of `align_dimensions`. -/
theorem reload_sets_mlp {σ : Type} (api : Backend σ) (fs : FileSystem) (modelDir : String)
    (st0 : TSNC × σ) :
    ∀ (k : Nat) (st : TSNC × σ), reload_sets api fs modelDir k st0 = some st →
      st.1.m_MLPArray.length = st0.1.m_MLPArray.length ∧
      ∀ i, i < k → ∃ unpacked aligned, mlp.align_dimensions unpacked = some aligned ∧
        st.1.m_MLPArray[i]? = some aligned := by
  intro k
  induction k with
  | zero =>
    intro st h
    simp only [reload_sets, Option.some.injEq] at h
    subst h
    exact ⟨rfl, fun i hi => absurd hi (Nat.not_lt_zero i)⟩
  | succ k ih =>
    intro st h
    simp only [reload_sets, Option.bind_eq_some] at h
    obtain ⟨st1, h1, h2⟩ := h
    obtain ⟨hlen, hprev⟩ := ih st1 h1
    obtain ⟨unpacked, aligned, hal, hk, hset⟩ := reload_set_mlp h2
    refine ⟨by rw [hset, List.length_set, hlen], ?_⟩
    intro i hi
    by_cases hik : i = k
    · subst hik
      exact ⟨unpacked, aligned, hal, by rw [hset, List.getElem?_set_self hk]⟩
    · obtain ⟨u, a, hua, hget⟩ := hprev i (by omega)
      refine ⟨u, a, hua, ?_⟩
      rw [hset, List.getElem?_set_ne (fun hc => hik hc.symm)]
      exact hget

/-- After a reload the z component of the texture size is the `finalChannelCount` of network 0
of the array, and that network is a result of `align_dimensions`. -/
theorem reload_network_texture_size {σ : Type} {api : Backend σ} {fs : FileSystem}
    {self self' : TSNC} {world world' : σ} {modelDir : String} {numSets : Nat}
    (h : reload_network api fs self world modelDir numSets = some (self', world')) :
    ∃ unpacked aligned, mlp.align_dimensions unpacked = some aligned ∧
      self'.m_MLPArray[0]? = some aligned ∧
      self'.m_TextureSize.z = aligned.finalChannelCount := by
  unfold reload_network at h
  simp only [Option.bind_eq_some] at h
  obtain ⟨⟨st, w⟩, hloop, t0, ht0, t1, ht1, t2, ht2, t3, ht3, ⟨g, w2⟩, hg, cpuMLP, hc, hres⟩ := h
  simp only [Option.some.injEq, Prod.mk.injEq] at hres
  obtain ⟨hself, _⟩ := hres
  obtain ⟨hlen, hall⟩ := reload_sets_mlp api fs modelDir _ numSets (st, w) hloop
  have hpos : 0 < numSets := by
    rcases Nat.eq_zero_or_pos numSets with hz | hp
    · subst hz
      simp only [reload_sets, Option.some.injEq, Prod.mk.injEq] at hloop
      obtain ⟨hst, _⟩ := hloop
      rw [← hst] at ht0
      simp [vector_resize, u32] at ht0
    · exact hp
  obtain ⟨u, a, hua, hget⟩ := hall 0 hpos
  have hca : cpuMLP = a := by
    have := hc.symm.trans hget
    exact Option.some.inj this
  refine ⟨u, a, hua, ?_, ?_⟩
  · rw [← hself]; exact hget
  · rw [← hself, hca]

end TSNC

set_option maxRecDepth 100000 in
/-- C9, counterexample. `threeChannelNet` has `mlp2Width = 16` and `finalChannelCount = 3`:
`align_dimensions` returns it unchanged, so its `finalChannelCount` after the call is 3, which
is not a multiple of 16; and a reload of the one-set model directory holding this network
exposes 3 as the z component of the texture size. -/
theorem final_channel_count_counterexample :
    mlp.align_dimensions threeChannelNet = some threeChannelNet ∧
    threeChannelNet.finalChannelCount % 16 ≠ 0 ∧
    ((TSNC.reload_network countingBackend testFiles freshTSNC 0 "model" 1).map
      fun r => r.1.m_TextureSize.z) = some 3 := by
  decide

/-- C9 (amended: the channel count is rewritten only when the width is padded). For every
network, after `align_dimensions`: when `mlp2Width` was not a multiple of 16,
`finalChannelCount` is the new `mlp2Width` and a multiple of 16; when `mlp2Width` was a multiple
of 16 already, `finalChannelCount` is what it was before. So it is a multiple of 16 after the
call whenever the width needed padding or the stored value was one already. And after every
reload, the z component of the texture size is the `finalChannelCount` of network 0 of the
array, which is a result of `align_dimensions`. -/
theorem final_channel_count_aligned (m m' : CPUMLP) (h : mlp.align_dimensions m = some m') :
    (m.mlp2Width % 16 ≠ 0 → m'.finalChannelCount = m'.mlp2Width ∧ m'.finalChannelCount % 16 = 0) ∧
    (m.mlp2Width % 16 = 0 → m'.finalChannelCount = m.finalChannelCount) ∧
    (m.mlp2Width % 16 ≠ 0 ∨ m.finalChannelCount % 16 = 0 → m'.finalChannelCount % 16 = 0) ∧
    ∀ (σ : Type) (api : Backend σ) (fs : FileSystem) (self self' : TSNC) (world world' : σ)
      (modelDir : String) (numSets : Nat),
      TSNC.reload_network api fs self world modelDir numSets = some (self', world') →
      ∃ unpacked aligned, mlp.align_dimensions unpacked = some aligned ∧
        self'.m_MLPArray[0]? = some aligned ∧
        self'.m_TextureSize.z = aligned.finalChannelCount := by
  obtain ⟨_, hw, hc⟩ := mlp.align_dimensions_dims h
  obtain ⟨m1, hin, hout⟩ := mlp.align_dimensions_split h
  have hmod : m'.mlp2Width % 16 = 0 := mlp.align_output_width_mod hout
  have A : m.mlp2Width % 16 ≠ 0 →
      m'.finalChannelCount = m'.mlp2Width ∧ m'.finalChannelCount % 16 = 0 := by
    intro hv
    rw [if_neg hv] at hc
    exact ⟨hc, by rw [hc]; exact hmod⟩
  have B : m.mlp2Width % 16 = 0 → m'.finalChannelCount = m.finalChannelCount := by
    intro hv
    rw [if_pos hv] at hc
    exact hc
  refine ⟨A, B, ?_, ?_⟩
  · rintro (hv | hf)
    · exact (A hv).2
    · by_cases hv : m.mlp2Width % 16 = 0
      · rw [B hv]; exact hf
      · exact (A hv).2
  · intro σ api fs self self' world world' modelDir numSets hr
    exact TSNC.reload_network_texture_size hr

set_option maxRecDepth 100000 in
/-- Witness for C9: the scenario network (width 3, stored channel count 3) leaves
`align_dimensions` with channel count 16. -/
theorem final_channel_count_aligned_witness :
    mlp.align_dimensions scenarioNet = some scenarioNetAligned ∧
    scenarioNetAligned.finalChannelCount = 16 ∧
    scenarioNetAligned.finalChannelCount % 16 = 0 :=
  have h := final_channel_count_aligned scenarioNet scenarioNetAligned (by decide)
  ⟨by decide, by decide, (h.1 (by decide)).2⟩

/-! ## The GPU layout allocator -/

/-- The byte size `width * height * sizeof(float16_t)` of a weight buffer when the product of
the two dimensions fits in 32 bits. -/
theorem weight_bytes {w h : Nat} (hfit : w * h < 4294967296) :
    u64 (u32 (w * h) * sizeof_float16_t) = w * h * 2 := by
  unfold sizeof_float16_t
  rw [u32_of_lt hfit, u64_of_lt (by omega)]

/-- The byte size `width * sizeof(float16_t)` of a bias buffer. -/
theorem bias_bytes {w : Nat} (hfit : w < 4294967296) :
    u64 (w * sizeof_float16_t) = w * 2 := by
  unfold sizeof_float16_t
  rw [u64_of_lt (by omega)]

namespace mlp

/-- The log of `allocate_gpu_mlp`: nine buffer creations, in the order weight, optimal weight,
bias for the layers 0, 1 and 2, whose handles are stored in the fields of the same name. -/
theorem allocate_gpu_mlp_log {σ : Type} (api : Backend σ) (world : σ) (device : GraphicsDevice)
    (m : CPUMLP) (gpu : GPUMLP) :
    (allocate_gpu_mlp api.traced (world, []) device m gpu).2.2 =
      [ BackendCall.create_graphics_buffer device
          (u64 (u32 (m.mlp0Width * m.mlp0Height) * sizeof_float16_t)) sizeof_float16_t
          GraphicsBufferType.Default
          (allocate_gpu_mlp api.traced (world, []) device m gpu).1.weight0Buffer,
        BackendCall.create_graphics_buffer device
          (u64 (u32 (m.mlp0Width * m.mlp0Height) * sizeof_float16_t)) sizeof_float16_t
          GraphicsBufferType.Default
          (allocate_gpu_mlp api.traced (world, []) device m gpu).1.weight0OptimalBuffer,
        BackendCall.create_graphics_buffer device
          (u64 (m.mlp0Width * sizeof_float16_t)) sizeof_float16_t GraphicsBufferType.Default
          (allocate_gpu_mlp api.traced (world, []) device m gpu).1.bias0Buffer,
        BackendCall.create_graphics_buffer device
          (u64 (u32 (m.mlp1Width * m.mlp1Height) * sizeof_float16_t)) sizeof_float16_t
          GraphicsBufferType.Default
          (allocate_gpu_mlp api.traced (world, []) device m gpu).1.weight1Buffer,
        BackendCall.create_graphics_buffer device
          (u64 (u32 (m.mlp1Width * m.mlp1Height) * sizeof_float16_t)) sizeof_float16_t
          GraphicsBufferType.Default
          (allocate_gpu_mlp api.traced (world, []) device m gpu).1.weight1OptimalBuffer,
        BackendCall.create_graphics_buffer device
          (u64 (m.mlp1Width * sizeof_float16_t)) sizeof_float16_t GraphicsBufferType.Default
          (allocate_gpu_mlp api.traced (world, []) device m gpu).1.bias1Buffer,
        BackendCall.create_graphics_buffer device
          (u64 (u32 (m.mlp2Width * m.mlp2Height) * sizeof_float16_t)) sizeof_float16_t
          GraphicsBufferType.Default
          (allocate_gpu_mlp api.traced (world, []) device m gpu).1.weight2Buffer,
        BackendCall.create_graphics_buffer device
          (u64 (u32 (m.mlp2Width * m.mlp2Height) * sizeof_float16_t)) sizeof_float16_t
          GraphicsBufferType.Default
          (allocate_gpu_mlp api.traced (world, []) device m gpu).1.weight2OptimalBuffer,
        BackendCall.create_graphics_buffer device
          (u64 (m.mlp2Width * sizeof_float16_t)) sizeof_float16_t GraphicsBufferType.Default
          (allocate_gpu_mlp api.traced (world, []) device m gpu).1.bias2Buffer ] := rfl

end mlp

/-- C11, counterexample. `squareNet` has a 65536 x 65536 first layer: the claim's size for its
weight buffer is `65536 * 65536 * 2 = 2^33` bytes, but the product of the two dimensions is a
`uint32_t` and wraps to 0, so `allocate_gpu_mlp` requests two buffers of 0 bytes. -/
theorem allocate_gpu_mlp_requests_counterexample :
    requested_buffers (mlp.allocate_gpu_mlp countingBackend.traced (0, []) 1 squareNet
        nullGPUMLP).2.2 =
      [ (0, 2, GraphicsBufferType.Default), (0, 2, GraphicsBufferType.Default),
        (131072, 2, GraphicsBufferType.Default),
        (131072, 2, GraphicsBufferType.Default), (131072, 2, GraphicsBufferType.Default),
        (2, 2, GraphicsBufferType.Default),
        (32, 2, GraphicsBufferType.Default), (32, 2, GraphicsBufferType.Default),
        (32, 2, GraphicsBufferType.Default) ] ∧
    squareNet.mlp0Width * squareNet.mlp0Height * 2 = 8589934592 := by
  decide

/-- C11 (amended with the 32-bit bound). For every CPU network whose products
`width_i * height_i` fit in 32 bits (the scalar fields being `uint32_t` values),
`allocate_gpu_mlp` issues exactly nine buffer requests: for each layer `i` a weight buffer of
`width_i * height_i * 2` bytes, an optimal-layout weight buffer of the same byte size and a bias
buffer of `width_i * 2` bytes, all with element stride 2 and of the default kind; the handles
returned are stored in the fields of the GPU network. -/
theorem allocate_gpu_mlp_requests {σ : Type} (api : Backend σ) (world : σ)
    (device : GraphicsDevice) (m : CPUMLP) (gpu gpu' : GPUMLP) (world' : σ)
    (log : List BackendCall) (hr : m.InRange)
    (h0 : m.mlp0Width * m.mlp0Height < 4294967296)
    (h1 : m.mlp1Width * m.mlp1Height < 4294967296)
    (h2 : m.mlp2Width * m.mlp2Height < 4294967296)
    (h : mlp.allocate_gpu_mlp api.traced (world, []) device m gpu = (gpu', world', log)) :
    log =
      [ BackendCall.create_graphics_buffer device (m.mlp0Width * m.mlp0Height * 2) 2
          GraphicsBufferType.Default gpu'.weight0Buffer,
        BackendCall.create_graphics_buffer device (m.mlp0Width * m.mlp0Height * 2) 2
          GraphicsBufferType.Default gpu'.weight0OptimalBuffer,
        BackendCall.create_graphics_buffer device (m.mlp0Width * 2) 2
          GraphicsBufferType.Default gpu'.bias0Buffer,
        BackendCall.create_graphics_buffer device (m.mlp1Width * m.mlp1Height * 2) 2
          GraphicsBufferType.Default gpu'.weight1Buffer,
        BackendCall.create_graphics_buffer device (m.mlp1Width * m.mlp1Height * 2) 2
          GraphicsBufferType.Default gpu'.weight1OptimalBuffer,
        BackendCall.create_graphics_buffer device (m.mlp1Width * 2) 2
          GraphicsBufferType.Default gpu'.bias1Buffer,
        BackendCall.create_graphics_buffer device (m.mlp2Width * m.mlp2Height * 2) 2
          GraphicsBufferType.Default gpu'.weight2Buffer,
        BackendCall.create_graphics_buffer device (m.mlp2Width * m.mlp2Height * 2) 2
          GraphicsBufferType.Default gpu'.weight2OptimalBuffer,
        BackendCall.create_graphics_buffer device (m.mlp2Width * 2) 2
          GraphicsBufferType.Default gpu'.bias2Buffer ] := by
  obtain ⟨_, _, _, r0, _, r1, _, r2, _⟩ := hr
  have hlog := mlp.allocate_gpu_mlp_log api world device m gpu
  rw [h] at hlog
  simp only [weight_bytes h0, weight_bytes h1, weight_bytes h2, bias_bytes r0, bias_bytes r1,
    bias_bytes r2] at hlog
  exact hlog

set_option maxRecDepth 100000 in
/-- Witness for C11: the scenario network (layers 4x10, 4x4 and 3x4) on the counting backend. -/
theorem allocate_gpu_mlp_requests_witness :
    mlp.allocate_gpu_mlp countingBackend.traced (0, []) 1 scenarioNet nullGPUMLP
      = (⟨1, 2, 3, 4, 5, 6, 7, 8, 9⟩, 9,
         [ BackendCall.create_graphics_buffer 1 (4 * 10 * 2) 2 GraphicsBufferType.Default 1,
           BackendCall.create_graphics_buffer 1 (4 * 10 * 2) 2 GraphicsBufferType.Default 2,
           BackendCall.create_graphics_buffer 1 (4 * 2) 2 GraphicsBufferType.Default 3,
           BackendCall.create_graphics_buffer 1 (4 * 4 * 2) 2 GraphicsBufferType.Default 4,
           BackendCall.create_graphics_buffer 1 (4 * 4 * 2) 2 GraphicsBufferType.Default 5,
           BackendCall.create_graphics_buffer 1 (4 * 2) 2 GraphicsBufferType.Default 6,
           BackendCall.create_graphics_buffer 1 (3 * 4 * 2) 2 GraphicsBufferType.Default 7,
           BackendCall.create_graphics_buffer 1 (3 * 4 * 2) 2 GraphicsBufferType.Default 8,
           BackendCall.create_graphics_buffer 1 (3 * 2) 2 GraphicsBufferType.Default 9 ]) :=
  have h : mlp.allocate_gpu_mlp countingBackend.traced (0, []) 1 scenarioNet nullGPUMLP
      = (⟨1, 2, 3, 4, 5, 6, 7, 8, 9⟩, 9,
          (mlp.allocate_gpu_mlp countingBackend.traced (0, []) 1 scenarioNet nullGPUMLP).2.2) := by
    decide
  h.trans (congrArg (fun l => ((⟨1, 2, 3, 4, 5, 6, 7, 8, 9⟩ : GPUMLP), 9, l))
    (allocate_gpu_mlp_requests countingBackend 0 1 scenarioNet nullGPUMLP
      ⟨1, 2, 3, 4, 5, 6, 7, 8, 9⟩ 9 _ (by decide) (by decide) (by decide) (by decide) h))

namespace mlp

/-- The log of `allocate_gpu_mlp_array` on a non-empty array: nine buffer creations sized from
network 0 and the number of networks. -/
theorem allocate_gpu_mlp_array_log {σ : Type} (api : Backend σ) (world : σ)
    (device : GraphicsDevice) (m0 : CPUMLP) (others : List CPUMLP) (gpu : GPUMLP) :
    ∃ r, allocate_gpu_mlp_array api.traced (world, []) device (m0 :: others) gpu = some r ∧
        r.2.2 =
          [ BackendCall.create_graphics_buffer device
              (u64 (u64 (u32 (m0.mlp0Width * m0.mlp0Height) * sizeof_float16_t)
                * u64 (others.length + 1))) sizeof_float16_t
              GraphicsBufferType.Default r.1.weight0Buffer,
            BackendCall.create_graphics_buffer device
              (u64 (u64 (u32 (m0.mlp0Width * m0.mlp0Height) * sizeof_float16_t)
                * u64 (others.length + 1))) sizeof_float16_t
              GraphicsBufferType.Default r.1.weight0OptimalBuffer,
            BackendCall.create_graphics_buffer device
              (u64 (u64 (m0.mlp0Width * sizeof_float16_t) * u64 (others.length + 1)))
              sizeof_float16_t GraphicsBufferType.Default r.1.bias0Buffer,
            BackendCall.create_graphics_buffer device
              (u64 (u64 (u32 (m0.mlp1Width * m0.mlp1Height) * sizeof_float16_t)
                * u64 (others.length + 1))) sizeof_float16_t
              GraphicsBufferType.Default r.1.weight1Buffer,
            BackendCall.create_graphics_buffer device
              (u64 (u64 (u32 (m0.mlp1Width * m0.mlp1Height) * sizeof_float16_t)
                * u64 (others.length + 1))) sizeof_float16_t
              GraphicsBufferType.Default r.1.weight1OptimalBuffer,
            BackendCall.create_graphics_buffer device
              (u64 (u64 (m0.mlp1Width * sizeof_float16_t) * u64 (others.length + 1)))
              sizeof_float16_t GraphicsBufferType.Default r.1.bias1Buffer,
            BackendCall.create_graphics_buffer device
              (u64 (u64 (u32 (m0.mlp2Width * m0.mlp2Height) * sizeof_float16_t)
                * u64 (others.length + 1))) sizeof_float16_t
              GraphicsBufferType.Default r.1.weight2Buffer,
            BackendCall.create_graphics_buffer device
              (u64 (u64 (u32 (m0.mlp2Width * m0.mlp2Height) * sizeof_float16_t)
                * u64 (others.length + 1))) sizeof_float16_t
              GraphicsBufferType.Default r.1.weight2OptimalBuffer,
            BackendCall.create_graphics_buffer device
              (u64 (u64 (m0.mlp2Width * sizeof_float16_t) * u64 (others.length + 1)))
              sizeof_float16_t GraphicsBufferType.Default r.1.bias2Buffer ] := by
  unfold allocate_gpu_mlp_array
  rw [List.getElem?_cons_zero, Option.some_bind]
  exact ⟨_, rfl, rfl⟩

end mlp

/-- The byte size `width * height * sizeof(float16_t) * numMLPs` of a batched weight buffer when
the product of the two dimensions fits in 32 bits and there are fewer than `2^31` networks. -/
theorem weight_bytes_array {w h n : Nat} (hfit : w * h < 4294967296) (hn : n < 2147483648) :
    u64 (u64 (u32 (w * h) * sizeof_float16_t) * u64 n) = w * h * 2 * n := by
  rw [weight_bytes hfit, u64_of_lt (by omega : n < 18446744073709551616)]
  apply u64_of_lt
  calc w * h * 2 * n ≤ w * h * 2 * 2147483648 := Nat.mul_le_mul_left _ (by omega)
    _ < 18446744073709551616 := by omega

/-- The byte size `width * sizeof(float16_t) * numMLPs` of a batched bias buffer. -/
theorem bias_bytes_array {w n : Nat} (hfit : w < 4294967296) (hn : n < 2147483648) :
    u64 (u64 (w * sizeof_float16_t) * u64 n) = w * 2 * n := by
  rw [bias_bytes hfit, u64_of_lt (by omega : n < 18446744073709551616)]
  apply u64_of_lt
  calc w * 2 * n ≤ w * 2 * 2147483648 := Nat.mul_le_mul_left _ (by omega)
    _ < 18446744073709551616 := by omega

/-- C12, counterexample. In the array of two copies of `squareNet` network 0 has a
65536 x 65536 first layer: the claim's size for the layer-0 weight buffer is
`65536 * 65536 * 2 * 2 = 2^34` bytes, but the product of the two dimensions wraps to 0 and
`allocate_gpu_mlp_array` requests two buffers of 0 bytes. -/
theorem allocate_gpu_mlp_array_requests_counterexample :
    (mlp.allocate_gpu_mlp_array countingBackend.traced (0, []) 1 [squareNet, squareNet]
        nullGPUMLP).map (fun r => requested_buffers r.2.2) =
      some [ (0, 2, GraphicsBufferType.Default), (0, 2, GraphicsBufferType.Default),
        (262144, 2, GraphicsBufferType.Default),
        (262144, 2, GraphicsBufferType.Default), (262144, 2, GraphicsBufferType.Default),
        (4, 2, GraphicsBufferType.Default),
        (64, 2, GraphicsBufferType.Default), (64, 2, GraphicsBufferType.Default),
        (64, 2, GraphicsBufferType.Default) ] ∧
    squareNet.mlp0Width * squareNet.mlp0Height * 2 * 2 = 17179869184 := by
  decide

/-- C12 (amended with the 32-bit bound). For every non-empty array of `N` CPU networks
(`N < 2^31`) in which the products `width_i * height_i` of network 0 fit in 32 bits (its scalar
fields being `uint32_t` values), `allocate_gpu_mlp_array` issues exactly nine buffer requests:
for each layer `i` a weight and an optimal-weight buffer of `width_i * height_i * 2 * N` bytes
and a bias buffer of `width_i * 2 * N` bytes, with `width_i` and `height_i` those of network 0.
The other networks enter through their number only. -/
theorem allocate_gpu_mlp_array_requests {σ : Type} (api : Backend σ) (world : σ)
    (device : GraphicsDevice) (m0 : CPUMLP) (others : List CPUMLP) (gpu : GPUMLP)
    (hr : m0.InRange) (hN : others.length + 1 < 2147483648)
    (h0 : m0.mlp0Width * m0.mlp0Height < 4294967296)
    (h1 : m0.mlp1Width * m0.mlp1Height < 4294967296)
    (h2 : m0.mlp2Width * m0.mlp2Height < 4294967296) :
    ∃ r, mlp.allocate_gpu_mlp_array api.traced (world, []) device (m0 :: others) gpu = some r ∧
        r.2.2 =
          [ BackendCall.create_graphics_buffer device
              (m0.mlp0Width * m0.mlp0Height * 2 * (others.length + 1)) 2
              GraphicsBufferType.Default r.1.weight0Buffer,
            BackendCall.create_graphics_buffer device
              (m0.mlp0Width * m0.mlp0Height * 2 * (others.length + 1)) 2
              GraphicsBufferType.Default r.1.weight0OptimalBuffer,
            BackendCall.create_graphics_buffer device
              (m0.mlp0Width * 2 * (others.length + 1)) 2
              GraphicsBufferType.Default r.1.bias0Buffer,
            BackendCall.create_graphics_buffer device
              (m0.mlp1Width * m0.mlp1Height * 2 * (others.length + 1)) 2
              GraphicsBufferType.Default r.1.weight1Buffer,
            BackendCall.create_graphics_buffer device
              (m0.mlp1Width * m0.mlp1Height * 2 * (others.length + 1)) 2
              GraphicsBufferType.Default r.1.weight1OptimalBuffer,
            BackendCall.create_graphics_buffer device
              (m0.mlp1Width * 2 * (others.length + 1)) 2
              GraphicsBufferType.Default r.1.bias1Buffer,
            BackendCall.create_graphics_buffer device
              (m0.mlp2Width * m0.mlp2Height * 2 * (others.length + 1)) 2
              GraphicsBufferType.Default r.1.weight2Buffer,
            BackendCall.create_graphics_buffer device
              (m0.mlp2Width * m0.mlp2Height * 2 * (others.length + 1)) 2
              GraphicsBufferType.Default r.1.weight2OptimalBuffer,
            BackendCall.create_graphics_buffer device
              (m0.mlp2Width * 2 * (others.length + 1)) 2
              GraphicsBufferType.Default r.1.bias2Buffer ] := by
  obtain ⟨_, _, _, r0, _, r1, _, r2, _⟩ := hr
  obtain ⟨r, hr, hlog⟩ := mlp.allocate_gpu_mlp_array_log api world device m0 others gpu
  refine ⟨r, hr, ?_⟩
  rw [hlog]
  simp only [weight_bytes_array h0 hN, weight_bytes_array h1 hN, weight_bytes_array h2 hN,
    bias_bytes_array r0 hN, bias_bytes_array r1 hN, bias_bytes_array r2 hN]
  rfl

set_option maxRecDepth 100000 in
/-- Witness for C12: an array of three networks whose dimensions differ; the sizes are those of
the scenario network, network 0, times three. -/
theorem allocate_gpu_mlp_array_requests_witness :
    ∃ r, mlp.allocate_gpu_mlp_array countingBackend.traced (0, []) 1
          (scenarioNet :: [wideNet, tinyNet]) nullGPUMLP = some r ∧
        r.2.2 =
          [ BackendCall.create_graphics_buffer 1 (4 * 10 * 2 * (2 + 1)) 2
              GraphicsBufferType.Default r.1.weight0Buffer,
            BackendCall.create_graphics_buffer 1 (4 * 10 * 2 * (2 + 1)) 2
              GraphicsBufferType.Default r.1.weight0OptimalBuffer,
            BackendCall.create_graphics_buffer 1 (4 * 2 * (2 + 1)) 2
              GraphicsBufferType.Default r.1.bias0Buffer,
            BackendCall.create_graphics_buffer 1 (4 * 4 * 2 * (2 + 1)) 2
              GraphicsBufferType.Default r.1.weight1Buffer,
            BackendCall.create_graphics_buffer 1 (4 * 4 * 2 * (2 + 1)) 2
              GraphicsBufferType.Default r.1.weight1OptimalBuffer,
            BackendCall.create_graphics_buffer 1 (4 * 2 * (2 + 1)) 2
              GraphicsBufferType.Default r.1.bias1Buffer,
            BackendCall.create_graphics_buffer 1 (3 * 4 * 2 * (2 + 1)) 2
              GraphicsBufferType.Default r.1.weight2Buffer,
            BackendCall.create_graphics_buffer 1 (3 * 4 * 2 * (2 + 1)) 2
              GraphicsBufferType.Default r.1.weight2OptimalBuffer,
            BackendCall.create_graphics_buffer 1 (3 * 2 * (2 + 1)) 2
              GraphicsBufferType.Default r.1.bias2Buffer ] :=
  allocate_gpu_mlp_array_requests countingBackend 0 1 scenarioNet [wideNet, tinyNet] nullGPUMLP
    (by decide) (by decide) (by decide) (by decide) (by decide)

/-- The sizes that `allocate_gpu_mlp` requests, read off its log. -/
theorem mlp.allocate_gpu_mlp_sizes {σ : Type} (api : Backend σ) (world : σ)
    (device : GraphicsDevice) (m : CPUMLP) (gpu : GPUMLP) :
    requested_buffers (mlp.allocate_gpu_mlp api.traced (world, []) device m gpu).2.2 =
      [ (u64 (u32 (m.mlp0Width * m.mlp0Height) * sizeof_float16_t), sizeof_float16_t,
          GraphicsBufferType.Default),
        (u64 (u32 (m.mlp0Width * m.mlp0Height) * sizeof_float16_t), sizeof_float16_t,
          GraphicsBufferType.Default),
        (u64 (m.mlp0Width * sizeof_float16_t), sizeof_float16_t, GraphicsBufferType.Default),
        (u64 (u32 (m.mlp1Width * m.mlp1Height) * sizeof_float16_t), sizeof_float16_t,
          GraphicsBufferType.Default),
        (u64 (u32 (m.mlp1Width * m.mlp1Height) * sizeof_float16_t), sizeof_float16_t,
          GraphicsBufferType.Default),
        (u64 (m.mlp1Width * sizeof_float16_t), sizeof_float16_t, GraphicsBufferType.Default),
        (u64 (u32 (m.mlp2Width * m.mlp2Height) * sizeof_float16_t), sizeof_float16_t,
          GraphicsBufferType.Default),
        (u64 (u32 (m.mlp2Width * m.mlp2Height) * sizeof_float16_t), sizeof_float16_t,
          GraphicsBufferType.Default),
        (u64 (m.mlp2Width * sizeof_float16_t), sizeof_float16_t, GraphicsBufferType.Default) ] :=
  rfl

set_option maxRecDepth 100000 in
/-- C13, counterexample. The scenario network has the dimensions of the claim; after
`align_dimensions` its third layer is 16 x 4 (width 3 padded to 16, height 4 kept), and
`allocate_gpu_mlp` requests `16 * 4 * 2 = 128` bytes for the third weight buffer, not the
`4 * 32 * 2 = 256` bytes of the claim. -/
theorem scenario_allocation_counterexample :
    (scenarioNet.mlp0Width = 4 ∧ scenarioNet.mlp0Height = 10 ∧ scenarioNet.mlp1Width = 4 ∧
      scenarioNet.mlp1Height = 4 ∧ scenarioNet.mlp2Width = 3 ∧ scenarioNet.mlp2Height = 4) ∧
    mlp.align_dimensions scenarioNet = some scenarioNetAligned ∧
    (scenarioNetAligned.mlp2Width = 16 ∧ scenarioNetAligned.mlp2Height = 4) ∧
    requested_buffers
        (mlp.allocate_gpu_mlp countingBackend.traced (0, []) 1 scenarioNetAligned nullGPUMLP).2.2 =
      [ (128, 2, GraphicsBufferType.Default), (128, 2, GraphicsBufferType.Default),
        (8, 2, GraphicsBufferType.Default),
        (32, 2, GraphicsBufferType.Default), (32, 2, GraphicsBufferType.Default),
        (8, 2, GraphicsBufferType.Default),
        (128, 2, GraphicsBufferType.Default), (128, 2, GraphicsBufferType.Default),
        (32, 2, GraphicsBufferType.Default) ] ∧
    (128 : Nat) ≠ 4 * 32 * 2 := by
  decide

/-- C13 (amended: the third weight buffer is `16 * 4 * 2` bytes). For every network with
`width0 = 4`, `height0 = 10`, `width1 = 4`, `height1 = 4`, `width2 = 3`, `height2 = 4` whose
layer-0 and layer-2 buffers hold `width * height + width` floats, `align_dimensions` succeeds;
it pads only layer 0's height (to 16, the buffer to `4 * 16 + 4` floats) and layer 2's width
(to 16, the buffer to `16 * 4 + 16` floats), keeps `width0` and `height2` and leaves layer 1
untouched; `allocate_gpu_mlp` on the result then requests weight buffers (and optimal-layout
weight buffers) of `4 * 16 * 2`, `4 * 4 * 2` and `16 * 4 * 2` bytes and bias buffers of
`4 * 2`, `4 * 2` and `16 * 2` bytes. -/
theorem scenario_allocation {σ : Type} (api : Backend σ) (world : σ) (device : GraphicsDevice)
    (gpu : GPUMLP) (m : CPUMLP)
    (hw0 : m.mlp0Width = 4) (hh0 : m.mlp0Height = 10) (hw1 : m.mlp1Width = 4)
    (hh1 : m.mlp1Height = 4) (hw2 : m.mlp2Width = 3) (hh2 : m.mlp2Height = 4)
    (hlen0 : m.mlp0Buffer.length = 4 * 10 + 4) (hlen2 : m.mlp2Buffer.length = 3 * 4 + 3) :
    ∃ m', mlp.align_dimensions m = some m' ∧
      (m'.mlp0Width = 4 ∧ m'.mlp0Height = 16 ∧ m'.mlp0Buffer.length = 4 * 16 + 4) ∧
      (m'.mlp1Width = 4 ∧ m'.mlp1Height = 4 ∧ m'.mlp1Buffer = m.mlp1Buffer) ∧
      (m'.mlp2Width = 16 ∧ m'.mlp2Height = 4 ∧ m'.mlp2Buffer.length = 16 * 4 + 16) ∧
      requested_buffers (mlp.allocate_gpu_mlp api.traced (world, []) device m' gpu).2.2 =
        [ (4 * 16 * 2, 2, GraphicsBufferType.Default),
          (4 * 16 * 2, 2, GraphicsBufferType.Default),
          (4 * 2, 2, GraphicsBufferType.Default),
          (4 * 4 * 2, 2, GraphicsBufferType.Default),
          (4 * 4 * 2, 2, GraphicsBufferType.Default),
          (4 * 2, 2, GraphicsBufferType.Default),
          (16 * 4 * 2, 2, GraphicsBufferType.Default),
          (16 * 4 * 2, 2, GraphicsBufferType.Default),
          (16 * 2, 2, GraphicsBufferType.Default) ] := by
  obtain ⟨m', h⟩ := mlp.align_dimensions_defined m (by rw [hlen0, hw0, hh0])
    (by rw [hlen2, hw2, hh2]) (by rw [hh0]; decide) (by rw [hw0, hh0]; decide)
    (by rw [hw2, hh2]; decide)
  obtain ⟨m1, h1, h2⟩ := mlp.align_dimensions_split h
  have f1 := mlp.align_input_frame h1
  have f2 := mlp.align_output_frame h2
  obtain ⟨d0, d2, _⟩ := mlp.align_dimensions_dims h
  rw [hh0] at d0
  rw [hw2] at d2
  have d0' : m'.mlp0Height = 16 := d0.trans (by decide)
  have d2' : m'.mlp2Width = 16 := d2.trans (by decide)
  have w0 : m'.mlp0Width = 4 :=
    (by have e := congrArg CPUMLP.mlp0Width f2; exact e : m'.mlp0Width = m1.mlp0Width).trans
      ((by have e := congrArg CPUMLP.mlp0Width f1; exact e : m1.mlp0Width = m.mlp0Width).trans hw0)
  have w1 : m'.mlp1Width = 4 :=
    (by have e := congrArg CPUMLP.mlp1Width f2; exact e : m'.mlp1Width = m1.mlp1Width).trans
      ((by have e := congrArg CPUMLP.mlp1Width f1; exact e : m1.mlp1Width = m.mlp1Width).trans hw1)
  have g1 : m'.mlp1Height = 4 :=
    (by have e := congrArg CPUMLP.mlp1Height f2; exact e : m'.mlp1Height = m1.mlp1Height).trans
      ((by have e := congrArg CPUMLP.mlp1Height f1; exact e : m1.mlp1Height = m.mlp1Height).trans hh1)
  have b1 : m'.mlp1Buffer = m.mlp1Buffer :=
    (by have e := congrArg CPUMLP.mlp1Buffer f2; exact e : m'.mlp1Buffer = m1.mlp1Buffer).trans
      (by have e := congrArg CPUMLP.mlp1Buffer f1; exact e : m1.mlp1Buffer = m.mlp1Buffer)
  have g2 : m'.mlp2Height = 4 :=
    (by have e := congrArg CPUMLP.mlp2Height f2; exact e : m'.mlp2Height = m1.mlp2Height).trans
      ((by have e := congrArg CPUMLP.mlp2Height f1; exact e : m1.mlp2Height = m.mlp2Height).trans hh2)
  have v2 : m1.mlp2Width = 3 :=
    (by have e := congrArg CPUMLP.mlp2Width f1; exact e : m1.mlp2Width = m.mlp2Width).trans hw2
  have u2 : m1.mlp2Height = 4 :=
    (by have e := congrArg CPUMLP.mlp2Height f1; exact e : m1.mlp2Height = m.mlp2Height).trans hh2
  have l0 : m'.mlp0Buffer.length = 4 * 16 + 4 := by
    have e := mlp.align_input_length h1 (by rw [hh0]; decide)
    rw [hw0, hh0] at e
    have c : m'.mlp0Buffer = m1.mlp0Buffer := by
      have e := congrArg CPUMLP.mlp0Buffer f2; exact e
    rw [c]
    exact e.trans (by decide)
  have l2 : m'.mlp2Buffer.length = 16 * 4 + 16 := by
    have e := mlp.align_output_length h2 (by rw [v2]; decide)
    rw [v2, u2] at e
    exact e.trans (by decide)
  refine ⟨m', h, ⟨w0, d0', l0⟩, ⟨w1, g1, b1⟩, ⟨d2', g2, l2⟩, ?_⟩
  rw [mlp.allocate_gpu_mlp_sizes, w0, d0', w1, g1, d2', g2]
  decide

set_option maxRecDepth 100000 in
/-- Witness for C13: the scenario network. -/
theorem scenario_allocation_witness :
    ∃ m', mlp.align_dimensions scenarioNet = some m' ∧
      (m'.mlp0Width = 4 ∧ m'.mlp0Height = 16 ∧ m'.mlp0Buffer.length = 4 * 16 + 4) ∧
      (m'.mlp1Width = 4 ∧ m'.mlp1Height = 4 ∧ m'.mlp1Buffer = scenarioNet.mlp1Buffer) ∧
      (m'.mlp2Width = 16 ∧ m'.mlp2Height = 4 ∧ m'.mlp2Buffer.length = 16 * 4 + 16) ∧
      requested_buffers
          (mlp.allocate_gpu_mlp countingBackend.traced (0, []) 1 m' nullGPUMLP).2.2 =
        [ (4 * 16 * 2, 2, GraphicsBufferType.Default),
          (4 * 16 * 2, 2, GraphicsBufferType.Default),
          (4 * 2, 2, GraphicsBufferType.Default),
          (4 * 4 * 2, 2, GraphicsBufferType.Default),
          (4 * 4 * 2, 2, GraphicsBufferType.Default),
          (4 * 2, 2, GraphicsBufferType.Default),
          (16 * 4 * 2, 2, GraphicsBufferType.Default),
          (16 * 4 * 2, 2, GraphicsBufferType.Default),
          (16 * 2, 2, GraphicsBufferType.Default) ] :=
  scenario_allocation countingBackend 0 1 nullGPUMLP scenarioNet rfl rfl rfl rfl rfl rfl
    (by decide) (by decide)

/-! ## The number of floats that `unpack_type` reads -/

theorem length_floats_of_bytes : ∀ (n : Nat) (bs : List Byte), bs.length = 4 * n →
    (floats_of_bytes bs).length = n
  | 0, bs, h => by
    have : bs = [] := List.length_eq_zero.mp (by omega)
    subst this
    rfl
  | n + 1, b0 :: b1 :: b2 :: b3 :: rest, h => by
    have hr : rest.length = 4 * n := by
      simp only [List.length_cons] at h
      omega
    simp only [floats_of_bytes, List.length_cons, length_floats_of_bytes n rest hr]
  | n + 1, [], h => by simp at h
  | n + 1, [_], h => by simp at h; omega
  | n + 1, [_, _], h => by simp at h; omega
  | n + 1, [_, _, _], h => by simp at h; omega

/-- What a successful `unpack_buffer` into a vector resized to `n` floats returns: `n` floats,
and the stream `4 * n` bytes further. -/
theorem unpack_buffer_resize_some {s t : List Byte} {n : Nat} {old d : List float}
    (h : unpack_buffer s (u64 (u32 n * sizeof_float)) (resize old (u32 n)) = some (d, t)) :
    d.length = u32 n ∧ 4 * u32 n ≤ s.length ∧ t = s.drop (4 * u32 n) := by
  rw [buffer_bytes] at h
  have hd : 4 * u32 n / sizeof_float = u32 n := by unfold sizeof_float; omega
  unfold unpack_buffer at h
  rw [hd, length_resize] at h
  by_cases hc : 4 * u32 n ≤ s.length ∧ u32 n ≤ u32 n
  · rw [if_pos hc, Option.some.injEq, Prod.mk.injEq] at h
    obtain ⟨h1, h2⟩ := h
    refine ⟨?_, hc.1, h2.symm⟩
    rw [← h1, List.drop_of_length_le (by rw [length_resize]), List.append_nil]
    exact length_floats_of_bytes _ _ (by rw [List.length_take]; omega)
  · rw [if_neg hc] at h
    exact absurd h (by simp)

/-- One step of a cursor: dropping `n` bytes from a stream that is the original stream `a`
bytes further. -/
theorem drop_step {s t t' : List Byte} {a n : Nat} (ht : t = s.drop a ∧ a ≤ s.length)
    (hn : n ≤ t.length) (ht' : t' = t.drop n) : t' = s.drop (a + n) ∧ a + n ≤ s.length := by
  obtain ⟨e, ha⟩ := ht
  subst e
  rw [List.length_drop] at hn
  exact ⟨by rw [ht', List.drop_drop], by omega⟩

/-- What a successful `unpack_type` returns: each buffer has the length that the reader computes
in `uint32_t` from the dimensions it read, and the cursor is 36 bytes and 4 bytes per float
further. -/
theorem unpack_type_some {s rest : List Byte} {old m : CPUMLP}
    (h : unpack_type s old = some (m, rest)) :
    m.mlp0Buffer.length = u32 (u32 (m.mlp0Width * m.mlp0Height) + m.mlp0Width) ∧
    m.mlp1Buffer.length = u32 (u32 (m.mlp1Width * m.mlp1Height) + m.mlp1Width) ∧
    m.mlp2Buffer.length = u32 (u32 (m.mlp2Width * m.mlp2Height) + m.mlp2Width) ∧
    36 + 4 * (m.mlp0Buffer.length + m.mlp1Buffer.length + m.mlp2Buffer.length) ≤ s.length ∧
    rest = s.drop (36 + 4 * (m.mlp0Buffer.length + m.mlp1Buffer.length + m.mlp2Buffer.length))
    := by
  unfold unpack_type at h
  obtain ⟨⟨v1, s1⟩, h1, h⟩ := Option.bind_eq_some.mp h
  obtain ⟨⟨v2, s2⟩, h2, h⟩ := Option.bind_eq_some.mp h
  obtain ⟨⟨v3, s3⟩, h3, h⟩ := Option.bind_eq_some.mp h
  obtain ⟨⟨w0, s4⟩, h4, h⟩ := Option.bind_eq_some.mp h
  obtain ⟨⟨hh0, s5⟩, h5, h⟩ := Option.bind_eq_some.mp h
  obtain ⟨⟨b0, s6⟩, h6, h⟩ := Option.bind_eq_some.mp h
  obtain ⟨⟨w1, s7⟩, h7, h⟩ := Option.bind_eq_some.mp h
  obtain ⟨⟨hh1, s8⟩, h8, h⟩ := Option.bind_eq_some.mp h
  obtain ⟨⟨b1, s9⟩, h9, h⟩ := Option.bind_eq_some.mp h
  obtain ⟨⟨w2, s10⟩, h10, h⟩ := Option.bind_eq_some.mp h
  obtain ⟨⟨hh2, s11⟩, h11, h⟩ := Option.bind_eq_some.mp h
  obtain ⟨⟨b2, s12⟩, h12, h⟩ := Option.bind_eq_some.mp h
  have hm := (Prod.mk.inj (Option.some.inj h)).1
  have hrest := (Prod.mk.inj (Option.some.inj h)).2
  clear h
  obtain ⟨l1, e1, _⟩ := unpack_bytes_some h1
  obtain ⟨l2, e2, _⟩ := unpack_bytes_some h2
  obtain ⟨l3, e3, _⟩ := unpack_bytes_some h3
  obtain ⟨l4, e4, _⟩ := unpack_bytes_some h4
  obtain ⟨l5, e5, _⟩ := unpack_bytes_some h5
  obtain ⟨n6, l6, e6⟩ := unpack_buffer_resize_some h6
  obtain ⟨l7, e7, _⟩ := unpack_bytes_some h7
  obtain ⟨l8, e8, _⟩ := unpack_bytes_some h8
  obtain ⟨n9, l9, e9⟩ := unpack_buffer_resize_some h9
  obtain ⟨l10, e10, _⟩ := unpack_bytes_some h10
  obtain ⟨l11, e11, _⟩ := unpack_bytes_some h11
  obtain ⟨n12, l12, e12⟩ := unpack_buffer_resize_some h12
  have c0 : s = s.drop 0 ∧ 0 ≤ s.length := ⟨rfl, Nat.zero_le _⟩
  have c1 := drop_step c0 l1 e1
  have c2 := drop_step c1 l2 e2
  have c3 := drop_step c2 l3 e3
  have c4 := drop_step c3 l4 e4
  have c5 := drop_step c4 l5 e5
  have c6 := drop_step c5 l6 e6
  have c7 := drop_step c6 l7 e7
  have c8 := drop_step c7 l8 e8
  have c9 := drop_step c8 l9 e9
  have c10 := drop_step c9 l10 e10
  have c11 := drop_step c10 l11 e11
  have c12 := drop_step c11 l12 e12
  subst hm
  refine ⟨n6, n9, n12, ?_, ?_⟩
  · show 36 + 4 * (b0.length + b1.length + b2.length) ≤ s.length
    have := c12.2
    rw [n6, n9, n12]
    omega
  · show rest = s.drop (36 + 4 * (b0.length + b1.length + b2.length))
    rw [← hrest, c12.1, n6, n9, n12]
    congr 1
    omega

set_option maxRecDepth 100000 in
/-- C14, counterexample. The on-disk bytes of the scenario network declare the dimensions
4 x 10, 4 x 4 and 3 x 4; `unpack_type` reads them back with buffers of 44, 20 and 15 floats,
79 in all and not 142, and consumes `36 + 4 * 79 = 352` bytes. -/
theorem unpack_type_scenario_count_counterexample :
    unpack_type (pack_type scenarioNet) emptyNet = some (scenarioNet, []) ∧
    (scenarioNet.mlp0Width = 4 ∧ scenarioNet.mlp0Height = 10 ∧ scenarioNet.mlp1Width = 4 ∧
      scenarioNet.mlp1Height = 4 ∧ scenarioNet.mlp2Width = 3 ∧ scenarioNet.mlp2Height = 4) ∧
    scenarioNet.mlp0Buffer.length + scenarioNet.mlp1Buffer.length
      + scenarioNet.mlp2Buffer.length = 79 ∧
    (pack_type scenarioNet).length = 352 ∧
    (79 : Nat) ≠ 142 := by
  decide

/-- C14 (amended: the total is 79). For a record declaring `width0 = 4`, `height0 = 10`,
`width1 = 4`, `height1 = 4`, `width2 = 3`, `height2 = 4`, `unpack_type` reads exactly 79
float32 payload values over the three layers: `4 * 10 + 4 = 44` for layer 0, `4 * 4 + 4 = 20`
for layer 1 and `3 * 4 + 3 = 15` for layer 2; with the 36 bytes of the nine `u32` fields it
leaves the cursor 352 bytes further. -/
theorem unpack_type_scenario_count (s rest : List Byte) (old m : CPUMLP)
    (h : unpack_type s old = some (m, rest))
    (hw0 : m.mlp0Width = 4) (hh0 : m.mlp0Height = 10) (hw1 : m.mlp1Width = 4)
    (hh1 : m.mlp1Height = 4) (hw2 : m.mlp2Width = 3) (hh2 : m.mlp2Height = 4) :
    m.mlp0Buffer.length = 4 * 10 + 4 ∧ m.mlp1Buffer.length = 4 * 4 + 4 ∧
    m.mlp2Buffer.length = 3 * 4 + 3 ∧
    m.mlp0Buffer.length + m.mlp1Buffer.length + m.mlp2Buffer.length = 79 ∧
    rest = s.drop (36 + 4 * 79) := by
  obtain ⟨l0, l1, l2, _, hrest⟩ := unpack_type_some h
  rw [hw0, hh0] at l0
  rw [hw1, hh1] at l1
  rw [hw2, hh2] at l2
  have e0 : u32 (u32 (4 * 10) + 4) = 44 := by decide
  have e1 : u32 (u32 (4 * 4) + 4) = 20 := by decide
  have e2 : u32 (u32 (3 * 4) + 3) = 15 := by decide
  rw [e0] at l0
  rw [e1] at l1
  rw [e2] at l2
  rw [l0, l1, l2] at hrest
  exact ⟨l0, l1, l2, by rw [l0, l1, l2], hrest⟩

set_option maxRecDepth 100000 in
/-- Witness for C14: the record of the scenario network followed by three more bytes. -/
theorem unpack_type_scenario_count_witness :
    unpack_type (pack_type scenarioNet ++ [1, 2, 3]) emptyNet = some (scenarioNet, [1, 2, 3]) ∧
    scenarioNet.mlp0Buffer.length = 4 * 10 + 4 ∧ scenarioNet.mlp1Buffer.length = 4 * 4 + 4 ∧
    scenarioNet.mlp2Buffer.length = 3 * 4 + 3 ∧
    scenarioNet.mlp0Buffer.length + scenarioNet.mlp1Buffer.length
      + scenarioNet.mlp2Buffer.length = 79 ∧
    [1, 2, 3] = (pack_type scenarioNet ++ [1, 2, 3]).drop (36 + 4 * 79) :=
  ⟨by decide,
   unpack_type_scenario_count (pack_type scenarioNet ++ [1, 2, 3]) [1, 2, 3] emptyNet scenarioNet
     (by decide) rfl rfl rfl rfl rfl rfl⟩

/-! ## Projections of the call log -/

theorem requested_buffers_append (a b : List BackendCall) :
    requested_buffers (a ++ b) = requested_buffers a ++ requested_buffers b := by
  induction a with
  | nil => rfl
  | cons c a ih => cases c <;> simp [requested_buffers, ih]

theorem conversion_targets_append (a b : List BackendCall) :
    conversion_targets (a ++ b) = conversion_targets a ++ conversion_targets b := by
  induction a with
  | nil => rfl
  | cons c a ih => cases c <;> simp [conversion_targets, ih]

theorem uploads_append (a b : List BackendCall) :
    uploads (a ++ b) = uploads a ++ uploads b := by
  induction a with
  | nil => rfl
  | cons c a ih => cases c <;> simp [uploads, ih]

/-! ## `upload_and_convert_matrices` and `destroy_gpu_mlp` -/

namespace mlp

/-- The log of `upload_and_convert_matrices`: the calls that it appends, in order, with the
handles `up` and `tmp` of the two buffers it creates. -/
theorem upload_and_convert_matrices_log {σ : Type} (api : Backend σ) (world : σ)
    (log : List BackendCall) (device : GraphicsDevice) (queue : CommandQueue)
    (cmdB : CommandBuffer) (buffer : List Byte) (matrixWidth matrixHeight : Nat)
    (mainBuffer optimalBuffer : GraphicsBuffer) (offsetBuffer : Nat) :
    ∃ up tmp,
      (upload_and_convert_matrices api.traced (world, log) device queue cmdB buffer matrixWidth
          matrixHeight mainBuffer optimalBuffer offsetBuffer).2 =
        log ++
          ([ BackendCall.create_graphics_buffer device
               (u32 (u64 (u32 (matrixWidth * matrixHeight) * sizeof_float))) sizeof_float
               GraphicsBufferType.Upload up,
             BackendCall.create_graphics_buffer device
               (u32 (u64 (u32 (matrixWidth * matrixHeight) * sizeof_float))) sizeof_float
               GraphicsBufferType.Default tmp,
             BackendCall.set_buffer_data up buffer
               (u32 (u64 (u32 (matrixWidth * matrixHeight) * sizeof_float))),
             BackendCall.reset cmdB,
             BackendCall.copy_graphics_buffer cmdB up tmp ] ++
           (if optimalBuffer ≠ 0 then
              [BackendCall.convert_mat_32_to_16 cmdB tmp 0 optimalBuffer offsetBuffer
                 matrixWidth matrixHeight true]
            else []) ++
           (if mainBuffer ≠ 0 then
              [BackendCall.convert_mat_32_to_16 cmdB tmp 0 mainBuffer offsetBuffer
                 matrixWidth matrixHeight false]
            else []) ++
           [ BackendCall.close cmdB, BackendCall.execute_command_buffer queue cmdB,
             BackendCall.flush queue, BackendCall.destroy_graphics_buffer up,
             BackendCall.destroy_graphics_buffer tmp ]) := by
  refine ⟨(api.create_graphics_buffer world device
      (u32 (u64 (u32 (matrixWidth * matrixHeight) * sizeof_float))) sizeof_float
      GraphicsBufferType.Upload).1,
    (api.create_graphics_buffer (api.create_graphics_buffer world device
      (u32 (u64 (u32 (matrixWidth * matrixHeight) * sizeof_float))) sizeof_float
      GraphicsBufferType.Upload).2 device
      (u32 (u64 (u32 (matrixWidth * matrixHeight) * sizeof_float))) sizeof_float
      GraphicsBufferType.Default).1, ?_⟩
  unfold upload_and_convert_matrices
  by_cases ho : optimalBuffer = 0 <;> by_cases hm : mainBuffer = 0 <;>
    simp [ho, hm, Backend.traced]

/-- The log of `destroy_gpu_mlp`. -/
theorem destroy_gpu_mlp_log {σ : Type} (api : Backend σ) (world : σ) (log : List BackendCall)
    (gpu : GPUMLP) :
    (destroy_gpu_mlp api.traced (world, log) gpu).2 =
      log ++
        ([ BackendCall.destroy_graphics_buffer gpu.weight0Buffer,
           BackendCall.destroy_graphics_buffer gpu.bias0Buffer,
           BackendCall.destroy_graphics_buffer gpu.weight1Buffer,
           BackendCall.destroy_graphics_buffer gpu.bias1Buffer,
           BackendCall.destroy_graphics_buffer gpu.weight2Buffer,
           BackendCall.destroy_graphics_buffer gpu.bias2Buffer ] ++
         (if gpu.weight0OptimalBuffer ≠ 0 then
            [BackendCall.destroy_graphics_buffer gpu.weight0OptimalBuffer] else []) ++
         (if gpu.weight1OptimalBuffer ≠ 0 then
            [BackendCall.destroy_graphics_buffer gpu.weight1OptimalBuffer] else []) ++
         (if gpu.weight2OptimalBuffer ≠ 0 then
            [BackendCall.destroy_graphics_buffer gpu.weight2OptimalBuffer] else [])) := by
  unfold destroy_gpu_mlp
  by_cases h0 : gpu.weight0OptimalBuffer = 0 <;> by_cases h1 : gpu.weight1OptimalBuffer = 0 <;>
    by_cases h2 : gpu.weight2OptimalBuffer = 0 <;> simp [h0, h1, h2, Backend.traced]

end mlp

/-! ## `TSNC::upload_network`: the loops -/

theorem vector_insert_range_some {dst src r : List float} {first last : Nat}
    (h : vector_insert_range dst src first last = some r) :
    first ≤ last ∧ last ≤ src.length ∧ r = dst ++ (src.take last).drop first := by
  unfold vector_insert_range at h
  split at h
  · rename_i hc
    exact ⟨hc.1, hc.2, (Option.some.inj h).symm⟩
  · exact absurd h (by simp)

theorem vector_insert_range_eq {dst src : List float} {first last : Nat}
    (h1 : first ≤ last) (h2 : last ≤ src.length) :
    vector_insert_range dst src first last = some (dst ++ (src.take last).drop first) := by
  unfold vector_insert_range
  rw [if_pos ⟨h1, h2⟩]

namespace mlp

/-- The conversions that `upload_and_convert_matrices` records, and that it records no
one-destination upload. -/
theorem upload_and_convert_matrices_targets {σ : Type} (api : Backend σ)
    (w : σ × List BackendCall) (device : GraphicsDevice) (queue : CommandQueue)
    (cmdB : CommandBuffer) (buffer : List Byte) (matrixWidth matrixHeight : Nat)
    (mainBuffer optimalBuffer : GraphicsBuffer) (offsetBuffer : Nat) :
    conversion_targets (upload_and_convert_matrices api.traced w device queue cmdB
        buffer matrixWidth matrixHeight mainBuffer optimalBuffer offsetBuffer).2 =
      conversion_targets w.2 ++
        ((if optimalBuffer ≠ 0 then
            [(optimalBuffer, offsetBuffer, matrixWidth, matrixHeight, true)] else []) ++
         (if mainBuffer ≠ 0 then
            [(mainBuffer, offsetBuffer, matrixWidth, matrixHeight, false)] else [])) ∧
    uploads (upload_and_convert_matrices api.traced w device queue cmdB
        buffer matrixWidth matrixHeight mainBuffer optimalBuffer offsetBuffer).2 =
      uploads w.2 := by
  obtain ⟨up, tmp, h⟩ := upload_and_convert_matrices_log api w.1 w.2 device queue cmdB
    buffer matrixWidth matrixHeight mainBuffer optimalBuffer offsetBuffer
  change (upload_and_convert_matrices api.traced w device queue cmdB
        buffer matrixWidth matrixHeight mainBuffer optimalBuffer offsetBuffer).2 = _ at h
  rw [h]
  by_cases ho : optimalBuffer = 0 <;> by_cases hm : mainBuffer = 0 <;>
    simp [ho, hm, conversion_targets_append, uploads_append, conversion_targets, uploads]

end mlp

namespace TSNC

/-- One iteration of the concatenation loop of `upload_network`, when it is defined: the
network read, the bounds that the iterators respect, the six vectors and the log. -/
theorem concat_mlp_spec {σ : Type} {api : Backend σ} {self : TSNC} {cmdQ : CommandQueue}
    {cmdB : CommandBuffer} {setIdx : Nat} {st st' : ConcatBuffers × σ × List BackendCall}
    (h : concat_mlp api.traced self cmdQ cmdB setIdx st = some st') :
    ∃ m, self.m_MLPArray[setIdx]? = some m ∧
      (u32 (m.mlp0Width * m.mlp0Height) ≤ m.mlp0Buffer.length ∧
        u32 (m.mlp1Width * m.mlp1Height) ≤ m.mlp1Buffer.length ∧
        u32 (m.mlp2Width * m.mlp2Height) ≤ m.mlp2Buffer.length) ∧
      st'.1 =
        { mlpWeight0 := st.1.mlpWeight0 ++
            (if self.m_CVS then [] else m.mlp0Buffer.take (u32 (m.mlp0Width * m.mlp0Height))),
          mlpWeight1 := st.1.mlpWeight1 ++
            (if self.m_CVS then [] else m.mlp1Buffer.take (u32 (m.mlp1Width * m.mlp1Height))),
          mlpWeight2 := st.1.mlpWeight2 ++
            (if self.m_CVS then [] else m.mlp2Buffer.take (u32 (m.mlp2Width * m.mlp2Height))),
          mlpBias0 := st.1.mlpBias0 ++ m.mlp0Buffer.drop (u32 (m.mlp0Width * m.mlp0Height)),
          mlpBias1 := st.1.mlpBias1 ++ m.mlp1Buffer.drop (u32 (m.mlp1Width * m.mlp1Height)),
          mlpBias2 := st.1.mlpBias2 ++ m.mlp2Buffer.drop (u32 (m.mlp2Width * m.mlp2Height)) } ∧
      conversion_targets st'.2.2 = conversion_targets st.2.2 ++
        (if self.m_CVS then tile_targets self.m_Nwk.mlp setIdx m else []) ∧
      uploads st'.2.2 = uploads st.2.2 := by
  unfold concat_mlp at h
  obtain ⟨m, hm, h⟩ := Option.bind_eq_some.mp h
  refine ⟨m, hm, ?_⟩
  obtain ⟨st1, h1, h⟩ := Option.bind_eq_some.mp h
  obtain ⟨b0, hb0, h⟩ := Option.bind_eq_some.mp h
  obtain ⟨b1, hb1, h⟩ := Option.bind_eq_some.mp h
  obtain ⟨b2, hb2, h⟩ := Option.bind_eq_some.mp h
  obtain ⟨q0, _, e0⟩ := vector_insert_range_some hb0
  obtain ⟨q1, _, e1⟩ := vector_insert_range_some hb1
  obtain ⟨q2, _, e2⟩ := vector_insert_range_some hb2
  rw [List.take_length] at e0 e1 e2
  have hst' := (Option.some.inj h).symm
  subst hst'
  subst e0 e1 e2
  by_cases hc : self.m_CVS = true
  · rw [if_pos hc] at h1
    have h1' := (Option.some.inj h1).symm
    subst h1'
    refine ⟨⟨q0, q1, q2⟩, ?_, ?_, ?_⟩
    · simp only [hc, if_true, List.append_nil]
    · rw [if_pos hc]
      unfold tile_targets
      dsimp only
      rw [(mlp.upload_and_convert_matrices_targets api _ _ _ _ _ _ _ _ _ _).1,
        (mlp.upload_and_convert_matrices_targets api _ _ _ _ _ _ _ _ _ _).1,
        (mlp.upload_and_convert_matrices_targets api _ _ _ _ _ _ _ _ _ _).1]
      simp only [List.append_assoc]
    · dsimp only
      rw [(mlp.upload_and_convert_matrices_targets api _ _ _ _ _ _ _ _ _ _).2,
        (mlp.upload_and_convert_matrices_targets api _ _ _ _ _ _ _ _ _ _).2,
        (mlp.upload_and_convert_matrices_targets api _ _ _ _ _ _ _ _ _ _).2]
  · rw [if_neg hc] at h1
    obtain ⟨w0, hw0, h1⟩ := Option.bind_eq_some.mp h1
    obtain ⟨w1, hw1, h1⟩ := Option.bind_eq_some.mp h1
    obtain ⟨w2, hw2, h1⟩ := Option.bind_eq_some.mp h1
    obtain ⟨_, _, f0⟩ := vector_insert_range_some hw0
    obtain ⟨_, _, f1⟩ := vector_insert_range_some hw1
    obtain ⟨_, _, f2⟩ := vector_insert_range_some hw2
    rw [List.drop_zero] at f0 f1 f2
    have h1' := (Option.some.inj h1).symm
    subst h1'
    subst f0 f1 f2
    refine ⟨⟨q0, q1, q2⟩, ?_, ?_, ?_⟩
    · simp only [hc, if_false, Bool.false_eq_true]
    · rw [if_neg hc, List.append_nil]
    · rfl

end TSNC

theorem take_succ_of_getElem? {α : Type} {l : List α} {k : Nat} {a : α} (h : l[k]? = some a) :
    l.take (k + 1) = l.take k ++ [a] := by
  rw [List.take_succ, h]
  rfl

namespace TSNC

/-- The concatenation loop of `upload_network` after `k` iterations, when it is defined: the
bounds that the iterators respect, the six vectors and the log. -/
theorem concat_mlps_spec {σ : Type} {api : Backend σ} {self : TSNC} {cmdQ : CommandQueue}
    {cmdB : CommandBuffer} {st : ConcatBuffers × σ × List BackendCall} :
    ∀ {k : Nat} {st' : ConcatBuffers × σ × List BackendCall},
    concat_mlps api.traced self cmdQ cmdB k st = some st' →
    k ≤ self.m_MLPArray.length ∧
    (∀ m ∈ self.m_MLPArray.take k,
      u32 (m.mlp0Width * m.mlp0Height) ≤ m.mlp0Buffer.length ∧
      u32 (m.mlp1Width * m.mlp1Height) ≤ m.mlp1Buffer.length ∧
      u32 (m.mlp2Width * m.mlp2Height) ≤ m.mlp2Buffer.length) ∧
    st'.1 =
      { mlpWeight0 := st.1.mlpWeight0 ++
          (if self.m_CVS then [] else (self.m_MLPArray.take k).flatMap fun m =>
            m.mlp0Buffer.take (u32 (m.mlp0Width * m.mlp0Height))),
        mlpWeight1 := st.1.mlpWeight1 ++
          (if self.m_CVS then [] else (self.m_MLPArray.take k).flatMap fun m =>
            m.mlp1Buffer.take (u32 (m.mlp1Width * m.mlp1Height))),
        mlpWeight2 := st.1.mlpWeight2 ++
          (if self.m_CVS then [] else (self.m_MLPArray.take k).flatMap fun m =>
            m.mlp2Buffer.take (u32 (m.mlp2Width * m.mlp2Height))),
        mlpBias0 := st.1.mlpBias0 ++ (self.m_MLPArray.take k).flatMap fun m =>
          m.mlp0Buffer.drop (u32 (m.mlp0Width * m.mlp0Height)),
        mlpBias1 := st.1.mlpBias1 ++ (self.m_MLPArray.take k).flatMap fun m =>
          m.mlp1Buffer.drop (u32 (m.mlp1Width * m.mlp1Height)),
        mlpBias2 := st.1.mlpBias2 ++ (self.m_MLPArray.take k).flatMap fun m =>
          m.mlp2Buffer.drop (u32 (m.mlp2Width * m.mlp2Height)) } ∧
    conversion_targets st'.2.2 = conversion_targets st.2.2 ++
      (if self.m_CVS then
        (List.range k).flatMap fun i =>
          match self.m_MLPArray[i]? with
          | some m => tile_targets self.m_Nwk.mlp i m
          | none => []
       else []) ∧
    uploads st'.2.2 = uploads st.2.2
  | 0, st', h => by
    have e := (Option.some.inj h).symm
    subst e
    refine ⟨Nat.zero_le _, ?_, ?_, ?_, rfl⟩
    · intro m hm
      simp at hm
    · cases hc : self.m_CVS <;> simp
    · cases hc : self.m_CVS <;> simp
  | k + 1, st', h => by
    obtain ⟨mid, hmid, hstep⟩ := Option.bind_eq_some.mp h
    obtain ⟨hk, hb, hbufs, hconv, hup⟩ := concat_mlps_spec hmid
    obtain ⟨m, hm, hbm, sbufs, sconv, sup⟩ := concat_mlp_spec hstep
    have hlt : k < self.m_MLPArray.length := by
      by_contra hge
      rw [List.getElem?_eq_none (by omega)] at hm
      exact absurd hm (by simp)
    have htake := take_succ_of_getElem? hm
    refine ⟨hlt, ?_, ?_, ?_, sup.trans hup⟩
    · intro x hx
      rw [htake, List.mem_append] at hx
      rcases hx with hx | hx
      · exact hb x hx
      · rw [List.mem_singleton] at hx
        rw [hx]
        exact hbm
    · rw [sbufs, hbufs, htake]
      cases hc : self.m_CVS <;> simp [List.flatMap_append]
    · rw [sconv, hconv, List.range_succ]
      cases hc : self.m_CVS <;> simp [List.flatMap_append, hm]

end TSNC

namespace TSNC

/-- The four mip copies of one set add no conversion and no upload to the log. -/
theorem copy_set_mips_log {σ : Type} {api : Backend σ} {self : TSNC} {cmdB : CommandBuffer}
    {setIdx : Nat} {w w' : σ × List BackendCall}
    (h : copy_set_mips api.traced self cmdB setIdx w = some w') :
    conversion_targets w'.2 = conversion_targets w.2 ∧ uploads w'.2 = uploads w.2 := by
  unfold copy_set_mips at h
  obtain ⟨t0, _, h⟩ := Option.bind_eq_some.mp h
  obtain ⟨t1, _, h⟩ := Option.bind_eq_some.mp h
  obtain ⟨t2, _, h⟩ := Option.bind_eq_some.mp h
  obtain ⟨t3, _, h⟩ := Option.bind_eq_some.mp h
  have e := (Option.some.inj h).symm
  subst e
  constructor <;>
    simp [Backend.traced, conversion_targets_append, uploads_append, conversion_targets, uploads]

/-- The loop over the mips adds no conversion and no upload to the log. -/
theorem copy_all_mips_log {σ : Type} {api : Backend σ} {self : TSNC} {cmdB : CommandBuffer}
    {w : σ × List BackendCall} :
    ∀ {k : Nat} {w' : σ × List BackendCall},
    copy_all_mips api.traced self cmdB k w = some w' →
    conversion_targets w'.2 = conversion_targets w.2 ∧ uploads w'.2 = uploads w.2
  | 0, w', h => by
    have e := (Option.some.inj h).symm
    subst e
    exact ⟨rfl, rfl⟩
  | k + 1, w', h => by
    obtain ⟨mid, hmid, hstep⟩ := Option.bind_eq_some.mp h
    obtain ⟨c1, u1⟩ := copy_all_mips_log hmid
    obtain ⟨c2, u2⟩ := copy_set_mips_log hstep
    exact ⟨c2.trans c1, u2.trans u1⟩

/-- The release of the four texture buffers of one set adds no conversion and no upload to
the log. -/
theorem release_set_log {σ : Type} {api : Backend σ} {setIdx : Nat}
    {st st' : List TexData × σ × List BackendCall}
    (h : release_set api.traced setIdx st = some st') :
    conversion_targets st'.2.2 = conversion_targets st.2.2 ∧ uploads st'.2.2 = uploads st.2.2 := by
  unfold release_set at h
  obtain ⟨t0, _, h⟩ := Option.bind_eq_some.mp h
  obtain ⟨t1, _, h⟩ := Option.bind_eq_some.mp h
  obtain ⟨t2, _, h⟩ := Option.bind_eq_some.mp h
  obtain ⟨t3, _, h⟩ := Option.bind_eq_some.mp h
  obtain ⟨d0, _, h⟩ := Option.bind_eq_some.mp h
  obtain ⟨d1, _, h⟩ := Option.bind_eq_some.mp h
  obtain ⟨d2, _, h⟩ := Option.bind_eq_some.mp h
  obtain ⟨d3, _, h⟩ := Option.bind_eq_some.mp h
  have e := (Option.some.inj h).symm
  subst e
  constructor <;>
    simp [Backend.traced, conversion_targets_append, uploads_append, conversion_targets, uploads]

/-- The release loop adds no conversion and no upload to the log. -/
theorem release_sets_log {σ : Type} {api : Backend σ}
    {st : List TexData × σ × List BackendCall} :
    ∀ {k : Nat} {st' : List TexData × σ × List BackendCall},
    release_sets api.traced k st = some st' →
    conversion_targets st'.2.2 = conversion_targets st.2.2 ∧ uploads st'.2.2 = uploads st.2.2
  | 0, st', h => by
    have e := (Option.some.inj h).symm
    subst e
    exact ⟨rfl, rfl⟩
  | k + 1, st', h => by
    obtain ⟨mid, hmid, hstep⟩ := Option.bind_eq_some.mp h
    obtain ⟨c1, u1⟩ := release_sets_log hmid
    obtain ⟨c2, u2⟩ := release_set_log hstep
    exact ⟨c2.trans c1, u2.trans u1⟩

/-- The uploads that end `upload_network`: no conversion, and the three weight uploads (tiled
mode off) followed by the three bias uploads. -/
theorem upload_concatenated_log {σ : Type} (api : Backend σ) (self : TSNC) (cmdQ : CommandQueue)
    (cmdB : CommandBuffer) (bufs : ConcatBuffers) (w : σ × List BackendCall) :
    conversion_targets (upload_concatenated api.traced self cmdQ cmdB bufs w).2 =
      conversion_targets w.2 ∧
    uploads (upload_concatenated api.traced self cmdQ cmdB bufs w).2 =
      uploads w.2 ++
        (if self.m_CVS then []
         else
          [ (bytes_of_floats bufs.mlpWeight0, u64 (bufs.mlpWeight0.length * sizeof_float),
              sizeof_float, self.m_Nwk.mlp.weight0Buffer),
            (bytes_of_floats bufs.mlpWeight1, u64 (bufs.mlpWeight1.length * sizeof_float),
              sizeof_float, self.m_Nwk.mlp.weight1Buffer),
            (bytes_of_floats bufs.mlpWeight2, u64 (bufs.mlpWeight2.length * sizeof_float),
              sizeof_float, self.m_Nwk.mlp.weight2Buffer) ]) ++
        [ (bytes_of_floats bufs.mlpBias0, u64 (bufs.mlpBias0.length * sizeof_float),
            sizeof_float, self.m_Nwk.mlp.bias0Buffer),
          (bytes_of_floats bufs.mlpBias1, u64 (bufs.mlpBias1.length * sizeof_float),
            sizeof_float, self.m_Nwk.mlp.bias1Buffer),
          (bytes_of_floats bufs.mlpBias2, u64 (bufs.mlpBias2.length * sizeof_float),
            sizeof_float, self.m_Nwk.mlp.bias2Buffer) ] := by
  unfold upload_concatenated
  cases hc : self.m_CVS <;>
    simp [Backend.traced, conversion_targets_append, uploads_append, conversion_targets, uploads]

end TSNC

namespace TSNC

/-- A defined run of `upload_network` from an empty log: only `m_TexData` changes in the
object; the iterators stay inside the layer buffers; the six vectors are the concatenations,
in network order, of the weight regions (tiled mode off) and of the bias blocks; the log holds
the conversions of the tiled path and the uploads of the concatenated vectors. -/
theorem upload_network_spec {σ : Type} {api : Backend σ} {self : TSNC} {world : σ}
    {cmdQ : CommandQueue} {cmdB : CommandBuffer}
    {r : TSNC × ConcatBuffers × σ × List BackendCall}
    (h : upload_network api.traced self (world, []) cmdQ cmdB = some r) :
    (∃ m_TexData, r.1 = { self with m_TexData := m_TexData }) ∧
    self.m_NumSets ≤ self.m_MLPArray.length ∧
    (∀ m ∈ self.m_MLPArray.take self.m_NumSets,
      u32 (m.mlp0Width * m.mlp0Height) ≤ m.mlp0Buffer.length ∧
      u32 (m.mlp1Width * m.mlp1Height) ≤ m.mlp1Buffer.length ∧
      u32 (m.mlp2Width * m.mlp2Height) ≤ m.mlp2Buffer.length) ∧
    r.2.1 =
      { mlpWeight0 :=
          if self.m_CVS then [] else (self.m_MLPArray.take self.m_NumSets).flatMap fun m =>
            m.mlp0Buffer.take (u32 (m.mlp0Width * m.mlp0Height)),
        mlpWeight1 :=
          if self.m_CVS then [] else (self.m_MLPArray.take self.m_NumSets).flatMap fun m =>
            m.mlp1Buffer.take (u32 (m.mlp1Width * m.mlp1Height)),
        mlpWeight2 :=
          if self.m_CVS then [] else (self.m_MLPArray.take self.m_NumSets).flatMap fun m =>
            m.mlp2Buffer.take (u32 (m.mlp2Width * m.mlp2Height)),
        mlpBias0 := (self.m_MLPArray.take self.m_NumSets).flatMap fun m =>
          m.mlp0Buffer.drop (u32 (m.mlp0Width * m.mlp0Height)),
        mlpBias1 := (self.m_MLPArray.take self.m_NumSets).flatMap fun m =>
          m.mlp1Buffer.drop (u32 (m.mlp1Width * m.mlp1Height)),
        mlpBias2 := (self.m_MLPArray.take self.m_NumSets).flatMap fun m =>
          m.mlp2Buffer.drop (u32 (m.mlp2Width * m.mlp2Height)) } ∧
    conversion_targets r.2.2.2 =
      (if self.m_CVS then
        (List.range self.m_NumSets).flatMap fun i =>
          match self.m_MLPArray[i]? with
          | some m => tile_targets self.m_Nwk.mlp i m
          | none => []
       else []) ∧
    uploads r.2.2.2 =
      (if self.m_CVS then []
       else
        [ (bytes_of_floats r.2.1.mlpWeight0, u64 (r.2.1.mlpWeight0.length * sizeof_float),
            sizeof_float, self.m_Nwk.mlp.weight0Buffer),
          (bytes_of_floats r.2.1.mlpWeight1, u64 (r.2.1.mlpWeight1.length * sizeof_float),
            sizeof_float, self.m_Nwk.mlp.weight1Buffer),
          (bytes_of_floats r.2.1.mlpWeight2, u64 (r.2.1.mlpWeight2.length * sizeof_float),
            sizeof_float, self.m_Nwk.mlp.weight2Buffer) ]) ++
      [ (bytes_of_floats r.2.1.mlpBias0, u64 (r.2.1.mlpBias0.length * sizeof_float),
          sizeof_float, self.m_Nwk.mlp.bias0Buffer),
        (bytes_of_floats r.2.1.mlpBias1, u64 (r.2.1.mlpBias1.length * sizeof_float),
          sizeof_float, self.m_Nwk.mlp.bias1Buffer),
        (bytes_of_floats r.2.1.mlpBias2, u64 (r.2.1.mlpBias2.length * sizeof_float),
          sizeof_float, self.m_Nwk.mlp.bias2Buffer) ] := by
  obtain ⟨self', bufs, w'⟩ := r
  unfold upload_network at h
  obtain ⟨w1, h1, h⟩ := Option.bind_eq_some.mp h
  obtain ⟨⟨td, w2⟩, h2, h⟩ := Option.bind_eq_some.mp h
  obtain ⟨⟨bufs3, w3⟩, h3, h⟩ := Option.bind_eq_some.mp h
  obtain ⟨c1, u1⟩ := copy_all_mips_log h1
  obtain ⟨c2, u2⟩ := release_sets_log h2
  obtain ⟨hk, hb, hbufs, c3, u3⟩ := concat_mlps_spec h3
  have e := Prod.mk.inj (Option.some.inj h)
  obtain ⟨e1, e2⟩ := e
  obtain ⟨e2, e3⟩ := Prod.mk.inj e2
  subst e1 e2 e3
  have c1' : conversion_targets w1.2 = [] := by
    rw [c1]
    simp [Backend.traced, conversion_targets_append, conversion_targets]
  have u1' : uploads w1.2 = [] := by
    rw [u1]
    simp [Backend.traced, uploads_append, uploads]
  have c2' : conversion_targets w2.2 = [] := by
    rw [c2]
    simp [Backend.traced, conversion_targets_append, conversion_targets, c1']
  have u2' : uploads w2.2 = [] := by
    rw [u2]
    simp [Backend.traced, uploads_append, uploads, u1']
  obtain ⟨c4, u4⟩ := upload_concatenated_log api { self with m_TexData := td } cmdQ cmdB bufs3 w3
  dsimp only at hk hb hbufs c3 u3 c4 u4
  refine ⟨⟨td, rfl⟩, hk, hb, ?_, ?_, ?_⟩
  · rw [hbufs]
    simp only [List.nil_append]
  · rw [c4, c3, c2']
    simp only [List.nil_append]
  · rw [u4, u3, u2']
    simp only [List.nil_append]

end TSNC

namespace TSNC

/-- The index `4 * setIdx + j` of `upload_network` inside `m_TexData`. -/
theorem tex_index_lt {setIdx numSets j len : Nat} (hk : setIdx < numSets) (hj : j < 4)
    (h32 : 4 * numSets < 4294967296) (hlen : 4 * numSets ≤ len) :
    u32 (u32 (4 * setIdx) + j) < len := by
  rw [u32_of_lt (by omega : 4 * setIdx < 4294967296), u32_of_lt (by omega)]
  omega

theorem copy_set_mips_defined {σ : Type} (api : Backend σ) (self : TSNC) (cmdB : CommandBuffer)
    {setIdx : Nat} (world : σ) (hk : setIdx < self.m_NumSets)
    (h32 : 4 * self.m_NumSets < 4294967296) (hlen : 4 * self.m_NumSets ≤ self.m_TexData.length) :
    ∃ world', copy_set_mips api self cmdB setIdx world = some world' := by
  unfold copy_set_mips
  rw [List.getElem?_eq_getElem (tex_index_lt hk (by decide) h32 hlen),
    List.getElem?_eq_getElem (tex_index_lt hk (by decide) h32 hlen),
    List.getElem?_eq_getElem (tex_index_lt hk (by decide) h32 hlen),
    List.getElem?_eq_getElem (tex_index_lt hk (by decide) h32 hlen)]
  exact ⟨_, rfl⟩

theorem copy_all_mips_defined {σ : Type} (api : Backend σ) (self : TSNC) (cmdB : CommandBuffer)
    (world : σ) (h32 : 4 * self.m_NumSets < 4294967296)
    (hlen : 4 * self.m_NumSets ≤ self.m_TexData.length) :
    ∀ k, k ≤ self.m_NumSets → ∃ world', copy_all_mips api self cmdB k world = some world'
  | 0, _ => ⟨world, rfl⟩
  | k + 1, hk => by
    obtain ⟨mid, hmid⟩ := copy_all_mips_defined api self cmdB world h32 hlen k (by omega)
    obtain ⟨w', hw'⟩ := copy_set_mips_defined api self cmdB mid (by omega : k < self.m_NumSets)
      h32 hlen
    exact ⟨w', by unfold copy_all_mips; rw [hmid]; exact hw'⟩

theorem clear_texture_buffer_defined {v : List TexData} {i : Nat} (h : i < v.length) :
    ∃ v', clear_texture_buffer v i = some v' ∧ v'.length = v.length := by
  unfold clear_texture_buffer
  rw [List.getElem?_eq_getElem h]
  exact ⟨_, rfl, List.length_set _ _ _⟩

theorem release_set_defined {σ : Type} (api : Backend σ) {setIdx numSets : Nat}
    (st : List TexData × σ) (hk : setIdx < numSets) (h32 : 4 * numSets < 4294967296)
    (hlen : 4 * numSets ≤ st.1.length) :
    ∃ st', release_set api setIdx st = some st' ∧ st'.1.length = st.1.length := by
  unfold release_set
  rw [List.getElem?_eq_getElem (tex_index_lt hk (by decide) h32 hlen),
    List.getElem?_eq_getElem (tex_index_lt hk (by decide) h32 hlen),
    List.getElem?_eq_getElem (tex_index_lt hk (by decide) h32 hlen),
    List.getElem?_eq_getElem (tex_index_lt hk (by decide) h32 hlen)]
  obtain ⟨v0, e0, l0⟩ := @clear_texture_buffer_defined st.1 (u32 (u32 (4 * setIdx) + 0))
    (tex_index_lt hk (by decide) h32 hlen)
  obtain ⟨v1, e1, l1⟩ := @clear_texture_buffer_defined v0 (u32 (u32 (4 * setIdx) + 1))
    (by rw [l0]; exact tex_index_lt hk (by decide) h32 hlen)
  obtain ⟨v2, e2, l2⟩ := @clear_texture_buffer_defined v1 (u32 (u32 (4 * setIdx) + 2))
    (by rw [l1, l0]; exact tex_index_lt hk (by decide) h32 hlen)
  obtain ⟨v3, e3, l3⟩ := @clear_texture_buffer_defined v2 (u32 (u32 (4 * setIdx) + 3))
    (by rw [l2, l1, l0]; exact tex_index_lt hk (by decide) h32 hlen)
  simp only [Option.some_bind, e0, e1, e2, e3]
  exact ⟨_, rfl, by rw [l3, l2, l1, l0]⟩

theorem release_sets_defined {σ : Type} (api : Backend σ) {numSets : Nat}
    (st : List TexData × σ) (h32 : 4 * numSets < 4294967296) (hlen : 4 * numSets ≤ st.1.length) :
    ∀ k, k ≤ numSets → ∃ st', release_sets api k st = some st' ∧ st'.1.length = st.1.length
  | 0, _ => ⟨st, rfl, rfl⟩
  | k + 1, hk => by
    obtain ⟨mid, hmid, lmid⟩ := release_sets_defined api st h32 hlen k (by omega)
    obtain ⟨st', hst', l'⟩ := release_set_defined api mid (by omega : k < numSets) h32
      (by rw [lmid]; exact hlen)
    exact ⟨st', by unfold release_sets; rw [hmid]; exact hst', l'.trans lmid⟩

theorem concat_mlp_defined {σ : Type} (api : Backend σ) (self : TSNC) (cmdQ : CommandQueue)
    (cmdB : CommandBuffer) {setIdx : Nat} (st : ConcatBuffers × σ) {m : CPUMLP}
    (hm : self.m_MLPArray[setIdx]? = some m)
    (h0 : u32 (m.mlp0Width * m.mlp0Height) ≤ m.mlp0Buffer.length)
    (h1 : u32 (m.mlp1Width * m.mlp1Height) ≤ m.mlp1Buffer.length)
    (h2 : u32 (m.mlp2Width * m.mlp2Height) ≤ m.mlp2Buffer.length) :
    ∃ st', concat_mlp api self cmdQ cmdB setIdx st = some st' := by
  unfold concat_mlp
  rw [hm, Option.some_bind]
  cases hc : self.m_CVS
  · simp only [Bool.false_eq_true, if_false, vector_insert_range_eq (Nat.zero_le _) h0,
      vector_insert_range_eq (Nat.zero_le _) h1, vector_insert_range_eq (Nat.zero_le _) h2,
      vector_insert_range_eq h0 (Nat.le_refl _), vector_insert_range_eq h1 (Nat.le_refl _),
      vector_insert_range_eq h2 (Nat.le_refl _), Option.some_bind]
    exact ⟨_, rfl⟩
  · simp only [if_true, vector_insert_range_eq h0 (Nat.le_refl _),
      vector_insert_range_eq h1 (Nat.le_refl _), vector_insert_range_eq h2 (Nat.le_refl _),
      Option.some_bind]
    exact ⟨_, rfl⟩

theorem concat_mlps_defined {σ : Type} (api : Backend σ) (self : TSNC) (cmdQ : CommandQueue)
    (cmdB : CommandBuffer) (st : ConcatBuffers × σ) :
    ∀ k, k ≤ self.m_MLPArray.length →
      (∀ m ∈ self.m_MLPArray.take k,
        u32 (m.mlp0Width * m.mlp0Height) ≤ m.mlp0Buffer.length ∧
        u32 (m.mlp1Width * m.mlp1Height) ≤ m.mlp1Buffer.length ∧
        u32 (m.mlp2Width * m.mlp2Height) ≤ m.mlp2Buffer.length) →
      ∃ st', concat_mlps api self cmdQ cmdB k st = some st'
  | 0, _, _ => ⟨st, rfl⟩
  | k + 1, hk, hb => by
    have hm : self.m_MLPArray[k]? = some self.m_MLPArray[k] := List.getElem?_eq_getElem (by omega)
    have htake := take_succ_of_getElem? hm
    obtain ⟨mid, hmid⟩ := concat_mlps_defined api self cmdQ cmdB st k (by omega)
      (fun m hmem => hb m (by rw [htake]; exact List.mem_append_left _ hmem))
    obtain ⟨b0, b1, b2⟩ := hb self.m_MLPArray[k]
      (by rw [htake]; exact List.mem_append_right _ (List.mem_singleton.mpr rfl))
    obtain ⟨st', hst'⟩ := concat_mlp_defined api self cmdQ cmdB mid hm b0 b1 b2
    exact ⟨st', by unfold concat_mlps; rw [hmid]; exact hst'⟩

/-- The method `upload_network` returns when `m_TexData` holds the four textures of every set,
`m_MLPArray` holds a network for every set, and in every layer of these networks the 32-bit
product `width * height` does not exceed the length of the layer buffer. -/
theorem upload_network_defined {σ : Type} (api : Backend σ) (self : TSNC) (world : σ)
    (cmdQ : CommandQueue) (cmdB : CommandBuffer)
    (h32 : 4 * self.m_NumSets < 4294967296)
    (hlen : 4 * self.m_NumSets ≤ self.m_TexData.length)
    (hk : self.m_NumSets ≤ self.m_MLPArray.length)
    (hb : ∀ m ∈ self.m_MLPArray.take self.m_NumSets,
      u32 (m.mlp0Width * m.mlp0Height) ≤ m.mlp0Buffer.length ∧
      u32 (m.mlp1Width * m.mlp1Height) ≤ m.mlp1Buffer.length ∧
      u32 (m.mlp2Width * m.mlp2Height) ≤ m.mlp2Buffer.length) :
    ∃ r, upload_network api self world cmdQ cmdB = some r := by
  unfold upload_network
  dsimp only
  obtain ⟨w1, h1⟩ := copy_all_mips_defined api self cmdB
    (api.copy_graphics_buffer
      (api.reset
        (api.set_buffer_data
          (api.create_graphics_buffer world self.m_Device
            (u64 (self.m_UVOffset.length * sizeof_float2)) sizeof_float2
            GraphicsBufferType.Upload).2
          (api.create_graphics_buffer world self.m_Device
            (u64 (self.m_UVOffset.length * sizeof_float2)) sizeof_float2
            GraphicsBufferType.Upload).1
          (bytes_of_float2s self.m_UVOffset) (u64 (self.m_UVOffset.length * sizeof_float2)))
        cmdB)
      cmdB
      (api.create_graphics_buffer world self.m_Device
        (u64 (self.m_UVOffset.length * sizeof_float2)) sizeof_float2
        GraphicsBufferType.Upload).1
      self.m_UVOffsetBuffer) h32 hlen self.m_NumSets (Nat.le_refl _)
  rw [h1, Option.some_bind]
  obtain ⟨⟨td, w2⟩, h2, _⟩ := release_sets_defined api
    (self.m_TexData,
      api.destroy_graphics_buffer
        (api.flush (api.execute_command_buffer (api.close w1 cmdB) cmdQ cmdB) cmdQ)
        (api.create_graphics_buffer world self.m_Device
          (u64 (self.m_UVOffset.length * sizeof_float2)) sizeof_float2
          GraphicsBufferType.Upload).1) h32 hlen self.m_NumSets (Nat.le_refl _)
  rw [h2, Option.some_bind]
  dsimp only
  obtain ⟨⟨bufs, w3⟩, h3⟩ := concat_mlps_defined api { self with m_TexData := td } cmdQ cmdB
    (⟨[], [], [], [], [], []⟩, w2) self.m_NumSets hk hb
  rw [h3, Option.some_bind]
  exact ⟨_, rfl⟩

end TSNC

theorem flatMap_congr_mem {α β : Type} {l : List α} {f g : α → List β}
    (h : ∀ a ∈ l, f a = g a) : l.flatMap f = l.flatMap g := by
  induction l with
  | nil => rfl
  | cons a t ih =>
    rw [List.flatMap_cons, List.flatMap_cons, h a (List.mem_cons_self _ _),
      ih (fun b hb => h b (List.mem_cons_of_mem _ hb))]

/-- The tiled-path byte offset is `setIdx * (width * height) * 2` when the element offset
fits in 32 bits. -/
theorem TSNC.weight_offset_eq {setIdx width height : Nat}
    (hfit : setIdx * (width * height) < 4294967296) :
    TSNC.weight_offset setIdx width height = setIdx * (width * height) * 2 := by
  unfold TSNC.weight_offset sizeof_float16_t
  rcases Nat.eq_zero_or_pos height with h0 | hpos
  · subst h0
    simp [u32, u64]
  · have e : setIdx * width * height = setIdx * (width * height) := Nat.mul_assoc _ _ _
    have hle : setIdx * width ≤ setIdx * width * height := Nat.le_mul_of_pos_right _ hpos
    rw [u32_of_lt (by omega : setIdx * width < 4294967296), e, u32_of_lt hfit,
      u64_of_lt (by omega)]

/-! ## `TSNC::upload_network`: the claims -/

/-- The byte size of a batched weight buffer when its element count fits in 32 bits. -/
theorem weight_bytes_batch {w h n : Nat} (hfit : n * (w * h) < 4294967296)
    (hn : n < 2147483648) :
    u64 (u64 (u32 (w * h) * sizeof_float16_t) * u64 n) = n * (w * h) * 2 := by
  rcases Nat.eq_zero_or_pos n with h0 | hpos
  · subst h0
    simp [u64]
  · have hle : w * h ≤ n * (w * h) := Nat.le_mul_of_pos_left _ hpos
    rw [weight_bytes_array (by omega) hn]
    ring

/-- A network of a homogeneous batch has the dimensions of network 0. -/
theorem homogeneous_getElem? {α : Type} {P : α → Prop} {a : α} {l : List α} (ha : P a)
    (hl : ∀ x ∈ l, P x) {k : Nat} (hk : k < l.length + 1) :
    ∃ x, (a :: l)[k]? = some x ∧ P x := by
  cases k with
  | zero => exact ⟨a, List.getElem?_cons_zero, ha⟩
  | succ j =>
    have hj : j < l.length := by omega
    exact ⟨l[j], by rw [List.getElem?_cons_succ, List.getElem?_eq_getElem hj],
      hl _ (List.getElem_mem _)⟩

/-- C15, counterexample. A batch of two copies of `squareNet` (first layer 65536 x 65536, so
`E = 2^32`) in tiled mode: `upload_network` returns, and for network 1 the claim gives the
byte offset `1 * E * 2 = 2^33` in layer 0, but the offset is a `uint32_t` product and the
conversions of network 1 into the layer-0 buffers 12 and 11 are recorded with offset 0, the
offset of network 0. -/
theorem upload_network_tiled_offsets_counterexample :
    ∃ r, TSNC.upload_network countingBackend.traced (uploadTSNC true [squareNet, squareNet])
        (0, []) 1 2 = some r ∧
      conversion_targets r.2.2.2 =
        [ (12, 0, 65536, 65536, true), (11, 0, 65536, 65536, false),
          (15, 0, 1, 65536, true), (14, 0, 1, 65536, false),
          (18, 0, 16, 1, true), (17, 0, 16, 1, false),
          (12, 0, 65536, 65536, true), (11, 0, 65536, 65536, false),
          (15, 131072, 1, 65536, true), (14, 131072, 1, 65536, false),
          (18, 32, 16, 1, true), (17, 32, 16, 1, false) ] ∧
      1 * (squareNet.mlp0Width * squareNet.mlp0Height) * 2 = 8589934592 := by
  have hb : ∀ m ∈ [squareNet, squareNet],
      u32 (m.mlp0Width * m.mlp0Height) ≤ m.mlp0Buffer.length ∧
      u32 (m.mlp1Width * m.mlp1Height) ≤ m.mlp1Buffer.length ∧
      u32 (m.mlp2Width * m.mlp2Height) ≤ m.mlp2Buffer.length := by
    intro m hm
    have e : m = squareNet := by
      rcases List.mem_cons.mp hm with h | h
      · exact h
      · exact List.mem_singleton.mp h
    subst e
    refine ⟨Nat.zero_le _, ?_, ?_⟩
    · show u32 (1 * 65536) ≤ (List.replicate 65537 float.zero).length
      rw [List.length_replicate]
      decide
    · show u32 (16 * 1) ≤ (List.replicate 32 float.zero).length
      rw [List.length_replicate]
      decide
  obtain ⟨r, hr⟩ := TSNC.upload_network_defined countingBackend.traced
    (uploadTSNC true [squareNet, squareNet]) (0, []) 1 2 (by decide)
    (by show 4 * 2 ≤ (List.replicate (4 * 2) _).length; rw [List.length_replicate])
    (Nat.le_refl _) hb
  obtain ⟨_, _, _, _, hconv, _⟩ := TSNC.upload_network_spec hr
  refine ⟨r, hr, ?_, by decide⟩
  rw [hconv]
  decide

/-- C15 (amended with the 32-bit bound). For every homogeneous batch of `N` networks
(`N < 2^31`, the dimensions those of network 0, `uint32_t` values) in which, for each layer,
the element count `N * E` of the batched weight buffer fits in 32 bits, `E = width_i *
height_i`: in every run of `upload_network` in tiled mode the conversions recorded are, for
`k = 0, ..., N - 1` in turn and for each layer, those of network `k` into the optimal and the
main weight buffer of the layer, with destination byte offset `k * E * 2`; the buffers that
`allocate_gpu_mlp_array` requests for the same batch hold `N * E * 2` bytes, that is `N * E`
elements; and the element ranges `[k * E, k * E + E)` lie inside `[0, N * E)` and are pairwise
disjoint. -/
theorem upload_network_tiled_offsets {σ : Type} (api : Backend σ) (self : TSNC)
    (world world0 : σ) (cmdQ : CommandQueue) (cmdB : CommandBuffer) (gpu : GPUMLP)
    (m0 : CPUMLP) (others : List CPUMLP) (r : TSNC × ConcatBuffers × σ × List BackendCall)
    (harr : self.m_MLPArray = m0 :: others) (hN : self.m_NumSets = others.length + 1)
    (hcvs : self.m_CVS = true)
    (hhom : ∀ m ∈ others,
      m.mlp0Width = m0.mlp0Width ∧ m.mlp0Height = m0.mlp0Height ∧
      m.mlp1Width = m0.mlp1Width ∧ m.mlp1Height = m0.mlp1Height ∧
      m.mlp2Width = m0.mlp2Width ∧ m.mlp2Height = m0.mlp2Height)
    (hr : m0.InRange) (hN31 : others.length + 1 < 2147483648)
    (h0 : (others.length + 1) * (m0.mlp0Width * m0.mlp0Height) < 4294967296)
    (h1 : (others.length + 1) * (m0.mlp1Width * m0.mlp1Height) < 4294967296)
    (h2 : (others.length + 1) * (m0.mlp2Width * m0.mlp2Height) < 4294967296)
    (hrun : TSNC.upload_network api.traced self (world, []) cmdQ cmdB = some r) :
    conversion_targets r.2.2.2 =
      (List.range (others.length + 1)).flatMap (fun k =>
        (if self.m_Nwk.mlp.weight0OptimalBuffer ≠ 0 then
           [(self.m_Nwk.mlp.weight0OptimalBuffer, k * (m0.mlp0Width * m0.mlp0Height) * 2,
             m0.mlp0Width, m0.mlp0Height, true)]
         else []) ++
        (if self.m_Nwk.mlp.weight0Buffer ≠ 0 then
           [(self.m_Nwk.mlp.weight0Buffer, k * (m0.mlp0Width * m0.mlp0Height) * 2,
             m0.mlp0Width, m0.mlp0Height, false)]
         else []) ++
        ((if self.m_Nwk.mlp.weight1OptimalBuffer ≠ 0 then
           [(self.m_Nwk.mlp.weight1OptimalBuffer, k * (m0.mlp1Width * m0.mlp1Height) * 2,
             m0.mlp1Width, m0.mlp1Height, true)]
         else []) ++
        (if self.m_Nwk.mlp.weight1Buffer ≠ 0 then
           [(self.m_Nwk.mlp.weight1Buffer, k * (m0.mlp1Width * m0.mlp1Height) * 2,
             m0.mlp1Width, m0.mlp1Height, false)]
         else [])) ++
        ((if self.m_Nwk.mlp.weight2OptimalBuffer ≠ 0 then
           [(self.m_Nwk.mlp.weight2OptimalBuffer, k * (m0.mlp2Width * m0.mlp2Height) * 2,
             m0.mlp2Width, m0.mlp2Height, true)]
         else []) ++
        (if self.m_Nwk.mlp.weight2Buffer ≠ 0 then
           [(self.m_Nwk.mlp.weight2Buffer, k * (m0.mlp2Width * m0.mlp2Height) * 2,
             m0.mlp2Width, m0.mlp2Height, false)]
         else []))) ∧
    (∃ a, mlp.allocate_gpu_mlp_array api.traced (world0, []) self.m_Device self.m_MLPArray gpu
          = some a ∧
        requested_buffers a.2.2 =
          [ ((others.length + 1) * (m0.mlp0Width * m0.mlp0Height) * 2, 2,
              GraphicsBufferType.Default),
            ((others.length + 1) * (m0.mlp0Width * m0.mlp0Height) * 2, 2,
              GraphicsBufferType.Default),
            (m0.mlp0Width * 2 * (others.length + 1), 2, GraphicsBufferType.Default),
            ((others.length + 1) * (m0.mlp1Width * m0.mlp1Height) * 2, 2,
              GraphicsBufferType.Default),
            ((others.length + 1) * (m0.mlp1Width * m0.mlp1Height) * 2, 2,
              GraphicsBufferType.Default),
            (m0.mlp1Width * 2 * (others.length + 1), 2, GraphicsBufferType.Default),
            ((others.length + 1) * (m0.mlp2Width * m0.mlp2Height) * 2, 2,
              GraphicsBufferType.Default),
            ((others.length + 1) * (m0.mlp2Width * m0.mlp2Height) * 2, 2,
              GraphicsBufferType.Default),
            (m0.mlp2Width * 2 * (others.length + 1), 2, GraphicsBufferType.Default) ]) ∧
    (∀ E ∈ [m0.mlp0Width * m0.mlp0Height, m0.mlp1Width * m0.mlp1Height,
          m0.mlp2Width * m0.mlp2Height],
      ∀ j k, j < k → k < others.length + 1 →
        j * E + E ≤ k * E ∧ k * E + E ≤ (others.length + 1) * E) := by
  refine ⟨?_, ?_, ?_⟩
  · obtain ⟨_, _, _, _, hconv, _⟩ := TSNC.upload_network_spec hrun
    rw [hconv, if_pos hcvs, hN, harr]
    apply flatMap_congr_mem
    intro k hk
    have hk' : k < others.length + 1 := List.mem_range.mp hk
    obtain ⟨m, hm, d0, d1, d2, d3, d4, d5⟩ :=
      @homogeneous_getElem? CPUMLP (fun m =>
        m.mlp0Width = m0.mlp0Width ∧ m.mlp0Height = m0.mlp0Height ∧
        m.mlp1Width = m0.mlp1Width ∧ m.mlp1Height = m0.mlp1Height ∧
        m.mlp2Width = m0.mlp2Width ∧ m.mlp2Height = m0.mlp2Height) m0 others
        ⟨rfl, rfl, rfl, rfl, rfl, rfl⟩ hhom k hk'
    have hle : ∀ E, (others.length + 1) * E < 4294967296 → k * E < 4294967296 := fun E hE =>
      Nat.lt_of_le_of_lt (Nat.mul_le_mul_right E (Nat.le_of_lt hk')) hE
    rw [hm]
    dsimp only
    unfold tile_targets
    rw [d0, d1, d2, d3, d4, d5, TSNC.weight_offset_eq (hle _ h0),
      TSNC.weight_offset_eq (hle _ h1), TSNC.weight_offset_eq (hle _ h2)]
  · obtain ⟨_, _, _, r0, _, r1, _, r2, _⟩ := hr
    obtain ⟨a, ha, hlog⟩ := mlp.allocate_gpu_mlp_array_log api world0 self.m_Device m0 others gpu
    refine ⟨a, by rw [harr]; exact ha, ?_⟩
    rw [hlog]
    simp only [weight_bytes_batch h0 hN31, weight_bytes_batch h1 hN31,
      weight_bytes_batch h2 hN31, bias_bytes_array r0 hN31, bias_bytes_array r1 hN31,
      bias_bytes_array r2 hN31]
    rfl
  · intro E _ j k hjk hk
    constructor
    · calc j * E + E = (j + 1) * E := (Nat.succ_mul j E).symm
        _ ≤ k * E := Nat.mul_le_mul_right E hjk
    · calc k * E + E = (k + 1) * E := (Nat.succ_mul k E).symm
        _ ≤ (others.length + 1) * E := Nat.mul_le_mul_right E hk

set_option maxRecDepth 100000 in
/-- Witness for C15: a batch of two copies of the scenario network (layers 4 x 10, 4 x 4 and
3 x 4) in tiled mode. Network 1 is written at the byte offsets 80, 32 and 24, and the batched
weight buffers hold 160, 64 and 48 bytes. -/
theorem upload_network_tiled_offsets_witness :
    ∃ r, TSNC.upload_network countingBackend.traced (uploadTSNC true [scenarioNet, scenarioNet])
        (0, []) 1 2 = some r ∧
      conversion_targets r.2.2.2 =
        [ (12, 0, 4, 10, true), (11, 0, 4, 10, false),
          (15, 0, 4, 4, true), (14, 0, 4, 4, false),
          (18, 0, 3, 4, true), (17, 0, 3, 4, false),
          (12, 80, 4, 10, true), (11, 80, 4, 10, false),
          (15, 32, 4, 4, true), (14, 32, 4, 4, false),
          (18, 24, 3, 4, true), (17, 24, 3, 4, false) ] ∧
      (∃ a, mlp.allocate_gpu_mlp_array countingBackend.traced (0, []) 1
            [scenarioNet, scenarioNet] nullGPUMLP = some a ∧
          requested_buffers a.2.2 =
            [ (160, 2, GraphicsBufferType.Default), (160, 2, GraphicsBufferType.Default),
              (16, 2, GraphicsBufferType.Default),
              (64, 2, GraphicsBufferType.Default), (64, 2, GraphicsBufferType.Default),
              (16, 2, GraphicsBufferType.Default),
              (48, 2, GraphicsBufferType.Default), (48, 2, GraphicsBufferType.Default),
              (12, 2, GraphicsBufferType.Default) ]) ∧
      (∀ E ∈ [4 * 10, 4 * 4, 3 * 4], ∀ j k, j < k → k < 1 + 1 →
        j * E + E ≤ k * E ∧ k * E + E ≤ (1 + 1) * E) :=
  (TSNC.upload_network_defined countingBackend.traced (uploadTSNC true [scenarioNet, scenarioNet])
      (0, []) 1 2 (by decide) (by decide) (by decide) (by decide)).elim fun r hr =>
    have t := upload_network_tiled_offsets countingBackend
      (uploadTSNC true [scenarioNet, scenarioNet]) 0 0 1 2 nullGPUMLP scenarioNet [scenarioNet] r
      rfl rfl rfl (by decide) (by decide) (by decide) (by decide) (by decide) (by decide) hr
    ⟨r, hr, t.1.trans (by decide), t.2.1, t.2.2⟩

/-- In a concatenation of blocks of one length `E`, block `k` is the element range
`[k * E, k * E + E)`. -/
theorem flatMap_block {α β : Type} (f : β → List α) (E : Nat) :
    ∀ (l : List β), (∀ x ∈ l, (f x).length = E) → ∀ (k : Nat) (hk : k < l.length),
      ((l.flatMap f).drop (k * E)).take E = f (l.get ⟨k, hk⟩)
  | [], _, k, hk => absurd hk (Nat.not_lt_zero k)
  | a :: t, hl, 0, _ => by
    have ha : (f a).length = E := hl a (List.mem_cons_self _ _)
    rw [List.flatMap_cons, Nat.zero_mul, List.drop_zero, ← ha, List.take_left']
    · rfl
    · rfl
  | a :: t, hl, k + 1, hk => by
    have ha : (f a).length = E := hl a (List.mem_cons_self _ _)
    have e : (k + 1) * E = (f a).length + k * E := by rw [ha, Nat.succ_mul, Nat.add_comm]
    rw [List.flatMap_cons, e, List.drop_append]
    exact flatMap_block f E t (fun x hx => hl x (List.mem_cons_of_mem _ hx)) k
      (Nat.lt_of_succ_lt_succ hk)

/-- The length of a concatenation is the sum of the lengths of its blocks. -/
theorem length_flatMap_sum {α β : Type} (f : β → List α) (g : β → Nat) :
    ∀ (l : List β), (∀ x ∈ l, (f x).length = g x) → (l.flatMap f).length = (l.map g).sum
  | [], _ => rfl
  | a :: t, hl => by
    rw [List.flatMap_cons, List.length_append, List.map_cons, List.sum_cons,
      hl a (List.mem_cons_self _ _),
      length_flatMap_sum f g t (fun x hx => hl x (List.mem_cons_of_mem _ hx))]

/-- The iterators of `upload_network` stay inside the layer buffers of `squareNet`. -/
theorem squareNet_bounds : ∀ m ∈ [squareNet, squareNet],
    u32 (m.mlp0Width * m.mlp0Height) ≤ m.mlp0Buffer.length ∧
    u32 (m.mlp1Width * m.mlp1Height) ≤ m.mlp1Buffer.length ∧
    u32 (m.mlp2Width * m.mlp2Height) ≤ m.mlp2Buffer.length := by
  intro m hm
  have e : m = squareNet := by
    rcases List.mem_cons.mp hm with h | h
    · exact h
    · exact List.mem_singleton.mp h
  subst e
  refine ⟨Nat.zero_le _, ?_, ?_⟩
  · show u32 (1 * 65536) ≤ (List.replicate 65537 float.zero).length
    rw [List.length_replicate]
    decide
  · show u32 (16 * 1) ≤ (List.replicate 32 float.zero).length
    rw [List.length_replicate]
    decide

/-- C16, counterexample. A batch of two copies of `squareNet` with tiled mode off. The first
layer is 65536 x 65536 and its buffer holds 65536 floats, so the first `width * height`
elements of the layer buffer are all 65536 of them; but the end of the weight region is the
`uint32_t` product, which wraps to 0: `upload_network` returns and its layer-0 weight vector
is empty. -/
theorem upload_network_weights_counterexample :
    ∃ r, TSNC.upload_network countingBackend.traced (uploadTSNC false [squareNet, squareNet])
        (0, []) 1 2 = some r ∧
      r.2.1.mlpWeight0 = [] ∧
      (squareNet.mlp0Buffer.take (squareNet.mlp0Width * squareNet.mlp0Height)).length
        = 65536 := by
  obtain ⟨r, hr⟩ := TSNC.upload_network_defined countingBackend.traced
    (uploadTSNC false [squareNet, squareNet]) (0, []) 1 2 (by decide)
    (by show 4 * 2 ≤ (List.replicate (4 * 2) _).length; rw [List.length_replicate])
    (Nat.le_refl _) squareNet_bounds
  obtain ⟨_, _, _, hbufs, _, _⟩ := TSNC.upload_network_spec hr
  refine ⟨r, hr, ?_, ?_⟩
  · rw [hbufs]
    decide
  · show (List.take (65536 * 65536) (List.replicate 65536 (float.ofByte 1))).length = 65536
    rw [List.length_take, List.length_replicate]
    decide

/-- C16 (amended with the 32-bit bound). For every list of `N` networks in which every
product `width_i * height_i` fits in 32 bits, in every run of `upload_network` with tiled mode
off: each layer buffer holds at least `width_i * height_i` elements; the CPU weight vector
built for layer `i` is the append, in network order `0, ..., N - 1`, of the first
`width_i * height_i` elements of the layer buffer of each network; its length is the sum of
these products; when all the networks have the same element count `E` in the layer, network
`k` occupies the element range `[k * E, k * E + E)`; and the three weight vectors are what
the first three uploads of the log send to the three weight buffers. -/
theorem upload_network_weights {σ : Type} (api : Backend σ) (self : TSNC) (world : σ)
    (cmdQ : CommandQueue) (cmdB : CommandBuffer) (nets : List CPUMLP)
    (r : TSNC × ConcatBuffers × σ × List BackendCall)
    (harr : self.m_MLPArray = nets) (hN : self.m_NumSets = nets.length)
    (hcvs : self.m_CVS = false)
    (hfit : ∀ m ∈ nets, m.mlp0Width * m.mlp0Height < 4294967296 ∧
      m.mlp1Width * m.mlp1Height < 4294967296 ∧ m.mlp2Width * m.mlp2Height < 4294967296)
    (hrun : TSNC.upload_network api.traced self (world, []) cmdQ cmdB = some r) :
    (∀ m ∈ nets, m.mlp0Width * m.mlp0Height ≤ m.mlp0Buffer.length ∧
      m.mlp1Width * m.mlp1Height ≤ m.mlp1Buffer.length ∧
      m.mlp2Width * m.mlp2Height ≤ m.mlp2Buffer.length) ∧
    (r.2.1.mlpWeight0 = nets.flatMap (fun m => m.mlp0Buffer.take (m.mlp0Width * m.mlp0Height)) ∧
      r.2.1.mlpWeight1 = nets.flatMap (fun m => m.mlp1Buffer.take (m.mlp1Width * m.mlp1Height)) ∧
      r.2.1.mlpWeight2 =
        nets.flatMap (fun m => m.mlp2Buffer.take (m.mlp2Width * m.mlp2Height))) ∧
    (r.2.1.mlpWeight0.length = (nets.map fun m => m.mlp0Width * m.mlp0Height).sum ∧
      r.2.1.mlpWeight1.length = (nets.map fun m => m.mlp1Width * m.mlp1Height).sum ∧
      r.2.1.mlpWeight2.length = (nets.map fun m => m.mlp2Width * m.mlp2Height).sum) ∧
    (∀ E, (∀ m ∈ nets, m.mlp0Width * m.mlp0Height = E) → ∀ (k : Nat) (hk : k < nets.length),
      (r.2.1.mlpWeight0.drop (k * E)).take E = (nets.get ⟨k, hk⟩).mlp0Buffer.take E) ∧
    (∀ E, (∀ m ∈ nets, m.mlp1Width * m.mlp1Height = E) → ∀ (k : Nat) (hk : k < nets.length),
      (r.2.1.mlpWeight1.drop (k * E)).take E = (nets.get ⟨k, hk⟩).mlp1Buffer.take E) ∧
    (∀ E, (∀ m ∈ nets, m.mlp2Width * m.mlp2Height = E) → ∀ (k : Nat) (hk : k < nets.length),
      (r.2.1.mlpWeight2.drop (k * E)).take E = (nets.get ⟨k, hk⟩).mlp2Buffer.take E) ∧
    (uploads r.2.2.2).take 3 =
      [ (bytes_of_floats r.2.1.mlpWeight0, u64 (r.2.1.mlpWeight0.length * 4), 4,
          self.m_Nwk.mlp.weight0Buffer),
        (bytes_of_floats r.2.1.mlpWeight1, u64 (r.2.1.mlpWeight1.length * 4), 4,
          self.m_Nwk.mlp.weight1Buffer),
        (bytes_of_floats r.2.1.mlpWeight2, u64 (r.2.1.mlpWeight2.length * 4), 4,
          self.m_Nwk.mlp.weight2Buffer) ] := by
  obtain ⟨_, _, hb, hbufs, _, hup⟩ := TSNC.upload_network_spec hrun
  rw [hN, harr, List.take_length] at hb
  rw [hN, harr, List.take_length] at hbufs
  have hcvs' : ¬ self.m_CVS = true := by rw [hcvs]; decide
  simp only [if_neg hcvs'] at hbufs hup
  have hle : ∀ m ∈ nets, m.mlp0Width * m.mlp0Height ≤ m.mlp0Buffer.length ∧
      m.mlp1Width * m.mlp1Height ≤ m.mlp1Buffer.length ∧
      m.mlp2Width * m.mlp2Height ≤ m.mlp2Buffer.length := by
    intro m hm
    obtain ⟨f0, f1, f2⟩ := hfit m hm
    obtain ⟨b0, b1, b2⟩ := hb m hm
    rw [u32_of_lt f0] at b0
    rw [u32_of_lt f1] at b1
    rw [u32_of_lt f2] at b2
    exact ⟨b0, b1, b2⟩
  have w0 : r.2.1.mlpWeight0 =
      nets.flatMap (fun m => m.mlp0Buffer.take (m.mlp0Width * m.mlp0Height)) := by
    rw [hbufs]
    exact flatMap_congr_mem (fun m hm => by rw [u32_of_lt (hfit m hm).1])
  have w1 : r.2.1.mlpWeight1 =
      nets.flatMap (fun m => m.mlp1Buffer.take (m.mlp1Width * m.mlp1Height)) := by
    rw [hbufs]
    exact flatMap_congr_mem (fun m hm => by rw [u32_of_lt (hfit m hm).2.1])
  have w2 : r.2.1.mlpWeight2 =
      nets.flatMap (fun m => m.mlp2Buffer.take (m.mlp2Width * m.mlp2Height)) := by
    rw [hbufs]
    exact flatMap_congr_mem (fun m hm => by rw [u32_of_lt (hfit m hm).2.2])
  have l0 : ∀ m ∈ nets, (m.mlp0Buffer.take (m.mlp0Width * m.mlp0Height)).length
      = m.mlp0Width * m.mlp0Height := fun m hm => by
    rw [List.length_take]; exact Nat.min_eq_left (hle m hm).1
  have l1 : ∀ m ∈ nets, (m.mlp1Buffer.take (m.mlp1Width * m.mlp1Height)).length
      = m.mlp1Width * m.mlp1Height := fun m hm => by
    rw [List.length_take]; exact Nat.min_eq_left (hle m hm).2.1
  have l2 : ∀ m ∈ nets, (m.mlp2Buffer.take (m.mlp2Width * m.mlp2Height)).length
      = m.mlp2Width * m.mlp2Height := fun m hm => by
    rw [List.length_take]; exact Nat.min_eq_left (hle m hm).2.2
  refine ⟨hle, ⟨w0, w1, w2⟩, ⟨?_, ?_, ?_⟩, ?_, ?_, ?_, ?_⟩
  · rw [w0]; exact length_flatMap_sum _ _ nets l0
  · rw [w1]; exact length_flatMap_sum _ _ nets l1
  · rw [w2]; exact length_flatMap_sum _ _ nets l2
  · intro E hE k hk
    rw [w0, flatMap_block _ E nets (fun m hm => (l0 m hm).trans (hE m hm)) k hk,
      hE _ (List.get_mem _ _ _)]
  · intro E hE k hk
    rw [w1, flatMap_block _ E nets (fun m hm => (l1 m hm).trans (hE m hm)) k hk,
      hE _ (List.get_mem _ _ _)]
  · intro E hE k hk
    rw [w2, flatMap_block _ E nets (fun m hm => (l2 m hm).trans (hE m hm)) k hk,
      hE _ (List.get_mem _ _ _)]
  · rw [hup]
    rfl

set_option maxRecDepth 100000 in
/-- Witness for C16: two networks with the dimensions of the scenario network and different
values, tiled mode off. The layer-0 weight vector is the 40 weights of the first network
followed by the 40 weights of the second, which occupy the range `[40, 80)`. -/
theorem upload_network_weights_witness :
    ∃ r, TSNC.upload_network countingBackend.traced (uploadTSNC false [scenarioNet, scenarioNet2])
        (0, []) 1 2 = some r ∧
      r.2.1.mlpWeight0 = scenarioNet.mlp0Buffer.take 40 ++ scenarioNet2.mlp0Buffer.take 40 ∧
      r.2.1.mlpWeight1 = scenarioNet.mlp1Buffer.take 16 ++ scenarioNet2.mlp1Buffer.take 16 ∧
      r.2.1.mlpWeight2 = scenarioNet.mlp2Buffer.take 12 ++ scenarioNet2.mlp2Buffer.take 12 ∧
      r.2.1.mlpWeight0.length = 80 ∧
      (r.2.1.mlpWeight0.drop (1 * 40)).take 40 = scenarioNet2.mlp0Buffer.take 40 ∧
      (uploads r.2.2.2).take 3 =
        [ (bytes_of_floats r.2.1.mlpWeight0, u64 (r.2.1.mlpWeight0.length * 4), 4, 11),
          (bytes_of_floats r.2.1.mlpWeight1, u64 (r.2.1.mlpWeight1.length * 4), 4, 14),
          (bytes_of_floats r.2.1.mlpWeight2, u64 (r.2.1.mlpWeight2.length * 4), 4, 17) ] :=
  (TSNC.upload_network_defined countingBackend.traced
      (uploadTSNC false [scenarioNet, scenarioNet2]) (0, []) 1 2 (by decide) (by decide)
      (by decide) (by decide)).elim fun r hr =>
    have t := upload_network_weights countingBackend
      (uploadTSNC false [scenarioNet, scenarioNet2]) 0 1 2 [scenarioNet, scenarioNet2] r
      rfl rfl rfl (by decide) hr
    ⟨r, hr, t.2.1.1.trans (by decide), t.2.1.2.1.trans (by decide),
      t.2.1.2.2.trans (by decide), t.2.2.1.1.trans (by decide),
      t.2.2.2.1 40 (by decide) 1 (by decide), t.2.2.2.2.2.2⟩

/-- C18. For every call of `upload_and_convert_matrices`, the recorded conversions are: one
into the optimal buffer with the tiled-optimal layout (flag `true`) when `optimalBuffer` is
not null, followed by one into the main buffer with the plain row-major layout (flag `false`)
when `mainBuffer` is not null; so there are two when both destinations are supplied, and a
null destination suppresses its write. Every recorded conversion reads the scratch buffer
`tmp` (the `Default` buffer created by the call, into which the upload buffer is copied) at
source offset 0 as a `matrixWidth x matrixHeight` matrix and writes at the destination byte
offset `offsetBuffer` that the caller supplied. -/
theorem upload_and_convert_matrices_conversions {σ : Type} (api : Backend σ) (world : σ)
    (device : GraphicsDevice) (queue : CommandQueue) (cmdB : CommandBuffer) (buffer : List Byte)
    (matrixWidth matrixHeight : Nat) (mainBuffer optimalBuffer : GraphicsBuffer)
    (offsetBuffer : Nat) :
    ∃ up tmp size,
      BackendCall.create_graphics_buffer device size sizeof_float GraphicsBufferType.Default tmp
        ∈ (mlp.upload_and_convert_matrices api.traced (world, []) device queue cmdB buffer
            matrixWidth matrixHeight mainBuffer optimalBuffer offsetBuffer).2 ∧
      BackendCall.copy_graphics_buffer cmdB up tmp
        ∈ (mlp.upload_and_convert_matrices api.traced (world, []) device queue cmdB buffer
            matrixWidth matrixHeight mainBuffer optimalBuffer offsetBuffer).2 ∧
      conversions (mlp.upload_and_convert_matrices api.traced (world, []) device queue cmdB
          buffer matrixWidth matrixHeight mainBuffer optimalBuffer offsetBuffer).2 =
        (if optimalBuffer ≠ 0 then
           [BackendCall.convert_mat_32_to_16 cmdB tmp 0 optimalBuffer offsetBuffer
              matrixWidth matrixHeight true]
         else []) ++
        (if mainBuffer ≠ 0 then
           [BackendCall.convert_mat_32_to_16 cmdB tmp 0 mainBuffer offsetBuffer
              matrixWidth matrixHeight false]
         else []) := by
  obtain ⟨up, tmp, h⟩ := mlp.upload_and_convert_matrices_log api world [] device queue cmdB
    buffer matrixWidth matrixHeight mainBuffer optimalBuffer offsetBuffer
  refine ⟨up, tmp, u32 (u64 (u32 (matrixWidth * matrixHeight) * sizeof_float)), ?_, ?_, ?_⟩
  · rw [h]; simp
  · rw [h]; simp
  · rw [h]
    by_cases ho : optimalBuffer = 0 <;> by_cases hm : mainBuffer = 0 <;>
      simp [ho, hm, conversions]

/-- C19, counterexample. For a 65536 x 65536 matrix (the first layer of `squareNet`) the claim
gives two buffers of `65536 * 65536 * 4 = 2^34` bytes, but `bufferSize` is a `uint32_t` and
the product wraps to 0: both transient buffers are requested with 0 bytes. -/
theorem upload_and_convert_matrices_buffers_counterexample :
    requested_buffers
        (mlp.upload_and_convert_matrices countingBackend.traced (0, []) 1 2 3
          (bytes_of_floats squareNet.mlp0Buffer) squareNet.mlp0Width squareNet.mlp0Height
          7 8 0).2 =
      [(0, 4, GraphicsBufferType.Upload), (0, 4, GraphicsBufferType.Default)] ∧
    squareNet.mlp0Width * squareNet.mlp0Height * 4 = 17179869184 := by
  decide

/-- C19 (amended with the 32-bit bound). For every call of `upload_and_convert_matrices` with
`matrixWidth * matrixHeight * 4 < 2^32`, the log of backend calls is: the creation of an
`Upload` buffer `up` and of a `Default` buffer `tmp`, each of `matrixWidth * matrixHeight * 4`
bytes; the upload of the data into `up`, the reset of the command buffer and the copy of `up`
into `tmp`; the conversions; the close of the command buffer, the queue execute and the
flush; and last the destruction of `up` and of `tmp`. So exactly two buffers are created,
exactly those two are destroyed, after the execute and the flush, and no other buffer is
created or destroyed. -/
theorem upload_and_convert_matrices_buffers {σ : Type} (api : Backend σ) (world : σ)
    (device : GraphicsDevice) (queue : CommandQueue) (cmdB : CommandBuffer) (buffer : List Byte)
    (matrixWidth matrixHeight : Nat) (mainBuffer optimalBuffer : GraphicsBuffer)
    (offsetBuffer : Nat) (hfit : matrixWidth * matrixHeight * 4 < 4294967296) :
    ∃ up tmp,
      (mlp.upload_and_convert_matrices api.traced (world, []) device queue cmdB buffer
          matrixWidth matrixHeight mainBuffer optimalBuffer offsetBuffer).2 =
        [ BackendCall.create_graphics_buffer device (matrixWidth * matrixHeight * 4) 4
            GraphicsBufferType.Upload up,
          BackendCall.create_graphics_buffer device (matrixWidth * matrixHeight * 4) 4
            GraphicsBufferType.Default tmp,
          BackendCall.set_buffer_data up buffer (matrixWidth * matrixHeight * 4),
          BackendCall.reset cmdB,
          BackendCall.copy_graphics_buffer cmdB up tmp ] ++
        (if optimalBuffer ≠ 0 then
           [BackendCall.convert_mat_32_to_16 cmdB tmp 0 optimalBuffer offsetBuffer
              matrixWidth matrixHeight true]
         else []) ++
        (if mainBuffer ≠ 0 then
           [BackendCall.convert_mat_32_to_16 cmdB tmp 0 mainBuffer offsetBuffer
              matrixWidth matrixHeight false]
         else []) ++
        [ BackendCall.close cmdB, BackendCall.execute_command_buffer queue cmdB,
          BackendCall.flush queue, BackendCall.destroy_graphics_buffer up,
          BackendCall.destroy_graphics_buffer tmp ] := by
  obtain ⟨up, tmp, h⟩ := mlp.upload_and_convert_matrices_log api world [] device queue cmdB
    buffer matrixWidth matrixHeight mainBuffer optimalBuffer offsetBuffer
  have e : u32 (u64 (u32 (matrixWidth * matrixHeight) * sizeof_float))
      = matrixWidth * matrixHeight * 4 := by
    unfold sizeof_float
    rw [u32_of_lt (by omega : matrixWidth * matrixHeight < 4294967296),
      u64_of_lt (by omega), u32_of_lt hfit]
  rw [e] at h
  exact ⟨up, tmp, h.trans (List.nil_append _)⟩

/-- Witness for C19: a 4 x 10 matrix with both destinations. -/
theorem upload_and_convert_matrices_buffers_witness :
    ∃ up tmp,
      (mlp.upload_and_convert_matrices countingBackend.traced (0, []) 1 2 3 [1, 2, 3]
          4 10 7 8 80).2 =
        [ BackendCall.create_graphics_buffer 1 (4 * 10 * 4) 4 GraphicsBufferType.Upload up,
          BackendCall.create_graphics_buffer 1 (4 * 10 * 4) 4 GraphicsBufferType.Default tmp,
          BackendCall.set_buffer_data up [1, 2, 3] (4 * 10 * 4),
          BackendCall.reset 3,
          BackendCall.copy_graphics_buffer 3 up tmp ] ++
        (if (8 : GraphicsBuffer) ≠ 0 then
           [BackendCall.convert_mat_32_to_16 3 tmp 0 8 80 4 10 true]
         else []) ++
        (if (7 : GraphicsBuffer) ≠ 0 then
           [BackendCall.convert_mat_32_to_16 3 tmp 0 7 80 4 10 false]
         else []) ++
        [ BackendCall.close 3, BackendCall.execute_command_buffer 2 3,
          BackendCall.flush 2, BackendCall.destroy_graphics_buffer up,
          BackendCall.destroy_graphics_buffer tmp ] :=
  upload_and_convert_matrices_buffers countingBackend 0 1 2 3 [1, 2, 3] 4 10 7 8 80 (by decide)

/-- C20. For every GPU network, the log of `destroy_gpu_mlp` is: one release of the weight
buffer and one of the bias buffer of layer 0, of layer 1 and of layer 2, followed, for each
of the three optimal-weight handles in turn, by one release when the handle is not null and
by nothing when it is null. -/
theorem destroy_gpu_mlp_releases {σ : Type} (api : Backend σ) (world : σ) (gpu : GPUMLP) :
    (mlp.destroy_gpu_mlp api.traced (world, []) gpu).2 =
      [ BackendCall.destroy_graphics_buffer gpu.weight0Buffer,
        BackendCall.destroy_graphics_buffer gpu.bias0Buffer,
        BackendCall.destroy_graphics_buffer gpu.weight1Buffer,
        BackendCall.destroy_graphics_buffer gpu.bias1Buffer,
        BackendCall.destroy_graphics_buffer gpu.weight2Buffer,
        BackendCall.destroy_graphics_buffer gpu.bias2Buffer ] ++
      (if gpu.weight0OptimalBuffer ≠ 0 then
         [BackendCall.destroy_graphics_buffer gpu.weight0OptimalBuffer] else []) ++
      (if gpu.weight1OptimalBuffer ≠ 0 then
         [BackendCall.destroy_graphics_buffer gpu.weight1OptimalBuffer] else []) ++
      (if gpu.weight2OptimalBuffer ≠ 0 then
         [BackendCall.destroy_graphics_buffer gpu.weight2OptimalBuffer] else []) :=
  (mlp.destroy_gpu_mlp_log api world [] gpu).trans (List.nil_append _)

/-! ## Single allocation and batched allocation -/

theorem u64_mul_one (x : Nat) : u64 (u64 x * u64 1) = u64 x := by
  have e : u64 1 = 1 := by decide
  rw [e, Nat.mul_one]
  exact Nat.mod_mod _ _

/-- The batched allocator on a one-element array is the single-network allocator. -/
theorem mlp.allocate_gpu_mlp_array_one {σ : Type} (api : Backend σ) (world : σ)
    (device : GraphicsDevice) (m : CPUMLP) (gpu : GPUMLP) :
    mlp.allocate_gpu_mlp_array api world device [m] gpu
      = some (mlp.allocate_gpu_mlp api world device m gpu) := by
  unfold mlp.allocate_gpu_mlp_array mlp.allocate_gpu_mlp
  rw [List.getElem?_cons_zero, Option.some_bind]
  simp only [List.length_singleton, u64_mul_one]

/-- C29. For every CPU network `m`, every backend and every backend state,
`allocate_gpu_mlp_array` applied to the one-element array `[m]` returns what
`allocate_gpu_mlp` applied to `m` returns: the same handles and the same backend state. Over
the call log, the two functions record the same calls, so they request the same nine buffers
with the same byte sizes, strides and kinds, in the same order. -/
theorem allocate_gpu_mlp_array_singleton {σ : Type} (api : Backend σ) (world : σ)
    (device : GraphicsDevice) (m : CPUMLP) (gpu : GPUMLP) :
    mlp.allocate_gpu_mlp_array api world device [m] gpu
      = some (mlp.allocate_gpu_mlp api world device m gpu) ∧
    (mlp.allocate_gpu_mlp_array api.traced (world, []) device [m] gpu).map
        (fun r => requested_buffers r.2.2)
      = some (requested_buffers (mlp.allocate_gpu_mlp api.traced (world, []) device m gpu).2.2) ∧
    (requested_buffers
      (mlp.allocate_gpu_mlp api.traced (world, []) device m gpu).2.2).length = 9 := by
  refine ⟨mlp.allocate_gpu_mlp_array_one api world device m gpu, ?_, ?_⟩
  · rw [mlp.allocate_gpu_mlp_array_one]
    rfl
  · rw [mlp.allocate_gpu_mlp_sizes]
    rfl

/-! ## Invariants of the network -/

/-- C25. For every network with `width_0 = height_1` and `width_1 = height_2`, the network that
`align_dimensions` returns still has `width_0 = height_1` and `width_1 = height_2`: the call
changes neither a width of layer 0 or 1 nor a height of layer 1 or 2. -/
theorem align_dimensions_chain (m m' : CPUMLP) (h : mlp.align_dimensions m = some m')
    (h01 : m.mlp0Width = m.mlp1Height) (h12 : m.mlp1Width = m.mlp2Height) :
    m'.mlp0Width = m'.mlp1Height ∧ m'.mlp1Width = m'.mlp2Height ∧
    (m'.mlp0Width = m.mlp0Width ∧ m'.mlp1Width = m.mlp1Width ∧
      m'.mlp1Height = m.mlp1Height ∧ m'.mlp2Height = m.mlp2Height) := by
  obtain ⟨m1, h1, h2⟩ := mlp.align_dimensions_split h
  have f1 := mlp.align_input_frame h1
  have f2 := mlp.align_output_frame h2
  have a0 : m'.mlp0Width = m.mlp0Width :=
    (by have e := congrArg CPUMLP.mlp0Width f2; exact e : m'.mlp0Width = m1.mlp0Width).trans
      (by have e := congrArg CPUMLP.mlp0Width f1; exact e)
  have a1 : m'.mlp1Width = m.mlp1Width :=
    (by have e := congrArg CPUMLP.mlp1Width f2; exact e : m'.mlp1Width = m1.mlp1Width).trans
      (by have e := congrArg CPUMLP.mlp1Width f1; exact e)
  have b1 : m'.mlp1Height = m.mlp1Height :=
    (by have e := congrArg CPUMLP.mlp1Height f2; exact e : m'.mlp1Height = m1.mlp1Height).trans
      (by have e := congrArg CPUMLP.mlp1Height f1; exact e)
  have b2 : m'.mlp2Height = m.mlp2Height :=
    (by have e := congrArg CPUMLP.mlp2Height f2; exact e : m'.mlp2Height = m1.mlp2Height).trans
      (by have e := congrArg CPUMLP.mlp2Height f1; exact e)
  exact ⟨by rw [a0, b1]; exact h01, by rw [a1, b2]; exact h12, a0, a1, b1, b2⟩

set_option maxRecDepth 100000 in
/-- Witness for C25: the scenario network, whose layers are 4 x 10, 4 x 4 and 3 x 4. -/
theorem align_dimensions_chain_witness :
    scenarioNetAligned.mlp0Width = scenarioNetAligned.mlp1Height ∧
    scenarioNetAligned.mlp1Width = scenarioNetAligned.mlp2Height ∧
    (scenarioNetAligned.mlp0Width = scenarioNet.mlp0Width ∧
      scenarioNetAligned.mlp1Width = scenarioNet.mlp1Width ∧
      scenarioNetAligned.mlp1Height = scenarioNet.mlp1Height ∧
      scenarioNetAligned.mlp2Height = scenarioNet.mlp2Height) :=
  align_dimensions_chain scenarioNet scenarioNetAligned (by decide) (by decide) (by decide)

/-! ## Heterogeneous batches -/

set_option maxRecDepth 100000 in
/-- C28. The array of `tinyNet` (layers 1 x 2, 1 x 1, 2 x 1) and the scenario network (layers
4 x 10, 4 x 4, 3 x 4) is heterogeneous. `allocate_gpu_mlp_array` returns and sizes the shared
layer-0 weight buffers from network 0: `1 * 2 * 2 * 2 = 8` bytes. The tiled path of
`upload_network` returns too, and for network 1 it requests the conversion of a 4 x 10 matrix
into the layer-0 buffers at byte offset `1 * 4 * 10 * 2 = 80`: the region written, of
`4 * 10 * 2 = 80` bytes, ends at byte 160, past the end of the 8-byte buffer. -/
theorem heterogeneous_batch_undetected :
    (tinyNet.mlp0Width ≠ scenarioNet.mlp0Width ∧ tinyNet.mlp0Height ≠ scenarioNet.mlp0Height) ∧
    (mlp.allocate_gpu_mlp_array countingBackend.traced (0, []) 1 [tinyNet, scenarioNet]
        nullGPUMLP).map (fun a => requested_buffers a.2.2) =
      some [ (8, 2, GraphicsBufferType.Default), (8, 2, GraphicsBufferType.Default),
        (4, 2, GraphicsBufferType.Default),
        (4, 2, GraphicsBufferType.Default), (4, 2, GraphicsBufferType.Default),
        (4, 2, GraphicsBufferType.Default),
        (8, 2, GraphicsBufferType.Default), (8, 2, GraphicsBufferType.Default),
        (8, 2, GraphicsBufferType.Default) ] ∧
    (TSNC.upload_network countingBackend.traced (uploadTSNC true [tinyNet, scenarioNet])
        (0, []) 1 2).map (fun r => conversion_targets r.2.2.2) =
      some [ (12, 0, 1, 2, true), (11, 0, 1, 2, false),
        (15, 0, 1, 1, true), (14, 0, 1, 1, false),
        (18, 0, 2, 1, true), (17, 0, 2, 1, false),
        (12, 80, 4, 10, true), (11, 80, 4, 10, false),
        (15, 32, 4, 4, true), (14, 32, 4, 4, false),
        (18, 24, 3, 4, true), (17, 24, 3, 4, false) ] ∧
    TSNC.weight_offset 1 scenarioNet.mlp0Width scenarioNet.mlp0Height = 80 ∧
    1 * scenarioNet.mlp0Width * scenarioNet.mlp0Height * 2 = 80 ∧
    80 + scenarioNet.mlp0Width * scenarioNet.mlp0Height * 2 = 160 ∧
    8 < 160 := by
  refine ⟨by decide, by decide, ?_, by decide, by decide, by decide, by decide⟩
  decide

/-! ## Streams that end before their record -/

theorem read_u32_of_unpack_bytes {s t t' : List Byte} {a a' v : Nat}
    (ht : t = s.drop a ∧ a ≤ s.length) (h : unpack_bytes t = some (v, t')) (e : a' = a) :
    read_u32 s a' = some v := by
  unfold read_u32
  rw [e, ← ht.1, h]
  rfl

/-- A successful `unpack_type` read a stream that declares a record, and the stream is at least
as long as the record it declares. -/
theorem unpack_type_declared {s rest : List Byte} {old m : CPUMLP}
    (h : unpack_type s old = some (m, rest)) :
    ∃ k, declared_size s = some k ∧ k ≤ s.length := by
  unfold unpack_type at h
  obtain ⟨⟨v1, s1⟩, h1, h⟩ := Option.bind_eq_some.mp h
  obtain ⟨⟨v2, s2⟩, h2, h⟩ := Option.bind_eq_some.mp h
  obtain ⟨⟨v3, s3⟩, h3, h⟩ := Option.bind_eq_some.mp h
  obtain ⟨⟨w0, s4⟩, h4, h⟩ := Option.bind_eq_some.mp h
  obtain ⟨⟨hh0, s5⟩, h5, h⟩ := Option.bind_eq_some.mp h
  obtain ⟨⟨b0, s6⟩, h6, h⟩ := Option.bind_eq_some.mp h
  obtain ⟨⟨w1, s7⟩, h7, h⟩ := Option.bind_eq_some.mp h
  obtain ⟨⟨hh1, s8⟩, h8, h⟩ := Option.bind_eq_some.mp h
  obtain ⟨⟨b1, s9⟩, h9, h⟩ := Option.bind_eq_some.mp h
  obtain ⟨⟨w2, s10⟩, h10, h⟩ := Option.bind_eq_some.mp h
  obtain ⟨⟨hh2, s11⟩, h11, h⟩ := Option.bind_eq_some.mp h
  obtain ⟨⟨b2, s12⟩, h12, h⟩ := Option.bind_eq_some.mp h
  clear h
  obtain ⟨l1, e1, _⟩ := unpack_bytes_some h1
  obtain ⟨l2, e2, _⟩ := unpack_bytes_some h2
  obtain ⟨l3, e3, _⟩ := unpack_bytes_some h3
  obtain ⟨l4, e4, _⟩ := unpack_bytes_some h4
  obtain ⟨l5, e5, _⟩ := unpack_bytes_some h5
  obtain ⟨_, l6, e6⟩ := unpack_buffer_resize_some h6
  obtain ⟨l7, e7, _⟩ := unpack_bytes_some h7
  obtain ⟨l8, e8, _⟩ := unpack_bytes_some h8
  obtain ⟨_, l9, e9⟩ := unpack_buffer_resize_some h9
  obtain ⟨l10, e10, _⟩ := unpack_bytes_some h10
  obtain ⟨l11, e11, _⟩ := unpack_bytes_some h11
  obtain ⟨_, l12, e12⟩ := unpack_buffer_resize_some h12
  have c0 : s = s.drop 0 ∧ 0 ≤ s.length := ⟨rfl, Nat.zero_le _⟩
  have c1 := drop_step c0 l1 e1
  have c2 := drop_step c1 l2 e2
  have c3 := drop_step c2 l3 e3
  have c4 := drop_step c3 l4 e4
  have c5 := drop_step c4 l5 e5
  have c6 := drop_step c5 l6 e6
  have c7 := drop_step c6 l7 e7
  have c8 := drop_step c7 l8 e8
  have c9 := drop_step c8 l9 e9
  have c10 := drop_step c9 l10 e10
  have c11 := drop_step c10 l11 e11
  have c12 := drop_step c11 l12 e12
  refine ⟨20 + 4 * u32 (u32 (w0 * hh0) + w0) + 8 + 4 * u32 (u32 (w1 * hh1) + w1) + 8
    + 4 * u32 (u32 (w2 * hh2) + w2), ?_, by have := c12.2; omega⟩
  unfold declared_size
  rw [read_u32_of_unpack_bytes c3 h4 (by omega), Option.some_bind,
    read_u32_of_unpack_bytes c4 h5 (by omega), Option.some_bind]
  dsimp only
  rw [read_u32_of_unpack_bytes c6 h7 (by omega), Option.some_bind,
    read_u32_of_unpack_bytes c7 h8 (by omega), Option.some_bind]
  rw [read_u32_of_unpack_bytes c9 h10 (by omega), Option.some_bind,
    read_u32_of_unpack_bytes c10 h11 (by omega), Option.some_bind]

theorem unpack_type_outcome_some {s rest : List Byte} {old m : CPUMLP}
    (h : unpack_type s old = some (m, rest)) :
    unpack_type_outcome s old = Outcome.returned m rest := by
  unfold unpack_type_outcome
  rw [h]

theorem unpack_type_outcome_none {s : List Byte} {old : CPUMLP}
    (h : unpack_type s old = none) :
    unpack_type_outcome s old = Outcome.undefined ∧
    unpack_type_outcome s old ≠ Outcome.format_error := by
  have ho : unpack_type_outcome s old = Outcome.undefined := by
    unfold unpack_type_outcome
    rw [h]
  exact ⟨ho, by rw [ho]; exact fun hc => Outcome.noConfusion hc⟩

set_option maxRecDepth 100000 in
/-- C22, counterexample. The on-disk bytes of `wrapNet` are 262192 bytes long. Their header
declares a first layer of 65536 x 65535, that is `65536 * 65535 + 65536 = 2^32` floats, so the
record that the header fields declare has 17180131376 bytes and the stream is shorter than it.
But `unpack_type` computes the float count in `uint32_t`, reads no float for the first layer
and returns a network. And on a stream that is too short under either count, the first 100
bytes of the record of the scenario network, the call does not end in a format error: it
reads past the end of the buffer. -/
theorem unpack_type_truncated_counterexample :
    unpack_type (pack_type wrapNet) emptyNet = some (wrapNet, []) ∧
    unpack_type_outcome (pack_type wrapNet) emptyNet = Outcome.returned wrapNet [] ∧
    (pack_type wrapNet).length = 262192 ∧
    12 + (8 + 4 * (wrapNet.mlp0Width * wrapNet.mlp0Height + wrapNet.mlp0Width))
       + (8 + 4 * (wrapNet.mlp1Width * wrapNet.mlp1Height + wrapNet.mlp1Width))
       + (8 + 4 * (wrapNet.mlp2Width * wrapNet.mlp2Height + wrapNet.mlp2Width))
      = 17180131376 ∧
    (262192 : Nat) < 17180131376 ∧
    unpack_type_outcome ((pack_type scenarioNet).take 100) emptyNet = Outcome.undefined ∧
    unpack_type_outcome ((pack_type scenarioNet).take 100) emptyNet ≠ Outcome.format_error := by
  have hb0 : wrapNet.mlp0Buffer = [] := rfl
  have hb1 : wrapNet.mlp1Buffer = List.replicate 65537 float.zero := rfl
  have hb2 : wrapNet.mlp2Buffer = [float.zero, float.zero] := rfl
  have h : unpack_type (pack_type wrapNet) emptyNet = some (wrapNet, []) := by
    have h := unpack_type_pack_type_u32 wrapNet emptyNet [] (by decide) (by decide)
      (by rw [hb1, List.length_replicate]; decide) (by decide)
    rw [List.append_nil] at h
    exact h
  have hs : unpack_type ((pack_type scenarioNet).take 100) emptyNet = none := by decide
  refine ⟨h, unpack_type_outcome_some h, ?_, by decide, by decide,
    (unpack_type_outcome_none hs).1, (unpack_type_outcome_none hs).2⟩
  rw [length_pack_type, hb0, hb1, hb2, List.length_replicate]
  rfl

/-- C22 (amended: the float count of a layer is the 32-bit value the code computes, and a
stream that is too short is read past its end, not rejected). For every byte stream that ends
before one of its six dimension fields, or whose length is smaller than the record its header
fields declare - `12 + sum over the three layers of (8 + 4 * count_i)` bytes, where `count_i`
is `width_i * height_i + width_i` reduced to 32 bits - `unpack_type` produces no network,
whatever the output structure held before: the call reads past the end of the buffer, which
is undefined behaviour. It does not end in a format error, since `unpack_type` receives the
cursor without a length and has no error to report. -/
theorem unpack_type_truncated (s : List Byte) (old : CPUMLP)
    (h : declared_size s = none ∨ ∃ k, declared_size s = some k ∧ s.length < k) :
    unpack_type s old = none ∧
    unpack_type_outcome s old = Outcome.undefined ∧
    unpack_type_outcome s old ≠ Outcome.format_error := by
  have hn : unpack_type s old = none := by
    cases hu : unpack_type s old with
    | none => rfl
    | some r =>
      obtain ⟨m, rest⟩ := r
      obtain ⟨k, hk, hle⟩ := unpack_type_declared hu
      rcases h with hn | ⟨k', hk', hlt⟩
      · rw [hn] at hk
        exact absurd hk (by simp)
      · have e : k' = k := Option.some.inj (hk'.symm.trans hk)
        omega
  exact ⟨hn, unpack_type_outcome_none hn⟩

set_option maxRecDepth 100000 in
/-- Witness for C22: the record of the scenario network, 352 bytes, cut after 350 bytes. -/
theorem unpack_type_truncated_witness :
    (∃ k, declared_size ((pack_type scenarioNet).take 350) = some k ∧
      ((pack_type scenarioNet).take 350).length < k) ∧
    unpack_type ((pack_type scenarioNet).take 350) emptyNet = none ∧
    unpack_type_outcome ((pack_type scenarioNet).take 350) emptyNet = Outcome.undefined ∧
    unpack_type_outcome ((pack_type scenarioNet).take 350) emptyNet ≠ Outcome.format_error :=
  ⟨⟨352, by decide, by decide⟩,
   unpack_type_truncated ((pack_type scenarioNet).take 350) emptyNet
     (Or.inr ⟨352, by decide, by decide⟩)⟩

/-! ## The buffer-length invariant -/

/-- C24, counterexample. `unpack_type` reads `squareNet` from its on-disk bytes: the first
layer is 65536 x 65536 and its buffer holds 65536 floats, not
`65536 * 65536 + 65536 = 4295032832`. And `heavyNet` satisfies the invariant in its three
layers, but `align_dimensions` leaves it with a first layer of 268435456 x 16 whose buffer
holds 268435456 floats, not `268435456 * 16 + 268435456 = 4563402752`. -/
theorem buffer_length_invariant_counterexample :
    (unpack_type (pack_type squareNet) emptyNet = some (squareNet, []) ∧
      squareNet.mlp0Buffer.length = 65536 ∧
      squareNet.mlp0Width * squareNet.mlp0Height + squareNet.mlp0Width = 4295032832) ∧
    ((heavyNet.mlp0Buffer.length = heavyNet.mlp0Width * heavyNet.mlp0Height + heavyNet.mlp0Width ∧
        heavyNet.mlp1Buffer.length
          = heavyNet.mlp1Width * heavyNet.mlp1Height + heavyNet.mlp1Width ∧
        heavyNet.mlp2Buffer.length
          = heavyNet.mlp2Width * heavyNet.mlp2Height + heavyNet.mlp2Width) ∧
      mlp.align_dimensions heavyNet = some heavyNetAligned ∧
      heavyNetAligned.mlp0Buffer.length = 268435456 ∧
      heavyNetAligned.mlp0Width * heavyNetAligned.mlp0Height + heavyNetAligned.mlp0Width
        = 4563402752) := by
  have s0 : squareNet.mlp0Buffer.length = 65536 := by
    show (List.replicate 65536 (float.ofByte 1)).length = 65536
    rw [List.length_replicate]
  have s1 : squareNet.mlp1Buffer.length = 65537 := by
    show (List.replicate 65537 float.zero).length = 65537
    rw [List.length_replicate]
  have s2 : squareNet.mlp2Buffer.length = 32 := by
    show (List.replicate 32 float.zero).length = 32
    rw [List.length_replicate]
  have g0 : heavyNet.mlp0Buffer.length = 536870912 := by
    show (List.replicate 268435456 (float.ofByte 1)
      ++ List.replicate 268435456 (float.ofByte 2)).length = 536870912
    rw [List.length_append, List.length_replicate, List.length_replicate]
  have g1 : heavyNet.mlp1Buffer.length = 268435457 := by
    show (List.replicate 268435457 float.zero).length = 268435457
    rw [List.length_replicate]
  have g2 : heavyNet.mlp2Buffer.length = 32 := by
    show (List.replicate 32 float.zero).length = 32
    rw [List.length_replicate]
  have a0 : heavyNetAligned.mlp0Buffer.length = 268435456 := by
    show (List.replicate 268435456 (float.ofByte 2)).length = 268435456
    rw [List.length_replicate]
  refine ⟨⟨?_, s0, by decide⟩, ⟨?_, ?_, ?_⟩, align_dimensions_heavyNet, a0, by decide⟩
  · have h := unpack_type_pack_type_u32 squareNet emptyNet [] (by decide)
      (by rw [s0]; decide) (by rw [s1]; decide) (by rw [s2]; decide)
    rw [List.append_nil] at h
    exact h
  · rw [g0]; decide
  · rw [g1]; decide
  · rw [g2]; decide

/-- C24 (amended with the 32-bit bounds). Every network that `unpack_type` produces has, in
each layer, a buffer of `width_i * height_i + width_i` floats reduced to 32 bits, so of
`width_i * height_i + width_i` floats whenever that count fits in 32 bits. And for every
network `m` that satisfies the invariant `buffer length = width_i * height_i + width_i` in its
three layers and whose padded layer-0 and layer-2 sizes fit in 32 bits, `align_dimensions`
returns a network that satisfies the invariant with the new dimensions. -/
theorem buffer_length_invariant (m : CPUMLP)
    (hlen0 : m.mlp0Buffer.length = m.mlp0Width * m.mlp0Height + m.mlp0Width)
    (hlen1 : m.mlp1Buffer.length = m.mlp1Width * m.mlp1Height + m.mlp1Width)
    (hlen2 : m.mlp2Buffer.length = m.mlp2Width * m.mlp2Height + m.mlp2Width)
    (hh : m.mlp0Height + 15 < 4294967296)
    (hfit0 : m.mlp0Width * ((m.mlp0Height + 15) / 16 * 16) + m.mlp0Width < 4294967296)
    (hfit2 : m.mlp2Height * ((m.mlp2Width + 15) / 16 * 16) + (m.mlp2Width + 15) / 16 * 16
      < 4294967296) :
    (∃ m', mlp.align_dimensions m = some m' ∧
      m'.mlp0Buffer.length = m'.mlp0Width * m'.mlp0Height + m'.mlp0Width ∧
      m'.mlp1Buffer.length = m'.mlp1Width * m'.mlp1Height + m'.mlp1Width ∧
      m'.mlp2Buffer.length = m'.mlp2Width * m'.mlp2Height + m'.mlp2Width) ∧
    (∀ (s rest : List Byte) (old n : CPUMLP), unpack_type s old = some (n, rest) →
      (n.mlp0Buffer.length = u32 (u32 (n.mlp0Width * n.mlp0Height) + n.mlp0Width) ∧
        n.mlp1Buffer.length = u32 (u32 (n.mlp1Width * n.mlp1Height) + n.mlp1Width) ∧
        n.mlp2Buffer.length = u32 (u32 (n.mlp2Width * n.mlp2Height) + n.mlp2Width)) ∧
      (n.mlp0Width * n.mlp0Height + n.mlp0Width < 4294967296 →
        n.mlp0Buffer.length = n.mlp0Width * n.mlp0Height + n.mlp0Width) ∧
      (n.mlp1Width * n.mlp1Height + n.mlp1Width < 4294967296 →
        n.mlp1Buffer.length = n.mlp1Width * n.mlp1Height + n.mlp1Width) ∧
      (n.mlp2Width * n.mlp2Height + n.mlp2Width < 4294967296 →
        n.mlp2Buffer.length = n.mlp2Width * n.mlp2Height + n.mlp2Width)) := by
  constructor
  · obtain ⟨m', h⟩ := mlp.align_dimensions_defined m hlen0 hlen2 hh hfit0 hfit2
    obtain ⟨m1, h1, h2⟩ := mlp.align_dimensions_split h
    have f1 := mlp.align_input_frame h1
    have f2 := mlp.align_output_frame h2
    have w0 : m'.mlp0Width = m.mlp0Width :=
      (by have e := congrArg CPUMLP.mlp0Width f2; exact e : m'.mlp0Width = m1.mlp0Width).trans
        (by have e := congrArg CPUMLP.mlp0Width f1; exact e)
    have hh0 : m'.mlp0Height = m1.mlp0Height := by
      have e := congrArg CPUMLP.mlp0Height f2; exact e
    have b0 : m'.mlp0Buffer = m1.mlp0Buffer := by
      have e := congrArg CPUMLP.mlp0Buffer f2; exact e
    have w1 : m'.mlp1Width = m.mlp1Width :=
      (by have e := congrArg CPUMLP.mlp1Width f2; exact e : m'.mlp1Width = m1.mlp1Width).trans
        (by have e := congrArg CPUMLP.mlp1Width f1; exact e)
    have hh1 : m'.mlp1Height = m.mlp1Height :=
      (by have e := congrArg CPUMLP.mlp1Height f2; exact e : m'.mlp1Height = m1.mlp1Height).trans
        (by have e := congrArg CPUMLP.mlp1Height f1; exact e)
    have b1 : m'.mlp1Buffer = m.mlp1Buffer :=
      (by have e := congrArg CPUMLP.mlp1Buffer f2; exact e : m'.mlp1Buffer = m1.mlp1Buffer).trans
        (by have e := congrArg CPUMLP.mlp1Buffer f1; exact e)
    have hh2 : m'.mlp2Height = m.mlp2Height :=
      (by have e := congrArg CPUMLP.mlp2Height f2; exact e : m'.mlp2Height = m1.mlp2Height).trans
        (by have e := congrArg CPUMLP.mlp2Height f1; exact e)
    have v2 : m1.mlp2Width = m.mlp2Width := by
      have e := congrArg CPUMLP.mlp2Width f1; exact e
    have u2 : m1.mlp2Height = m.mlp2Height := by
      have e := congrArg CPUMLP.mlp2Height f1; exact e
    have c2 : m1.mlp2Buffer = m.mlp2Buffer := by
      have e := congrArg CPUMLP.mlp2Buffer f1; exact e
    refine ⟨m', h, ?_, ?_, ?_⟩
    · rw [w0, hh0, b0]
      by_cases hv : m.mlp0Height % 16 = 0
      · have e : m1 = m := Option.some.inj (h1.symm.trans (mlp.align_input_of_aligned hv))
        rw [e]; exact hlen0
      · rw [mlp.align_input_length h1 hv, mlp.align_input_height h1, if_neg hv,
          u32_round_eq hh, u32_of_lt (by omega : m.mlp0Width * ((m.mlp0Height + 15) / 16 * 16)
            < 4294967296), u32_of_lt hfit0]
    · rw [w1, hh1, b1]; exact hlen1
    · rw [hh2]
      by_cases hv : m.mlp2Width % 16 = 0
      · have e : m' = m1 := Option.some.inj
          (h2.symm.trans (mlp.align_output_of_aligned (by rw [v2]; exact hv)))
        rw [e, v2, c2]; exact hlen2
      · have hv1 : m1.mlp2Width % 16 ≠ 0 := by rw [v2]; exact hv
        have hw : m.mlp2Width + 15 < 4294967296 := by omega
        rw [mlp.align_output_length h2 hv1, mlp.align_output_width h2, if_neg hv1, v2, u2,
          u32_round_eq hw, u32_of_lt (by omega : m.mlp2Height * ((m.mlp2Width + 15) / 16 * 16)
            < 4294967296), u32_of_lt hfit2, Nat.mul_comm]
  · intro s rest old n hn
    obtain ⟨l0, l1, l2, _, _⟩ := unpack_type_some hn
    refine ⟨⟨l0, l1, l2⟩, ?_, ?_, ?_⟩
    · intro hf; rw [l0, u32_of_lt (by omega : n.mlp0Width * n.mlp0Height < 4294967296),
        u32_of_lt hf]
    · intro hf; rw [l1, u32_of_lt (by omega : n.mlp1Width * n.mlp1Height < 4294967296),
        u32_of_lt hf]
    · intro hf; rw [l2, u32_of_lt (by omega : n.mlp2Width * n.mlp2Height < 4294967296),
        u32_of_lt hf]

set_option maxRecDepth 100000 in
/-- Witness for C24: the scenario network, whose buffers hold 44, 20 and 15 floats. -/
theorem buffer_length_invariant_witness :
    (∃ m', mlp.align_dimensions scenarioNet = some m' ∧
      m'.mlp0Buffer.length = m'.mlp0Width * m'.mlp0Height + m'.mlp0Width ∧
      m'.mlp1Buffer.length = m'.mlp1Width * m'.mlp1Height + m'.mlp1Width ∧
      m'.mlp2Buffer.length = m'.mlp2Width * m'.mlp2Height + m'.mlp2Width) ∧
    (∀ (s rest : List Byte) (old n : CPUMLP), unpack_type s old = some (n, rest) →
      (n.mlp0Buffer.length = u32 (u32 (n.mlp0Width * n.mlp0Height) + n.mlp0Width) ∧
        n.mlp1Buffer.length = u32 (u32 (n.mlp1Width * n.mlp1Height) + n.mlp1Width) ∧
        n.mlp2Buffer.length = u32 (u32 (n.mlp2Width * n.mlp2Height) + n.mlp2Width)) ∧
      (n.mlp0Width * n.mlp0Height + n.mlp0Width < 4294967296 →
        n.mlp0Buffer.length = n.mlp0Width * n.mlp0Height + n.mlp0Width) ∧
      (n.mlp1Width * n.mlp1Height + n.mlp1Width < 4294967296 →
        n.mlp1Buffer.length = n.mlp1Width * n.mlp1Height + n.mlp1Width) ∧
      (n.mlp2Width * n.mlp2Height + n.mlp2Width < 4294967296 →
        n.mlp2Buffer.length = n.mlp2Width * n.mlp2Height + n.mlp2Width)) :=
  buffer_length_invariant scenarioNet (by decide) (by decide) (by decide) (by decide)
    (by decide) (by decide)

/-! ## The bias block of layer 2 -/

/-- C27. For every network whose `mlp2Width` (a `uint32_t`) is not a multiple of 16, with
`newWidth` the rounded-up width: after `align_dimensions` the layer-2 buffer has
`newWidth * mlp2Height + newWidth` elements; the bias block starts at offset
`newWidth * mlp2Height`; its first `oldWidth` elements are the original bias, the source
elements `[oldWidth * mlp2Height, oldWidth * mlp2Height + oldWidth)`, which the source buffer
holds; and the remaining `newWidth - oldWidth` elements, up to the end of the buffer, are
`0.0`. No bound on the sizes is assumed: a run that has a state after the call has not
wrapped, so its padded size `mlp2Height * newWidth + newWidth` fits in 32 bits (when it does
not fit, a copy runs past the end of the new vector and the behaviour of the source is
undefined). Conversely the call returns whenever its input-side block does, the source buffer
holds the rows and the bias, and the padded size fits. -/
theorem align_dimensions_bias_block (m : CPUMLP) (newWidth : Nat)
    (hv : m.mlp2Width % 16 ≠ 0) (hw : m.mlp2Width < 4294967296)
    (h16 : newWidth % 16 = 0) (hge : m.mlp2Width ≤ newWidth)
    (hlt : newWidth < m.mlp2Width + 16) :
    (∀ m', mlp.align_dimensions m = some m' →
      m'.mlp2Width = newWidth ∧ m'.mlp2Height = m.mlp2Height ∧
      m'.mlp2Buffer.length = newWidth * m.mlp2Height + newWidth ∧
      (m'.mlp2Buffer.drop (newWidth * m.mlp2Height)).take m.mlp2Width
        = (m.mlp2Buffer.drop (m.mlp2Width * m.mlp2Height)).take m.mlp2Width ∧
      m.mlp2Width * m.mlp2Height + m.mlp2Width ≤ m.mlp2Buffer.length ∧
      m'.mlp2Buffer.drop (newWidth * m.mlp2Height + m.mlp2Width)
        = List.replicate (newWidth - m.mlp2Width) float.zero ∧
      m.mlp2Height * newWidth + newWidth < 4294967296) ∧
    (mlp.align_input m ≠ none →
      m.mlp2Width * m.mlp2Height + m.mlp2Width ≤ m.mlp2Buffer.length →
      m.mlp2Height * newWidth + newWidth < 4294967296 →
      ∃ m', mlp.align_dimensions m = some m') := by
  have hnew := mlp.round_up_unique h16 hge hlt
  constructor
  · intro m' h
    obtain ⟨m1, hin, hout⟩ := mlp.align_dimensions_split h
    have hfr := mlp.align_input_frame hin
    have hw1 : m1.mlp2Width = m.mlp2Width := by rw [hfr]
    have hh1 : m1.mlp2Height = m.mlp2Height := by rw [hfr]
    have hb1 : m1.mlp2Buffer = m.mlp2Buffer := by rw [hfr]
    obtain ⟨_, hfit, hsrc⟩ := mlp.align_output_fits hout (by rw [hw1]; exact hv)
      (by rw [hw1]; exact hw)
    rw [hw1, hh1, ← hnew] at hfit
    rw [hw1, hh1, hb1] at hsrc
    obtain ⟨d, hd, hdl, hdi⟩ := @mlp.align_output_spec_le m1 newWidth
      (by rw [hw1]; exact hv) (by rw [hb1, hw1, hh1]; exact hsrc) (by rw [hw1]; exact hnew)
      (by rw [hw1]; omega) (by rw [hh1]; exact hfit)
    rw [hd, Option.some.injEq] at hout
    have hW : m'.mlp2Width = newWidth := by rw [← hout]
    have hH : m'.mlp2Height = m.mlp2Height := by rw [← hout]; exact hh1
    have hB : m'.mlp2Buffer = d := by rw [← hout]
    rw [hw1, hh1, hb1] at hdi
    rw [hh1] at hdl
    have hpos : 0 < newWidth := by omega
    have hcomm : newWidth * m.mlp2Height = m.mlp2Height * newWidth := Nat.mul_comm _ _
    have hcomm' : m.mlp2Width * m.mlp2Height = m.mlp2Height * m.mlp2Width := Nat.mul_comm _ _
    have key : ∀ j, j < newWidth → d[m.mlp2Height * newWidth + j]? =
        if j < m.mlp2Width then m.mlp2Buffer[m.mlp2Height * m.mlp2Width + j]?
        else some float.zero := by
      intro j hj
      have hq : (m.mlp2Height * newWidth + j) / newWidth = m.mlp2Height := by
        rw [Nat.mul_comm m.mlp2Height newWidth, Nat.mul_add_div hpos, Nat.div_eq_of_lt hj,
          Nat.add_zero]
      have hr : (m.mlp2Height * newWidth + j) % newWidth = j := Nat.mul_add_mod_of_lt hj
      rw [hdi _ (by omega), hq, hr]
    refine ⟨hW, hH, by rw [hB, hcomm]; exact hdl, ?_, hsrc, ?_, hfit⟩
    · rw [hB, hcomm, hcomm']
      apply List.ext_getElem?
      intro j
      rw [List.getElem?_take, List.getElem?_take, List.getElem?_drop, List.getElem?_drop]
      by_cases hj : j < m.mlp2Width
      · rw [if_pos hj, if_pos hj, key j (by omega), if_pos hj]
      · rw [if_neg hj, if_neg hj]
    · rw [hB, hcomm]
      apply List.ext_getElem?
      intro j
      rw [List.getElem?_drop, List.getElem?_replicate]
      by_cases hj : j < newWidth - m.mlp2Width
      · rw [if_pos hj, Nat.add_assoc, key _ (by omega), if_neg (by omega)]
      · rw [if_neg hj]
        exact List.getElem?_eq_none (by rw [hdl]; omega)
  · intro hin hsrc hfit
    obtain ⟨m1, hin⟩ := Option.ne_none_iff_exists'.mp hin
    have hfr := mlp.align_input_frame hin
    have hw1 : m1.mlp2Width = m.mlp2Width := by rw [hfr]
    have hh1 : m1.mlp2Height = m.mlp2Height := by rw [hfr]
    have hb1 : m1.mlp2Buffer = m.mlp2Buffer := by rw [hfr]
    obtain ⟨d, hd, _⟩ := @mlp.align_output_spec_le m1 newWidth
      (by rw [hw1]; exact hv) (by rw [hb1, hw1, hh1]; exact hsrc) (by rw [hw1]; exact hnew)
      (by rw [hw1]; omega) (by rw [hh1]; exact hfit)
    exact ⟨_, by unfold mlp.align_dimensions; rw [hin, Option.some_bind]; exact hd⟩

set_option maxRecDepth 100000 in
/-- Witness for C27: `wideNet`, whose last layer is 20 x 3. The bias block of the aligned
network starts at offset `32 * 3 = 96`, holds the 20 original bias values and then 12
zeros. -/
theorem align_dimensions_bias_block_witness :
    mlp.align_dimensions wideNet = some wideNetAligned ∧
    wideNetAligned.mlp2Width = 32 ∧ wideNetAligned.mlp2Height = 3 ∧
    wideNetAligned.mlp2Buffer.length = 32 * 3 + 32 ∧
    (wideNetAligned.mlp2Buffer.drop (32 * 3)).take 20
      = (wideNet.mlp2Buffer.drop (20 * 3)).take 20 ∧
    20 * 3 + 20 ≤ wideNet.mlp2Buffer.length ∧
    wideNetAligned.mlp2Buffer.drop (32 * 3 + 20) = List.replicate (32 - 20) float.zero ∧
    3 * 32 + 32 < 4294967296 :=
  ⟨by decide, (align_dimensions_bias_block wideNet 32 (by decide) (by decide) (by decide)
    (by decide) (by decide)).1 wideNetAligned (by decide)⟩

/-! ## Zero padding and the output of layer 0 -/

theorem weighted_sum_succ {R : Type} [Semiring R] (val : float → R) (b : List float)
    (width : Nat) (inp : List R) (x y : Nat) :
    weighted_sum val b width inp x (y + 1) =
      (weighted_sum val b width inp x y).bind fun acc =>
        inp[y]?.bind fun a => b[y * width + x]?.bind fun w => some (acc + a * val w) :=
  rfl

/-- The weighted sum reads the buffer and the input below row `n` only. -/
theorem weighted_sum_congr {R : Type} [Semiring R] (val : float → R) {b1 b2 : List float}
    {width x : Nat} {in1 in2 : List R} :
    ∀ n, (∀ y, y < n → b1[y * width + x]? = b2[y * width + x]? ∧ in1[y]? = in2[y]?) →
      weighted_sum val b1 width in1 x n = weighted_sum val b2 width in2 x n
  | 0, _ => rfl
  | n + 1, h => by
    rw [weighted_sum_succ, weighted_sum_succ,
      weighted_sum_congr val n (fun y hy => h y (by omega)), (h n (by omega)).1,
      (h n (by omega)).2]

/-- Rows of zero weights add nothing to the weighted sum. -/
theorem weighted_sum_zero_rows {R : Type} [Semiring R] (val : float → R)
    (hval : val float.zero = 0) {b : List float} {width x : Nat} {inp : List R} {h : Nat} :
    ∀ k, (∀ y, h ≤ y → y < h + k → b[y * width + x]? = some float.zero ∧ y < inp.length) →
      weighted_sum val b width inp x (h + k) = weighted_sum val b width inp x h
  | 0, _ => rfl
  | k + 1, hz => by
    have ih := weighted_sum_zero_rows val hval k (fun y h1 h2 => hz y h1 (by omega))
    obtain ⟨hw, hin⟩ := hz (h + k) (by omega) (by omega)
    show weighted_sum val b width inp x (h + k + 1) = _
    rw [weighted_sum_succ, ih, hw, List.getElem?_eq_getElem hin]
    generalize weighted_sum val b width inp x h = o
    cases o with
    | none => rfl
    | some acc =>
      simp only [Option.some_bind, hval, mul_zero, add_zero]

/-- The weighted sum is defined when every index it reads is in range. -/
theorem weighted_sum_defined {R : Type} [Semiring R] (val : float → R) {b : List float}
    {width x : Nat} {inp : List R} :
    ∀ n, (∀ y, y < n → y * width + x < b.length ∧ y < inp.length) →
      ∃ r, weighted_sum val b width inp x n = some r
  | 0, _ => ⟨0, rfl⟩
  | n + 1, h => by
    obtain ⟨r, hr⟩ := weighted_sum_defined val n (fun y hy => h y (by omega))
    obtain ⟨hb, hi⟩ := h n (by omega)
    rw [weighted_sum_succ, hr, List.getElem?_eq_getElem hb, List.getElem?_eq_getElem hi]
    exact ⟨_, rfl⟩

/-- The elements of a buffer into which a block of `k` zeros is inserted at offset `n`. -/
theorem padded_getElem? {A : List float} {n k : Nat} (hn : n ≤ A.length) (i : Nat) :
    (A.take n ++ List.replicate k float.zero ++ A.drop n)[i]? =
      if i < n then A[i]? else if i < n + k then some float.zero else A[i - k]? := by
  have hl : (A.take n).length = n := by rw [List.length_take]; omega
  by_cases h1 : i < n
  · rw [if_pos h1, List.append_assoc, List.getElem?_append_left (by omega),
      List.getElem?_take, if_pos h1]
  · rw [if_neg h1, List.append_assoc, List.getElem?_append_right (by omega), hl]
    by_cases h2 : i < n + k
    · rw [if_pos h2, List.getElem?_append_left (by rw [List.length_replicate]; omega),
        List.getElem?_replicate, if_pos (by omega)]
    · rw [if_neg h2, List.getElem?_append_right (by rw [List.length_replicate]; omega),
        List.length_replicate, List.getElem?_drop]
      congr 1
      omega

/-- The output of a layer whose buffer got `k` rows of zero weights inserted before the bias
block, on an input extended by `k` arbitrary values, is the output of the original layer. -/
theorem layer_output_padded {R : Type} [Semiring R] (val : float → R)
    (hval : val float.zero = 0) {A : List float} {w h H x : Nat} {input input' : List R}
    (hlen : A.length = w * h + w) (hge : h ≤ H)
    (hin : input.length = h) (hin' : input'.length = H) (hext : input'.take h = input)
    (hx : x < w) :
    ∃ out, layer_output val A w h input x = some out ∧
      layer_output val
        (A.take (w * h) ++ List.replicate (w * (H - h)) float.zero ++ A.drop (w * h))
        w H input' x = some out := by
  have hn : w * h ≤ A.length := by omega
  have hsub : w * (H - h) = w * H - w * h := Nat.mul_sub w _ _
  have hmul : w * h ≤ w * H := Nat.mul_le_mul_left _ hge
  have row : ∀ y a, y < a → y * w + x < w * a := by
    intro y a hy
    have h1 : (y + 1) * w ≤ a * w := Nat.mul_le_mul_right w hy
    rw [Nat.succ_mul, Nat.mul_comm a w] at h1
    omega
  have row' : ∀ y, h ≤ y → w * h ≤ y * w + x := by
    intro y hy
    have h1 : h * w ≤ y * w := Nat.mul_le_mul_right w hy
    rw [Nat.mul_comm h w] at h1
    omega
  -- the original layer is defined
  obtain ⟨s, hs⟩ := @weighted_sum_defined R _ val A w x input h (fun y hy =>
    ⟨by have := row y h hy; omega, by omega⟩)
  have hbias : A[w * h + x]? = some (A.get ⟨w * h + x, by omega⟩) :=
    List.getElem?_eq_getElem (by omega)
  refine ⟨val (A.get ⟨w * h + x, by omega⟩) + s, ?_, ?_⟩
  · unfold layer_output
    rw [hbias, Option.some_bind, hs, Option.some_bind]
  · have e1 : weighted_sum val
          (A.take (w * h) ++ List.replicate (w * (H - h)) float.zero ++ A.drop (w * h))
          w input' x H = some s := by
      have z := @weighted_sum_zero_rows R _ val hval
        (A.take (w * h) ++ List.replicate (w * (H - h)) float.zero ++ A.drop (w * h))
        w x input' h (H - h) (fun y h1 h2 => by
          have r1 := row y H (by omega)
          have r2 := row' y h1
          refine ⟨?_, by omega⟩
          rw [padded_getElem? hn, if_neg (by omega), if_pos (by omega)])
      rw [(by omega : h + (H - h) = H)] at z
      rw [z, ← hs]
      apply weighted_sum_congr
      intro y hy
      have r1 := row y h hy
      refine ⟨?_, ?_⟩
      · rw [padded_getElem? hn, if_pos r1]
      · rw [← hext, List.getElem?_take, if_pos hy]
    unfold layer_output
    rw [e1, padded_getElem? hn, if_neg (by omega), if_neg (by omega),
      (by omega : w * H + x - w * (H - h) = w * h + x), hbias, Option.some_bind,
      Option.some_bind]

/-- C26, counterexample. `heavyNet` has an unaligned first layer of 268435456 x 1. In
`align_dimensions` the offset of the bias wraps to 0, so the aligned first layer,
268435456 x 16, has a buffer of 268435456 floats that holds the bias only. With the floats
read as integers through their first byte, the original layer maps the input `[1]` to
`out[0] = 2 + 1 * 1 = 3`; the aligned layer has no output on the input extended by fifteen
zeros, since its bias lies outside its buffer - and the 1 that was the weight is gone. -/
theorem zero_padding_noop_counterexample :
    heavyNet.mlp0Height % 16 ≠ 0 ∧
    mlp.align_dimensions heavyNet = some heavyNetAligned ∧
    layer_output (fun f => (f.b0.val : Int)) heavyNet.mlp0Buffer heavyNet.mlp0Width
      heavyNet.mlp0Height [1] 0 = some 3 ∧
    layer_output (fun f => (f.b0.val : Int)) heavyNetAligned.mlp0Buffer
      heavyNetAligned.mlp0Width heavyNetAligned.mlp0Height (1 :: List.replicate 15 0) 0
      = none := by
  refine ⟨by decide, align_dimensions_heavyNet, ?_, ?_⟩
  · have hb : heavyNet.mlp0Buffer = List.replicate 268435456 (float.ofByte 1)
        ++ List.replicate 268435456 (float.ofByte 2) := rfl
    have hw : heavyNet.mlp0Width = 268435456 := rfl
    have hh : heavyNet.mlp0Height = 1 := rfl
    have g0 : (List.replicate 268435456 (float.ofByte 1)
        ++ List.replicate 268435456 (float.ofByte 2))[0 * 268435456 + 0]?
          = some (float.ofByte 1) := by
      rw [List.getElem?_append_left (by rw [List.length_replicate]; decide),
        List.getElem?_replicate, if_pos (by decide)]
    have g1 : (List.replicate 268435456 (float.ofByte 1)
        ++ List.replicate 268435456 (float.ofByte 2))[268435456 * 1 + 0]?
          = some (float.ofByte 2) := by
      rw [List.getElem?_append_right (by rw [List.length_replicate]),
        List.getElem?_replicate, if_pos (by rw [List.length_replicate]; decide)]
    rw [hb, hw, hh]
    unfold layer_output
    rw [g1, Option.some_bind, weighted_sum_succ, g0]
    rfl
  · have hb : heavyNetAligned.mlp0Buffer = List.replicate 268435456 (float.ofByte 2) := rfl
    have hw : heavyNetAligned.mlp0Width = 268435456 := rfl
    have hh : heavyNetAligned.mlp0Height = 16 := rfl
    rw [hb, hw, hh]
    unfold layer_output
    rw [List.getElem?_eq_none (by rw [List.length_replicate]; decide)]
    rfl

/-- C26 (amended with the 32-bit bounds). Read a layer buffer as
`out[x] = bias[x] + sum over y < height of in[y] * W[y * width + x]`, in exact arithmetic
(any interpretation of the floats in a semiring that sends `0.0` to 0). For every network
whose `mlp0Height` is not a multiple of 16, whose layer-0 buffer has length
`mlp0Width * mlp0Height + mlp0Width`, and for which the rounded-up height `newHeight` and the
padded size `mlp0Width * newHeight + mlp0Width` fit in 32 bits: after `align_dimensions`, for
every input vector of length `mlp0Height`, every extension of it to length `newHeight`
(whatever the added values) and every `x < mlp0Width`, the output `x` of the aligned layer 0
is defined and equals the output `x` of the original layer 0. -/
theorem zero_padding_noop {R : Type} [Semiring R] (val : float → R)
    (hval : val float.zero = 0) (m m' : CPUMLP) (newHeight : Nat)
    (hv : m.mlp0Height % 16 ≠ 0)
    (hlen : m.mlp0Buffer.length = m.mlp0Width * m.mlp0Height + m.mlp0Width)
    (h16 : newHeight % 16 = 0) (hge : m.mlp0Height ≤ newHeight)
    (hlt : newHeight < m.mlp0Height + 16)
    (hnh : newHeight < 4294967296)
    (hfit : m.mlp0Width * newHeight + m.mlp0Width < 4294967296)
    (h : mlp.align_dimensions m = some m')
    (input input' : List R) (x : Nat)
    (hin : input.length = m.mlp0Height) (hin' : input'.length = newHeight)
    (hext : input'.take m.mlp0Height = input) (hx : x < m.mlp0Width) :
    m'.mlp0Width = m.mlp0Width ∧ m'.mlp0Height = newHeight ∧
    ∃ out, layer_output val m.mlp0Buffer m.mlp0Width m.mlp0Height input x = some out ∧
      layer_output val m'.mlp0Buffer m'.mlp0Width m'.mlp0Height input' x = some out := by
  obtain ⟨m1, hin1, hout⟩ := mlp.align_dimensions_split h
  have hnew := mlp.round_up_unique h16 hge hlt
  have hspec := mlp.align_input_spec hv hlen hnew (by omega) hfit
  rw [hspec, Option.some.injEq] at hin1
  have hfr := mlp.align_output_frame hout
  have hW : m'.mlp0Width = m.mlp0Width := by rw [hfr, ← hin1]
  have hH : m'.mlp0Height = newHeight := by rw [hfr, ← hin1]
  have hB : m'.mlp0Buffer = m.mlp0Buffer.take (m.mlp0Width * m.mlp0Height) ++
        List.replicate (m.mlp0Width * (newHeight - m.mlp0Height)) float.zero ++
        m.mlp0Buffer.drop (m.mlp0Width * m.mlp0Height) := by rw [hfr, ← hin1]
  refine ⟨hW, hH, ?_⟩
  rw [hW, hH, hB]
  exact layer_output_padded val hval hlen hge hin hin' hext hx

set_option maxRecDepth 100000 in
/-- Witness for C26: the scenario network (layer 0 of 4 x 10, padded to 4 x 16), the floats
read as integers through their first byte, an input of ten values extended by six values
that are not zero, and output 2. -/
theorem zero_padding_noop_witness :
    scenarioNetAligned.mlp0Width = scenarioNet.mlp0Width ∧ scenarioNetAligned.mlp0Height = 16 ∧
    ∃ out, layer_output (fun f => (f.b0.val : Int)) scenarioNet.mlp0Buffer scenarioNet.mlp0Width
        scenarioNet.mlp0Height [1, 2, 3, 4, 5, 6, 7, 8, 9, 10] 2 = some out ∧
      layer_output (fun f => (f.b0.val : Int)) scenarioNetAligned.mlp0Buffer
        scenarioNetAligned.mlp0Width scenarioNetAligned.mlp0Height
        [1, 2, 3, 4, 5, 6, 7, 8, 9, 10, 11, 12, 13, 14, 15, 16] 2 = some out :=
  zero_padding_noop (fun f => (f.b0.val : Int)) rfl scenarioNet scenarioNetAligned 16
    (by decide) (by decide) (by decide) (by decide) (by decide) (by decide) (by decide)
    (by decide) [1, 2, 3, 4, 5, 6, 7, 8, 9, 10]
    [1, 2, 3, 4, 5, 6, 7, 8, 9, 10, 11, 12, 13, 14, 15, 16] 2 rfl rfl rfl (by decide)

/-! ## The texture loaders -/

theorem read_u32_defined (s : List Byte) (off : Nat) (h : off + 4 ≤ s.length) :
    ∃ v, read_u32 s off = some v := by
  obtain ⟨v, hv⟩ := unpack_bytes_drop s off h
  exact ⟨v, by unfold read_u32; rw [hv]; rfl⟩

theorem read_float_defined (s : List Byte) (i : Nat) (h : 4 * i + 4 ≤ s.length) :
    ∃ v, read_float s i = some v := by
  have hl : 4 ≤ (s.drop (sizeof_float * i)).length := by
    rw [List.length_drop]; unfold sizeof_float; omega
  unfold read_float
  generalize s.drop (sizeof_float * i) = t at hl
  match t, hl with
  | b0 :: b1 :: b2 :: b3 :: rest, _ => exact ⟨_, rfl⟩

/-- The mip count that the two loaders report for a stored count below `2^31`. -/
theorem mip_count_eq {c : Nat} (hc : c < 2147483648) :
    ¬ (to_int32 c - 2 < -2147483648) ∧ (max 1 (to_int32 c - 2)).toNat = max 1 (c - 2) := by
  unfold to_int32
  rw [if_pos hc]
  constructor
  · omega
  · omega

/-- C23. For every texture file whose header is complete and whose stored mip count `c` (the
third header word) is below `2^31`, `load_bc1_to_graphics_buffer` (header of five words) and
`load_bc6_to_graphics_buffer` (header of three words) return, and the mip count they report
is `max(1, c - 2)`: it is 1 for `c <= 3`, `c - 2` for `c >= 3`, and never 0. -/
theorem texture_mip_count {σ : Type} (api : Backend σ) (fs : FileSystem) (world : σ)
    (device : GraphicsDevice) (texturePath : String) (binaryFile : List Byte) (c : Nat)
    (hfile : fs texturePath = some binaryFile) (hc : read_u32 binaryFile 8 = some c)
    (hlt : c < 2147483648) :
    (20 ≤ binaryFile.length →
      ∃ r, load_bc1_to_graphics_buffer api fs world device texturePath = some r ∧
        r.2.1.z = max 1 (c - 2)) ∧
    (∃ r, load_bc6_to_graphics_buffer api fs world device texturePath = some r ∧
        r.2.2.2.1 = max 1 (c - 2)) ∧
    (c ≤ 3 → max 1 (c - 2) = 1) ∧ (3 ≤ c → max 1 (c - 2) = c - 2) ∧ max 1 (c - 2) ≠ 0 := by
  obtain ⟨hno, hmip⟩ := mip_count_eq hlt
  have h12 : 12 ≤ binaryFile.length := by
    unfold read_u32 at hc
    rw [Option.map_eq_some'] at hc
    obtain ⟨⟨v, t⟩, hu, _⟩ := hc
    have := (unpack_bytes_some hu).1
    rw [List.length_drop] at this
    omega
  obtain ⟨i0, h0⟩ := read_u32_defined binaryFile 0 (by omega)
  obtain ⟨i1, h1⟩ := read_u32_defined binaryFile 4 (by omega)
  refine ⟨?_, ?_, by omega, by omega, by omega⟩
  · intro h20
    obtain ⟨f3, h3⟩ := read_float_defined binaryFile 3 (by omega)
    obtain ⟨f4, h4⟩ := read_float_defined binaryFile 4 (by omega)
    unfold load_bc1_to_graphics_buffer
    rw [hfile, Option.some_bind, h0, Option.some_bind, h1, Option.some_bind, hc,
      Option.some_bind, h3, Option.some_bind, h4, Option.some_bind]
    dsimp only
    rw [if_neg hno, hmip]
    exact ⟨_, rfl, rfl⟩
  · unfold load_bc6_to_graphics_buffer
    rw [hfile, Option.some_bind, h0, Option.some_bind, h1, Option.some_bind, hc,
      Option.some_bind]
    dsimp only
    rw [if_neg hno, hmip]
    exact ⟨_, rfl, rfl⟩

set_option maxRecDepth 100000 in
/-- Witness for C23: the test texture, whose header stores 3 mips; both loaders report 1. -/
theorem texture_mip_count_witness :
    (20 ≤ testTexture.length →
      ∃ r, load_bc1_to_graphics_buffer countingBackend testFiles 0 1 "model\\tex0_0.bc1" = some r ∧
        r.2.1.z = max 1 (3 - 2)) ∧
    (∃ r, load_bc6_to_graphics_buffer countingBackend testFiles 0 1 "model\\tex0_0.bc1" = some r ∧
        r.2.2.2.1 = max 1 (3 - 2)) ∧
    ((3 : Nat) ≤ 3 → max 1 (3 - 2) = 1) ∧ (3 ≤ 3 → max 1 (3 - 2) = 3 - 2) ∧ max 1 (3 - 2) ≠ 0 :=
  texture_mip_count countingBackend testFiles 0 1 "model\\tex0_0.bc1" testTexture 3
    (by decide) (by decide) (by decide)

/-! ## `TSNC::reload_network`: the state after a reload -/

/-- The read of a whole buffer: the old content of the destination plays no part. -/
theorem unpack_buffer_resize (s : List Byte) (n : Nat) (old : List float) :
    unpack_buffer s (u64 (u32 n * sizeof_float)) (resize old (u32 n)) =
      if 4 * u32 n ≤ s.length then
        some (floats_of_bytes (s.take (4 * u32 n)), s.drop (4 * u32 n))
      else none := by
  rw [buffer_bytes]
  have hd : 4 * u32 n / sizeof_float = u32 n := by unfold sizeof_float; omega
  unfold unpack_buffer
  rw [hd, length_resize, List.drop_of_length_le (by rw [length_resize]), List.append_nil]
  by_cases hc : 4 * u32 n ≤ s.length
  · rw [if_pos hc, if_pos ⟨hc, Nat.le_refl _⟩]
  · rw [if_neg hc, if_neg (fun h => hc h.1)]

/-- The network that `unpack_type` reads does not depend on what the structure held before. -/
theorem unpack_type_old (s : List Byte) (old old' : CPUMLP) :
    unpack_type s old = unpack_type s old' := by
  unfold unpack_type
  refine congrArg _ (funext fun p => ?_)
  obtain ⟨_, _⟩ := p
  dsimp only
  refine congrArg _ (funext fun p => ?_)
  obtain ⟨_, _⟩ := p
  dsimp only
  refine congrArg _ (funext fun p => ?_)
  obtain ⟨_, _⟩ := p
  dsimp only
  refine congrArg _ (funext fun p => ?_)
  obtain ⟨_, _⟩ := p
  dsimp only
  refine congrArg _ (funext fun p => ?_)
  obtain ⟨_, _⟩ := p
  dsimp only
  rw [unpack_buffer_resize, unpack_buffer_resize]
  refine congrArg _ (funext fun p => ?_)
  obtain ⟨_, _⟩ := p
  dsimp only
  refine congrArg _ (funext fun p => ?_)
  obtain ⟨_, _⟩ := p
  dsimp only
  refine congrArg _ (funext fun p => ?_)
  obtain ⟨_, _⟩ := p
  dsimp only
  rw [unpack_buffer_resize, unpack_buffer_resize]
  refine congrArg _ (funext fun p => ?_)
  obtain ⟨_, _⟩ := p
  dsimp only
  refine congrArg _ (funext fun p => ?_)
  obtain ⟨_, _⟩ := p
  dsimp only
  refine congrArg _ (funext fun p => ?_)
  obtain ⟨_, _⟩ := p
  dsimp only
  rw [unpack_buffer_resize, unpack_buffer_resize]

theorem length_vector_resize {α : Type} (dflt : α) (v : List α) (n : Nat) :
    (vector_resize dflt v n).length = n := by
  unfold vector_resize
  rw [List.length_append, List.length_take, List.length_replicate]
  omega

/-- Two lists of one length that agree below that length are equal. -/
theorem list_eq_of_getElem? {α : Type} {l1 l2 : List α} (hl : l2.length = l1.length)
    (h : ∀ j, j < l1.length → l1[j]? = l2[j]?) : l1 = l2 := by
  apply List.ext_getElem?
  intro j
  by_cases hj : j < l1.length
  · exact h j hj
  · rw [List.getElem?_eq_none (by omega), List.getElem?_eq_none (by omega)]

/-- The dimensions and the UV offset that `load_bc1_to_graphics_buffer` returns, and whether
it returns, depend on the file only. -/
theorem load_bc1_to_graphics_buffer_file {σ τ : Type} (api : Backend σ) (api' : Backend τ)
    {fs : FileSystem} {world : σ} (world' : τ) {device : GraphicsDevice}
    (device' : GraphicsDevice) {texturePath : String} {r : GraphicsBuffer × uint3 × float2 × σ}
    (h : load_bc1_to_graphics_buffer api fs world device texturePath = some r) :
    ∃ r', load_bc1_to_graphics_buffer api' fs world' device' texturePath = some r' ∧
      r'.2.1 = r.2.1 ∧ r'.2.2.1 = r.2.2.1 := by
  unfold load_bc1_to_graphics_buffer at h
  obtain ⟨binaryFile, hfile, h⟩ := Option.bind_eq_some.mp h
  obtain ⟨int0, h0, h⟩ := Option.bind_eq_some.mp h
  obtain ⟨int1, h1, h⟩ := Option.bind_eq_some.mp h
  obtain ⟨int2, h2, h⟩ := Option.bind_eq_some.mp h
  obtain ⟨float3, h3, h⟩ := Option.bind_eq_some.mp h
  obtain ⟨float4, h4, h⟩ := Option.bind_eq_some.mp h
  dsimp only at h
  by_cases hc : to_int32 int2 - 2 < -2147483648
  · rw [if_pos hc] at h
    exact absurd h (by simp)
  · rw [if_neg hc, Option.some.injEq] at h
    subst h
    unfold load_bc1_to_graphics_buffer
    rw [hfile, Option.some_bind, h0, Option.some_bind, h1, Option.some_bind, h2,
      Option.some_bind, h3, Option.some_bind, h4, Option.some_bind]
    dsimp only
    rw [if_neg hc]
    exact ⟨_, rfl, rfl, rfl⟩

namespace TSNC

theorem load_texture_some {σ : Type} {api : Backend σ} {fs : FileSystem} {path : String}
    {i : Nat} {st st1 : TSNC × σ} (h : load_texture api fs path i st = some st1) :
    ∃ r, load_bc1_to_graphics_buffer api fs st.2 st.1.m_Device path = some r ∧
      i < st.1.m_TexData.length ∧ i < st.1.m_UVOffset.length ∧
      st1 = ({ st.1 with m_TexData := st.1.m_TexData.set i ⟨r.2.1, r.1⟩
                         m_UVOffset := st.1.m_UVOffset.set i r.2.2.1 }, r.2.2.2) := by
  unfold load_texture at h
  by_cases hc : i < st.1.m_TexData.length ∧ i < st.1.m_UVOffset.length
  · rw [if_pos hc] at h
    obtain ⟨⟨b, sz, uv, w⟩, hr, h2⟩ := Option.bind_eq_some.mp h
    rw [Option.some.injEq] at h2
    exact ⟨_, hr, hc.1, hc.2, h2.symm⟩
  · rw [if_neg hc] at h
    exact absurd h (by simp)

theorem load_texture_of {σ : Type} {api : Backend σ} {fs : FileSystem} {path : String}
    {i : Nat} {st : TSNC × σ} {r : GraphicsBuffer × uint3 × float2 × σ}
    (hr : load_bc1_to_graphics_buffer api fs st.2 st.1.m_Device path = some r)
    (h1 : i < st.1.m_TexData.length) (h2 : i < st.1.m_UVOffset.length) :
    load_texture api fs path i st =
      some ({ st.1 with m_TexData := st.1.m_TexData.set i ⟨r.2.1, r.1⟩
                        m_UVOffset := st.1.m_UVOffset.set i r.2.2.1 }, r.2.2.2) := by
  unfold load_texture
  rw [if_pos ⟨h1, h2⟩, hr]
  rfl

/-- What `load_texture` leaves alone. -/
theorem load_texture_frame {σ : Type} {api : Backend σ} {fs : FileSystem} {path : String}
    {i : Nat} {st st1 : TSNC × σ} (h : load_texture api fs path i st = some st1) :
    st1.1.m_TexData.length = st.1.m_TexData.length ∧
    st1.1.m_UVOffset.length = st.1.m_UVOffset.length ∧
    st1.1.m_MLPArray = st.1.m_MLPArray ∧
    st1.1.m_ShaderDefines = st.1.m_ShaderDefines ∧
    st1.1.m_NumSets = st.1.m_NumSets := by
  obtain ⟨r, _, _, _, e⟩ := load_texture_some h
  subst e
  exact ⟨List.length_set _ _ _, List.length_set _ _ _, rfl, rfl, rfl⟩

/-- Two runs of `load_texture` on the same file, from two states whose texture arrays have
the same lengths: the second run returns when the first does, and the entries of the texture
arrays agree at the index written and wherever they agreed before. -/
theorem load_texture_file {σ τ : Type} (api : Backend σ) (api' : Backend τ) {fs : FileSystem}
    {path : String} {i : Nat} {st st1 : TSNC × σ} (st' : TSNC × τ)
    (hT : st'.1.m_TexData.length = st.1.m_TexData.length)
    (hU : st'.1.m_UVOffset.length = st.1.m_UVOffset.length)
    (h : load_texture api fs path i st = some st1) :
    ∃ st1', load_texture api' fs path i st' = some st1' ∧
      ∀ j, (j = i ∨ st.1.texture_entry j = st'.1.texture_entry j) →
        st1.1.texture_entry j = st1'.1.texture_entry j := by
  obtain ⟨r, hr, h1, h2, e⟩ := load_texture_some h
  obtain ⟨r', hr', e1, e2⟩ := load_bc1_to_graphics_buffer_file api api' st'.2 st'.1.m_Device hr
  refine ⟨_, load_texture_of hr' (by omega) (by omega), ?_⟩
  subst e
  intro j hj
  unfold texture_entry
  dsimp only
  by_cases hji : j = i
  · subst hji
    rw [List.getElem?_set_self h1, List.getElem?_set_self h2,
      List.getElem?_set_self (by omega), List.getElem?_set_self (by omega), e1, e2]
    rfl
  · rcases hj with hj | hj
    · exact absurd hj hji
    · rw [List.getElem?_set_ne (fun hc => hji hc.symm),
        List.getElem?_set_ne (fun hc => hji hc.symm),
        List.getElem?_set_ne (fun hc => hji hc.symm),
        List.getElem?_set_ne (fun hc => hji hc.symm)]
      exact hj

end TSNC

namespace TSNC

/-- What one iteration of the loop of `reload_network` leaves alone. -/
theorem reload_set_frame {σ : Type} {api : Backend σ} {fs : FileSystem} {modelDir : String}
    {setIdx : Nat} {st st1 : TSNC × σ} (h : reload_set api fs modelDir setIdx st = some st1) :
    st1.1.m_TexData.length = st.1.m_TexData.length ∧
    st1.1.m_UVOffset.length = st.1.m_UVOffset.length ∧
    st1.1.m_MLPArray.length = st.1.m_MLPArray.length ∧
    st1.1.m_ShaderDefines = st.1.m_ShaderDefines ∧
    st1.1.m_NumSets = st.1.m_NumSets := by
  unfold reload_set at h
  obtain ⟨buf, _, h⟩ := Option.bind_eq_some.mp h
  obtain ⟨slot, _, h⟩ := Option.bind_eq_some.mp h
  obtain ⟨⟨unpacked, rest⟩, _, h⟩ := Option.bind_eq_some.mp h
  obtain ⟨aligned, _, h⟩ := Option.bind_eq_some.mp h
  obtain ⟨s1, h1, h⟩ := Option.bind_eq_some.mp h
  obtain ⟨s2, h2, h⟩ := Option.bind_eq_some.mp h
  obtain ⟨s3, h3, h4⟩ := Option.bind_eq_some.mp h
  obtain ⟨a1, b1, c1, d1, e1⟩ := load_texture_frame h1
  obtain ⟨a2, b2, c2, d2, e2⟩ := load_texture_frame h2
  obtain ⟨a3, b3, c3, d3, e3⟩ := load_texture_frame h3
  obtain ⟨a4, b4, c4, d4, e4⟩ := load_texture_frame h4
  refine ⟨by rw [a4, a3, a2, a1], by rw [b4, b3, b2, b1], ?_, by rw [d4, d3, d2, d1],
    by rw [e4, e3, e2, e1]⟩
  rw [c4, c3, c2, c1]
  exact List.length_set _ _ _

/-- Two runs of one iteration of the loop on the same files, from two states whose arrays
have the same lengths: the second run returns when the first does, the networks stored agree
at `setIdx` and wherever they agreed before, and so do the texture entries at the four indices
written and wherever they agreed before. -/
theorem reload_set_file {σ τ : Type} (api : Backend σ) (api' : Backend τ) {fs : FileSystem}
    {modelDir : String} {setIdx : Nat} {st st1 : TSNC × σ} (st' : TSNC × τ)
    (hT : st'.1.m_TexData.length = st.1.m_TexData.length)
    (hU : st'.1.m_UVOffset.length = st.1.m_UVOffset.length)
    (hM : st'.1.m_MLPArray.length = st.1.m_MLPArray.length)
    (h : reload_set api fs modelDir setIdx st = some st1) :
    ∃ st1', reload_set api' fs modelDir setIdx st' = some st1' ∧
      (∀ j, (j = setIdx ∨ st.1.m_MLPArray[j]? = st'.1.m_MLPArray[j]?) →
        st1.1.m_MLPArray[j]? = st1'.1.m_MLPArray[j]?) ∧
      (∀ j, ((∃ c, c < 4 ∧ j = u32 (u32 (4 * setIdx) + c)) ∨
          st.1.texture_entry j = st'.1.texture_entry j) →
        st1.1.texture_entry j = st1'.1.texture_entry j) := by
  unfold reload_set at h
  obtain ⟨buf, hbuf, h⟩ := Option.bind_eq_some.mp h
  obtain ⟨slot, hslot, h⟩ := Option.bind_eq_some.mp h
  obtain ⟨⟨unpacked, rest⟩, hunp, h⟩ := Option.bind_eq_some.mp h
  obtain ⟨aligned, hal, h⟩ := Option.bind_eq_some.mp h
  obtain ⟨s1, h1, h⟩ := Option.bind_eq_some.mp h
  obtain ⟨s2, h2, h⟩ := Option.bind_eq_some.mp h
  obtain ⟨s3, h3, h4⟩ := Option.bind_eq_some.mp h
  have hk : setIdx < st.1.m_MLPArray.length := (List.getElem?_eq_some_iff.mp hslot).1
  have hslot' : st'.1.m_MLPArray[setIdx]? =
      some (st'.1.m_MLPArray.get ⟨setIdx, by omega⟩) := List.getElem?_eq_getElem (by omega)
  -- the frames of the first run
  obtain ⟨a1, b1, c1, _, _⟩ := load_texture_frame h1
  obtain ⟨a2, b2, c2, _, _⟩ := load_texture_frame h2
  obtain ⟨a3, b3, c3, _, _⟩ := load_texture_frame h3
  obtain ⟨_, _, c4, _, _⟩ := load_texture_frame h4
  -- the second run, texture by texture
  obtain ⟨s1', h1', g1⟩ := load_texture_file api api'
    (({ st'.1 with m_MLPArray := st'.1.m_MLPArray.set setIdx aligned }, st'.2) : TSNC × τ)
    (by exact hT) (by exact hU) h1
  obtain ⟨a1', b1', c1', _, _⟩ := load_texture_frame h1'
  obtain ⟨s2', h2', g2⟩ := load_texture_file api api' s1'
    (by rw [a1', a1]; exact hT) (by rw [b1', b1]; exact hU) h2
  obtain ⟨a2', b2', c2', _, _⟩ := load_texture_frame h2'
  obtain ⟨s3', h3', g3⟩ := load_texture_file api api' s2'
    (by rw [a2', a2, a1', a1]; exact hT) (by rw [b2', b2, b1', b1]; exact hU) h3
  obtain ⟨a3', b3', c3', _, _⟩ := load_texture_frame h3'
  obtain ⟨s4', h4', g4⟩ := load_texture_file api api' s3'
    (by rw [a3', a3, a2', a2, a1', a1]; exact hT)
    (by rw [b3', b3, b2', b2, b1', b1]; exact hU) h4
  obtain ⟨_, _, c4', _, _⟩ := load_texture_frame h4'
  have run : reload_set api' fs modelDir setIdx st' = some s4' := by
    unfold reload_set
    rw [hbuf, Option.some_bind, hslot', Option.some_bind,
      unpack_type_old buf _ slot, hunp, Option.some_bind]
    dsimp only
    rw [hal, Option.some_bind]
    rw [h1', Option.some_bind, h2', Option.some_bind, h3', Option.some_bind]
    exact h4'
  refine ⟨s4', run, ?_, ?_⟩
  · intro j hj
    rw [c4, c3, c2, c1, c4', c3', c2', c1']
    dsimp only
    by_cases hjk : j = setIdx
    · subst hjk
      rw [List.getElem?_set_self hk, List.getElem?_set_self (by omega)]
    · rcases hj with hj | hj
      · exact absurd hj hjk
      · rw [List.getElem?_set_ne (fun hc => hjk hc.symm),
          List.getElem?_set_ne (fun hc => hjk hc.symm)]
        exact hj
  · intro j hj
    apply g4
    by_cases j3 : j = u32 (u32 (4 * setIdx) + 3)
    · exact Or.inl j3
    refine Or.inr (g3 j ?_)
    by_cases j2 : j = u32 (u32 (4 * setIdx) + 2)
    · exact Or.inl j2
    refine Or.inr (g2 j ?_)
    by_cases j1 : j = u32 (u32 (4 * setIdx) + 1)
    · exact Or.inl j1
    refine Or.inr (g1 j ?_)
    by_cases j0 : j = u32 (u32 (4 * setIdx) + 0)
    · exact Or.inl j0
    refine Or.inr ?_
    rcases hj with ⟨c, hc, hj⟩ | hj
    · exfalso
      have : c = 0 ∨ c = 1 ∨ c = 2 ∨ c = 3 := by omega
      rcases this with e | e | e | e <;> subst e
      · exact j0 hj
      · exact j1 hj
      · exact j2 hj
      · exact j3 hj
    · exact hj

/-- What the loop of `reload_network` leaves alone. -/
theorem reload_sets_frame {σ : Type} (api : Backend σ) (fs : FileSystem) (modelDir : String)
    (st0 : TSNC × σ) :
    ∀ (k : Nat) (st : TSNC × σ), reload_sets api fs modelDir k st0 = some st →
      st.1.m_TexData.length = st0.1.m_TexData.length ∧
      st.1.m_UVOffset.length = st0.1.m_UVOffset.length ∧
      st.1.m_MLPArray.length = st0.1.m_MLPArray.length ∧
      st.1.m_ShaderDefines = st0.1.m_ShaderDefines ∧
      st.1.m_NumSets = st0.1.m_NumSets
  | 0, st, h => by
    simp only [reload_sets, Option.some.injEq] at h
    subst h
    exact ⟨rfl, rfl, rfl, rfl, rfl⟩
  | k + 1, st, h => by
    obtain ⟨st1, h1, h2⟩ := Option.bind_eq_some.mp h
    obtain ⟨a, b, c, d, e⟩ := reload_sets_frame api fs modelDir st0 k st1 h1
    obtain ⟨a', b', c', d', e'⟩ := reload_set_frame h2
    exact ⟨a'.trans a, b'.trans b, c'.trans c, d'.trans d, e'.trans e⟩

/-- Two runs of the loop of `reload_network` on the same files, from two states whose arrays
have the same lengths: the second run returns when the first does, the first `k` networks
agree and so do the texture entries of the first `k` sets. -/
theorem reload_sets_file {σ τ : Type} (api : Backend σ) (api' : Backend τ) (fs : FileSystem)
    (modelDir : String) (st0 : TSNC × σ) (st0' : TSNC × τ)
    (hT : st0'.1.m_TexData.length = st0.1.m_TexData.length)
    (hU : st0'.1.m_UVOffset.length = st0.1.m_UVOffset.length)
    (hM : st0'.1.m_MLPArray.length = st0.1.m_MLPArray.length) :
    ∀ (k : Nat) (st : TSNC × σ), reload_sets api fs modelDir k st0 = some st →
      ∃ st', reload_sets api' fs modelDir k st0' = some st' ∧
        (∀ j, j < k → st.1.m_MLPArray[j]? = st'.1.m_MLPArray[j]?) ∧
        (∀ j i c, i < k → c < 4 → j = u32 (u32 (4 * i) + c) →
          st.1.texture_entry j = st'.1.texture_entry j)
  | 0, st, h => ⟨st0', rfl, fun j hj => absurd hj (Nat.not_lt_zero j),
      fun j i c hi => absurd hi (Nat.not_lt_zero i)⟩
  | k + 1, st, h => by
    obtain ⟨st1, h1, h2⟩ := Option.bind_eq_some.mp h
    obtain ⟨st1', h1', gM, gT⟩ := reload_sets_file api api' fs modelDir st0 st0' hT hU hM k st1 h1
    obtain ⟨a, b, c, _, _⟩ := reload_sets_frame api fs modelDir st0 k st1 h1
    obtain ⟨a', b', c', _, _⟩ := reload_sets_frame api' fs modelDir st0' k st1' h1'
    obtain ⟨st', h2', fM, fT⟩ := reload_set_file api api' st1'
      (by rw [a', a]; exact hT) (by rw [b', b]; exact hU) (by rw [c', c]; exact hM) h2
    refine ⟨st', ?_, ?_, ?_⟩
    · show (reload_sets api' fs modelDir k st0').bind (reload_set api' fs modelDir k) = some st'
      rw [h1', Option.some_bind]
      exact h2'
    · intro j hj
      apply fM
      by_cases hjk : j = k
      · exact Or.inl hjk
      · exact Or.inr (gM j (by omega))
    · intro j i c hi hc hj
      apply fT
      by_cases hik : i = k
      · subst hik
        exact Or.inl ⟨c, hc, hj⟩
      · exact Or.inr (gT j i c (by omega) hc hj)

end TSNC

namespace TSNC

/-- The state that a reload returns, in terms of the state that its loop leaves. -/
theorem reload_network_some {σ : Type} {api : Backend σ} {fs : FileSystem} {self : TSNC}
    {world : σ} {modelDir : String} {numSets : Nat} {r : TSNC × σ}
    (h : reload_network api fs self world modelDir numSets = some r) :
    ∃ st t0 t1 t2 t3 cpuMLP,
      reload_sets api fs modelDir numSets
        ({ self with
            m_NumSets := numSets
            m_TexData := vector_resize ⟨⟨0, 0, 0⟩, 0⟩ self.m_TexData (u32 (4 * numSets))
            m_UVOffset :=
              vector_resize ⟨float.zero, float.zero⟩ self.m_UVOffset (u32 (4 * numSets))
            m_MLPArray :=
              vector_resize ⟨0, 0, 0, 0, 0, [], 0, 0, [], 0, 0, []⟩ self.m_MLPArray numSets },
          world) = some st ∧
      st.1.m_TexData[0]? = some t0 ∧ st.1.m_TexData[1]? = some t1 ∧
      st.1.m_TexData[2]? = some t2 ∧ st.1.m_TexData[3]? = some t3 ∧
      st.1.m_MLPArray[0]? = some cpuMLP ∧
      r.1.m_NumSets = st.1.m_NumSets ∧ r.1.m_MLPArray = st.1.m_MLPArray ∧
      r.1.m_UVOffset = st.1.m_UVOffset ∧ r.1.m_TexData = st.1.m_TexData ∧
      r.1.m_TextureSize = ⟨t0.texSize.x, t0.texSize.y, cpuMLP.finalChannelCount⟩ ∧
      r.1.m_ShaderDefines = st.1.m_ShaderDefines ++
        ["MIP0_RES " ++ toString t0.texSize.x, "NUM_MIPS 4"] ++
        ["MLP0_IN_DIM " ++ toString cpuMLP.mlp0Height,
         "MLP0_OUT_DIM " ++ toString cpuMLP.mlp0Width,
         "MLP1_OUT_DIM " ++ toString cpuMLP.mlp1Width,
         "MLP2_OUT_DIM " ++ toString cpuMLP.mlp2Width] := by
  unfold reload_network at h
  simp only [Option.bind_eq_some] at h
  obtain ⟨⟨st, w⟩, hloop, t0, ht0, t1, ht1, t2, ht2, t3, ht3, ⟨g, w2⟩, hg, cpuMLP, hc, hres⟩ := h
  simp only [Option.some.injEq] at hres
  subst hres
  exact ⟨(st, w), t0, t1, t2, t3, cpuMLP, hloop, ht0, ht1, ht2, ht3, hc, rfl, rfl, rfl, rfl,
    rfl, rfl⟩

/-- A reload returns when its loop does and leaves four texture entries and one network. -/
theorem reload_network_of {σ : Type} (api : Backend σ) (fs : FileSystem) (self : TSNC)
    (world : σ) (modelDir : String) (numSets : Nat) {st : TSNC × σ} {t0 t1 t2 t3 : TexData}
    {cpuMLP : CPUMLP}
    (hloop : reload_sets api fs modelDir numSets
        ({ self with
            m_NumSets := numSets
            m_TexData := vector_resize ⟨⟨0, 0, 0⟩, 0⟩ self.m_TexData (u32 (4 * numSets))
            m_UVOffset :=
              vector_resize ⟨float.zero, float.zero⟩ self.m_UVOffset (u32 (4 * numSets))
            m_MLPArray :=
              vector_resize ⟨0, 0, 0, 0, 0, [], 0, 0, [], 0, 0, []⟩ self.m_MLPArray numSets },
          world) = some st)
    (h0 : st.1.m_TexData[0]? = some t0) (h1 : st.1.m_TexData[1]? = some t1)
    (h2 : st.1.m_TexData[2]? = some t2) (h3 : st.1.m_TexData[3]? = some t3)
    (hc : st.1.m_MLPArray[0]? = some cpuMLP) :
    ∃ r, reload_network api fs self world modelDir numSets = some r := by
  unfold reload_network mlp.allocate_gpu_mlp_array
  simp only [hloop, h0, h1, h2, h3, hc, Option.some_bind]
  exact ⟨_, rfl⟩

/-- A texture entry of the second run, from the entry of the first run it agrees with. -/
theorem texture_entry_some {a b : TSNC} {j : Nat} {t : TexData}
    (h : a.texture_entry j = b.texture_entry j) (ht : a.m_TexData[j]? = some t) :
    ∃ t', b.m_TexData[j]? = some t' ∧ t'.texSize = t.texSize := by
  have e : a.m_TexData[j]?.map TexData.texSize = b.m_TexData[j]?.map TexData.texSize :=
    congrArg Prod.fst h
  rw [ht, Option.map_some'] at e
  obtain ⟨t', h1, h2⟩ := Option.map_eq_some'.mp e.symm
  exact ⟨t', h1, h2⟩

end TSNC

set_option maxRecDepth 100000 in
/-- C21, counterexample. Reload the one-set test directory once, and reload it twice, from a
fresh loader: the first reload leaves six shader defines, the second leaves twelve, since the
defines are appended to `m_ShaderDefines` and the list is never emptied. So the state after
the second reload is not the state after the first. -/
theorem reload_network_determined_counterexample :
    ((TSNC.reload_network countingBackend testFiles freshTSNC 0 "model" 1).map
      fun r => r.1.m_ShaderDefines) =
      some ["MIP0_RES 16", "NUM_MIPS 4", "MLP0_IN_DIM 16", "MLP0_OUT_DIM 1",
            "MLP1_OUT_DIM 1", "MLP2_OUT_DIM 16"] ∧
    (((TSNC.reload_network countingBackend testFiles freshTSNC 0 "model" 1).bind
      fun r => TSNC.reload_network countingBackend testFiles r.1 r.2 "model" 1).map
      fun r => r.1.m_ShaderDefines) =
      some ["MIP0_RES 16", "NUM_MIPS 4", "MLP0_IN_DIM 16", "MLP0_OUT_DIM 1",
            "MLP1_OUT_DIM 1", "MLP2_OUT_DIM 16",
            "MIP0_RES 16", "NUM_MIPS 4", "MLP0_IN_DIM 16", "MLP0_OUT_DIM 1",
            "MLP1_OUT_DIM 1", "MLP2_OUT_DIM 16"] := by
  refine ⟨by decide, by decide⟩

/-- C21 (amended: the shader defines are appended, and the handles come from the backend).
For every input (file system, model directory, network count), every two prior states of the
loader and every two backends with their states: when `reload_network` returns from the first
prior state, it returns from the second, and the two states left agree on the number of
sets, the network array, the UV-offset array, the dimensions in the texture-data array and
the texture size. The list of shader defines is not replaced: each run leaves the list it
found followed by the same six defines. -/
theorem reload_network_determined {σ τ : Type} (api : Backend σ) (api' : Backend τ)
    (fs : FileSystem) (self self' : TSNC) (world : σ) (world' : τ) (modelDir : String)
    (numSets : Nat) (r : TSNC × σ)
    (h : TSNC.reload_network api fs self world modelDir numSets = some r) :
    ∃ r' defines, TSNC.reload_network api' fs self' world' modelDir numSets = some r' ∧
      r'.1.m_NumSets = r.1.m_NumSets ∧
      r'.1.m_MLPArray = r.1.m_MLPArray ∧
      r'.1.m_UVOffset = r.1.m_UVOffset ∧
      r'.1.m_TexData.map TexData.texSize = r.1.m_TexData.map TexData.texSize ∧
      r'.1.m_TextureSize = r.1.m_TextureSize ∧
      defines.length = 6 ∧
      r.1.m_ShaderDefines = self.m_ShaderDefines ++ defines ∧
      r'.1.m_ShaderDefines = self'.m_ShaderDefines ++ defines := by
  obtain ⟨st, t0, t1, t2, t3, cpuMLP, hloop, h0, h1, h2, h3, hc, rN, rM, rU, rT, rS, rD⟩ :=
    TSNC.reload_network_some h
  -- the loop of the second run
  obtain ⟨st', hloop', gM, gT⟩ := TSNC.reload_sets_file api api' fs modelDir _
    (({ self' with
        m_NumSets := numSets
        m_TexData := vector_resize ⟨⟨0, 0, 0⟩, 0⟩ self'.m_TexData (u32 (4 * numSets))
        m_UVOffset :=
          vector_resize ⟨float.zero, float.zero⟩ self'.m_UVOffset (u32 (4 * numSets))
        m_MLPArray :=
          vector_resize ⟨0, 0, 0, 0, 0, [], 0, 0, [], 0, 0, []⟩ self'.m_MLPArray numSets },
      world') : TSNC × τ)
    (by dsimp only; rw [length_vector_resize, length_vector_resize])
    (by dsimp only; rw [length_vector_resize, length_vector_resize])
    (by dsimp only; rw [length_vector_resize, length_vector_resize])
    numSets st hloop
  obtain ⟨a, b, c, d, e⟩ := TSNC.reload_sets_frame api fs modelDir _ numSets st hloop
  obtain ⟨a', b', c', d', e'⟩ := TSNC.reload_sets_frame api' fs modelDir _ numSets st' hloop'
  dsimp only at a b c d e a' b' c' d' e'
  rw [length_vector_resize] at a b c a' b' c'
  -- the arrays agree
  have hle : u32 (4 * numSets) ≤ 4 * numSets := Nat.mod_le _ _
  have hlt := u32_lt (4 * numSets)
  have entries : ∀ j, j < u32 (4 * numSets) →
      st.1.texture_entry j = st'.1.texture_entry j := by
    intro j hj
    refine gT j (j / 4) (j % 4) (by omega) (by omega) ?_
    rw [u32_of_lt (by omega : 4 * (j / 4) < 4294967296),
      u32_of_lt (by omega : 4 * (j / 4) + j % 4 < 4294967296)]
    omega
  have hM : st.1.m_MLPArray = st'.1.m_MLPArray :=
    list_eq_of_getElem? (by rw [c, c']) (fun j hj => gM j (by omega))
  have hU : st.1.m_UVOffset = st'.1.m_UVOffset :=
    list_eq_of_getElem? (by rw [b, b'])
      (fun j hj => congrArg Prod.snd (entries j (by omega)))
  have hT : st.1.m_TexData.map TexData.texSize = st'.1.m_TexData.map TexData.texSize :=
    list_eq_of_getElem? (by rw [List.length_map, List.length_map, a, a'])
      (fun j hj => by
        rw [List.length_map] at hj
        rw [List.getElem?_map, List.getElem?_map]
        exact congrArg Prod.fst (entries j (by omega)))
  have bound : ∀ {j : Nat} {t : TexData}, st.1.m_TexData[j]? = some t →
      j < u32 (4 * numSets) := by
    intro j t ht
    have := (List.getElem?_eq_some_iff.mp ht).1
    omega
  obtain ⟨t0', h0', e0⟩ := TSNC.texture_entry_some (entries 0 (bound h0)) h0
  obtain ⟨t1', h1', _⟩ := TSNC.texture_entry_some (entries 1 (bound h1)) h1
  obtain ⟨t2', h2', _⟩ := TSNC.texture_entry_some (entries 2 (bound h2)) h2
  obtain ⟨t3', h3', _⟩ := TSNC.texture_entry_some (entries 3 (bound h3)) h3
  have hc' : st'.1.m_MLPArray[0]? = some cpuMLP := by rw [← hM]; exact hc
  -- the second run returns
  obtain ⟨r', hr'⟩ := TSNC.reload_network_of api' fs self' world' modelDir numSets hloop'
    h0' h1' h2' h3' hc'
  obtain ⟨st2, u0, u1, u2, u3, cpuMLP2, kloop, k0, k1, k2, k3, kc, sN, sM, sU, sT, sS, sD⟩ :=
    TSNC.reload_network_some hr'
  have est : st2 = st' := Option.some.inj (kloop.symm.trans hloop')
  subst est
  have eu : u0 = t0' := Option.some.inj (k0.symm.trans h0')
  have ec : cpuMLP2 = cpuMLP := Option.some.inj (kc.symm.trans hc')
  subst eu ec
  refine ⟨r', ["MIP0_RES " ++ toString t0.texSize.x, "NUM_MIPS 4",
      "MLP0_IN_DIM " ++ toString cpuMLP2.mlp0Height,
      "MLP0_OUT_DIM " ++ toString cpuMLP2.mlp0Width,
      "MLP1_OUT_DIM " ++ toString cpuMLP2.mlp1Width,
      "MLP2_OUT_DIM " ++ toString cpuMLP2.mlp2Width], hr', ?_, ?_, ?_, ?_, ?_, rfl, ?_, ?_⟩
  · rw [sN, rN, e, e']
  · rw [sM, rM, hM]
  · rw [sU, rU, hU]
  · rw [sT, rT, hT]
  · rw [sS, rS, e0]
  · rw [rD, d, List.append_assoc]
    rfl
  · rw [sD, d', e0, List.append_assoc]
    rfl

set_option maxRecDepth 100000 in
/-- Witness for C21: the one-set test directory reloaded from a fresh loader, and reloaded
again from the state that the first reload left. -/
theorem reload_network_determined_witness :
    ∃ r r' defines,
      TSNC.reload_network countingBackend testFiles freshTSNC 0 "model" 1 = some r ∧
      TSNC.reload_network countingBackend testFiles r.1 r.2 "model" 1 = some r' ∧
      r'.1.m_NumSets = r.1.m_NumSets ∧
      r'.1.m_MLPArray = r.1.m_MLPArray ∧
      r'.1.m_UVOffset = r.1.m_UVOffset ∧
      r'.1.m_TexData.map TexData.texSize = r.1.m_TexData.map TexData.texSize ∧
      r'.1.m_TextureSize = r.1.m_TextureSize ∧
      defines.length = 6 ∧
      r.1.m_ShaderDefines = freshTSNC.m_ShaderDefines ++ defines ∧
      r'.1.m_ShaderDefines = r.1.m_ShaderDefines ++ defines :=
  (Option.isSome_iff_exists.mp
    (by decide : (TSNC.reload_network countingBackend testFiles freshTSNC 0 "model"
      1).isSome = true)).elim fun r hr =>
    (reload_network_determined countingBackend countingBackend testFiles freshTSNC r.1 0 r.2
      "model" 1 r hr).elim fun r' hr' => hr'.elim fun defines hd => ⟨r, r', defines, hr, hd⟩

/-! ## The performance histogram -/

namespace DinoRenderer

/-- For a current index and an index in `[0, 50)` the destination index is
`(idx - c - 1) mod 50`, whatever the signedness of the member. -/
theorem candIdx_eq (durationUnsigned : Bool) {idx c : Int} (hi0 : 0 ≤ idx) (hi : idx < 50)
    (hc0 : 0 ≤ c) (hc : c < 50) :
    candIdx durationUnsigned idx c = some ((idx - c - 1) % 50) := by
  unfold candIdx NUM_PROFILING_FRAMES wrap_int32
  cases durationUnsigned
  · rw [if_neg (by decide), if_pos (by omega), Option.some_bind]
    dsimp only
    split_ifs <;> first | omega | (congr 1; omega)
  · rw [if_pos rfl, Option.some_bind]
    dsimp only
    split_ifs <;> first | omega | (congr 1; omega)

/-- One iteration of the reordering loop with indices in range: the store goes to slot
`(idx + 49 - c) mod 50`. -/
theorem reorder_step_eq (durationUnsigned : Bool) {c idx : Nat} (hc : c < 50) (hi : idx < 50)
    {dur draw : List float} (hdur : dur.length = 50) (hdraw : draw.length = 50) :
    reorder_step durationUnsigned c dur idx draw
      = some (draw.set ((idx + 49 - c) % 50) (dur.get ⟨idx, by omega⟩)) := by
  unfold reorder_step
  rw [candIdx_eq durationUnsigned (by omega) (by omega) (by omega) (by omega), Option.some_bind,
    List.getElem?_eq_getElem (by omega : idx < dur.length), Option.some_bind]
  have e : (((idx : Int) - (c : Int) - 1) % 50).toNat = (idx + 49 - c) % 50 := by omega
  rw [e, if_pos ⟨by omega, by omega⟩]
  rfl

/-- The reordering loop after `k` iterations: slot `j` holds the duration of index
`(j + c + 1) mod 50` when that index is below `k`, and its old content otherwise. -/
theorem reorder_spec (durationUnsigned : Bool) {c : Nat} (hc : c < 50)
    {dur draw : List float} (hdur : dur.length = 50) (hdraw : draw.length = 50) :
    ∀ k, k ≤ 50 → ∃ d, reorder durationUnsigned c dur k draw = some d ∧ d.length = 50 ∧
      ∀ j, j < 50 →
        d[j]? = if (j + c + 1) % 50 < k then dur[(j + c + 1) % 50]? else draw[j]?
  | 0, _ => ⟨draw, rfl, hdraw, fun j _ => by rw [if_neg (Nat.not_lt_zero _)]⟩
  | k + 1, hk => by
    obtain ⟨d, hd, hlen, hget⟩ := reorder_spec durationUnsigned hc hdur hdraw k (by omega)
    have hstep := @reorder_step_eq durationUnsigned c k hc (by omega) dur d hdur hlen
    refine ⟨_, by unfold reorder; rw [hd, Option.some_bind]; exact hstep, ?_, ?_⟩
    · rw [List.length_set]; exact hlen
    · intro j hj
      by_cases hp : (k + 49 - c) % 50 = j
      · have hk' : (j + c + 1) % 50 = k := by omega
        rw [hp, List.getElem?_set_self (by omega), hk', if_pos (Nat.lt_succ_self k),
          List.getElem?_eq_getElem (by omega : k < dur.length)]
        rfl
      · have hk' : (j + c + 1) % 50 ≠ k := by omega
        rw [List.getElem?_set_ne hp, hget j hj]
        by_cases hlt : (j + c + 1) % 50 < k
        · rw [if_pos hlt, if_pos (by omega)]
        · rw [if_neg hlt, if_neg (by omega)]

end DinoRenderer

/-- C30. For every current index `c` in `[0, 50)` and either signedness of the member
`m_CurrentDuration`: for every `idx` in `[0, 50)` the destination index `candIdx` of
`render_ui` is defined, lies in `[0, 50)` and equals `(idx - c - 1) mod 50`; the mapping
`idx -> candIdx` is injective and onto `[0, 50)`; `idx = c` goes to slot 49; on two arrays of
50 floats the whole loop is defined (no store is out of bounds) and leaves in every slot `j`
of the draw array the duration of index `(j + c + 1) mod 50`, so no slot keeps its old
content and the last slot holds the most recent sample; and the update of `render_loop`
(increment, then remainder modulo 50) keeps the current index in `[0, 50)`. -/
theorem histogram_rotation (durationUnsigned : Bool) (c : Nat) (hc : c < 50) :
    (∀ idx : Nat, idx < 50 →
      ∃ cand : Nat, DinoRenderer.candIdx durationUnsigned idx c = some (cand : Int) ∧
        cand < 50 ∧ (cand : Int) = ((idx : Int) - (c : Int) - 1) % 50) ∧
    (∀ idx idx' : Nat, idx < 50 → idx' < 50 →
      DinoRenderer.candIdx durationUnsigned idx c = DinoRenderer.candIdx durationUnsigned idx' c →
      idx = idx') ∧
    (∀ cand : Nat, cand < 50 →
      ∃ idx : Nat, idx < 50 ∧ DinoRenderer.candIdx durationUnsigned idx c = some (cand : Int)) ∧
    DinoRenderer.candIdx durationUnsigned c c = some 49 ∧
    (∀ dur draw : List float, dur.length = 50 → draw.length = 50 →
      ∃ d, DinoRenderer.reorder durationUnsigned c dur NUM_PROFILING_FRAMES.toNat draw = some d ∧
        d.length = 50 ∧ (∀ j, j < 50 → d[j]? = dur[(j + c + 1) % 50]?) ∧ d[49]? = dur[c]?) ∧
    (∃ c' : Nat, DinoRenderer.next_duration durationUnsigned c = some (c' : Int) ∧ c' < 50 ∧
      c' = (c + 1) % 50) := by
  have key : ∀ idx : Nat, idx < 50 →
      DinoRenderer.candIdx durationUnsigned idx c = some (((idx + 49 - c) % 50 : Nat) : Int) := by
    intro idx hi
    rw [DinoRenderer.candIdx_eq durationUnsigned (by omega) (by omega) (by omega) (by omega)]
    congr 1
    omega
  refine ⟨?_, ?_, ?_, ?_, ?_, ?_⟩
  · intro idx hi
    exact ⟨(idx + 49 - c) % 50, key idx hi, by omega, by omega⟩
  · intro idx idx' hi hi' he
    rw [key idx hi, key idx' hi'] at he
    have := Option.some.inj he
    omega
  · intro cand hcand
    refine ⟨(cand + c + 1) % 50, by omega, ?_⟩
    rw [key _ (by omega)]
    congr 1
    omega
  · rw [key c hc]
    congr 1
    omega
  · intro dur draw hdur hdraw
    obtain ⟨d, hd, hlen, hget⟩ := DinoRenderer.reorder_spec durationUnsigned hc hdur hdraw 50
      (Nat.le_refl _)
    have hall : ∀ j, j < 50 → d[j]? = dur[(j + c + 1) % 50]? := fun j hj => by
      rw [hget j hj, if_pos (by omega)]
    refine ⟨d, hd, hlen, hall, ?_⟩
    rw [hall 49 (by decide)]
    congr 1
    omega
  · unfold DinoRenderer.next_duration NUM_PROFILING_FRAMES
    cases durationUnsigned
    · rw [if_neg (by decide), if_pos (by omega)]
      have e : Int.tmod ((c : Int) + 1) 50 = (((c + 1) % 50 : Nat) : Int) := by
        rw [Int.tmod_eq_emod (by omega) (by decide)]
        omega
      exact ⟨(c + 1) % 50, by rw [e], by omega, rfl⟩
    · rw [if_pos rfl]
      refine ⟨(c + 1) % 50, ?_, by omega, rfl⟩
      congr 1
      omega

/-- Witness for C30: the current index 7, with an unsigned member. -/
theorem histogram_rotation_witness :
    (∀ idx : Nat, idx < 50 →
      ∃ cand : Nat, DinoRenderer.candIdx true idx (7 : Nat) = some (cand : Int) ∧
        cand < 50 ∧ (cand : Int) = ((idx : Int) - ((7 : Nat) : Int) - 1) % 50) ∧
    (∀ idx idx' : Nat, idx < 50 → idx' < 50 →
      DinoRenderer.candIdx true idx (7 : Nat) = DinoRenderer.candIdx true idx' (7 : Nat) →
      idx = idx') ∧
    (∀ cand : Nat, cand < 50 →
      ∃ idx : Nat, idx < 50 ∧ DinoRenderer.candIdx true idx (7 : Nat) = some (cand : Int)) ∧
    DinoRenderer.candIdx true (7 : Nat) (7 : Nat) = some 49 ∧
    (∀ dur draw : List float, dur.length = 50 → draw.length = 50 →
      ∃ d, DinoRenderer.reorder true (7 : Nat) dur NUM_PROFILING_FRAMES.toNat draw = some d ∧
        d.length = 50 ∧ (∀ j, j < 50 → d[j]? = dur[(j + 7 + 1) % 50]?) ∧ d[49]? = dur[7]?) ∧
    (∃ c' : Nat, DinoRenderer.next_duration true (7 : Nat) = some (c' : Int) ∧ c' < 50 ∧
      c' = (7 + 1) % 50) :=
  histogram_rotation true 7 (by decide)
